import Mathlib

/-!
# Crashee: monitor registry and signal monitor

A shallow embedding of

* `Recording/Monitors/CrasheeCrashMonitorType.h` (the monitor bit flags),
* `Recording/Monitors/CrasheeCrashMonitor_Signal.c` (the signal monitor),
* `Recording/Monitors/CrasheeCrashMonitor.c` (the monitor registry),

followed by the properties established about them.

Conventions.  C globals become fields of an explicit state record and every C
function becomes a function from state to state (plus its return value).  Logging
macros are dropped.  Monitor masks are natural numbers below `2 ^ 32`; the C
operator `~` is taken at width 32.
-/

namespace Crashee

/-! ## CrasheeCrashMonitorType.h -/

/-- The enum `CrasheeCrashMonitorType`, used as a bit mask. -/
abbrev CrasheeCrashMonitorType := Nat

def CrasheeCrashMonitorTypeMachException : CrasheeCrashMonitorType := 0x01
def CrasheeCrashMonitorTypeSignal : CrasheeCrashMonitorType := 0x02
def CrasheeCrashMonitorTypeCPPException : CrasheeCrashMonitorType := 0x04
def CrasheeCrashMonitorTypeNSException : CrasheeCrashMonitorType := 0x08
def CrasheeCrashMonitorTypeMainThreadDeadlock : CrasheeCrashMonitorType := 0x10
def CrasheeCrashMonitorTypeUserReported : CrasheeCrashMonitorType := 0x20
def CrasheeCrashMonitorTypeSystem : CrasheeCrashMonitorType := 0x40
def CrasheeCrashMonitorTypeApplicationState : CrasheeCrashMonitorType := 0x80
def CrasheeCrashMonitorTypeZombie : CrasheeCrashMonitorType := 0x100

/-- The C operator `~` on a 32-bit value. -/
def bitNot32 (x : Nat) : Nat := 0xFFFFFFFF ^^^ (x % 2 ^ 32)

def CrasheeCrashMonitorTypeAll : CrasheeCrashMonitorType :=
  CrasheeCrashMonitorTypeMachException |||
  CrasheeCrashMonitorTypeSignal |||
  CrasheeCrashMonitorTypeCPPException |||
  CrasheeCrashMonitorTypeNSException |||
  CrasheeCrashMonitorTypeMainThreadDeadlock |||
  CrasheeCrashMonitorTypeUserReported |||
  CrasheeCrashMonitorTypeSystem |||
  CrasheeCrashMonitorTypeApplicationState |||
  CrasheeCrashMonitorTypeZombie

def CrasheeCrashMonitorTypeExperimental : CrasheeCrashMonitorType :=
  CrasheeCrashMonitorTypeMainThreadDeadlock

def CrasheeCrashMonitorTypeDebuggerUnsafe : CrasheeCrashMonitorType :=
  CrasheeCrashMonitorTypeMachException |||
  CrasheeCrashMonitorTypeSignal |||
  CrasheeCrashMonitorTypeCPPException |||
  CrasheeCrashMonitorTypeNSException

def CrasheeCrashMonitorTypeAsyncSafe : CrasheeCrashMonitorType :=
  CrasheeCrashMonitorTypeMachException |||
  CrasheeCrashMonitorTypeSignal

def CrasheeCrashMonitorTypeOptional : CrasheeCrashMonitorType :=
  CrasheeCrashMonitorTypeZombie

def CrasheeCrashMonitorTypeAsyncUnsafe : CrasheeCrashMonitorType :=
  CrasheeCrashMonitorTypeAll &&& bitNot32 CrasheeCrashMonitorTypeAsyncSafe

def CrasheeCrashMonitorTypeDebuggerSafe : CrasheeCrashMonitorType :=
  CrasheeCrashMonitorTypeAll &&& bitNot32 CrasheeCrashMonitorTypeDebuggerUnsafe

def CrasheeCrashMonitorTypeProductionSafe : CrasheeCrashMonitorType :=
  CrasheeCrashMonitorTypeAll &&& bitNot32 CrasheeCrashMonitorTypeExperimental

def CrasheeCrashMonitorTypeProductionSafeMinimal : CrasheeCrashMonitorType :=
  CrasheeCrashMonitorTypeProductionSafe &&& bitNot32 CrasheeCrashMonitorTypeOptional

def CrasheeCrashMonitorTypeRequired : CrasheeCrashMonitorType :=
  CrasheeCrashMonitorTypeSystem ||| CrasheeCrashMonitorTypeApplicationState

def CrasheeCrashMonitorTypeManual : CrasheeCrashMonitorType :=
  CrasheeCrashMonitorTypeRequired ||| CrasheeCrashMonitorTypeUserReported

def CrasheeCrashMonitorTypeNone : CrasheeCrashMonitorType := 0

/-! ## Tools: threads, stack cursors, machine contexts

`CrasheeThread.h`, `CrasheeStackCursor.h` and `CrasheeMachineContext_Apple.h` are
not among the sources. The records below hold what the embedded functions read or
write of the types declared there. -/

/-- `CrasheeThread`: the name of a thread of the process. -/
abbrev CrasheeThread := Nat

/-- A C `double`, carried as its bit pattern: the embedded functions pass such
values on, and where they compute with them the arithmetic is a parameter. -/
abbrev CDouble := Nat

/-- One frame a stack cursor yields: `stackEntry` as it stands after
`advanceCursor`, what `symbolicate` returns for it and the fields `symbolicate`
fills in. -/
structure CrasheeStackCursor_Frame where
  address : Nat := 0
  symbolicated : Bool := false
  imageName : Option String := none
  imageAddress : Nat := 0
  symbolName : Option String := none
  symbolAddress : Nat := 0
deriving DecidableEq, Repr

/-- A `CrasheeStackCursor`, taken as a parameter: the frames `advanceCursor` yields
before it returns false, and `state.hasGivenUp` as it stands once the walk is
over. -/
structure CrasheeStackCursor where
  frames : List CrasheeStackCursor_Frame := []
  hasGivenUp : Bool := false
deriving DecidableEq, Repr

/-- The fields of `struct CrasheeMachineContext` that the sources use. `allThreads`
is the fixed-size array of thread names, `machineContext` the saved registers. -/
structure CrasheeMachineContext where
  thisThread : CrasheeThread := 0
  isCurrentThread : Bool := false
  isCrashedContext : Bool := false
  isSignalContext : Bool := false
  isStackOverflow : Bool := false
  allThreads : List CrasheeThread := []
  threadCount : Int := 0
  machineContext : List Nat := []
deriving DecidableEq, Repr

/-! ## The event context

`CrasheeCrashMonitorContext.h` is not among the sources; the record below holds
the fields of `struct CrasheeCrash_MonitorContext` that the embedded functions
read or write. -/

/-- The member `System` of `struct CrasheeCrash_MonitorContext`; a string that is
`NULL` is `none`. -/
structure CrasheeCrash_MonitorContext_System where
  systemName : Option String := none
  systemVersion : Option String := none
  machine : Option String := none
  model : Option String := none
  kernelVersion : Option String := none
  osVersion : Option String := none
  isJailbroken : Bool := false
  bootTime : Option String := none
  appStartTime : Option String := none
  executablePath : Option String := none
  executableName : Option String := none
  bundleID : Option String := none
  bundleName : Option String := none
  bundleVersion : Option String := none
  bundleShortVersion : Option String := none
  appID : Option String := none
  cpuArchitecture : Option String := none
  cpuType : Int := 0
  cpuSubType : Int := 0
  binaryCPUType : Int := 0
  binaryCPUSubType : Int := 0
  timezone : Option String := none
  processName : Option String := none
  processID : Int := 0
  parentProcessID : Int := 0
  deviceAppHash : Option String := none
  buildType : Option String := none
  storageSize : Nat := 0
  memorySize : Nat := 0
  freeMemory : Nat := 0
  usableMemory : Nat := 0
deriving DecidableEq, Repr

/-- The member `AppState` of `struct CrasheeCrash_MonitorContext`. -/
structure CrasheeCrash_MonitorContext_AppState where
  activeDurationSinceLastCrash : CDouble := 0
  backgroundDurationSinceLastCrash : CDouble := 0
  launchesSinceLastCrash : Int := 0
  sessionsSinceLastCrash : Int := 0
  activeDurationSinceLaunch : CDouble := 0
  backgroundDurationSinceLaunch : CDouble := 0
  sessionsSinceLaunch : Int := 0
  crashedLastLaunch : Bool := false
  crashedThisLaunch : Bool := false
  appStateTransitionTime : CDouble := 0
  applicationIsActive : Bool := false
  applicationIsInForeground : Bool := false
deriving DecidableEq, Repr

/-- The fields of `struct CrasheeCrash_MonitorContext` used by the registry, the
signal monitor and the report writer. A member of a nested struct other than
`System` and `AppState` is named `struct_member`; a pointer that is `NULL` is
`none`; the machine context and the stack cursor pointed to are held by value. -/
structure CrasheeCrash_MonitorContext where
  crashType : CrasheeCrashMonitorType := 0
  eventID : Option String := none
  requiresAsyncSafety : Bool := false
  crashedDuringCrashHandling : Bool := false
  currentSnapshotUserReported : Bool := false
  registersAreValid : Bool := false
  faultAddress : Nat := 0
  signal_signum : Int := 0
  signal_sigcode : Int := 0
  offendingMachineContext : CrasheeMachineContext := {}
  stackCursor : CrasheeStackCursor := {}
  crashReason : Option String := none
  mach_type : Int := 0
  mach_code : Int := 0
  mach_subcode : Int := 0
  CPPException_name : Option String := none
  NSException_name : Option String := none
  NSException_userInfo : Option String := none
  userException_name : Option String := none
  userException_language : Option String := none
  userException_lineOfCode : Option String := none
  userException_customStackTrace : Option String := none
  ZombieException_address : Nat := 0
  ZombieException_name : Option String := none
  ZombieException_reason : Option String := none
  System : CrasheeCrash_MonitorContext_System := {}
  AppState : CrasheeCrash_MonitorContext_AppState := {}
  consoleLogPath : Option String := none
deriving DecidableEq, Repr

/-- The capability table `CrasheeCrashMonitorAPI` of a monitor (declared in
`CrasheeCrashMonitor.h`); a null function pointer is `none`. The functions act on
the state `W` of the process outside the registry. -/
structure CrasheeCrashMonitorAPI (W : Type) where
  setEnabled : Option (Bool → W → W)
  isEnabled : Option (W → Bool)
  addContextualInfoToEvent :
    Option (CrasheeCrash_MonitorContext → W → CrasheeCrash_MonitorContext × W)

/-- A capability table written for a component `S` of the process state, seen as a
table on the whole state `W`. -/
def CrasheeCrashMonitorAPI.lift {S W : Type} (get : W → S) (put : S → W → W)
    (api : CrasheeCrashMonitorAPI S) : CrasheeCrashMonitorAPI W :=
  { setEnabled := api.setEnabled.map (fun f e w => put (f e (get w)) w)
    isEnabled := api.isEnabled.map (fun f w => f (get w))
    addContextualInfoToEvent :=
      api.addContextualInfoToEvent.map (fun f c w => ((f c (get w)).1, put (f c (get w)).2 w)) }

/-! ## CrasheeCrashMonitor_Signal.c -/

namespace CrasheeCrashMonitor_Signal

/-- The function a signal disposition points at. -/
inductive SigHandler where
  | SIG_DFL
  | SIG_IGN
  | handleSignal
  | other (addr : Nat)
deriving DecidableEq, Repr

/-- The C `struct sigaction`. -/
structure sigaction_t where
  sa_sigaction : SigHandler
  sa_mask : Nat
  sa_flags : Nat
deriving DecidableEq, Repr

/-- The C `stack_t`. A null `ss_sp` is 0. -/
structure stack_t where
  ss_sp : Nat
  ss_size : Nat
  ss_flags : Nat
deriving DecidableEq, Repr

/-- The two `malloc` calls of `installSignalHandler`. -/
inductive MallocSite where
  | signalStack
  | previousSignalHandlers
deriving DecidableEq, Repr

/-- Platform facts the signal monitor is compiled against: the capability flag,
the table behind `crasheesignal_fatalSignals()` and `crasheesignal_numFatalSignals()`
(from `CrasheeSignalInfo.c`, not among the sources), and two libc constants. -/
structure Platform where
  CrasheeCRASH_HAS_SIGNAL_STACK : Bool
  fatalSignals : List Int
  SIGSTKSZ : Nat
  sa_flags : Nat

/-- The globals of `CrasheeCrashMonitor_Signal.c` together with the part of the
process they act on (kernel signal table, alternate stack, heap).

* `handlers sig` is the disposition the kernel holds for `sig`.
* `sigactionFails sig` says the kernel rejects `sigaction` on `sig`
  (it fails with `EINVAL`, which depends on the signal number only).
* `sigaltstackFails` says the kernel rejects `sigaltstack`.
* `heapNext` is the address the next `malloc` returns; blocks are never freed
  by this file, so successive blocks are distinct. `heapGarbage i` is the
  uninitialised content found at element `i` of a fresh handler array.
* `mallocLog` records the `malloc` calls made, most recent last. -/
structure State where
  g_isEnabled : Bool
  g_signalStack : stack_t
  g_previousSignalHandlers : Option (Nat → sigaction_t)
  g_eventID : Nat
  handlers : Int → sigaction_t
  altStack : stack_t
  sigactionFails : Int → Bool
  sigaltstackFails : Bool
  heapNext : Nat
  heapGarbage : Nat → sigaction_t
  mallocLog : List (MallocSite × Nat)
  idCounter : Nat

/-- The libc call `malloc`: a fresh block, logged. Allocation is taken to succeed. -/
def malloc (site : MallocSite) (s : State) : Nat × State :=
  (s.heapNext + 1,
    { s with heapNext := s.heapNext + 1, mallocLog := s.mallocLog ++ [(site, s.heapNext + 1)] })

/-- Modelled from the spec: `crasheeid_generate` (`Tools/CrasheeID.c`, not among
the sources) "generates a fresh unique event ID"; here the next value of a counter. -/
def crasheeid_generate (s : State) : State :=
  { s with idCounter := s.idCounter + 1, g_eventID := s.idCounter + 1 }

/-- The kernel records `act` as the disposition of `sig`. -/
def setHandler (sig : Int) (act : sigaction_t) (s : State) : State :=
  { s with handlers := Function.update s.handlers sig act }

/-- The system call `sigaction(sig, &act, &oact)`: on success returns the old
disposition and installs `act`; on failure (`none`) nothing changes. -/
def sigaction (sig : Int) (act : sigaction_t) (s : State) : Option (sigaction_t × State) :=
  if s.sigactionFails sig then none
  else some (s.handlers sig, setHandler sig act s)

/-- The call `sigaction(sig, &act, NULL)` with its return value ignored. -/
def sigaction_ignoringResult (sig : Int) (act : sigaction_t) (s : State) : State :=
  match sigaction sig act s with
  | some (_, t) => t
  | none => s

/-- The action `installSignalHandler` builds: `handleSignal` with an empty mask. -/
def action (p : Platform) : sigaction_t :=
  { sa_sigaction := SigHandler.handleSignal, sa_mask := 0, sa_flags := p.sa_flags }

/-- The element `g_previousSignalHandlers[i]`. A null array is only possible when
`sigaltstack` failed on the first enable; reading through it is then an invalid
pointer, modelled by the uninitialised heap content. -/
def previousHandler (s : State) (i : Nat) : sigaction_t :=
  match s.g_previousSignalHandlers with
  | some arr => arr i
  | none => s.heapGarbage i

/-- The roll-back loop `for(i--; i >= 0; i--) sigaction(fatalSignals[i],
&g_previousSignalHandlers[i], NULL);` entered with `i = n`. -/
def rollbackLoop (p : Platform) : Nat → State → State
  | 0, s => s
  | i + 1, s =>
    rollbackLoop p i (sigaction_ignoringResult (p.fatalSignals.getD i 0) (previousHandler s i) s)

/-- The write of the old disposition through `&g_previousSignalHandlers[i]`. -/
def storePrevious (i : Nat) (old : sigaction_t) (s : State) : State :=
  { s with g_previousSignalHandlers := some (Function.update (previousHandler s) i old) }

/-- The loop `for(int i = 0; i < fatalSignalsCount; i++)` of `installSignalHandler`,
from index `i` with `rest` the signals not yet handled. Returns `false` for the
`goto failed` exit. -/
def installLoop (p : Platform) : List Int → Nat → State → Bool × State
  | [], _, s => (true, s)
  | sig :: rest, i, s =>
    match sigaction sig (action p) s with
    | some (old, t) => installLoop p rest (i + 1) (storePrevious i old t)
    | none => (false, rollbackLoop p i s)

/-- The block `if(g_signalStack.ss_size == 0) { ... }` of `installSignalHandler`. -/
def allocateSignalStack (p : Platform) (s : State) : State :=
  if s.g_signalStack.ss_size == 0 then
    let r := malloc MallocSite.signalStack s
    { r.2 with g_signalStack := { s.g_signalStack with ss_size := p.SIGSTKSZ, ss_sp := r.1 } }
  else s

/-- The block `if(g_previousSignalHandlers == NULL) { ... }` of `installSignalHandler`;
the fresh array holds whatever the heap held. -/
def allocatePreviousSignalHandlers (s : State) : State :=
  match s.g_previousSignalHandlers with
  | none =>
    let r := malloc MallocSite.previousSignalHandlers s
    { r.2 with g_previousSignalHandlers := some s.heapGarbage }
  | some _ => s

/-- The system call `sigaltstack(&ss, NULL)`: on success the kernel records `ss` as
the alternate stack; on failure (`none`) nothing changes. -/
def sigaltstack (ss : stack_t) (s : State) : Option State :=
  if s.sigaltstackFails then none else some { s with altStack := ss }

/-- The function `installSignalHandler`. -/
def installSignalHandler (p : Platform) (s : State) : Bool × State :=
  if p.CrasheeCRASH_HAS_SIGNAL_STACK then
    let s1 := allocateSignalStack p s
    match sigaltstack s1.g_signalStack s1 with
    | none => (false, s1)
    | some s2 => installLoop p p.fatalSignals 0 (allocatePreviousSignalHandlers s2)
  else
    installLoop p p.fatalSignals 0 (allocatePreviousSignalHandlers s)

/-- The loop of `uninstallSignalHandler` from index `i`. -/
def uninstallLoop : List Int → Nat → State → State
  | [], _, s => s
  | sig :: rest, i, s =>
    uninstallLoop rest (i + 1) (sigaction_ignoringResult sig (previousHandler s i) s)

/-- The function `uninstallSignalHandler`. -/
def uninstallSignalHandler (p : Platform) (s : State) : State :=
  let s1 := uninstallLoop p.fatalSignals 0 s
  if p.CrasheeCRASH_HAS_SIGNAL_STACK then
    { s1 with g_signalStack := { ss_sp := 0, ss_size := 0, ss_flags := 0 } }
  else s1

/-- The function `setEnabled` of the signal monitor. -/
def setEnabled (p : Platform) (isEnabled : Bool) (s : State) : State :=
  if isEnabled != s.g_isEnabled then
    let s1 := { s with g_isEnabled := isEnabled }
    if isEnabled then
      let s2 := crasheeid_generate s1
      (installSignalHandler p s2).2
    else
      uninstallSignalHandler p s1
  else s

/-- The function `isEnabled` of the signal monitor. -/
def isEnabled (s : State) : Bool := s.g_isEnabled

/-- The signal number `SIGABRT`. -/
def SIGABRT : Int := 6

/-- The function `addContextualInfoToEvent` of the signal monitor. -/
def addContextualInfoToEvent (eventContext : CrasheeCrash_MonitorContext) :
    CrasheeCrash_MonitorContext :=
  if eventContext.crashType &&&
      (CrasheeCrashMonitorTypeSignal ||| CrasheeCrashMonitorTypeMachException) == 0 then
    { eventContext with signal_signum := SIGABRT }
  else eventContext

/-- The function `crasheecm_signal_getAPI`: the table is filled in only when the
file is compiled with `CrasheeCRASH_HAS_SIGNAL`. -/
def crasheecm_signal_getAPI (CrasheeCRASH_HAS_SIGNAL : Bool) (p : Platform) :
    CrasheeCrashMonitorAPI State :=
  if CrasheeCRASH_HAS_SIGNAL then
    { setEnabled := some (setEnabled p)
      isEnabled := some isEnabled
      addContextualInfoToEvent := some (fun c s => (addContextualInfoToEvent c, s)) }
  else
    { setEnabled := none, isEnabled := none, addContextualInfoToEvent := none }

end CrasheeCrashMonitor_Signal

/-! ## CrasheeCrashMonitor.c -/

namespace CrasheeCrashMonitor

/-- The C `struct Monitor`. `getAPI` is `none` when the function pointer is
null or the call returns null. -/
structure Monitor (W : Type) where
  monitorType : CrasheeCrashMonitorType
  getAPI : Option (CrasheeCrashMonitorAPI W)

/-- What `CrasheeCrashMonitor.c` is compiled and linked against: the capability
flags of `CrasheeSystemCapabilities.h`, the `getAPI` function of each monitor, and
`crasheedebug_isBeingTraced` (`Tools/CrasheeDebug.c`), a query of the process
state. -/
structure Build (W : Type) where
  CrasheeCRASH_HAS_MACH : Bool
  CrasheeCRASH_HAS_SIGNAL : Bool
  CrasheeCRASH_HAS_OBJC : Bool
  crasheecm_machexception_getAPI : Option (CrasheeCrashMonitorAPI W)
  crasheecm_signal_getAPI : Option (CrasheeCrashMonitorAPI W)
  crasheecm_nsexception_getAPI : Option (CrasheeCrashMonitorAPI W)
  crasheecm_cppexception_getAPI : Option (CrasheeCrashMonitorAPI W)
  crasheecm_user_getAPI : Option (CrasheeCrashMonitorAPI W)
  crasheecm_system_getAPI : Option (CrasheeCrashMonitorAPI W)
  crasheecm_appstate_getAPI : Option (CrasheeCrashMonitorAPI W)
  crasheedebug_isBeingTraced : W → Bool

/-- The table `g_monitors`, in its source order. -/
def g_monitors {W : Type} (b : Build W) : List (Monitor W) :=
  (if b.CrasheeCRASH_HAS_MACH then
    [{ monitorType := CrasheeCrashMonitorTypeMachException,
       getAPI := b.crasheecm_machexception_getAPI }] else []) ++
  (if b.CrasheeCRASH_HAS_SIGNAL then
    [{ monitorType := CrasheeCrashMonitorTypeSignal,
       getAPI := b.crasheecm_signal_getAPI }] else []) ++
  (if b.CrasheeCRASH_HAS_OBJC then
    [{ monitorType := CrasheeCrashMonitorTypeNSException,
       getAPI := b.crasheecm_nsexception_getAPI }] else []) ++
  [{ monitorType := CrasheeCrashMonitorTypeCPPException,
     getAPI := b.crasheecm_cppexception_getAPI },
   { monitorType := CrasheeCrashMonitorTypeUserReported,
     getAPI := b.crasheecm_user_getAPI },
   { monitorType := CrasheeCrashMonitorTypeSystem,
     getAPI := b.crasheecm_system_getAPI },
   { monitorType := CrasheeCrashMonitorTypeApplicationState,
     getAPI := b.crasheecm_appstate_getAPI }]

/-- A call made through a function pointer by `crasheecm_handleException`:
the contributor of the monitor of the given type, or the event callback with the
context it is handed. -/
inductive Call where
  | addContextualInfoToEvent (monitorType : CrasheeCrashMonitorType)
  | onExceptionEvent (context : CrasheeCrash_MonitorContext)
deriving DecidableEq, Repr

/-- The type of the event callback `g_onExceptionEvent`: it receives the context
by pointer, so it returns the context as it leaves it. -/
abbrev EventCallback (W : Type) :=
  CrasheeCrash_MonitorContext → W → CrasheeCrash_MonitorContext × W

/-- The globals of `CrasheeCrashMonitor.c`, the static `hasWarned` of
`crasheecm_setActiveMonitors`, the rest of the process (`world`), and the record
`calls` of the contributor and callback calls made so far, oldest first. The
monitor functions and the event callback act on `world` and on the context they
are handed; they do not call back into the registry. -/
structure Registry (W : Type) where
  g_activeMonitors : CrasheeCrashMonitorType
  g_handlingFatalException : Bool
  g_crashedDuringExceptionHandling : Bool
  g_requiresAsyncSafety : Bool
  g_onExceptionEvent : Option (EventCallback W)
  hasWarned : Bool
  world : W
  calls : List Call

/-- The registry as the static initialisers leave it. -/
def Registry.fresh {W : Type} (w : W) : Registry W :=
  { g_activeMonitors := CrasheeCrashMonitorTypeNone
    g_handlingFatalException := false
    g_crashedDuringExceptionHandling := false
    g_requiresAsyncSafety := false
    g_onExceptionEvent := none
    hasWarned := false
    world := w
    calls := [] }

/-- The inline function `getAPI`. -/
def getAPI {W : Type} (monitor : Monitor W) : Option (CrasheeCrashMonitorAPI W) :=
  monitor.getAPI

/-- The inline function `setMonitorEnabled`. -/
def setMonitorEnabled {W : Type} (monitor : Monitor W) (isEnabled : Bool) (w : W) : W :=
  match getAPI monitor with
  | some api =>
    match api.setEnabled with
    | some f => f isEnabled w
    | none => w
  | none => w

/-- The inline function `isMonitorEnabled`. -/
def isMonitorEnabled {W : Type} (monitor : Monitor W) (w : W) : Bool :=
  match getAPI monitor with
  | some api =>
    match api.isEnabled with
    | some f => f w
    | none => false
  | none => false

/-- The contributor `addContextualInfoToEvent` would call for `monitor`, if any. -/
def contributorOf {W : Type} (monitor : Monitor W) :
    Option (CrasheeCrash_MonitorContext → W → CrasheeCrash_MonitorContext × W) :=
  match getAPI monitor with
  | some api => api.addContextualInfoToEvent
  | none => none

/-- The inline function `addContextualInfoToEvent`; the call it makes is recorded. -/
def addContextualInfoToEvent {W : Type} (monitor : Monitor W)
    (eventContext : CrasheeCrash_MonitorContext) (w : W) (calls : List Call) :
    CrasheeCrash_MonitorContext × W × List Call :=
  match contributorOf monitor with
  | some f =>
    ((f eventContext w).1, (f eventContext w).2,
      calls ++ [Call.addContextualInfoToEvent monitor.monitorType])
  | none => (eventContext, w, calls)

/-- The function `crasheecm_setEventCallback`. -/
def crasheecm_setEventCallback {W : Type} (onEvent : Option (EventCallback W))
    (r : Registry W) : Registry W :=
  { r with g_onExceptionEvent := onEvent }

/-- The loop of `crasheecm_setActiveMonitors` over the monitors still to visit,
with the local `activeMonitors` as accumulator. -/
def setActiveMonitorsLoop {W : Type} (monitorTypes : CrasheeCrashMonitorType) :
    List (Monitor W) → CrasheeCrashMonitorType → W → CrasheeCrashMonitorType × W
  | [], activeMonitors, w => (activeMonitors, w)
  | monitor :: rest, activeMonitors, w =>
    let isEnabled := monitor.monitorType &&& monitorTypes != 0
    let w1 := setMonitorEnabled monitor isEnabled w
    if isMonitorEnabled monitor w1 then
      setActiveMonitorsLoop monitorTypes rest (activeMonitors ||| monitor.monitorType) w1
    else
      setActiveMonitorsLoop monitorTypes rest
        (activeMonitors &&& bitNot32 monitor.monitorType) w1

/-- The first masking step of `crasheecm_setActiveMonitors`:
`if(crasheedebug_isBeingTraced() && (monitorTypes & CrasheeCrashMonitorTypeDebuggerUnsafe))
monitorTypes &= CrasheeCrashMonitorTypeDebuggerSafe;`. -/
def maskDebuggerUnsafe (traced : Bool) (monitorTypes : CrasheeCrashMonitorType) :
    CrasheeCrashMonitorType :=
  if traced && (monitorTypes &&& CrasheeCrashMonitorTypeDebuggerUnsafe != 0) then
    monitorTypes &&& CrasheeCrashMonitorTypeDebuggerSafe
  else monitorTypes

/-- The second masking step of `crasheecm_setActiveMonitors`:
`if(g_requiresAsyncSafety && (monitorTypes & CrasheeCrashMonitorTypeAsyncUnsafe))
monitorTypes &= CrasheeCrashMonitorTypeAsyncSafe;`. -/
def maskAsyncUnsafe (requiresAsyncSafety : Bool) (monitorTypes : CrasheeCrashMonitorType) :
    CrasheeCrashMonitorType :=
  if requiresAsyncSafety && (monitorTypes &&& CrasheeCrashMonitorTypeAsyncUnsafe != 0) then
    monitorTypes &&& CrasheeCrashMonitorTypeAsyncSafe
  else monitorTypes

/-- The value of `monitorTypes` after the two masking steps. -/
def effectiveMonitorTypes (traced requiresAsyncSafety : Bool)
    (monitorTypes : CrasheeCrashMonitorType) : CrasheeCrashMonitorType :=
  maskAsyncUnsafe requiresAsyncSafety (maskDebuggerUnsafe traced monitorTypes)

/-- The function `crasheecm_setActiveMonitors`. -/
def crasheecm_setActiveMonitors {W : Type} (b : Build W)
    (monitorTypes : CrasheeCrashMonitorType) (r : Registry W) : Registry W :=
  let traced := b.crasheedebug_isBeingTraced r.world
  let warns := traced && (monitorTypes &&& CrasheeCrashMonitorTypeDebuggerUnsafe != 0)
  let masked := effectiveMonitorTypes traced r.g_requiresAsyncSafety monitorTypes
  let res := setActiveMonitorsLoop masked (g_monitors b) CrasheeCrashMonitorTypeNone r.world
  { r with
    hasWarned := r.hasWarned || warns
    g_activeMonitors := res.1
    world := res.2 }

/-- The function `crasheecm_getActiveMonitors`. -/
def crasheecm_getActiveMonitors {W : Type} (r : Registry W) : CrasheeCrashMonitorType :=
  r.g_activeMonitors

/-- The function `crasheecm_notifyFatalExceptionCaptured`. -/
def crasheecm_notifyFatalExceptionCaptured {W : Type} (b : Build W)
    (isAsyncSafeEnvironment : Bool) (r : Registry W) : Bool × Registry W :=
  let r1 := { r with g_requiresAsyncSafety := r.g_requiresAsyncSafety || isAsyncSafeEnvironment }
  let r2 :=
    if r1.g_handlingFatalException then { r1 with g_crashedDuringExceptionHandling := true }
    else r1
  let r3 := { r2 with g_handlingFatalException := true }
  let r4 :=
    if r3.g_crashedDuringExceptionHandling then
      crasheecm_setActiveMonitors b CrasheeCrashMonitorTypeNone r3
    else r3
  (r4.g_crashedDuringExceptionHandling, r4)

/-- The contributor loop of `crasheecm_handleException`. -/
def contextualInfoLoop {W : Type} :
    List (Monitor W) → CrasheeCrash_MonitorContext → W → List Call →
      CrasheeCrash_MonitorContext × W × List Call
  | [], context, w, calls => (context, w, calls)
  | monitor :: rest, context, w, calls =>
    if isMonitorEnabled monitor w then
      let res := addContextualInfoToEvent monitor context w calls
      contextualInfoLoop rest res.1 res.2.1 res.2.2
    else
      contextualInfoLoop rest context w calls

/-- The first statements of `crasheecm_handleException`:
`context->requiresAsyncSafety = g_requiresAsyncSafety;
if(g_crashedDuringExceptionHandling) context->crashedDuringCrashHandling = true;`. -/
def stampContext {W : Type} (r : Registry W) (context : CrasheeCrash_MonitorContext) :
    CrasheeCrash_MonitorContext :=
  let c1 := { context with requiresAsyncSafety := r.g_requiresAsyncSafety }
  if r.g_crashedDuringExceptionHandling then { c1 with crashedDuringCrashHandling := true }
  else c1

/-- The last statement of `crasheecm_handleException`, run once the event callback
has returned and left the context as `context`. -/
def finishException {W : Type} (b : Build W) (context : CrasheeCrash_MonitorContext)
    (r : Registry W) : Registry W :=
  if context.currentSnapshotUserReported then
    { r with g_handlingFatalException := false }
  else if r.g_handlingFatalException && !r.g_crashedDuringExceptionHandling then
    crasheecm_setActiveMonitors b CrasheeCrashMonitorTypeNone r
  else r

/-- The function `crasheecm_handleException`. The context is passed by pointer,
so the function returns it as it is left. Calling through a null
`g_onExceptionEvent` is a fault: `none`. -/
def crasheecm_handleException {W : Type} (b : Build W)
    (context : CrasheeCrash_MonitorContext) (r : Registry W) :
    Option (CrasheeCrash_MonitorContext × Registry W) :=
  let res := contextualInfoLoop (g_monitors b) (stampContext r context) r.world r.calls
  match r.g_onExceptionEvent with
  | none => none
  | some onEvent =>
    let out := onEvent res.1 res.2.1
    some (out.1, finishException b out.1
      { r with world := out.2, calls := res.2.2 ++ [Call.onExceptionEvent res.1] })

/-- One call into the public or private interface of the registry. -/
inductive Op (W : Type) where
  | setEventCallback (onEvent : Option (EventCallback W))
  | setActiveMonitors (monitorTypes : CrasheeCrashMonitorType)
  | getActiveMonitors
  | notifyFatalExceptionCaptured (isAsyncSafeEnvironment : Bool)
  | handleException (context : CrasheeCrash_MonitorContext)

/-- Run one call; `none` when it faults. -/
def Op.run {W : Type} (b : Build W) : Op W → Registry W → Option (Registry W)
  | Op.setEventCallback onEvent, r => some (crasheecm_setEventCallback onEvent r)
  | Op.setActiveMonitors monitorTypes, r => some (crasheecm_setActiveMonitors b monitorTypes r)
  | Op.getActiveMonitors, r => some r
  | Op.notifyFatalExceptionCaptured a, r => some (crasheecm_notifyFatalExceptionCaptured b a r).2
  | Op.handleException context, r => (crasheecm_handleException b context r).map Prod.snd

/-- Run a sequence of calls, first to last. -/
def runOps {W : Type} (b : Build W) : List (Op W) → Registry W → Option (Registry W)
  | [], r => some r
  | op :: ops, r =>
    match op.run b r with
    | some r1 => runOps b ops r1
    | none => none

/-- A monitor that honours a disable request: right after `setEnabled(false)` it
reports `isEnabled() == false`. -/
def HonoursDisable {W : Type} (monitor : Monitor W) : Prop :=
  ∀ w : W, isMonitorEnabled monitor (setMonitorEnabled monitor false w) = false

/-- Disabling `other` does not switch `monitor` on: a monitor that reports
`isEnabled() == false` still does after `other` got `setEnabled(false)`. -/
def StaysDisabled {W : Type} (monitor other : Monitor W) : Prop :=
  ∀ w : W, isMonitorEnabled monitor w = false →
    isMonitorEnabled monitor (setMonitorEnabled other false w) = false

/-- The calls that neither start nor end a fatal-exception episode. -/
def Op.keepsEpisodeOpen {W : Type} : Op W → Bool
  | Op.setEventCallback _ => true
  | Op.setActiveMonitors _ => true
  | Op.getActiveMonitors => true
  | Op.notifyFatalExceptionCaptured _ => false
  | Op.handleException _ => false

end CrasheeCrashMonitor

/-! ## A concrete process

The signal monitor of the sources next to the six other registered monitors,
each reduced to its enabled flag. Used to evaluate the registry on concrete
inputs. -/

namespace Example

/-- The process state outside the registry: whether a debugger is attached, the
signal monitor, and the flag `g_isEnabled` of every other monitor (by type). -/
structure World where
  isBeingTraced : Bool
  signal : CrasheeCrashMonitor_Signal.State
  g_isEnabled : CrasheeCrashMonitorType → Bool

/-- Modelled from the spec: the capability table of a monitor whose source file is
not among the sources (Mach exception, NSException, C++ exception, user-reported,
system), "enable/disable, is-enabled query", over the one flag `g_isEnabled`. For
the app-state monitor this is its `setEnabled` and `isEnabled` restricted to
`g_isEnabled`; its contributor, which writes only `AppState` fields of the
context, is left out: the contributor here changes nothing. -/
def flagAPI (monitorType : CrasheeCrashMonitorType) (hasContributor : Bool) :
    CrasheeCrashMonitorAPI World :=
  { setEnabled := some (fun e w =>
      if e != w.g_isEnabled monitorType then
        { w with g_isEnabled := Function.update w.g_isEnabled monitorType e }
      else w)
    isEnabled := some (fun w => w.g_isEnabled monitorType)
    addContextualInfoToEvent := if hasContributor then some (fun c w => (c, w)) else none }

/-- The fatal signals of a Darwin build (`SIGABRT`, `SIGBUS`, `SIGFPE`, `SIGILL`,
`SIGPIPE`, `SIGSEGV`, `SIGSYS`, `SIGTRAP`) with the Darwin values of `SIGSTKSZ`
and `SA_SIGINFO | SA_ONSTACK | SA_64REGSET`. -/
def platform : CrasheeCrashMonitor_Signal.Platform :=
  { CrasheeCRASH_HAS_SIGNAL_STACK := true
    fatalSignals := [6, 10, 8, 4, 13, 11, 12, 5]
    SIGSTKSZ := 131072
    sa_flags := 0x241 }

/-- A build with every capability present. -/
def build : CrasheeCrashMonitor.Build World :=
  { CrasheeCRASH_HAS_MACH := true
    CrasheeCRASH_HAS_SIGNAL := true
    CrasheeCRASH_HAS_OBJC := true
    crasheecm_machexception_getAPI := some (flagAPI CrasheeCrashMonitorTypeMachException false)
    crasheecm_signal_getAPI :=
      some ((CrasheeCrashMonitor_Signal.crasheecm_signal_getAPI true platform).lift
        (fun w => w.signal) (fun s w => { w with signal := s }))
    crasheecm_nsexception_getAPI := some (flagAPI CrasheeCrashMonitorTypeNSException false)
    crasheecm_cppexception_getAPI := some (flagAPI CrasheeCrashMonitorTypeCPPException false)
    crasheecm_user_getAPI := some (flagAPI CrasheeCrashMonitorTypeUserReported false)
    crasheecm_system_getAPI := some (flagAPI CrasheeCrashMonitorTypeSystem true)
    crasheecm_appstate_getAPI := some (flagAPI CrasheeCrashMonitorTypeApplicationState true)
    crasheedebug_isBeingTraced := fun w => w.isBeingTraced }

/-- A signal monitor that has never been enabled, in a process where every signal
`sig` has the disposition `other sig`, `sigaction` is rejected exactly for the
signals in `rejected`, and fresh memory holds `other (1000 + i)` at element `i`. -/
def signalState (rejected : List Int) : CrasheeCrashMonitor_Signal.State :=
  { g_isEnabled := false
    g_signalStack := { ss_sp := 0, ss_size := 0, ss_flags := 0 }
    g_previousSignalHandlers := none
    g_eventID := 0
    handlers := fun sig =>
      { sa_sigaction := CrasheeCrashMonitor_Signal.SigHandler.other sig.toNat,
        sa_mask := 0, sa_flags := 0 }
    altStack := { ss_sp := 0, ss_size := 0, ss_flags := 0 }
    sigactionFails := fun sig => rejected.contains sig
    sigaltstackFails := false
    heapNext := 0
    heapGarbage := fun i =>
      { sa_sigaction := CrasheeCrashMonitor_Signal.SigHandler.other (1000 + i),
        sa_mask := 0, sa_flags := 0 }
    mallocLog := []
    idCounter := 0 }

/-- A process in which no monitor is enabled yet. -/
def world (isBeingTraced : Bool) (rejected : List Int) : World :=
  { isBeingTraced := isBeingTraced
    signal := signalState rejected
    g_isEnabled := fun _ => false }

/-- An event callback that does nothing. -/
def onEvent : CrasheeCrashMonitor.EventCallback World := fun c w => (c, w)

/-- The registry right after start-up in that process, with `onEvent` registered. -/
def registry (isBeingTraced : Bool) (rejected : List Int) : CrasheeCrashMonitor.Registry World :=
  CrasheeCrashMonitor.crasheecm_setEventCallback (some onEvent)
    (CrasheeCrashMonitor.Registry.fresh (world isBeingTraced rejected))

/-- A few calls made after a fatal exception was captured in an async-safe-only
environment. -/
def sampleOps : List (CrasheeCrashMonitor.Op World) :=
  [CrasheeCrashMonitor.Op.setActiveMonitors CrasheeCrashMonitorTypeAll,
    CrasheeCrashMonitor.Op.handleException {},
    CrasheeCrashMonitor.Op.notifyFatalExceptionCaptured false]

/-- The registry those calls lead to. -/
def sampleRun : CrasheeCrashMonitor.Registry World :=
  (CrasheeCrashMonitor.runOps build sampleOps
    (CrasheeCrashMonitor.crasheecm_notifyFatalExceptionCaptured build true
      (registry false [])).2).getD (registry false [])

/-- The registry with every monitor requested and one fatal exception captured. -/
def armedRegistry : CrasheeCrashMonitor.Registry World :=
  (CrasheeCrashMonitor.crasheecm_notifyFatalExceptionCaptured build false
    (CrasheeCrashMonitor.crasheecm_setActiveMonitors build CrasheeCrashMonitorTypeAll
      (registry false []))).2

end Example

/-! ## CrasheeMachineContext.c -/

namespace MachineContext

/-- The Mach calls `CrasheeMachineContext.c` makes, in the order made. -/
inductive MachCall
  | task_threads
  | thread_suspend (thread : CrasheeThread)
  | thread_resume (thread : CrasheeThread)
  | mach_port_deallocate (name : CrasheeThread)
  | vm_deallocate (threadCount : Nat)
deriving DecidableEq, Repr

/-- The build and the process as `CrasheeMachineContext.c` sees them: the
`CrasheeCRASH_HAS_THREADS_API` flag, the number of elements of `allThreads`
(`CrasheeMachineContext_Apple.h` is not among the sources), the stack-overflow
threshold, the calling thread, the answer of `task_threads` (`none` when the call
fails) and the CPU and stack-cursor capabilities. -/
structure Process where
  CrasheeCRASH_HAS_THREADS_API : Bool
  maxThreadCount : Nat
  CrasheeSC_STACK_OVERFLOW_THRESHOLD : Nat
  crasheethread_self : CrasheeThread
  task_threads : Option (List CrasheeThread)
  crasheecpu_getState : CrasheeMachineContext → CrasheeMachineContext
  crasheesc_initWithMachineContext : Nat → CrasheeMachineContext → CrasheeStackCursor

/-- The statics `g_reservedThreads` and `g_reservedThreadsCount`. -/
structure Reserved where
  g_reservedThreads : List CrasheeThread
  g_reservedThreadsCount : Int
deriving DecidableEq, Repr

/-- The statics as initialised: an array of 10 zeroed elements, count 0. -/
def Reserved.initial : Reserved :=
  { g_reservedThreads := List.replicate 10 0, g_reservedThreadsCount := 0 }

/-- The invariant of the reserved-thread statics: the array has its 10 elements
and the count lies between 0 and 10. -/
def Reserved.InBounds (g : Reserved) : Prop :=
  g.g_reservedThreads.length = 10 ∧ 0 ≤ g.g_reservedThreadsCount ∧ g.g_reservedThreadsCount ≤ 10

/-- `g_reservedThreadsMaxIndex = sizeof(g_reservedThreads) / sizeof(g_reservedThreads[0]) - 1`. -/
def g_reservedThreadsMaxIndex : Int := 10 - 1

/-- `isStackOverflow` walks a fresh cursor to its end and reports whether it gave up. -/
def isStackOverflow (p : Process) (context : CrasheeMachineContext) : Bool :=
  (p.crasheesc_initWithMachineContext p.CrasheeSC_STACK_OVERFLOW_THRESHOLD context).hasGivenUp

/-- What `getThreadList` leaves behind: its return value, the context, the Mach
calls made and the indices used into `allThreads`, in order. -/
structure ThreadListResult where
  result : Bool
  context : CrasheeMachineContext
  calls : List MachCall
  allThreadsIndices : List Nat

/-- The conversion `(int)x` of an unsigned value to a 32-bit `int`. -/
def castInt (x : Nat) : Int :=
  if x % 2 ^ 32 < 2 ^ 31 then (x % 2 ^ 32 : Nat) else ((x % 2 ^ 32 : Nat) : Int) - 2 ^ 32

/-- The copy loop of `getThreadList`: `allThreads[i] = threads[i]` for
`i < threadCount`. -/
def copyThreads (threads : List CrasheeThread) (threadCount : Nat)
    (allThreads : List CrasheeThread) : List CrasheeThread :=
  (List.range threadCount).foldl (fun a i => a.set i (threads.getD i 0)) allThreads

/-- `getThreadList`. The second loop runs over the count `task_threads` reported
and reads `context->allThreads[i]`; an element past the end of the array reads as
0 here. -/
def getThreadList (p : Process) (context : CrasheeMachineContext) : ThreadListResult :=
  match p.task_threads with
  | none =>
    { result := false, context := context, calls := [MachCall.task_threads],
      allThreadsIndices := [] }
  | some threads =>
    let actualThreadCount := threads.length
    let threadCount : Int := castInt actualThreadCount
    let maxThreadCount : Int := p.maxThreadCount
    let threadCount := if threadCount > maxThreadCount then maxThreadCount else threadCount
    let context :=
      { context with
        allThreads := copyThreads threads threadCount.toNat context.allThreads
        threadCount := threadCount }
    { result := true
      context := context
      calls := MachCall.task_threads ::
        ((List.range actualThreadCount).map
            (fun i => MachCall.mach_port_deallocate (context.allThreads.getD i 0)) ++
          [MachCall.vm_deallocate actualThreadCount])
      allThreadsIndices := List.range threadCount.toNat ++ List.range actualThreadCount }

/-- `crasheemc_getThreadFromContext`. -/
def crasheemc_getThreadFromContext (context : CrasheeMachineContext) : CrasheeThread :=
  context.thisThread

/-- `crasheemc_isCrashedContext`. -/
def crasheemc_isCrashedContext (context : CrasheeMachineContext) : Bool :=
  context.isCrashedContext

/-- `crasheemc_canHaveCPUState`. -/
def crasheemc_canHaveCPUState (context : CrasheeMachineContext) : Bool :=
  !context.isCurrentThread || context.isSignalContext

/-- `crasheemc_hasValidExceptionRegisters`. -/
def crasheemc_hasValidExceptionRegisters (context : CrasheeMachineContext) : Bool :=
  crasheemc_canHaveCPUState context && crasheemc_isCrashedContext context

/-- `crasheemc_getContextForThread`: the filled context and the Mach calls made.
The destination is zeroed first; `allThreads` then has `maxThreadCount` zeroed
elements. -/
def crasheemc_getContextForThread (p : Process) (thread : CrasheeThread)
    (isCrashedContext : Bool) : CrasheeMachineContext × List MachCall :=
  let destinationContext : CrasheeMachineContext :=
    { thisThread := thread
      isCurrentThread := thread == p.crasheethread_self
      isCrashedContext := isCrashedContext
      isSignalContext := false
      isStackOverflow := false
      allThreads := List.replicate p.maxThreadCount 0
      threadCount := 0
      machineContext := [] }
  let destinationContext :=
    if crasheemc_canHaveCPUState destinationContext then
      p.crasheecpu_getState destinationContext
    else destinationContext
  if crasheemc_isCrashedContext destinationContext then
    let destinationContext :=
      { destinationContext with isStackOverflow := isStackOverflow p destinationContext }
    let r := getThreadList p destinationContext
    (r.context, r.calls)
  else (destinationContext, [])

/-- `crasheemc_addReservedThread`; `none` stands for a write outside
`g_reservedThreads`. -/
def crasheemc_addReservedThread (thread : CrasheeThread) (g : Reserved) : Option Reserved :=
  let nextIndex := g.g_reservedThreadsCount
  if nextIndex > g_reservedThreadsMaxIndex then some g
  else if 0 ≤ g.g_reservedThreadsCount ∧
      g.g_reservedThreadsCount.toNat < g.g_reservedThreads.length then
    some
      { g_reservedThreads := g.g_reservedThreads.set g.g_reservedThreadsCount.toNat thread
        g_reservedThreadsCount := g.g_reservedThreadsCount + 1 }
  else none

/-- A sequence of `crasheemc_addReservedThread` calls, one per thread given. -/
def addReservedThreads : List CrasheeThread → Reserved → Option Reserved
  | [], g => some g
  | thread :: rest, g => (crasheemc_addReservedThread thread g).bind (addReservedThreads rest)

/-- `isThreadInList`: whether one of the first `listCount` elements is `thread`. -/
def isThreadInList (thread : CrasheeThread) (list : List CrasheeThread) (listCount : Int) :
    Bool :=
  (List.range listCount.toNat).any (fun i => list.getD i 0 == thread)

/-- `crasheemc_suspendEnvironment`, given the caller's `*suspendedThreads` and
`*numSuspendedThreads` (`none` for `NULL` and 0): their new values and the Mach
calls made. A failing `thread_suspend` is only logged. -/
def crasheemc_suspendEnvironment (p : Process) (g : Reserved)
    (suspendedThreads : Option (List CrasheeThread)) :
    Option (List CrasheeThread) × List MachCall :=
  if p.CrasheeCRASH_HAS_THREADS_API then
    let thisThread := p.crasheethread_self
    match p.task_threads with
    | none => (suspendedThreads, [MachCall.task_threads])
    | some threads =>
      (some threads,
        MachCall.task_threads ::
          (threads.filter (fun thread =>
            thread != thisThread &&
              !isThreadInList thread g.g_reservedThreads g.g_reservedThreadsCount)).map
            MachCall.thread_suspend)
  else (suspendedThreads, [])

/-- `crasheemc_resumeEnvironment`: the Mach calls made. A failing `thread_resume`
is only logged. -/
def crasheemc_resumeEnvironment (p : Process) (g : Reserved)
    (threads : Option (List CrasheeThread)) : List MachCall :=
  if p.CrasheeCRASH_HAS_THREADS_API then
    let thisThread := p.crasheethread_self
    match threads with
    | none => []
    | some threads =>
      if threads.length == 0 then []
      else
        (threads.filter (fun thread =>
          thread != thisThread &&
            !isThreadInList thread g.g_reservedThreads g.g_reservedThreadsCount)).map
          MachCall.thread_resume ++
        threads.map MachCall.mach_port_deallocate ++
        [MachCall.vm_deallocate threads.length]
  else []

/-- `crasheemc_getThreadCount`. -/
def crasheemc_getThreadCount (context : CrasheeMachineContext) : Int :=
  context.threadCount

/-- `crasheemc_getThreadAtIndex`; an element outside the array reads as 0 here. -/
def crasheemc_getThreadAtIndex (context : CrasheeMachineContext) (index : Int) :
    CrasheeThread :=
  if 0 ≤ index then context.allThreads.getD index.toNat 0 else 0

/-- `crasheemc_indexOfThread`. -/
def crasheemc_indexOfThread (context : CrasheeMachineContext) (thread : CrasheeThread) : Int :=
  match (List.range context.threadCount.toNat).find?
      (fun i => context.allThreads.getD i 0 == thread) with
  | some i => i
  | none => -1

/-- The threads a list of Mach calls suspends. -/
def suspended (calls : List MachCall) : List CrasheeThread :=
  calls.filterMap (fun c => match c with | MachCall.thread_suspend t => some t | _ => none)

/-- The threads a list of Mach calls resumes. -/
def resumed (calls : List MachCall) : List CrasheeThread :=
  calls.filterMap (fun c => match c with | MachCall.thread_resume t => some t | _ => none)

end MachineContext

/-! ## CrasheeCrashC.c -/

namespace CrasheeCrashC

open CrasheeCrashMonitor

/-- The enum `CrasheeApplicationState`. -/
inductive CrasheeApplicationState where
  | CrasheeApplicationStateNone
  | CrasheeApplicationStateDidBecomeActive
  | CrasheeApplicationStateWillResignActiveActive
  | CrasheeApplicationStateDidEnterBackground
  | CrasheeApplicationStateWillEnterForeground
  | CrasheeApplicationStateWillTerminate
deriving DecidableEq, Repr

/-- The functions `crasheecrash_install` calls outside `CrasheeCrashC.c` and the
registry, as actions on the state `W` of the process, and the event callback
`onCrash` it registers, whose report writing goes to the file system. -/
structure Collaborators (W : Type) where
  crasheefu_makePath : String → W → W
  crasheecrs_initialize : String → String → W → W
  crasheecrashstate_initialize : String → W → W
  printPreviousLog : String → W → W
  crasheelog_setLogFilename : String → Bool → W → W
  crasheeccd_init : Int → W → W
  crasheecrashstate_notifyAppActive : Bool → W → W
  crasheecrashstate_notifyAppInForeground : Bool → W → W
  crasheecrashstate_notifyAppTerminate : W → W
  onCrash : EventCallback W

/-- The statics of `CrasheeCrashC.c` that installing reads or writes, with the
registry they sit next to. -/
structure State (W : Type) where
  g_installed : Bool
  g_shouldPrintPreviousLog : Bool
  g_consoleLogPath : String
  g_monitoring : CrasheeCrashMonitorType
  g_lastApplicationState : CrasheeApplicationState
  registry : Registry W

/-- The statics as initialised, in a process whose registry is untouched. -/
def State.initial {W : Type} (w : W) : State W :=
  { g_installed := false
    g_shouldPrintPreviousLog := false
    g_consoleLogPath := ""
    g_monitoring := CrasheeCrashMonitorTypeProductionSafeMinimal
    g_lastApplicationState := CrasheeApplicationState.CrasheeApplicationStateNone
    registry := Registry.fresh w }

/-- Applies an action on the process state inside the registry record. -/
def onWorld {W : Type} (f : W → W) (s : State W) : State W :=
  { s with registry := { s.registry with world := f s.registry.world } }

/-- `crasheecrash_setMonitoring`. -/
def crasheecrash_setMonitoring {W : Type} (b : Build W) (monitors : CrasheeCrashMonitorType)
    (s : State W) : CrasheeCrashMonitorType × State W :=
  let s := { s with g_monitoring := monitors }
  if s.g_installed then
    let s := { s with registry := crasheecm_setActiveMonitors b monitors s.registry }
    (crasheecm_getActiveMonitors s.registry, s)
  else (s.g_monitoring, s)

/-- `crasheecrash_notifyAppActive`. -/
def crasheecrash_notifyAppActive {W : Type} (c : Collaborators W) (isActive : Bool)
    (s : State W) : State W :=
  let s := if s.g_installed then onWorld (c.crasheecrashstate_notifyAppActive isActive) s else s
  { s with
    g_lastApplicationState :=
      if isActive then CrasheeApplicationState.CrasheeApplicationStateDidBecomeActive
      else CrasheeApplicationState.CrasheeApplicationStateWillResignActiveActive }

/-- `crasheecrash_notifyAppInForeground`. -/
def crasheecrash_notifyAppInForeground {W : Type} (c : Collaborators W) (isInForeground : Bool)
    (s : State W) : State W :=
  let s :=
    if s.g_installed then onWorld (c.crasheecrashstate_notifyAppInForeground isInForeground) s
    else s
  { s with
    g_lastApplicationState :=
      if isInForeground then CrasheeApplicationState.CrasheeApplicationStateWillEnterForeground
      else CrasheeApplicationState.CrasheeApplicationStateDidEnterBackground }

/-- `crasheecrash_notifyAppTerminate`. -/
def crasheecrash_notifyAppTerminate {W : Type} (c : Collaborators W) (s : State W) : State W :=
  let s := if s.g_installed then onWorld c.crasheecrashstate_notifyAppTerminate s else s
  { s with g_lastApplicationState := CrasheeApplicationState.CrasheeApplicationStateWillTerminate }

/-- `notifyOfBeforeInstallationState`. -/
def notifyOfBeforeInstallationState {W : Type} (c : Collaborators W) (s : State W) : State W :=
  match s.g_lastApplicationState with
  | CrasheeApplicationState.CrasheeApplicationStateDidBecomeActive =>
    crasheecrash_notifyAppActive c true s
  | CrasheeApplicationState.CrasheeApplicationStateWillResignActiveActive =>
    crasheecrash_notifyAppActive c false s
  | CrasheeApplicationState.CrasheeApplicationStateDidEnterBackground =>
    crasheecrash_notifyAppInForeground c false s
  | CrasheeApplicationState.CrasheeApplicationStateWillEnterForeground =>
    crasheecrash_notifyAppInForeground c true s
  | CrasheeApplicationState.CrasheeApplicationStateWillTerminate =>
    crasheecrash_notifyAppTerminate c s
  | CrasheeApplicationState.CrasheeApplicationStateNone => s

/-- The part of `crasheecrash_install` between `g_installed = 1` and the
registration of the event callback: the paths are made, the report store, the
crash state, the log file and the cached thread data are initialised. The paths
are not truncated to `CrasheeFU_MAX_PATH_LENGTH` here. -/
def prepareInstallation {W : Type} (c : Collaborators W) (appName installPath : String)
    (s : State W) : State W :=
  let s := onWorld (c.crasheefu_makePath (installPath ++ "/Reports")) s
  let s := onWorld (c.crasheecrs_initialize appName (installPath ++ "/Reports")) s
  let s := onWorld (c.crasheefu_makePath (installPath ++ "/Data")) s
  let s := onWorld (c.crasheecrashstate_initialize (installPath ++ "/Data/CrashState.json")) s
  let s := { s with g_consoleLogPath := installPath ++ "/Data/ConsoleLog.txt" }
  let s := if s.g_shouldPrintPreviousLog then onWorld (c.printPreviousLog s.g_consoleLogPath) s
    else s
  let s := onWorld (c.crasheelog_setLogFilename s.g_consoleLogPath true) s
  onWorld (c.crasheeccd_init 60) s

/-- `crasheecrash_install`: the mask returned and the state left behind. -/
def crasheecrash_install {W : Type} (c : Collaborators W) (b : Build W)
    (appName installPath : String) (s : State W) : CrasheeCrashMonitorType × State W :=
  if s.g_installed then (s.g_monitoring, s)
  else
    let s := { s with g_installed := true }
    let s := prepareInstallation c appName installPath s
    let s := { s with registry := crasheecm_setEventCallback (some c.onCrash) s.registry }
    let r := crasheecrash_setMonitoring b s.g_monitoring s
    (r.1, notifyOfBeforeInstallationState c r.2)

/-- A monitor that reports itself enabled right after it was asked to enable. -/
def HonoursEnable {W : Type} (monitor : Monitor W) : Prop :=
  ∀ w : W, isMonitorEnabled monitor (setMonitorEnabled monitor true w) = true

end CrasheeCrashC

namespace Example

/-- Collaborators that leave the process as it is. -/
def collaborators : CrasheeCrashC.Collaborators World :=
  { crasheefu_makePath := fun _ w => w
    crasheecrs_initialize := fun _ _ w => w
    crasheecrashstate_initialize := fun _ w => w
    printPreviousLog := fun _ w => w
    crasheelog_setLogFilename := fun _ _ w => w
    crasheeccd_init := fun _ w => w
    crasheecrashstate_notifyAppActive := fun _ w => w
    crasheecrashstate_notifyAppInForeground := fun _ w => w
    crasheecrashstate_notifyAppTerminate := fun w => w
    onCrash := onEvent }

end Example

/-! ## The JSON codec as the report writer drives it

`CrasheeJSONCodec.c` is not among the sources. A report is taken as the sequence of
codec calls the report writer makes on its encode context, oldest first. -/

namespace CrasheeJSON

/-- One call of the codec on the encode context: the `crasheejson_` function
called, with its key (`none` for `NULL`) and value. -/
inductive JSONCall where
  | addBooleanElement (key : Option String) (value : Bool)
  | addFloatingPointElement (key : Option String) (value : CDouble)
  | addIntegerElement (key : Option String) (value : Int)
  | addUIntegerElement (key : Option String) (value : Nat)
  | addStringElement (key : Option String) (value : Option String)
  | addNullElement (key : Option String)
  | addDataElement (key : Option String) (value : List Nat) (length : Int)
  | addJSONFromFile (key : Option String) (filePath : String) (closeLastContainer : Bool)
  | beginObject (key : Option String)
  | beginArray (key : Option String)
  | endContainer
deriving DecidableEq, Repr

/-- The result code `CrasheeJSON_OK`. -/
def CrasheeJSON_OK : Int := 0

/-- The key a call carries, if it carries one. -/
def JSONCall.key : JSONCall → Option String
  | addBooleanElement key _ => key
  | addFloatingPointElement key _ => key
  | addIntegerElement key _ => key
  | addUIntegerElement key _ => key
  | addStringElement key _ => key
  | addNullElement key => key
  | addDataElement key _ _ => key
  | addJSONFromFile key _ _ => key
  | beginObject key => key
  | beginArray key => key
  | endContainer => none

/-- Whether a call opens a container. -/
def JSONCall.isBegin : JSONCall → Bool
  | beginObject _ => true
  | beginArray _ => true
  | _ => false

/-- Whether a call closes a container. -/
def JSONCall.isEnd : JSONCall → Bool
  | endContainer => true
  | _ => false

/-- Whether no call of a sequence opens or closes a container. -/
def allElements (calls : List JSONCall) : Bool :=
  calls.all (fun call => !call.isBegin && !call.isEnd)

/-- The number of open containers after a sequence of calls made with `depth`
containers open; `none` when an `endContainer` finds no container open. -/
def depthAfter : Nat → List JSONCall → Option Nat
  | depth, [] => some depth
  | depth, call :: rest =>
    if call.isBegin then depthAfter (depth + 1) rest
    else if call.isEnd then
      match depth with
      | 0 => none
      | d + 1 => depthAfter d rest
    else depthAfter depth rest

/-- A sequence of calls that leaves the container stack as it found it, whatever
its depth: every container it opens it closes, and it closes no other. -/
def Balanced (calls : List JSONCall) : Prop :=
  ∀ depth, depthAfter depth calls = some depth

/-- The greatest number of containers open at any point of a sequence of calls
made with `depth` containers open. -/
def maxDepth : Nat → List JSONCall → Nat
  | depth, [] => depth
  | depth, call :: rest =>
    if call.isBegin then max depth (maxDepth (depth + 1) rest)
    else if call.isEnd then max depth (maxDepth (depth - 1) rest)
    else max depth (maxDepth depth rest)

/-- The number of `beginObject` and `beginArray` calls. -/
def countBegin (calls : List JSONCall) : Nat :=
  calls.countP (fun call => call.isBegin)

/-- The number of `endContainer` calls. -/
def countEnd (calls : List JSONCall) : Nat :=
  calls.countP (fun call => call.isEnd)

/-- Splits the calls made inside a container into its entries: an element call
made with no nested container open is an entry of its own, a nested container is
the entry running from its begin call to the call that closes it. `depth` counts
the nested containers open and `current` holds the calls of the entry under way. -/
def entriesAux : Nat → List JSONCall → List JSONCall → List (List JSONCall)
  | _, current, [] => if current.isEmpty then [] else [current]
  | depth, current, call :: rest =>
    if call.isBegin then entriesAux (depth + 1) (current ++ [call]) rest
    else if call.isEnd then
      if depth ≤ 1 then (current ++ [call]) :: entriesAux 0 [] rest
      else entriesAux (depth - 1) (current ++ [call]) rest
    else if depth = 0 then [call] :: entriesAux 0 [] rest
    else entriesAux depth (current ++ [call]) rest

/-- The entries of the calls made inside a container. -/
def entries (calls : List JSONCall) : List (List JSONCall) :=
  entriesAux 0 [] calls

/-- The calls a record makes between its opening and its closing call. -/
def body (record : List JSONCall) : List JSONCall :=
  record.tail.dropLast

/-- The first call of each entry, which carries the entry's key. -/
def heads (calls : List JSONCall) : List JSONCall :=
  (entries calls).filterMap List.head?

/-- The fields of a record: the first call of each entry of its body. -/
def fields (record : List JSONCall) : List JSONCall :=
  heads (body record)

/-- The fields of a record that carry the key `key`. -/
def fieldsWithKey (key : String) (record : List JSONCall) : List JSONCall :=
  (fields record).filter (fun call => call.key == some key)

/-- A record: a container opened by `first`, closed by an `endContainer`, with a
balanced body in between. -/
def IsRecord (first : JSONCall) (calls : List JSONCall) : Prop :=
  first.isBegin = true ∧
    ∃ inner, Balanced inner ∧ calls = first :: (inner ++ [JSONCall.endContainer])

/-- A balanced sequence none of whose entries carries the key `key`. -/
def Silent (key : String) (calls : List JSONCall) : Prop :=
  Balanced calls ∧ (heads calls).filter (fun call => call.key == some key) = []

/-- The number of calls after which the container opened first is closed, if it
is closed at all. -/
def closesFirstContainerAfter (calls : List JSONCall) : Option Nat :=
  ((List.range calls.length).find?
    (fun n => depthAfter 0 (calls.take (n + 1)) == some 0)).map (fun n => n + 1)

end CrasheeJSON

/-! ## CrasheeCrashReportFields.h

The field names the report writer uses. -/

abbrev CrasheeCrashReportType_Minimal : String := "minimal"
abbrev CrasheeCrashReportType_Standard : String := "standard"
abbrev CrasheeCrashMemType_Block : String := "objc_block"
abbrev CrasheeCrashMemType_Class : String := "objc_class"
abbrev CrasheeCrashMemType_NullPointer : String := "null_pointer"
abbrev CrasheeCrashMemType_Object : String := "objc_object"
abbrev CrasheeCrashMemType_String : String := "string"
abbrev CrasheeCrashMemType_Unknown : String := "unknown"
abbrev CrasheeCrashExcType_CPPException : String := "cpp_exception"
abbrev CrasheeCrashExcType_Deadlock : String := "deadlock"
abbrev CrasheeCrashExcType_Mach : String := "mach"
abbrev CrasheeCrashExcType_NSException : String := "nsexception"
abbrev CrasheeCrashExcType_Signal : String := "signal"
abbrev CrasheeCrashExcType_User : String := "user"
abbrev CrasheeCrashField_Address : String := "address"
abbrev CrasheeCrashField_Contents : String := "contents"
abbrev CrasheeCrashField_Exception : String := "exception"
abbrev CrasheeCrashField_FirstObject : String := "first_object"
abbrev CrasheeCrashField_Index : String := "index"
abbrev CrasheeCrashField_Ivars : String := "ivars"
abbrev CrasheeCrashField_Language : String := "language"
abbrev CrasheeCrashField_Name : String := "name"
abbrev CrasheeCrashField_UserInfo : String := "userInfo"
abbrev CrasheeCrashField_ReferencedObject : String := "referenced_object"
abbrev CrasheeCrashField_Type : String := "type"
abbrev CrasheeCrashField_UUID : String := "uuid"
abbrev CrasheeCrashField_Value : String := "value"
abbrev CrasheeCrashField_Error : String := "error"
abbrev CrasheeCrashField_JSONData : String := "json_data"
abbrev CrasheeCrashField_Class : String := "class"
abbrev CrasheeCrashField_InstructionAddr : String := "instruction_addr"
abbrev CrasheeCrashField_LineOfCode : String := "line_of_code"
abbrev CrasheeCrashField_ObjectAddr : String := "object_addr"
abbrev CrasheeCrashField_ObjectName : String := "object_name"
abbrev CrasheeCrashField_SymbolAddr : String := "symbol_addr"
abbrev CrasheeCrashField_SymbolName : String := "symbol_name"
abbrev CrasheeCrashField_DumpEnd : String := "dump_end"
abbrev CrasheeCrashField_DumpStart : String := "dump_start"
abbrev CrasheeCrashField_GrowDirection : String := "grow_direction"
abbrev CrasheeCrashField_Overflow : String := "overflow"
abbrev CrasheeCrashField_StackPtr : String := "stack_pointer"
abbrev CrasheeCrashField_Backtrace : String := "backtrace"
abbrev CrasheeCrashField_Basic : String := "basic"
abbrev CrasheeCrashField_Crashed : String := "crashed"
abbrev CrasheeCrashField_CurrentThread : String := "current_thread"
abbrev CrasheeCrashField_DispatchQueue : String := "dispatch_queue"
abbrev CrasheeCrashField_NotableAddresses : String := "notable_addresses"
abbrev CrasheeCrashField_Registers : String := "registers"
abbrev CrasheeCrashField_Skipped : String := "skipped"
abbrev CrasheeCrashField_Stack : String := "stack"
abbrev CrasheeCrashField_CPUSubType : String := "cpu_subtype"
abbrev CrasheeCrashField_CPUType : String := "cpu_type"
abbrev CrasheeCrashField_ImageAddress : String := "image_addr"
abbrev CrasheeCrashField_ImageVmAddress : String := "image_vmaddr"
abbrev CrasheeCrashField_ImageSize : String := "image_size"
abbrev CrasheeCrashField_ImageMajorVersion : String := "major_version"
abbrev CrasheeCrashField_ImageMinorVersion : String := "minor_version"
abbrev CrasheeCrashField_ImageRevisionVersion : String := "revision_version"
abbrev CrasheeCrashField_Free : String := "free"
abbrev CrasheeCrashField_Usable : String := "usable"
abbrev CrasheeCrashField_Code : String := "code"
abbrev CrasheeCrashField_CodeName : String := "code_name"
abbrev CrasheeCrashField_CPPException : String := "cpp_exception"
abbrev CrasheeCrashField_ExceptionName : String := "exception_name"
abbrev CrasheeCrashField_Mach : String := "mach"
abbrev CrasheeCrashField_NSException : String := "nsexception"
abbrev CrasheeCrashField_Reason : String := "reason"
abbrev CrasheeCrashField_Signal : String := "signal"
abbrev CrasheeCrashField_Subcode : String := "subcode"
abbrev CrasheeCrashField_UserReported : String := "user_reported"
abbrev CrasheeCrashField_LastDeallocedNSException : String := "last_dealloced_nsexception"
abbrev CrasheeCrashField_ProcessState : String := "process"
abbrev CrasheeCrashField_ActiveTimeSinceCrash : String := "active_time_since_last_crash"
abbrev CrasheeCrashField_ActiveTimeSinceLaunch : String := "active_time_since_launch"
abbrev CrasheeCrashField_AppActive : String := "application_active"
abbrev CrasheeCrashField_AppInFG : String := "application_in_foreground"
abbrev CrasheeCrashField_BGTimeSinceCrash : String := "background_time_since_last_crash"
abbrev CrasheeCrashField_BGTimeSinceLaunch : String := "background_time_since_launch"
abbrev CrasheeCrashField_LaunchesSinceCrash : String := "launches_since_last_crash"
abbrev CrasheeCrashField_SessionsSinceCrash : String := "sessions_since_last_crash"
abbrev CrasheeCrashField_SessionsSinceLaunch : String := "sessions_since_launch"
abbrev CrasheeCrashField_Crash : String := "crash"
abbrev CrasheeCrashField_Debug : String := "debug"
abbrev CrasheeCrashField_ID : String := "id"
abbrev CrasheeCrashField_ProcessName : String := "process_name"
abbrev CrasheeCrashField_Report : String := "report"
abbrev CrasheeCrashField_Timestamp : String := "timestamp"
abbrev CrasheeCrashField_Version : String := "version"
abbrev CrasheeCrashField_CrashedThread : String := "crashed_thread"
abbrev CrasheeCrashField_AppStats : String := "application_stats"
abbrev CrasheeCrashField_BinaryImages : String := "binary_images"
abbrev CrasheeCrashField_System : String := "system"
abbrev CrasheeCrashField_Memory : String := "memory"
abbrev CrasheeCrashField_Threads : String := "threads"
abbrev CrasheeCrashField_User : String := "user"
abbrev CrasheeCrashField_ConsoleLog : String := "console_log"
abbrev CrasheeCrashField_RecrashReport : String := "recrash_report"
abbrev CrasheeCrashField_AppStartTime : String := "app_start_time"
abbrev CrasheeCrashField_AppUUID : String := "app_uuid"
abbrev CrasheeCrashField_BootTime : String := "boot_time"
abbrev CrasheeCrashField_BundleID : String := "CFBundleIdentifier"
abbrev CrasheeCrashField_BundleName : String := "CFBundleName"
abbrev CrasheeCrashField_BundleShortVersion : String := "CFBundleShortVersionString"
abbrev CrasheeCrashField_BundleVersion : String := "CFBundleVersion"
abbrev CrasheeCrashField_CPUArch : String := "cpu_arch"
abbrev CrasheeCrashField_BinaryCPUType : String := "binary_cpu_type"
abbrev CrasheeCrashField_BinaryCPUSubType : String := "binary_cpu_subtype"
abbrev CrasheeCrashField_DeviceAppHash : String := "device_app_hash"
abbrev CrasheeCrashField_Executable : String := "CFBundleExecutable"
abbrev CrasheeCrashField_ExecutablePath : String := "CFBundleExecutablePath"
abbrev CrasheeCrashField_Jailbroken : String := "jailbroken"
abbrev CrasheeCrashField_KernelVersion : String := "kernel_version"
abbrev CrasheeCrashField_Machine : String := "machine"
abbrev CrasheeCrashField_Model : String := "model"
abbrev CrasheeCrashField_OSVersion : String := "os_version"
abbrev CrasheeCrashField_ParentProcessID : String := "parent_process_id"
abbrev CrasheeCrashField_ProcessID : String := "process_id"
abbrev CrasheeCrashField_Size : String := "size"
abbrev CrasheeCrashField_Storage : String := "storage"
abbrev CrasheeCrashField_SystemName : String := "system_name"
abbrev CrasheeCrashField_SystemVersion : String := "system_version"
abbrev CrasheeCrashField_TimeZone : String := "time_zone"
abbrev CrasheeCrashField_BuildType : String := "build_type"

/-! ## CrasheeCrashReport.c: constants, configuration and capabilities -/

namespace CrasheeCrashReport

open CrasheeJSON

/-- `kDefaultMemorySearchDepth`: "Default number of objects, subobjects, and ivars
to record from a memory loc". -/
def kDefaultMemorySearchDepth : Int := 15

/-- `kStackNotableSearchBackDistance`. -/
def kStackNotableSearchBackDistance : Int := 20

/-- `kStackNotableSearchForwardDistance`. -/
def kStackNotableSearchForwardDistance : Int := 10

/-- `kStackContentsPushedDistance`. -/
def kStackContentsPushedDistance : Int := 20

/-- `kStackContentsPoppedDistance`. -/
def kStackContentsPoppedDistance : Int := 10

/-- `kStackContentsTotalDistance`. -/
def kStackContentsTotalDistance : Int :=
  kStackContentsPushedDistance + kStackContentsPoppedDistance

/-- `kMinStringLength`. -/
def kMinStringLength : Int := 4

/-- `sizeof(uintptr_t)` on the 64-bit targets of the sources. -/
def sizeofPointer : Nat := 8

/-- The conversion of an integer to `uintptr_t`, `uint64_t` or `size_t`. -/
def toUInt64 (x : Int) : Nat := (x % 2 ^ 64).toNat

/-- The conversion of an integer to `unsigned`. -/
def toUInt32 (x : Int) : Nat := (x % 2 ^ 32).toNat

/-- The value of the low `bits` bits of `x` read as a signed integer. -/
def toSigned (bits : Nat) (x : Nat) : Int :=
  if x % 2 ^ bits < 2 ^ (bits - 1) then (x % 2 ^ bits : Nat)
  else ((x % 2 ^ bits : Nat) : Int) - 2 ^ bits

/-- `g_hexNybbles`. -/
def g_hexNybbles : List Char :=
  ['0', '1', '2', '3', '4', '5', '6', '7', '8', '9', 'A', 'B', 'C', 'D', 'E', 'F']

/-- The enum `CrasheeObjCType`. -/
inductive CrasheeObjCType where
  | CrasheeObjCTypeUnknown
  | CrasheeObjCTypeClass
  | CrasheeObjCTypeObject
  | CrasheeObjCTypeBlock
deriving DecidableEq, Repr

/-- The enum `CrasheeObjCClassType`. -/
inductive CrasheeObjCClassType where
  | CrasheeObjCClassTypeUnknown
  | CrasheeObjCClassTypeString
  | CrasheeObjCClassTypeDate
  | CrasheeObjCClassTypeURL
  | CrasheeObjCClassTypeArray
  | CrasheeObjCClassTypeDictionary
  | CrasheeObjCClassTypeNumber
  | CrasheeObjCClassTypeException
deriving DecidableEq, Repr

/-- The struct `CrasheeObjCIvar`: name, type encoding and index of an ivar. -/
structure CrasheeObjCIvar where
  name : Option String
  type : String
  index : Int
deriving DecidableEq, Repr

/-- The struct `CrasheeBinaryImage`, as far as `writeBinaryImage` reads it. -/
structure CrasheeBinaryImage where
  address : Nat := 0
  vmAddress : Nat := 0
  size : Nat := 0
  name : Option String := none
  uuid : Option (List Nat) := none
  cpuType : Int := 0
  cpuSubType : Int := 0
  majorVersion : Nat := 0
  minorVersion : Nat := 0
  revisionVersion : Nat := 0
deriving DecidableEq, Repr

/-- `CrasheeCrash_IntrospectionRules`. "List of classes that should never be
introspected. Whenever a class in this list is encountered, only the class name
will be recorded." -/
structure CrasheeCrash_IntrospectionRules where
  enabled : Bool := false
  restrictedClasses : Option (List String) := none
  restrictedClassesCount : Int := 0
deriving DecidableEq, Repr

/-- The Objective-C runtime capability (`CrasheeObjC.h`, not among the sources),
queried by address. `crasheeobjc_copyStringContents` is `none` when it returns 0;
`crasheeobjc_arrayContents` and `crasheeobjc_ivarList` give the elements they
store, whose number they return, for a buffer of the given capacity;
`crasheeobjc_ivarValue` gives the bytes of the ivar as a number. -/
structure ObjC where
  crasheeobjc_objectType : Nat → CrasheeObjCType
  crasheeobjc_className : Nat → String
  crasheeobjc_objectClassName : Nat → String
  crasheeobjc_objectClassType : Nat → CrasheeObjCClassType
  crasheeobjc_copyStringContents : Nat → Nat → Option String
  crasheeobjc_dateContents : Nat → CDouble
  crasheeobjc_numberAsFloat : Nat → CDouble
  crasheeobjc_arrayContents : Nat → Nat → List Nat
  crasheeobjc_isTaggedPointer : Nat → Bool
  crasheeobjc_isValidTaggedPointer : Nat → Bool
  crasheeobjc_taggedPointerPayload : Nat → Nat
  crasheeobjc_isaPointer : Nat → Nat
  crasheeobjc_ivarList : Nat → Nat → List CrasheeObjCIvar
  crasheeobjc_ivarValue : Nat → Int → Nat
  floatToDouble : Nat → CDouble

/-- The memory and string capabilities (`CrasheeMemory.h`, `CrasheeString.h`, not
among the sources): `crasheemem_copySafely` gives the bytes copied, `none` when it
fails; `stringAt` is the C string found at an address. -/
structure Memory where
  crasheemem_copySafely : Nat → Int → Option (List Nat)
  crasheestring_isNullTerminatedUTF8String : List Nat → Int → Int → Bool
  crasheestring_extractHexValue : String → Int → Option Nat
  stringAt : Nat → String

/-- The CPU capability (`CrasheeCPU.h`, not among the sources); a register name
that is `NULL` is `none`. -/
structure CPU where
  crasheecpu_stackPointer : CrasheeMachineContext → Nat
  crasheecpu_stackGrowDirection : Int
  crasheecpu_numRegisters : Int
  crasheecpu_registerName : Int → Option String
  crasheecpu_registerValue : CrasheeMachineContext → Int → Nat
  crasheecpu_numExceptionRegisters : Int
  crasheecpu_exceptionRegisterName : Int → Option String
  crasheecpu_exceptionRegisterValue : CrasheeMachineContext → Int → Nat

/-- The JSON codec where it takes a whole fragment (`CrasheeJSONCodec.h`, not among
the sources): the result code of `crasheejson_addJSONElement` for a key, a
fragment, its length and `closeLastContainer`, with the calls it makes on the
encode context meanwhile, and the text of an error code. -/
structure Codec where
  crasheejson_addJSONElement : Option String → String → Int → Bool → Int × List JSONCall
  crasheejson_stringForError : Int → String

/-- The remaining collaborators of the report writer, none of them among the
sources: name tables for Mach exceptions and signals, cached thread and queue
names, the dynamic linker's image list, file utilities (`consoleLines` gives the
chunks `crasheefu_readBufferedReaderUntilChar` yields before one of length 0,
`none` when the file cannot be opened), and the clock. -/
structure Services where
  crasheemach_exceptionName : Int → Option String
  crasheemach_kernelReturnCodeName : Int → Option String
  crasheesignal_signalName : Int → Option String
  crasheesignal_signalCodeName : Int → Int → Option String
  crasheeccd_getThreadName : CrasheeThread → Option String
  crasheeccd_getQueueName : CrasheeThread → Option String
  crasheedl_imageCount : Int
  crasheedl_getBinaryImage : Int → Option CrasheeBinaryImage
  crasheefu_lastPathEntry : String → Option String
  crasheefu_openBufferedWriter : String → Bool
  consoleLines : String → Option (List String)
  tv_sec : Int
  tv_usec : Int

/-- What the report writer is compiled with, configured with and runs against:
the capability flags, the report version string, the statics
`g_userInfoJSON`, `g_introspectionRules` and `g_userSectionWriteCallback` (the
callback given by the calls it makes on the writer), and the capabilities. -/
structure Environment where
  CrasheeCRASH_HAS_OBJC : Bool
  CrasheeCRASH_HOST_APPLE : Bool
  CrasheeCRASH_REPORT_VERSION : String
  g_userInfoJSON : Option String
  g_introspectionRules : CrasheeCrash_IntrospectionRules
  g_userSectionWriteCallback : Option (List JSONCall)
  objc : ObjC
  memory : Memory
  cpu : CPU
  codec : Codec
  services : Services
  process : MachineContext.Process

end CrasheeCrashReport

/-! ## CrasheeCrashReport.c: memory introspection -/

namespace CrasheeCrashReport

open CrasheeJSON

/-- What a writer that draws on the budget leaves behind: the codec calls made
and the value of `*limit` afterwards. -/
abbrev Written := List JSONCall × Int

/-- `isValidString`. -/
def isValidString (env : Environment) (address : Nat) : Bool :=
  if address == 0 then false
  else if (address + 500) % 2 ^ 64 < address then false
  else
    match env.memory.crasheemem_copySafely address 500 with
    | none => false
    | some buffer =>
      env.memory.crasheestring_isNullTerminatedUTF8String buffer kMinStringLength 500

/-- `writeNSStringContents`. -/
def writeNSStringContents (env : Environment) (key : Option String) (objectAddress : Nat) :
    List JSONCall :=
  match env.objc.crasheeobjc_copyStringContents objectAddress 200 with
  | some buffer => [JSONCall.addStringElement key (some buffer)]
  | none => []

/-- `writeURLContents`. -/
def writeURLContents (env : Environment) (key : Option String) (objectAddress : Nat) :
    List JSONCall :=
  match env.objc.crasheeobjc_copyStringContents objectAddress 200 with
  | some buffer => [JSONCall.addStringElement key (some buffer)]
  | none => []

/-- `writeDateContents`. -/
def writeDateContents (env : Environment) (key : Option String) (objectAddress : Nat) :
    List JSONCall :=
  [JSONCall.addFloatingPointElement key (env.objc.crasheeobjc_dateContents objectAddress)]

/-- `writeNumberContents`. -/
def writeNumberContents (env : Environment) (key : Option String) (objectAddress : Nat) :
    List JSONCall :=
  [JSONCall.addFloatingPointElement key (env.objc.crasheeobjc_numberAsFloat objectAddress)]

/-- `writeArrayContents`, with the function to call for `writeMemoryContents`. -/
def writeArrayContents (env : Environment)
    (writeMemoryContents : Option String → Nat → Int → Option Written)
    (key : Option String) (objectAddress : Nat) (limit : Int) : Option Written :=
  let firstObject := env.objc.crasheeobjc_arrayContents objectAddress 1
  if firstObject.length == 1 then writeMemoryContents key (firstObject.headD 0) limit
  else some ([], limit)

/-- The local of `writeUnknownObjectContents` an ivar is read into; `unknown`
stands for the `default` label of the `switch`. -/
inductive IvarKind where
  | s8 | sInt | s16 | s32 | s64
  | u8 | uInt | u16 | u32 | u64
  | f32 | f64 | b | pointer | unknown
deriving DecidableEq, Repr

/-- The `switch(ivar->type[0])` of `writeUnknownObjectContents`. -/
def ivarKind (type : String) : IvarKind :=
  match type.data.head? with
  | some 'c' => IvarKind.s8
  | some 'i' => IvarKind.sInt
  | some 's' => IvarKind.s16
  | some 'l' => IvarKind.s32
  | some 'q' => IvarKind.s64
  | some 'C' => IvarKind.u8
  | some 'I' => IvarKind.uInt
  | some 'S' => IvarKind.u16
  | some 'L' => IvarKind.u32
  | some 'Q' => IvarKind.u64
  | some 'f' => IvarKind.f32
  | some 'd' => IvarKind.f64
  | some 'B' => IvarKind.b
  | some '*' => IvarKind.pointer
  | some '@' => IvarKind.pointer
  | some '#' => IvarKind.pointer
  | some ':' => IvarKind.pointer
  | _ => IvarKind.unknown

/-- One turn of the ivar loop of `writeUnknownObjectContents`. -/
def writeIvar (env : Environment)
    (writeMemoryContents : Option String → Nat → Int → Option Written)
    (object : Nat) (ivar : CrasheeObjCIvar) (limit : Int) : Option Written :=
  let value := env.objc.crasheeobjc_ivarValue object ivar.index
  match ivarKind ivar.type with
  | IvarKind.s8 => some ([JSONCall.addIntegerElement ivar.name (toSigned 8 value)], limit)
  | IvarKind.sInt => some ([JSONCall.addIntegerElement ivar.name (toSigned 32 value)], limit)
  | IvarKind.s16 => some ([JSONCall.addIntegerElement ivar.name (toSigned 16 value)], limit)
  | IvarKind.s32 => some ([JSONCall.addIntegerElement ivar.name (toSigned 32 value)], limit)
  | IvarKind.s64 => some ([JSONCall.addIntegerElement ivar.name (toSigned 64 value)], limit)
  | IvarKind.u8 => some ([JSONCall.addUIntegerElement ivar.name (value % 2 ^ 8)], limit)
  | IvarKind.uInt => some ([JSONCall.addUIntegerElement ivar.name (value % 2 ^ 32)], limit)
  | IvarKind.u16 => some ([JSONCall.addUIntegerElement ivar.name (value % 2 ^ 16)], limit)
  | IvarKind.u32 => some ([JSONCall.addUIntegerElement ivar.name (value % 2 ^ 32)], limit)
  | IvarKind.u64 => some ([JSONCall.addUIntegerElement ivar.name (value % 2 ^ 64)], limit)
  | IvarKind.f32 =>
    some ([JSONCall.addFloatingPointElement ivar.name
      (env.objc.floatToDouble (value % 2 ^ 32))], limit)
  | IvarKind.f64 => some ([JSONCall.addFloatingPointElement ivar.name (value % 2 ^ 64)], limit)
  | IvarKind.b => some ([JSONCall.addBooleanElement ivar.name (value % 2 ^ 8 != 0)], limit)
  | IvarKind.pointer => writeMemoryContents ivar.name (value % 2 ^ 64) limit
  | IvarKind.unknown => some ([], limit)

/-- The ivar loop of `writeUnknownObjectContents`. -/
def writeIvars (env : Environment)
    (writeMemoryContents : Option String → Nat → Int → Option Written) (object : Nat) :
    List CrasheeObjCIvar → Int → Option Written
  | [], limit => some ([], limit)
  | ivar :: rest, limit =>
    match writeIvar env writeMemoryContents object ivar limit with
    | none => none
    | some first =>
      match writeIvars env writeMemoryContents object rest first.2 with
      | none => none
      | some others => some (first.1 ++ others.1, others.2)

/-- `writeUnknownObjectContents`, with the function to call for
`writeMemoryContents`. The ivar buffer has 10 elements. -/
def writeUnknownObjectContents (env : Environment)
    (writeMemoryContents : Option String → Nat → Int → Option Written)
    (key : Option String) (objectAddress : Nat) (limit : Int) : Option Written :=
  let limit := limit - 1
  if env.objc.crasheeobjc_isTaggedPointer objectAddress then
    some ([JSONCall.beginObject key,
      JSONCall.addIntegerElement (some "tagged_payload")
        (toSigned 64 (env.objc.crasheeobjc_taggedPointerPayload objectAddress)),
      JSONCall.endContainer], limit)
  else
    let isa := env.objc.crasheeobjc_isaPointer objectAddress
    let ivars := env.objc.crasheeobjc_ivarList isa 10
    let ivarCount : Int := ivars.length
    let limit := limit - ivarCount
    match writeIvars env writeMemoryContents objectAddress ivars limit with
    | none => none
    | some written =>
      some ([JSONCall.beginObject key] ++ written.1 ++ [JSONCall.endContainer], written.2)

/-- `isRestrictedClass`. -/
def isRestrictedClass (env : Environment) (name : String) : Bool :=
  match env.g_introspectionRules.restrictedClasses with
  | some restrictedClasses =>
    (List.range env.g_introspectionRules.restrictedClassesCount.toNat).any
      (fun i => restrictedClasses[i]? == some name)
  | none => false

/-- `writeObjCObject`, with the function to call for `writeMemoryContents`: the
value returned, the calls made and `*limit` afterwards. For an object of a
restricted class the inner `switch` is skipped and control reaches the final
`return false`. -/
def writeObjCObject (env : Environment)
    (writeMemoryContents : Option String → Nat → Int → Option Written)
    (address : Nat) (limit : Int) : Option (Bool × Written) :=
  if env.CrasheeCRASH_HAS_OBJC then
    match env.objc.crasheeobjc_objectType address with
    | CrasheeObjCType.CrasheeObjCTypeClass =>
      some (true,
        [JSONCall.addStringElement (some CrasheeCrashField_Type) (some CrasheeCrashMemType_Class),
         JSONCall.addStringElement (some CrasheeCrashField_Class)
          (some (env.objc.crasheeobjc_className address))], limit)
    | CrasheeObjCType.CrasheeObjCTypeObject =>
      let className := env.objc.crasheeobjc_objectClassName address
      let head :=
        [JSONCall.addStringElement (some CrasheeCrashField_Type) (some CrasheeCrashMemType_Object),
         JSONCall.addStringElement (some CrasheeCrashField_Class) (some className)]
      if !isRestrictedClass env className then
        match env.objc.crasheeobjc_objectClassType address with
        | CrasheeObjCClassType.CrasheeObjCClassTypeString =>
          some (true,
            head ++ writeNSStringContents env (some CrasheeCrashField_Value) address, limit)
        | CrasheeObjCClassType.CrasheeObjCClassTypeURL =>
          some (true, head ++ writeURLContents env (some CrasheeCrashField_Value) address, limit)
        | CrasheeObjCClassType.CrasheeObjCClassTypeDate =>
          some (true, head ++ writeDateContents env (some CrasheeCrashField_Value) address, limit)
        | CrasheeObjCClassType.CrasheeObjCClassTypeArray =>
          if limit > 0 then
            match writeArrayContents env writeMemoryContents
                (some CrasheeCrashField_FirstObject) address limit with
            | none => none
            | some written => some (true, head ++ written.1, written.2)
          else some (true, head, limit)
        | CrasheeObjCClassType.CrasheeObjCClassTypeNumber =>
          some (true,
            head ++ writeNumberContents env (some CrasheeCrashField_Value) address, limit)
        | CrasheeObjCClassType.CrasheeObjCClassTypeDictionary =>
          if limit > 0 then
            match writeUnknownObjectContents env writeMemoryContents
                (some CrasheeCrashField_Ivars) address limit with
            | none => none
            | some written => some (true, head ++ written.1, written.2)
          else some (true, head, limit)
        | CrasheeObjCClassType.CrasheeObjCClassTypeException =>
          if limit > 0 then
            match writeUnknownObjectContents env writeMemoryContents
                (some CrasheeCrashField_Ivars) address limit with
            | none => none
            | some written => some (true, head ++ written.1, written.2)
          else some (true, head, limit)
        | CrasheeObjCClassType.CrasheeObjCClassTypeUnknown =>
          if limit > 0 then
            match writeUnknownObjectContents env writeMemoryContents
                (some CrasheeCrashField_Ivars) address limit with
            | none => none
            | some written => some (true, head ++ written.1, written.2)
          else some (true, head, limit)
      else some (false, head, limit)
    | CrasheeObjCType.CrasheeObjCTypeBlock =>
      some (true,
        [JSONCall.addStringElement (some CrasheeCrashField_Type) (some CrasheeCrashMemType_Block),
         JSONCall.addStringElement (some CrasheeCrashField_Class)
          (some (env.objc.crasheeobjc_objectClassName address))], limit)
    | CrasheeObjCType.CrasheeObjCTypeUnknown => some (false, [], limit)
  else some (false, [], limit)

/-- What `writeMemoryContents` adds when `writeObjCObject` returned false. -/
def writeNonObject (env : Environment) (address : Nat) : List JSONCall :=
  if address == 0 then
    [JSONCall.addStringElement (some CrasheeCrashField_Type) (some CrasheeCrashMemType_NullPointer)]
  else if isValidString env address then
    [JSONCall.addStringElement (some CrasheeCrashField_Type) (some CrasheeCrashMemType_String),
     JSONCall.addStringElement (some CrasheeCrashField_Value) (some (env.memory.stringAt address))]
  else
    [JSONCall.addStringElement (some CrasheeCrashField_Type) (some CrasheeCrashMemType_Unknown)]

/-- The body of `writeMemoryContents`, with the function to call where it calls
itself through `writeObjCObject`. -/
def writeMemoryContentsBody (env : Environment)
    (writeMemoryContents : Option String → Nat → Int → Option Written)
    (key : Option String) (address : Nat) (limit : Int) : Option Written :=
  let limit := limit - 1
  match writeObjCObject env writeMemoryContents address limit with
  | none => none
  | some (isObject, written) =>
    some ([JSONCall.beginObject key,
        JSONCall.addUIntegerElement (some CrasheeCrashField_Address) address] ++
      written.1 ++ (if !isObject then writeNonObject env address else []) ++
      [JSONCall.endContainer], written.2)

/-- `writeMemoryContents`, unfolded at most `fuel` times; `none` when the fuel
runs out. `writeMemoryContents_enough_fuel` shows that fuel above the budget is
enough. -/
def writeMemoryContentsFuel (env : Environment) :
    Nat → Option String → Nat → Int → Option Written
  | 0 => fun _ _ _ => none
  | fuel + 1 => writeMemoryContentsBody env (writeMemoryContentsFuel env fuel)

/-- `writeMemoryContents`: the calls made and `*limit` afterwards. The fuel given
is above the budget, which is enough for the recursion to finish. -/
def writeMemoryContents (env : Environment) (key : Option String) (address : Nat)
    (limit : Int) : Written :=
  (writeMemoryContentsFuel env (limit.toNat + 1) key address limit).getD ([], limit)

/-- The bound on the nesting depth of what `writeMemoryContents` writes with the
budget `limit`: one container when the budget allows no descent, the budget plus
one otherwise. -/
def depthBound (limit : Int) : Nat :=
  if limit ≤ 1 then 1 else (limit + 1).toNat

/-- What the recursion needs of the function called for `writeMemoryContents`, at
every budget up to `n`: it returns, it uses up at least one unit of the budget,
its calls are balanced and nest no deeper than `depthBound`. -/
def WritesWell (writeMemoryContents : Option String → Nat → Int → Option Written) (n : Int) :
    Prop :=
  ∀ (key : Option String) (address : Nat) (limit : Int), limit ≤ n →
    ∃ w, writeMemoryContents key address limit = some w ∧ w.2 ≤ limit - 1 ∧
      Balanced w.1 ∧ maxDepth 0 w.1 ≤ depthBound limit

/-- Whatever `f` returns, `g` returns too. -/
def Extends (f g : Option String → Nat → Int → Option Written) : Prop :=
  ∀ (key : Option String) (address : Nat) (limit : Int) (w : Written),
    f key address limit = some w → g key address limit = some w

/-- `isValidPointer`. -/
def isValidPointer (env : Environment) (address : Nat) : Bool :=
  if address == 0 then false
  else if env.CrasheeCRASH_HAS_OBJC && env.objc.crasheeobjc_isTaggedPointer address &&
      !env.objc.crasheeobjc_isValidTaggedPointer address then false
  else true

/-- `isNotableAddress`. -/
def isNotableAddress (env : Environment) (address : Nat) : Bool :=
  if !isValidPointer env address then false
  else if env.CrasheeCRASH_HAS_OBJC &&
      env.objc.crasheeobjc_objectType address != CrasheeObjCType.CrasheeObjCTypeUnknown then true
  else if isValidString env address then true
  else false

/-- `writeMemoryContentsIfNotable`. -/
def writeMemoryContentsIfNotable (env : Environment) (key : Option String) (address : Nat) :
    List JSONCall :=
  if isNotableAddress env address then
    (writeMemoryContents env key address kDefaultMemorySearchDepth).1
  else []

/-- `writeAddressReferencedByString`. -/
def writeAddressReferencedByString (env : Environment) (key : Option String)
    (string : Option String) : List JSONCall :=
  match string with
  | none => []
  | some string =>
    match env.memory.crasheestring_extractHexValue string string.utf8ByteSize with
    | none => []
    | some address =>
      (writeMemoryContents env key (address % 2 ^ 64) kDefaultMemorySearchDepth).1

end CrasheeCrashReport

/-! ## CrasheeCrashReport.c: the report sections -/

namespace CrasheeCrashReport

open CrasheeJSON

/-- The two characters `addUUIDElement` writes for a byte: `g_hexNybbles` at the
high and at the low nybble. -/
def hexByte (byte : Nat) : List Char :=
  [g_hexNybbles.getD ((byte >>> 4) &&& 15) '0', g_hexNybbles.getD (byte &&& 15) '0']

/-- The characters `addUUIDElement` writes for `count` bytes from index `first`. -/
def hexBytes (src : List Nat) (first count : Nat) : List Char :=
  (List.range count).flatMap (fun i => hexByte (src.getD (first + i) 0))

/-- `addUUIDElement`: a null UUID gives a null element, any other the string of
its 16 bytes in groups of 4, 2, 2, 2 and 6 bytes. -/
def addUUIDElement (key : Option String) (value : Option (List Nat)) : List JSONCall :=
  match value with
  | none => [JSONCall.addNullElement key]
  | some src =>
    [JSONCall.addStringElement key
      (some (String.mk
        (hexBytes src 0 4 ++ ['-'] ++ hexBytes src 4 2 ++ ['-'] ++ hexBytes src 6 2 ++ ['-'] ++
          hexBytes src 8 2 ++ ['-'] ++ hexBytes src 10 6)))]

/-- `addJSONElement`: the calls the codec makes for the fragment and, when it
rejects the fragment, an object under the same key with the error text (cut to
the 100-byte buffer) and the raw fragment. -/
def addJSONElement (env : Environment) (key : Option String) (jsonElement : String)
    (closeLastContainer : Bool) : List JSONCall :=
  let r := env.codec.crasheejson_addJSONElement key jsonElement jsonElement.utf8ByteSize
    closeLastContainer
  if r.1 != CrasheeJSON_OK then
    r.2 ++
      [JSONCall.beginObject key,
       JSONCall.addStringElement (some CrasheeCrashField_Error)
        (some (("Invalid JSON data: " ++ env.codec.crasheejson_stringForError r.1).take 99)),
       JSONCall.addStringElement (some CrasheeCrashField_JSONData) (some jsonElement),
       JSONCall.endContainer]
  else r.2

/-- `addTextLinesFromFile`: nothing when the file cannot be opened, else an array
of the chunks read, each without its last character. -/
def addTextLinesFromFile (env : Environment) (key : Option String) (filePath : String) :
    List JSONCall :=
  match env.services.consoleLines filePath with
  | none => []
  | some chunks =>
    [JSONCall.beginArray key] ++
      chunks.map (fun chunk => JSONCall.addStringElement none (some (chunk.dropRight 1))) ++
      [JSONCall.endContainer]

/-- `getStackCursor`: the cursor it fills (it always returns true). -/
def getStackCursor (env : Environment) (crash : CrasheeCrash_MonitorContext)
    (machineContext : CrasheeMachineContext) : CrasheeStackCursor :=
  if MachineContext.crasheemc_getThreadFromContext machineContext ==
      MachineContext.crasheemc_getThreadFromContext crash.offendingMachineContext then
    crash.stackCursor
  else
    env.process.crasheesc_initWithMachineContext
      env.process.CrasheeSC_STACK_OVERFLOW_THRESHOLD machineContext

/-- One turn of the loop of `writeBacktrace`: the object written for a frame. -/
def writeBacktraceFrame (env : Environment) (frame : CrasheeStackCursor_Frame) :
    List JSONCall :=
  [JSONCall.beginObject none] ++
    (if frame.symbolicated then
      (match frame.imageName with
        | some imageName =>
          [JSONCall.addStringElement (some CrasheeCrashField_ObjectName)
            (env.services.crasheefu_lastPathEntry imageName)]
        | none => []) ++
      [JSONCall.addUIntegerElement (some CrasheeCrashField_ObjectAddr) frame.imageAddress] ++
      (match frame.symbolName with
        | some symbolName =>
          [JSONCall.addStringElement (some CrasheeCrashField_SymbolName) (some symbolName)]
        | none => []) ++
      [JSONCall.addUIntegerElement (some CrasheeCrashField_SymbolAddr) frame.symbolAddress]
    else []) ++
    [JSONCall.addUIntegerElement (some CrasheeCrashField_InstructionAddr) frame.address,
     JSONCall.endContainer]

/-- `writeBacktrace`. -/
def writeBacktrace (env : Environment) (key : Option String) (stackCursor : CrasheeStackCursor) :
    List JSONCall :=
  [JSONCall.beginObject key, JSONCall.beginArray (some CrasheeCrashField_Contents)] ++
    stackCursor.frames.flatMap (writeBacktraceFrame env) ++
    [JSONCall.endContainer,
     JSONCall.addIntegerElement (some CrasheeCrashField_Skipped) 0,
     JSONCall.endContainer]

/-- The bounds `lowAddress` and `highAddress` that `writeStackContents` and
`writeNotableStackContents` compute around the stack pointer, in `uintptr_t`
arithmetic, swapped when the first exceeds the second. -/
def stackBounds (env : Environment) (sp : Nat) (backDistance forwardDistance : Int) : Nat × Nat :=
  let lowAddress := (sp + toUInt64
    (backDistance * (sizeofPointer : Int) * env.cpu.crasheecpu_stackGrowDirection * -1)) % 2 ^ 64
  let highAddress := (sp + toUInt64
    (forwardDistance * (sizeofPointer : Int) * env.cpu.crasheecpu_stackGrowDirection)) % 2 ^ 64
  if highAddress < lowAddress then (highAddress, lowAddress) else (lowAddress, highAddress)

/-- `writeStackContents`. -/
def writeStackContents (env : Environment) (key : Option String)
    (machineContext : CrasheeMachineContext) (isStackOverflow : Bool) : List JSONCall :=
  let sp := env.cpu.crasheecpu_stackPointer machineContext
  if sp == 0 then []
  else
    let bounds := stackBounds env sp kStackContentsPushedDistance kStackContentsPoppedDistance
    let lowAddress := bounds.1
    let highAddress := bounds.2
    let copyLength := toSigned 32 (highAddress - lowAddress)
    [JSONCall.beginObject key,
     JSONCall.addStringElement (some CrasheeCrashField_GrowDirection)
      (some (if env.cpu.crasheecpu_stackGrowDirection > 0 then "+" else "-")),
     JSONCall.addUIntegerElement (some CrasheeCrashField_DumpStart) lowAddress,
     JSONCall.addUIntegerElement (some CrasheeCrashField_DumpEnd) highAddress,
     JSONCall.addUIntegerElement (some CrasheeCrashField_StackPtr) sp,
     JSONCall.addBooleanElement (some CrasheeCrashField_Overflow) isStackOverflow,
     (match env.memory.crasheemem_copySafely lowAddress copyLength with
      | some stackBuffer =>
        JSONCall.addDataElement (some CrasheeCrashField_Contents) stackBuffer copyLength
      | none =>
        JSONCall.addStringElement (some CrasheeCrashField_Error)
          (some "Stack contents not accessible")),
     JSONCall.endContainer]

/-- The value of bytes read in little-endian order. -/
def littleEndian : List Nat → Nat
  | [] => 0
  | byte :: rest => byte % 256 + 256 * littleEndian rest

/-- The text `%p` gives for an address. -/
def formatPointer (address : Nat) : String :=
  "0x" ++ String.mk (Nat.toDigits 16 address)

/-- `writeNotableStackContents`. The loop counter runs from `lowAddress` in steps
of the pointer size while it is below `highAddress`; the two bounds differ by a
multiple of the pointer size, so the counter meets `highAddress` without
wrapping around. -/
def writeNotableStackContents (env : Environment) (machineContext : CrasheeMachineContext)
    (backDistance forwardDistance : Int) : List JSONCall :=
  let sp := env.cpu.crasheecpu_stackPointer machineContext
  if sp == 0 then []
  else
    let bounds := stackBounds env sp backDistance forwardDistance
    let lowAddress := bounds.1
    let highAddress := bounds.2
    (List.range ((highAddress - lowAddress + (sizeofPointer - 1)) / sizeofPointer)).flatMap
      (fun (i : Nat) =>
        let address := lowAddress + sizeofPointer * i
        match env.memory.crasheemem_copySafely address sizeofPointer with
        | some contents =>
          writeMemoryContentsIfNotable env (some ("stack@" ++ formatPointer address))
            (littleEndian contents % 2 ^ 64)
        | none => [])

/-- The name under which a register is written: its name, or `r` and its number
when it has none. -/
def registerKey (registerName : Option String) (reg : Nat) : Option String :=
  match registerName with
  | some name => some name
  | none => some ("r" ++ toString reg)

/-- `writeBasicRegisters`. -/
def writeBasicRegisters (env : Environment) (key : Option String)
    (machineContext : CrasheeMachineContext) : List JSONCall :=
  [JSONCall.beginObject key] ++
    (List.range env.cpu.crasheecpu_numRegisters.toNat).map (fun (reg : Nat) =>
      JSONCall.addUIntegerElement (registerKey (env.cpu.crasheecpu_registerName reg) reg)
        (env.cpu.crasheecpu_registerValue machineContext reg)) ++
    [JSONCall.endContainer]

/-- `writeExceptionRegisters`. -/
def writeExceptionRegisters (env : Environment) (key : Option String)
    (machineContext : CrasheeMachineContext) : List JSONCall :=
  [JSONCall.beginObject key] ++
    (List.range env.cpu.crasheecpu_numExceptionRegisters.toNat).map (fun (reg : Nat) =>
      JSONCall.addUIntegerElement
        (registerKey (env.cpu.crasheecpu_exceptionRegisterName reg) reg)
        (env.cpu.crasheecpu_exceptionRegisterValue machineContext reg)) ++
    [JSONCall.endContainer]

/-- `writeRegisters`. -/
def writeRegisters (env : Environment) (key : Option String)
    (machineContext : CrasheeMachineContext) : List JSONCall :=
  [JSONCall.beginObject key] ++
    writeBasicRegisters env (some CrasheeCrashField_Basic) machineContext ++
    (if MachineContext.crasheemc_hasValidExceptionRegisters machineContext then
      writeExceptionRegisters env (some CrasheeCrashField_Exception) machineContext
    else []) ++
    [JSONCall.endContainer]

/-- `writeNotableRegisters`. -/
def writeNotableRegisters (env : Environment) (machineContext : CrasheeMachineContext) :
    List JSONCall :=
  (List.range env.cpu.crasheecpu_numRegisters.toNat).flatMap (fun (reg : Nat) =>
    writeMemoryContentsIfNotable env (registerKey (env.cpu.crasheecpu_registerName reg) reg)
      (env.cpu.crasheecpu_registerValue machineContext reg % 2 ^ 64))

/-- `writeNotableAddresses`. -/
def writeNotableAddresses (env : Environment) (key : Option String)
    (machineContext : CrasheeMachineContext) : List JSONCall :=
  [JSONCall.beginObject key] ++
    writeNotableRegisters env machineContext ++
    writeNotableStackContents env machineContext kStackNotableSearchBackDistance
      kStackNotableSearchForwardDistance ++
    [JSONCall.endContainer]

end CrasheeCrashReport

/-! ## CrasheeCrashReport.c: threads, error, report -/

namespace CrasheeCrashReport

open CrasheeJSON

/-- What `writeThread` writes between opening and closing the thread's object. -/
def writeThreadBody (env : Environment) (crash : CrasheeCrash_MonitorContext)
    (machineContext : CrasheeMachineContext) (threadIndex : Int)
    (shouldWriteNotableAddresses : Bool) : List JSONCall :=
  let isCrashedThread := MachineContext.crasheemc_isCrashedContext machineContext
  let thread := MachineContext.crasheemc_getThreadFromContext machineContext
  let stackCursor := getStackCursor env crash machineContext
  writeBacktrace env (some CrasheeCrashField_Backtrace) stackCursor ++
    ((if MachineContext.crasheemc_canHaveCPUState machineContext then
      writeRegisters env (some CrasheeCrashField_Registers) machineContext
    else []) ++
    ([JSONCall.addIntegerElement (some CrasheeCrashField_Index) threadIndex] ++
    ((match env.services.crasheeccd_getThreadName thread with
      | some name => [JSONCall.addStringElement (some CrasheeCrashField_Name) (some name)]
      | none => []) ++
    ((match env.services.crasheeccd_getQueueName thread with
      | some name =>
        [JSONCall.addStringElement (some CrasheeCrashField_DispatchQueue) (some name)]
      | none => []) ++
    ([JSONCall.addBooleanElement (some CrasheeCrashField_Crashed) isCrashedThread,
      JSONCall.addBooleanElement (some CrasheeCrashField_CurrentThread)
        (thread == env.process.crasheethread_self)] ++
    (if isCrashedThread then
      writeStackContents env (some CrasheeCrashField_Stack) machineContext
          stackCursor.hasGivenUp ++
        (if shouldWriteNotableAddresses then
          writeNotableAddresses env (some CrasheeCrashField_NotableAddresses) machineContext
        else [])
    else []))))))

/-- `writeThread`. -/
def writeThread (env : Environment) (key : Option String) (crash : CrasheeCrash_MonitorContext)
    (machineContext : CrasheeMachineContext) (threadIndex : Int)
    (shouldWriteNotableAddresses : Bool) : List JSONCall :=
  JSONCall.beginObject key ::
    (writeThreadBody env crash machineContext threadIndex shouldWriteNotableAddresses ++
      [JSONCall.endContainer])

/-- One turn of the loop of `writeAllThreads`: the thread at index `i`, written
from the offending context when it is the offending thread and from a context
fetched for it otherwise. -/
def writeThreadAtIndex (env : Environment) (crash : CrasheeCrash_MonitorContext)
    (writeNotableAddresses : Bool) (i : Nat) : List JSONCall :=
  let context := crash.offendingMachineContext
  let offendingThread := MachineContext.crasheemc_getThreadFromContext context
  let thread := MachineContext.crasheemc_getThreadAtIndex context i
  if thread == offendingThread then
    writeThread env none crash context i writeNotableAddresses
  else
    writeThread env none crash
      (MachineContext.crasheemc_getContextForThread env.process thread false).1 i
      writeNotableAddresses

/-- `writeAllThreads`. -/
def writeAllThreads (env : Environment) (key : Option String)
    (crash : CrasheeCrash_MonitorContext) (writeNotableAddresses : Bool) : List JSONCall :=
  let threadCount := MachineContext.crasheemc_getThreadCount crash.offendingMachineContext
  [JSONCall.beginArray key] ++
    (List.range threadCount.toNat).flatMap
      (writeThreadAtIndex env crash writeNotableAddresses) ++
    [JSONCall.endContainer]

/-- `writeBinaryImage`. -/
def writeBinaryImage (env : Environment) (key : Option String) (index : Int) : List JSONCall :=
  match env.services.crasheedl_getBinaryImage index with
  | none => []
  | some image =>
    [JSONCall.beginObject key,
     JSONCall.addUIntegerElement (some CrasheeCrashField_ImageAddress) image.address,
     JSONCall.addUIntegerElement (some CrasheeCrashField_ImageVmAddress) image.vmAddress,
     JSONCall.addUIntegerElement (some CrasheeCrashField_ImageSize) image.size,
     JSONCall.addStringElement (some CrasheeCrashField_Name) image.name] ++
    addUUIDElement (some CrasheeCrashField_UUID) image.uuid ++
    [JSONCall.addIntegerElement (some CrasheeCrashField_CPUType) image.cpuType,
     JSONCall.addIntegerElement (some CrasheeCrashField_CPUSubType) image.cpuSubType,
     JSONCall.addUIntegerElement (some CrasheeCrashField_ImageMajorVersion) image.majorVersion,
     JSONCall.addUIntegerElement (some CrasheeCrashField_ImageMinorVersion) image.minorVersion,
     JSONCall.addUIntegerElement (some CrasheeCrashField_ImageRevisionVersion)
      image.revisionVersion,
     JSONCall.endContainer]

/-- `writeBinaryImages`. -/
def writeBinaryImages (env : Environment) (key : Option String) : List JSONCall :=
  [JSONCall.beginArray key] ++
    (List.range env.services.crasheedl_imageCount.toNat).flatMap
      (fun (iImg : Nat) => writeBinaryImage env none iImg) ++
    [JSONCall.endContainer]

/-- `writeMemoryInfo`. -/
def writeMemoryInfo (key : Option String) (monitorContext : CrasheeCrash_MonitorContext) :
    List JSONCall :=
  [JSONCall.beginObject key,
   JSONCall.addUIntegerElement (some CrasheeCrashField_Size) monitorContext.System.memorySize,
   JSONCall.addUIntegerElement (some CrasheeCrashField_Usable)
    monitorContext.System.usableMemory,
   JSONCall.addUIntegerElement (some CrasheeCrashField_Free) monitorContext.System.freeMemory,
   JSONCall.endContainer]

/-- The "mach" object of `writeError`, written when `CrasheeCRASH_HOST_APPLE`. -/
def writeErrorMach (env : Environment) (crash : CrasheeCrash_MonitorContext) : List JSONCall :=
  let machExceptionName := env.services.crasheemach_exceptionName crash.mach_type
  let machCodeName :=
    if crash.mach_code == 0 then none
    else env.services.crasheemach_kernelReturnCodeName crash.mach_code
  [JSONCall.beginObject (some CrasheeCrashField_Mach),
   JSONCall.addUIntegerElement (some CrasheeCrashField_Exception) (toUInt32 crash.mach_type)] ++
  (match machExceptionName with
    | some name => [JSONCall.addStringElement (some CrasheeCrashField_ExceptionName) (some name)]
    | none => []) ++
  [JSONCall.addUIntegerElement (some CrasheeCrashField_Code) (toUInt32 crash.mach_code)] ++
  (match machCodeName with
    | some name => [JSONCall.addStringElement (some CrasheeCrashField_CodeName) (some name)]
    | none => []) ++
  [JSONCall.addUIntegerElement (some CrasheeCrashField_Subcode) (toUInt64 crash.mach_subcode),
   JSONCall.endContainer]

/-- The "signal" object of `writeError`. -/
def writeErrorSignal (env : Environment) (crash : CrasheeCrash_MonitorContext) :
    List JSONCall :=
  let sigName := env.services.crasheesignal_signalName crash.signal_signum
  let sigCodeName :=
    env.services.crasheesignal_signalCodeName crash.signal_signum crash.signal_sigcode
  [JSONCall.beginObject (some CrasheeCrashField_Signal),
   JSONCall.addUIntegerElement (some CrasheeCrashField_Signal) (toUInt32 crash.signal_signum)] ++
  (match sigName with
    | some name => [JSONCall.addStringElement (some CrasheeCrashField_Name) (some name)]
    | none => []) ++
  [JSONCall.addUIntegerElement (some CrasheeCrashField_Code) (toUInt32 crash.signal_sigcode)] ++
  (match sigCodeName with
    | some name => [JSONCall.addStringElement (some CrasheeCrashField_CodeName) (some name)]
    | none => []) ++
  [JSONCall.endContainer]

/-- What `writeError` writes before its `switch`: the "mach" and "signal"
objects, the fault address and the crash reason, if there is one. -/
def writeErrorCommon (env : Environment) (crash : CrasheeCrash_MonitorContext) :
    List JSONCall :=
  (if env.CrasheeCRASH_HOST_APPLE then writeErrorMach env crash else []) ++
  writeErrorSignal env crash ++
  [JSONCall.addUIntegerElement (some CrasheeCrashField_Address) crash.faultAddress] ++
  (match crash.crashReason with
    | some reason => [JSONCall.addStringElement (some CrasheeCrashField_Reason) (some reason)]
    | none => [])

/-- The "user_reported" object of `writeError`. -/
def writeErrorUserReported (env : Environment) (crash : CrasheeCrash_MonitorContext) :
    List JSONCall :=
  [JSONCall.beginObject (some CrasheeCrashField_UserReported),
   JSONCall.addStringElement (some CrasheeCrashField_Name) crash.userException_name] ++
  (match crash.userException_language with
    | some language =>
      [JSONCall.addStringElement (some CrasheeCrashField_Language) (some language)]
    | none => []) ++
  (match crash.userException_lineOfCode with
    | some lineOfCode =>
      [JSONCall.addStringElement (some CrasheeCrashField_LineOfCode) (some lineOfCode)]
    | none => []) ++
  (match crash.userException_customStackTrace with
    | some customStackTrace =>
      addJSONElement env (some CrasheeCrashField_Backtrace) customStackTrace true
    | none => []) ++
  [JSONCall.endContainer]

/-- The `switch(crash->crashType)` of `writeError`. -/
def writeErrorSpecific (env : Environment) (crash : CrasheeCrash_MonitorContext) :
    List JSONCall :=
  if crash.crashType = CrasheeCrashMonitorTypeMainThreadDeadlock then
    [JSONCall.addStringElement (some CrasheeCrashField_Type) (some CrasheeCrashExcType_Deadlock)]
  else if crash.crashType = CrasheeCrashMonitorTypeMachException then
    [JSONCall.addStringElement (some CrasheeCrashField_Type) (some CrasheeCrashExcType_Mach)]
  else if crash.crashType = CrasheeCrashMonitorTypeCPPException then
    [JSONCall.addStringElement (some CrasheeCrashField_Type)
      (some CrasheeCrashExcType_CPPException),
     JSONCall.beginObject (some CrasheeCrashField_CPPException),
     JSONCall.addStringElement (some CrasheeCrashField_Name) crash.CPPException_name,
     JSONCall.endContainer]
  else if crash.crashType = CrasheeCrashMonitorTypeNSException then
    [JSONCall.addStringElement (some CrasheeCrashField_Type)
      (some CrasheeCrashExcType_NSException),
     JSONCall.beginObject (some CrasheeCrashField_NSException),
     JSONCall.addStringElement (some CrasheeCrashField_Name) crash.NSException_name,
     JSONCall.addStringElement (some CrasheeCrashField_UserInfo) crash.NSException_userInfo] ++
    writeAddressReferencedByString env (some CrasheeCrashField_ReferencedObject)
      crash.crashReason ++
    [JSONCall.endContainer]
  else if crash.crashType = CrasheeCrashMonitorTypeSignal then
    [JSONCall.addStringElement (some CrasheeCrashField_Type) (some CrasheeCrashExcType_Signal)]
  else if crash.crashType = CrasheeCrashMonitorTypeUserReported then
    [JSONCall.addStringElement (some CrasheeCrashField_Type) (some CrasheeCrashExcType_User)] ++
    writeErrorUserReported env crash
  else []

/-- `writeError`. -/
def writeError (env : Environment) (key : Option String) (crash : CrasheeCrash_MonitorContext) :
    List JSONCall :=
  [JSONCall.beginObject key] ++
    (writeErrorCommon env crash ++ writeErrorSpecific env crash) ++
    [JSONCall.endContainer]

/-- `writeAppStats`. -/
def writeAppStats (key : Option String) (monitorContext : CrasheeCrash_MonitorContext) :
    List JSONCall :=
  [JSONCall.beginObject key,
   JSONCall.addBooleanElement (some CrasheeCrashField_AppActive)
    monitorContext.AppState.applicationIsActive,
   JSONCall.addBooleanElement (some CrasheeCrashField_AppInFG)
    monitorContext.AppState.applicationIsInForeground,
   JSONCall.addIntegerElement (some CrasheeCrashField_LaunchesSinceCrash)
    monitorContext.AppState.launchesSinceLastCrash,
   JSONCall.addIntegerElement (some CrasheeCrashField_SessionsSinceCrash)
    monitorContext.AppState.sessionsSinceLastCrash,
   JSONCall.addFloatingPointElement (some CrasheeCrashField_ActiveTimeSinceCrash)
    monitorContext.AppState.activeDurationSinceLastCrash,
   JSONCall.addFloatingPointElement (some CrasheeCrashField_BGTimeSinceCrash)
    monitorContext.AppState.backgroundDurationSinceLastCrash,
   JSONCall.addIntegerElement (some CrasheeCrashField_SessionsSinceLaunch)
    monitorContext.AppState.sessionsSinceLaunch,
   JSONCall.addFloatingPointElement (some CrasheeCrashField_ActiveTimeSinceLaunch)
    monitorContext.AppState.activeDurationSinceLaunch,
   JSONCall.addFloatingPointElement (some CrasheeCrashField_BGTimeSinceLaunch)
    monitorContext.AppState.backgroundDurationSinceLaunch,
   JSONCall.endContainer]

/-- `writeProcessState`. -/
def writeProcessState (env : Environment) (key : Option String)
    (monitorContext : CrasheeCrash_MonitorContext) : List JSONCall :=
  [JSONCall.beginObject key] ++
    (if monitorContext.ZombieException_address != 0 then
      [JSONCall.beginObject (some CrasheeCrashField_LastDeallocedNSException),
       JSONCall.addUIntegerElement (some CrasheeCrashField_Address)
        monitorContext.ZombieException_address,
       JSONCall.addStringElement (some CrasheeCrashField_Name)
        monitorContext.ZombieException_name,
       JSONCall.addStringElement (some CrasheeCrashField_Reason)
        monitorContext.ZombieException_reason] ++
      writeAddressReferencedByString env (some CrasheeCrashField_ReferencedObject)
        monitorContext.ZombieException_reason ++
      [JSONCall.endContainer]
    else []) ++
    [JSONCall.endContainer]

/-- `writeReportInfo`; the time of day comes from the environment. -/
def writeReportInfo (env : Environment) (key : Option String) (type : String)
    (reportID processName : Option String) : List JSONCall :=
  let microseconds :=
    toSigned 64 (toUInt64 (env.services.tv_sec * 1000000 + env.services.tv_usec))
  [JSONCall.beginObject key,
   JSONCall.addStringElement (some CrasheeCrashField_Version)
    (some env.CrasheeCRASH_REPORT_VERSION),
   JSONCall.addStringElement (some CrasheeCrashField_ID) reportID,
   JSONCall.addStringElement (some CrasheeCrashField_ProcessName) processName,
   JSONCall.addIntegerElement (some CrasheeCrashField_Timestamp) microseconds,
   JSONCall.addStringElement (some CrasheeCrashField_Type) (some type),
   JSONCall.endContainer]

/-- `writeSystemInfo`. -/
def writeSystemInfo (key : Option String) (monitorContext : CrasheeCrash_MonitorContext) :
    List JSONCall :=
  [JSONCall.beginObject key,
   JSONCall.addStringElement (some CrasheeCrashField_SystemName)
    monitorContext.System.systemName,
   JSONCall.addStringElement (some CrasheeCrashField_SystemVersion)
    monitorContext.System.systemVersion,
   JSONCall.addStringElement (some CrasheeCrashField_Machine) monitorContext.System.machine,
   JSONCall.addStringElement (some CrasheeCrashField_Model) monitorContext.System.model,
   JSONCall.addStringElement (some CrasheeCrashField_KernelVersion)
    monitorContext.System.kernelVersion,
   JSONCall.addStringElement (some CrasheeCrashField_OSVersion) monitorContext.System.osVersion,
   JSONCall.addBooleanElement (some CrasheeCrashField_Jailbroken)
    monitorContext.System.isJailbroken,
   JSONCall.addStringElement (some CrasheeCrashField_BootTime) monitorContext.System.bootTime,
   JSONCall.addStringElement (some CrasheeCrashField_AppStartTime)
    monitorContext.System.appStartTime,
   JSONCall.addStringElement (some CrasheeCrashField_ExecutablePath)
    monitorContext.System.executablePath,
   JSONCall.addStringElement (some CrasheeCrashField_Executable)
    monitorContext.System.executableName,
   JSONCall.addStringElement (some CrasheeCrashField_BundleID) monitorContext.System.bundleID,
   JSONCall.addStringElement (some CrasheeCrashField_BundleName)
    monitorContext.System.bundleName,
   JSONCall.addStringElement (some CrasheeCrashField_BundleVersion)
    monitorContext.System.bundleVersion,
   JSONCall.addStringElement (some CrasheeCrashField_BundleShortVersion)
    monitorContext.System.bundleShortVersion,
   JSONCall.addStringElement (some CrasheeCrashField_AppUUID) monitorContext.System.appID,
   JSONCall.addStringElement (some CrasheeCrashField_CPUArch)
    monitorContext.System.cpuArchitecture,
   JSONCall.addIntegerElement (some CrasheeCrashField_CPUType) monitorContext.System.cpuType,
   JSONCall.addIntegerElement (some CrasheeCrashField_CPUSubType)
    monitorContext.System.cpuSubType,
   JSONCall.addIntegerElement (some CrasheeCrashField_BinaryCPUType)
    monitorContext.System.binaryCPUType,
   JSONCall.addIntegerElement (some CrasheeCrashField_BinaryCPUSubType)
    monitorContext.System.binaryCPUSubType,
   JSONCall.addStringElement (some CrasheeCrashField_TimeZone) monitorContext.System.timezone,
   JSONCall.addStringElement (some CrasheeCrashField_ProcessName)
    monitorContext.System.processName,
   JSONCall.addIntegerElement (some CrasheeCrashField_ProcessID)
    monitorContext.System.processID,
   JSONCall.addIntegerElement (some CrasheeCrashField_ParentProcessID)
    monitorContext.System.parentProcessID,
   JSONCall.addStringElement (some CrasheeCrashField_DeviceAppHash)
    monitorContext.System.deviceAppHash,
   JSONCall.addStringElement (some CrasheeCrashField_BuildType) monitorContext.System.buildType,
   JSONCall.addIntegerElement (some CrasheeCrashField_Storage)
    (toSigned 64 monitorContext.System.storageSize)] ++
    writeMemoryInfo (some CrasheeCrashField_Memory) monitorContext ++
    writeAppStats (some CrasheeCrashField_AppStats) monitorContext ++
    [JSONCall.endContainer]

/-- `writeDebugInfo`. -/
def writeDebugInfo (env : Environment) (key : Option String)
    (monitorContext : CrasheeCrash_MonitorContext) : List JSONCall :=
  [JSONCall.beginObject key] ++
    (match monitorContext.consoleLogPath with
      | some consoleLogPath =>
        addTextLinesFromFile env (some CrasheeCrashField_ConsoleLog) consoleLogPath
      | none => []) ++
    [JSONCall.endContainer]

/-- The "user" section of `crasheecrashreport_writeStandardReport`, up to the
`endContainer` meant to close it: the configured user JSON, added with
`closeLastContainer` false, or else an opened object; then the calls of the
user-section callback, unless the snapshot is user-reported. -/
def writeUserSection (env : Environment) (monitorContext : CrasheeCrash_MonitorContext) :
    List JSONCall :=
  (match env.g_userInfoJSON with
    | some userInfoJSON => addJSONElement env (some CrasheeCrashField_User) userInfoJSON false
    | none => [JSONCall.beginObject (some CrasheeCrashField_User)]) ++
  (match env.g_userSectionWriteCallback with
    | some callback => if monitorContext.currentSnapshotUserReported == false then callback else []
    | none => []) ++
  [JSONCall.endContainer]

/-- `crasheecrashreport_writeStandardReport`: the codec calls made between
`crasheejson_beginEncode` and `crasheejson_endEncode`; none when the report file
cannot be opened. -/
def crasheecrashreport_writeStandardReport (env : Environment)
    (monitorContext : CrasheeCrash_MonitorContext) (path : String) : List JSONCall :=
  if !env.services.crasheefu_openBufferedWriter path then []
  else
    [JSONCall.beginObject (some CrasheeCrashField_Report)] ++
      writeReportInfo env (some CrasheeCrashField_Report) CrasheeCrashReportType_Standard
        monitorContext.eventID monitorContext.System.processName ++
      writeBinaryImages env (some CrasheeCrashField_BinaryImages) ++
      writeProcessState env (some CrasheeCrashField_ProcessState) monitorContext ++
      writeSystemInfo (some CrasheeCrashField_System) monitorContext ++
      [JSONCall.beginObject (some CrasheeCrashField_Crash)] ++
      writeError env (some CrasheeCrashField_Error) monitorContext ++
      writeAllThreads env (some CrasheeCrashField_Threads) monitorContext
        env.g_introspectionRules.enabled ++
      [JSONCall.endContainer] ++
      writeUserSection env monitorContext ++
      writeDebugInfo env (some CrasheeCrashField_Debug) monitorContext ++
      [JSONCall.endContainer]

end CrasheeCrashReport

/-! ## A concrete report environment

Capabilities that find nothing: no Objective-C object at any address, no readable
memory, no registers, no binary images, no named threads. The environments below
change one capability at a time. -/

namespace Example

open CrasheeCrashReport CrasheeJSON

/-- An Objective-C runtime that knows no object. -/
def objc : ObjC :=
  { crasheeobjc_objectType := fun _ => CrasheeObjCType.CrasheeObjCTypeUnknown
    crasheeobjc_className := fun _ => ""
    crasheeobjc_objectClassName := fun _ => ""
    crasheeobjc_objectClassType := fun _ => CrasheeObjCClassType.CrasheeObjCClassTypeUnknown
    crasheeobjc_copyStringContents := fun _ _ => none
    crasheeobjc_dateContents := fun _ => 0
    crasheeobjc_numberAsFloat := fun _ => 0
    crasheeobjc_arrayContents := fun _ _ => []
    crasheeobjc_isTaggedPointer := fun _ => false
    crasheeobjc_isValidTaggedPointer := fun _ => false
    crasheeobjc_taggedPointerPayload := fun _ => 0
    crasheeobjc_isaPointer := fun object => object
    crasheeobjc_ivarList := fun _ _ => []
    crasheeobjc_ivarValue := fun _ _ => 0
    floatToDouble := fun bits => bits }

/-- Memory of which nothing can be read. -/
def memory : Memory :=
  { crasheemem_copySafely := fun _ _ => none
    crasheestring_isNullTerminatedUTF8String := fun _ _ _ => false
    crasheestring_extractHexValue := fun _ _ => none
    stringAt := fun _ => "" }

/-- A CPU with no registers and a stack growing down; the stack pointer is the
first saved word of the machine context, null when there is none. -/
def cpu : CPU :=
  { crasheecpu_stackPointer := fun context => context.machineContext.headD 0
    crasheecpu_stackGrowDirection := -1
    crasheecpu_numRegisters := 0
    crasheecpu_registerName := fun _ => none
    crasheecpu_registerValue := fun _ _ => 0
    crasheecpu_numExceptionRegisters := 0
    crasheecpu_exceptionRegisterName := fun _ => none
    crasheecpu_exceptionRegisterValue := fun _ _ => 0 }

/-- Modelled from the spec: the JSON codec where it takes a whole fragment, "embedded
pre-validated JSON fragment (malformed fragments are caught and replaced with an
error+raw-text object rather than corrupting the stream)". This one accepts only
the empty object, for which it opens an object under the key and closes it when
asked to close the last container; any other fragment it rejects with the code
of an invalid character, writing nothing. -/
def codec : Codec :=
  { crasheejson_addJSONElement := fun key jsonElement _ closeLastContainer =>
      if jsonElement == "\x7b\x7d" then
        (CrasheeJSON_OK,
          [JSONCall.beginObject key] ++
            (if closeLastContainer then [JSONCall.endContainer] else []))
      else (2, [])
    crasheejson_stringForError := fun _ => "Invalid character" }

/-- Collaborators that know no name and no image; the report file can be opened
and there is no console log. -/
def services : Services :=
  { crasheemach_exceptionName := fun _ => none
    crasheemach_kernelReturnCodeName := fun _ => none
    crasheesignal_signalName := fun _ => none
    crasheesignal_signalCodeName := fun _ _ => none
    crasheeccd_getThreadName := fun _ => none
    crasheeccd_getQueueName := fun _ => none
    crasheedl_imageCount := 0
    crasheedl_getBinaryImage := fun _ => none
    crasheefu_lastPathEntry := fun path => some path
    crasheefu_openBufferedWriter := fun _ => true
    consoleLines := fun _ => none
    tv_sec := 0
    tv_usec := 0 }

/-- A process of three threads, called from thread 1, whose stack cursors yield
no frame. -/
def process : MachineContext.Process :=
  { CrasheeCRASH_HAS_THREADS_API := true
    maxThreadCount := 100
    CrasheeSC_STACK_OVERFLOW_THRESHOLD := 150
    crasheethread_self := 1
    task_threads := some [1, 2, 3]
    crasheecpu_getState := fun context => context
    crasheesc_initWithMachineContext := fun _ _ => {} }

/-- The report environment of those capabilities, with nothing configured. -/
def env : Environment :=
  { CrasheeCRASH_HAS_OBJC := true
    CrasheeCRASH_HOST_APPLE := true
    CrasheeCRASH_REPORT_VERSION := "3.2.0"
    g_userInfoJSON := none
    g_introspectionRules := {}
    g_userSectionWriteCallback := none
    objc := objc
    memory := memory
    cpu := cpu
    codec := codec
    services := services
    process := process }

/-- A chain of objects: the addresses 1 to 13 hold arrays, each with the next
address as its first object; address 14 holds an object of an unknown class with
one ivar, a null object pointer. -/
def chainEnv : Environment :=
  { env with
    objc :=
      { objc with
        crasheeobjc_objectType := fun address =>
          if 1 ≤ address ∧ address ≤ 14 then CrasheeObjCType.CrasheeObjCTypeObject
          else CrasheeObjCType.CrasheeObjCTypeUnknown
        crasheeobjc_objectClassName := fun address => if address ≤ 13 then "NSArray" else "Node"
        crasheeobjc_objectClassType := fun address =>
          if address ≤ 13 then CrasheeObjCClassType.CrasheeObjCClassTypeArray
          else CrasheeObjCClassType.CrasheeObjCClassTypeUnknown
        crasheeobjc_arrayContents := fun address _ => [address + 1]
        crasheeobjc_ivarList := fun _ _ => [{ name := some "next", type := "@", index := 0 }] } }

/-- One object, at address 4096, of the class `Secret`, which is on the list of
classes not to introspect. -/
def secretEnv : Environment :=
  { env with
    g_introspectionRules :=
      { enabled := true, restrictedClasses := some ["Secret"], restrictedClassesCount := 1 }
    objc :=
      { objc with
        crasheeobjc_objectType := fun address =>
          if address = 4096 then CrasheeObjCType.CrasheeObjCTypeObject
          else CrasheeObjCType.CrasheeObjCTypeUnknown
        crasheeobjc_objectClassName := fun _ => "Secret" } }

/-- A crash on thread 2 of a process of three threads (1, 2 and 3), caught by the
signal monitor: the offending context is a crashed signal context with the stack
pointer 4096, and the stack cursor yields one frame. -/
def crash : CrasheeCrash_MonitorContext :=
  { crashType := CrasheeCrashMonitorTypeSignal
    eventID := some "event-1"
    signal_signum := 11
    faultAddress := 16
    offendingMachineContext :=
      { thisThread := 2
        isCrashedContext := true
        isSignalContext := true
        allThreads := [1, 2, 3]
        threadCount := 3
        machineContext := [4096] }
    stackCursor := { frames := [{ address := 8192 }] } }

/-- A user-reported exception named `Boom`, reported from thread 2, with a custom
stack trace that the codec accepts. -/
def userCrash : CrasheeCrash_MonitorContext :=
  { crash with
    crashType := CrasheeCrashMonitorTypeUserReported
    currentSnapshotUserReported := true
    userException_name := some "Boom"
    userException_language := some "swift"
    userException_customStackTrace := some "\x7b\x7d" }

/-- The report environment with a user-info string that is not JSON. -/
def malformedEnv : Environment :=
  { env with g_userInfoJSON := some "oops" }

/-- The process of `process` with 101 threads, named 0 to 100; `allThreads` has
100 elements. -/
def crowdedProcess : MachineContext.Process :=
  { process with task_threads := some (List.range 101) }

/-- A machine context as `crasheemc_getContextForThread` zeroes it in that
process: `allThreads` holds 100 zeroed elements. -/
def zeroedContext : CrasheeMachineContext :=
  { allThreads := List.replicate 100 0 }

end Example

namespace CrasheeCrashReport

open CrasheeJSON

/-- The local `copyLength` of `writeStackContents` for the stack pointer `sp`:
`(int)(highAddress - lowAddress)`, the number of bytes it asks
`crasheemem_copySafely` to copy into `stackBuffer`. -/
def copyLength (env : Environment) (sp : Nat) : Int :=
  toSigned 32
    ((stackBounds env sp kStackContentsPushedDistance kStackContentsPoppedDistance).2 -
      (stackBounds env sp kStackContentsPushedDistance kStackContentsPoppedDistance).1)

/-- The size of `stackBuffer` in `writeStackContents`:
`kStackContentsTotalDistance * sizeof(sp)` bytes. -/
def sizeofStackBuffer : Nat :=
  kStackContentsTotalDistance.toNat * sizeofPointer

/-! ### The recrash report

A path is a C string; a Lean string stands for one with each character one
`char`. -/

/-- The `char` that ends a C string. -/
def NUL : Char := Char.ofNat 0

/-- The C string a Lean string gives: its characters up to the first NUL. -/
def cString (s : String) : List Char :=
  s.data.takeWhile (fun c => c != NUL)

/-- `strlen` of the C string that starts a buffer; `none` when the buffer holds
no NUL, so that the read runs past its end. -/
def strlen (buffer : List Char) : Option Nat :=
  if buffer.contains NUL then some (buffer.takeWhile (fun c => c != NUL)).length else none

/-- `strncpy(dst + offset, src, n)` on the buffer `dst`: exactly `n` characters are
written, those of `src` up to `n` of them and NULs for the rest; `none` when one
of them falls outside the buffer. -/
def strncpy (dst : List Char) (offset : Int) (src : List Char) (n : Nat) :
    Option (List Char) :=
  if 0 ≤ offset ∧ offset.toNat + n ≤ dst.length then
    some (dst.take offset.toNat ++ (src.take n ++ List.replicate (n - src.length) NUL) ++
      dst.drop (offset.toNat + n))
  else none

/-- A call `crasheecrashreport_writeRecrashReport` makes on the file system. -/
inductive FileCall where
  | rename (oldPath newPath : String)
  | remove (path : String)
deriving DecidableEq, Repr

/-- What `crasheecrashreport_writeRecrashReport` leaves behind: the static buffer
`tempPath`, the file-system calls and the codec calls made between
`crasheejson_beginEncode` and `crasheejson_endEncode`. -/
structure RecrashReport where
  tempPath : List Char
  fileCalls : List FileCall
  report : List JSONCall
deriving DecidableEq, Repr

/-- `writeRecrash`. -/
def writeRecrash (key : Option String) (crashReportPath : String) : List JSONCall :=
  [JSONCall.addJSONFromFile key crashReportPath true]

/-- `crasheecrashreport_writeRecrashReport`, given the static buffer `tempPath` as
the call finds it and its size `CrasheeFU_MAX_PATH_LENGTH` (`CrasheeFileUtils.h`
is not among the sources); `none` when a `strncpy` writes outside the buffer or
`strlen` reads past its end. A failing `rename` or `remove` is only logged. -/
def crasheecrashreport_writeRecrashReport (env : Environment)
    (CrasheeFU_MAX_PATH_LENGTH : Nat) (tempPath : List Char)
    (monitorContext : CrasheeCrash_MonitorContext) (path : String) : Option RecrashReport :=
  match strncpy tempPath 0 (cString path) (toUInt64 ((CrasheeFU_MAX_PATH_LENGTH : Int) - 10)) with
  | none => none
  | some copied =>
    match strlen copied with
    | none => none
    | some length =>
      match strncpy copied ((length : Int) - 5) (cString ".old") 5 with
      | none => none
      | some tempPath =>
        let temp := String.mk (tempPath.takeWhile (fun c => c != NUL))
        if !env.services.crasheefu_openBufferedWriter path then
          some { tempPath := tempPath, fileCalls := [FileCall.rename path temp], report := [] }
        else
          let threadIndex := MachineContext.crasheemc_indexOfThread
            monitorContext.offendingMachineContext
            (MachineContext.crasheemc_getThreadFromContext
              monitorContext.offendingMachineContext)
          some
            { tempPath := tempPath
              fileCalls := [FileCall.rename path temp, FileCall.remove temp]
              report :=
                [JSONCall.beginObject (some CrasheeCrashField_Report)] ++
                  writeRecrash (some CrasheeCrashField_RecrashReport) temp ++
                  writeReportInfo env (some CrasheeCrashField_Report)
                    CrasheeCrashReportType_Minimal monitorContext.eventID
                    monitorContext.System.processName ++
                  [JSONCall.beginObject (some CrasheeCrashField_Crash)] ++
                  writeError env (some CrasheeCrashField_Error) monitorContext ++
                  writeThread env (some CrasheeCrashField_CrashedThread) monitorContext
                    monitorContext.offendingMachineContext threadIndex false ++
                  [JSONCall.endContainer] ++
                  [JSONCall.endContainer] }

end CrasheeCrashReport

namespace CrasheeCrashMonitor

/-- The calls that leave a registered event callback registered: all but
`crasheecm_setEventCallback(NULL)`. -/
def Op.keepsEventCallback {W : Type} : Op W → Bool
  | Op.setEventCallback none => false
  | _ => true

end CrasheeCrashMonitor

namespace Example

/-- The registry of `armedRegistry` after a second fatal exception was captured
while the first was being handled: a recrash has been detected. -/
def recrashedRegistry : CrasheeCrashMonitor.Registry World :=
  (CrasheeCrashMonitor.crasheecm_notifyFatalExceptionCaptured build false armedRegistry).2

/-- Calls of every kind, made after the recrash was detected. -/
def laterOps : List (CrasheeCrashMonitor.Op World) :=
  [CrasheeCrashMonitor.Op.setActiveMonitors CrasheeCrashMonitorTypeAll,
    CrasheeCrashMonitor.Op.handleException { currentSnapshotUserReported := true },
    CrasheeCrashMonitor.Op.handleException {},
    CrasheeCrashMonitor.Op.notifyFatalExceptionCaptured false,
    CrasheeCrashMonitor.Op.setActiveMonitors CrasheeCrashMonitorTypeAll]

/-- The registry those calls lead to. -/
def laterRun : CrasheeCrashMonitor.Registry World :=
  (CrasheeCrashMonitor.runOps build laterOps recrashedRegistry).getD recrashedRegistry

end Example

/-! ## CrasheeCrashMonitor_AppState.c

`CrasheeCrashMonitor_AppState.h`, `CrasheeJSONCodec.h` and `CrasheeFileUtils.h`
are not among the sources. The clock, arithmetic on `double`, the file system and
the results of the codec are parameters of the functions below. -/

namespace CrasheeCrashMonitor_AppState

open CrasheeJSON

/-- `kFormatVersion`. -/
def kFormatVersion : Int := 1

/-- `kKeyFormatVersion`. -/
def kKeyFormatVersion : String := "version"

/-- `kKeyCrashedLastLaunch`. -/
def kKeyCrashedLastLaunch : String := "crashedLastLaunch"

/-- `kKeyActiveDurationSinceLastCrash`. -/
def kKeyActiveDurationSinceLastCrash : String := "activeDurationSinceLastCrash"

/-- `kKeyBackgroundDurationSinceLastCrash`. -/
def kKeyBackgroundDurationSinceLastCrash : String := "backgroundDurationSinceLastCrash"

/-- `kKeyLaunchesSinceLastCrash`. -/
def kKeyLaunchesSinceLastCrash : String := "launchesSinceLastCrash"

/-- `kKeySessionsSinceLastCrash`. -/
def kKeySessionsSinceLastCrash : String := "sessionsSinceLastCrash"

/-- `kKeySessionsSinceLaunch`. -/
def kKeySessionsSinceLaunch : String := "sessionsSinceLaunch"

/-- The value an `int` holds when the exact result of a conversion or of `++`
is `x`: `x` itself when it fits 32 bits, else `x` wrapped around. (Overflow of
`++` on an `int` is undefined in C; two's-complement hardware wraps.) -/
def toInt (x : Int) : Int :=
  (x + 2 ^ 31) % 2 ^ 32 - 2 ^ 31

/-- The values of the type `int`. -/
def IsInt (x : Int) : Prop :=
  -2 ^ 31 ≤ x ∧ x < 2 ^ 31

/-- The fields of `CrasheeCrash_AppState` that the sources use; the counters are
of the type `int`. -/
structure CrasheeCrash_AppState where
  activeDurationSinceLastCrash : CDouble := 0
  backgroundDurationSinceLastCrash : CDouble := 0
  launchesSinceLastCrash : Int := 0
  sessionsSinceLastCrash : Int := 0
  activeDurationSinceLaunch : CDouble := 0
  backgroundDurationSinceLaunch : CDouble := 0
  sessionsSinceLaunch : Int := 0
  crashedLastLaunch : Bool := false
  crashedThisLaunch : Bool := false
  appStateTransitionTime : CDouble := 0
  applicationIsActive : Bool := false
  applicationIsInForeground : Bool := false
deriving DecidableEq, Repr

/-- One call `crasheejson_decode` makes on a callback of
`CrasheeJSONDecodeCallbacks`, with its arguments but the user data. -/
inductive DecodeEvent where
  | onBooleanElement (name : String) (value : Bool)
  | onFloatingPointElement (name : String) (value : CDouble)
  | onIntegerElement (name : String) (value : Int)
  | onNullElement (name : String)
  | onStringElement (name : String) (value : String)
  | onBeginObject (name : Option String)
  | onBeginArray (name : Option String)
  | onEndContainer
  | onEndData
deriving DecidableEq, Repr

/-- What the monitor is compiled and run against: the codec's result codes other
than `CrasheeJSON_OK`, addition, subtraction and conversion from `int64_t` for
`double`, the time `getCurentTime` computes at its `n`-th call in the process,
whether `open` for writing succeeds for a path (`NULL` is `none`), the result of a
codec call on the open file and of `crasheejson_endEncode`, and for a path the
callback calls the decoder makes for the file there with its own result (`none`
when the file cannot be opened or read). -/
structure Platform where
  CrasheeJSON_ERROR_INVALID_DATA : Int
  add : CDouble → CDouble → CDouble
  sub : CDouble → CDouble → CDouble
  ofInt64 : Int → CDouble
  gettimeofday : Nat → CDouble
  openForWriting : Option String → Bool
  encode : JSONCall → Int
  crasheejson_endEncode : Int
  readEntireFile : Option String → Option (List DecodeEvent × Int)

/-- A state file `saveState` has opened: its path, the codec calls made on it, in
order, and whether `crasheejson_endEncode` was reached. -/
structure StateFile where
  path : Option String
  calls : List JSONCall
  ended : Bool
deriving DecidableEq, Repr

/-- The globals `g_stateFilePath`, `g_state` and `g_isEnabled`, the number of
`getCurentTime` calls made so far and the state files written so far, oldest
first. -/
structure State where
  g_stateFilePath : Option String := none
  g_state : CrasheeCrash_AppState := {}
  g_isEnabled : Bool := false
  timeReads : Nat := 0
  files : List StateFile := []
deriving DecidableEq, Repr

/-- `onBooleanElement`. -/
def onBooleanElement (name : String) (value : Bool) (state : CrasheeCrash_AppState) :
    Int × CrasheeCrash_AppState :=
  let state :=
    if name == kKeyCrashedLastLaunch then { state with crashedLastLaunch := value } else state
  (CrasheeJSON_OK, state)

/-- `onFloatingPointElement`. -/
def onFloatingPointElement (name : String) (value : CDouble) (state : CrasheeCrash_AppState) :
    Int × CrasheeCrash_AppState :=
  let state :=
    if name == kKeyActiveDurationSinceLastCrash then
      { state with activeDurationSinceLastCrash := value }
    else state
  let state :=
    if name == kKeyBackgroundDurationSinceLastCrash then
      { state with backgroundDurationSinceLastCrash := value }
    else state
  (CrasheeJSON_OK, state)

/-- `onIntegerElement`. -/
def onIntegerElement (p : Platform) (name : String) (value : Int)
    (state : CrasheeCrash_AppState) : Int × CrasheeCrash_AppState :=
  if name == kKeyFormatVersion then
    if value != kFormatVersion then (p.CrasheeJSON_ERROR_INVALID_DATA, state)
    else onFloatingPointElement name (p.ofInt64 value) state
  else if name == kKeyLaunchesSinceLastCrash then
    onFloatingPointElement name (p.ofInt64 value)
      { state with launchesSinceLastCrash := toInt value }
  else if name == kKeySessionsSinceLastCrash then
    onFloatingPointElement name (p.ofInt64 value)
      { state with sessionsSinceLastCrash := toInt value }
  else onFloatingPointElement name (p.ofInt64 value) state

/-- The callback `crasheejson_decode` calls for an event, as `loadState` sets the
callbacks up; `onNullElement`, `onStringElement`, `onBeginObject`, `onBeginArray`,
`onEndContainer` and `onEndData` return `CrasheeJSON_OK` and do nothing else. -/
def DecodeEvent.call (p : Platform) (event : DecodeEvent) (state : CrasheeCrash_AppState) :
    Int × CrasheeCrash_AppState :=
  match event with
  | DecodeEvent.onBooleanElement name value =>
    CrasheeCrashMonitor_AppState.onBooleanElement name value state
  | DecodeEvent.onFloatingPointElement name value =>
    CrasheeCrashMonitor_AppState.onFloatingPointElement name value state
  | DecodeEvent.onIntegerElement name value =>
    CrasheeCrashMonitor_AppState.onIntegerElement p name value state
  | DecodeEvent.onNullElement _ => (CrasheeJSON_OK, state)
  | DecodeEvent.onStringElement _ _ => (CrasheeJSON_OK, state)
  | DecodeEvent.onBeginObject _ => (CrasheeJSON_OK, state)
  | DecodeEvent.onBeginArray _ => (CrasheeJSON_OK, state)
  | DecodeEvent.onEndContainer => (CrasheeJSON_OK, state)
  | DecodeEvent.onEndData => (CrasheeJSON_OK, state)

/-- Modelled from the spec: `crasheejson_decode`, "decode-with-callbacks for
loading persisted state". It makes the callback calls for the document in order,
each on the user data as the call before left it; when a callback returns a
result other than `CrasheeJSON_OK` it stops and returns that result, and after
the last call it returns its own result for the document. -/
def crasheejson_decode (p : Platform) :
    List DecodeEvent → Int → CrasheeCrash_AppState → Int × CrasheeCrash_AppState
  | [], result, state => (result, state)
  | event :: rest, result, state =>
    if (event.call p state).1 != CrasheeJSON_OK then event.call p state
    else crasheejson_decode p rest result (event.call p state).2

/-- `getCurentTime`: the time read and the state with the read counted. -/
def getCurentTime (p : Platform) (s : State) : CDouble × State :=
  (p.gettimeofday s.timeReads, { s with timeReads := s.timeReads + 1 })

/-- `timeSince`. -/
def timeSince (p : Platform) (timeInSeconds : CDouble) (s : State) : CDouble × State :=
  (p.sub (getCurentTime p s).1 timeInSeconds, (getCurentTime p s).2)

/-- `loadState`. -/
def loadState (p : Platform) (path : Option String) (s : State) : Bool × State :=
  match p.readEntireFile path with
  | none => (false, s)
  | some (events, result) =>
    let decoded := crasheejson_decode p events result s.g_state
    (decoded.1 == CrasheeJSON_OK, { s with g_state := decoded.2 })

/-- The codec calls `saveState` makes before `crasheejson_endEncode` when none of
them fails. -/
def saveStateCalls (g_state : CrasheeCrash_AppState) : List JSONCall :=
  [JSONCall.beginObject none,
   JSONCall.addIntegerElement (some kKeyFormatVersion) kFormatVersion,
   JSONCall.addBooleanElement (some kKeyCrashedLastLaunch) g_state.crashedThisLaunch,
   JSONCall.addFloatingPointElement (some kKeyActiveDurationSinceLastCrash)
    g_state.activeDurationSinceLastCrash,
   JSONCall.addFloatingPointElement (some kKeyBackgroundDurationSinceLastCrash)
    g_state.backgroundDurationSinceLastCrash,
   JSONCall.addIntegerElement (some kKeyLaunchesSinceLastCrash) g_state.launchesSinceLastCrash,
   JSONCall.addIntegerElement (some kKeySessionsSinceLastCrash) g_state.sessionsSinceLastCrash]

/-- The codec calls of a list made up to the first whose result is not
`CrasheeJSON_OK`, that one included, and the last result (`goto done`). -/
def encodeUntilError (p : Platform) : List JSONCall → List JSONCall × Int
  | [] => ([], CrasheeJSON_OK)
  | call :: rest =>
    if p.encode call != CrasheeJSON_OK then ([call], p.encode call)
    else (call :: (encodeUntilError p rest).1, (encodeUntilError p rest).2)

/-- `saveState`. -/
def saveState (p : Platform) (path : Option String) (s : State) : Bool × State :=
  if !p.openForWriting path then (false, s)
  else
    let made := encodeUntilError p (saveStateCalls s.g_state)
    if made.2 != CrasheeJSON_OK then
      (false, { s with files := s.files ++ [{ path := path, calls := made.1, ended := false }] })
    else
      (p.crasheejson_endEncode == CrasheeJSON_OK,
        { s with files := s.files ++ [{ path := path, calls := made.1, ended := true }] })

/-- `updateAppState`. -/
def updateAppState (p : Platform) (s : State) : State :=
  let duration := (timeSince p s.g_state.appStateTransitionTime s).1
  let s := (timeSince p s.g_state.appStateTransitionTime s).2
  let s := { (getCurentTime p s).2 with
    g_state := { s.g_state with appStateTransitionTime := (getCurentTime p s).1 } }
  if s.g_state.applicationIsActive then
    { s with g_state := { s.g_state with
        activeDurationSinceLaunch := p.add s.g_state.activeDurationSinceLaunch duration
        activeDurationSinceLastCrash := p.add s.g_state.activeDurationSinceLastCrash duration } }
  else if !s.g_state.applicationIsInForeground then
    { s with g_state := { s.g_state with
        backgroundDurationSinceLaunch := p.add s.g_state.backgroundDurationSinceLaunch duration
        backgroundDurationSinceLastCrash :=
          p.add s.g_state.backgroundDurationSinceLastCrash duration } }
  else s

/-- `crasheecrashstate_initialize`. -/
def crasheecrashstate_initialize (p : Platform) (stateFilePath : String) (s : State) : State :=
  (loadState p (some stateFilePath) { s with g_stateFilePath := some stateFilePath }).2

/-- `crasheecrashstate_reset`. -/
def crasheecrashstate_reset (p : Platform) (s : State) : Bool × State :=
  if s.g_isEnabled then
    let g := { s.g_state with
      sessionsSinceLaunch := 1
      activeDurationSinceLaunch := 0
      backgroundDurationSinceLaunch := 0 }
    let g :=
      if g.crashedLastLaunch then
        { g with
          activeDurationSinceLastCrash := 0
          backgroundDurationSinceLastCrash := 0
          launchesSinceLastCrash := 0
          sessionsSinceLastCrash := 0 }
      else g
    let g := { g with crashedThisLaunch := false }
    let g := { g with launchesSinceLastCrash := toInt (g.launchesSinceLastCrash + 1) }
    let g := { g with sessionsSinceLastCrash := toInt (g.sessionsSinceLastCrash + 1) }
    let g := { g with applicationIsInForeground := true }
    saveState p s.g_stateFilePath { s with g_state := g }
  else (false, s)

/-- `crasheecrashstate_notifyObjCLoad`. -/
def crasheecrashstate_notifyObjCLoad (p : Platform) (s : State) : State :=
  { (getCurentTime p s).2 with
    g_state :=
      { applicationIsInForeground := false
        applicationIsActive := true
        appStateTransitionTime := (getCurentTime p s).1 } }

/-- `crasheecrashstate_notifyAppActive`. The `CrasheeLOG_TRACE` statements of this
file, one of which has a `getCurentTime()` call among its arguments, expand to
nothing at the default log level. -/
def crasheecrashstate_notifyAppActive (p : Platform) (isActive : Bool) (s : State) : State :=
  if s.g_isEnabled then
    let s := { s with g_state := { s.g_state with applicationIsActive := isActive } }
    if isActive then
      { (getCurentTime p s).2 with
        g_state := { s.g_state with appStateTransitionTime := (getCurentTime p s).1 } }
    else
      let duration := (timeSince p s.g_state.appStateTransitionTime s).1
      { (timeSince p s.g_state.appStateTransitionTime s).2 with
        g_state := { s.g_state with
          activeDurationSinceLaunch := p.add s.g_state.activeDurationSinceLaunch duration
          activeDurationSinceLastCrash :=
            p.add s.g_state.activeDurationSinceLastCrash duration } }
  else s

/-- `crasheecrashstate_notifyAppInForeground`. -/
def crasheecrashstate_notifyAppInForeground (p : Platform) (isInForeground : Bool)
    (s : State) : State :=
  if s.g_isEnabled then
    let stateFilePath := s.g_stateFilePath
    let s := { s with g_state := { s.g_state with applicationIsInForeground := isInForeground } }
    if isInForeground then
      let duration := p.sub (getCurentTime p s).1 s.g_state.appStateTransitionTime
      { (getCurentTime p s).2 with
        g_state := { s.g_state with
          backgroundDurationSinceLaunch := p.add s.g_state.backgroundDurationSinceLaunch duration
          backgroundDurationSinceLastCrash :=
            p.add s.g_state.backgroundDurationSinceLastCrash duration
          sessionsSinceLastCrash := toInt (s.g_state.sessionsSinceLastCrash + 1)
          sessionsSinceLaunch := toInt (s.g_state.sessionsSinceLaunch + 1) } }
    else
      (saveState p stateFilePath
        { (getCurentTime p s).2 with
          g_state := { s.g_state with appStateTransitionTime := (getCurentTime p s).1 } }).2
  else s

/-- `crasheecrashstate_notifyAppTerminate`. -/
def crasheecrashstate_notifyAppTerminate (p : Platform) (s : State) : State :=
  if s.g_isEnabled then
    let stateFilePath := s.g_stateFilePath
    (saveState p stateFilePath (updateAppState p s)).2
  else s

/-- `crasheecrashstate_notifyAppCrash`. -/
def crasheecrashstate_notifyAppCrash (p : Platform) (s : State) : State :=
  if s.g_isEnabled then
    let stateFilePath := s.g_stateFilePath
    let s := updateAppState p s
    (saveState p stateFilePath
      { s with g_state := { s.g_state with crashedThisLaunch := true } }).2
  else s

/-- `crasheecrashstate_currentState`. -/
def crasheecrashstate_currentState (s : State) : CrasheeCrash_AppState :=
  s.g_state

/-- The static function `setEnabled`. -/
def setEnabled (p : Platform) (isEnabled : Bool) (s : State) : State :=
  if isEnabled != s.g_isEnabled then
    let s := { s with g_isEnabled := isEnabled }
    if isEnabled then (crasheecrashstate_reset p s).2 else s
  else s

/-- The static function `isEnabled`. -/
def isEnabled (s : State) : Bool :=
  s.g_isEnabled

/-- The static function `addContextualInfoToEvent`. -/
def addContextualInfoToEvent (p : Platform) (eventContext : CrasheeCrash_MonitorContext)
    (s : State) : CrasheeCrash_MonitorContext × State :=
  if s.g_isEnabled then
    let s := updateAppState p s
    ({ eventContext with
        AppState :=
          { eventContext.AppState with
            activeDurationSinceLastCrash := s.g_state.activeDurationSinceLastCrash
            activeDurationSinceLaunch := s.g_state.activeDurationSinceLaunch
            applicationIsActive := s.g_state.applicationIsActive
            applicationIsInForeground := s.g_state.applicationIsInForeground
            appStateTransitionTime := s.g_state.appStateTransitionTime
            backgroundDurationSinceLastCrash := s.g_state.backgroundDurationSinceLastCrash
            backgroundDurationSinceLaunch := s.g_state.backgroundDurationSinceLaunch
            crashedLastLaunch := s.g_state.crashedLastLaunch
            crashedThisLaunch := s.g_state.crashedThisLaunch
            launchesSinceLastCrash := s.g_state.launchesSinceLastCrash
            sessionsSinceLastCrash := s.g_state.sessionsSinceLastCrash
            sessionsSinceLaunch := s.g_state.sessionsSinceLaunch } }, s)
  else (eventContext, s)

/-- `crasheecm_appstate_getAPI`. -/
def crasheecm_appstate_getAPI (p : Platform) : CrasheeCrashMonitorAPI State :=
  { setEnabled := some (setEnabled p)
    isEnabled := some isEnabled
    addContextualInfoToEvent := some (addContextualInfoToEvent p) }

/-- Modelled from the spec: the callback calls the decoder makes for a document
the encoder wrote with the given calls and ended with `crasheejson_endEncode`, "a
small versioned record read at init and rewritten on each lifecycle transition":
one call per element, in order, with the element's key as name and an integer or
boolean value as written; a floating-point element comes back as an integer
element when its text reads as a whole number (`whole` gives that number) and
else as a floating-point element with the value its text reads as (`reread`);
`crasheejson_endEncode` closes the containers left open. Calls of the kinds
`saveState` does not make are passed over. -/
def decodedEvents (whole : CDouble → Option Int) (reread : CDouble → CDouble) :
    List JSONCall → List DecodeEvent
  | [] => [DecodeEvent.onEndContainer, DecodeEvent.onEndData]
  | JSONCall.beginObject key :: rest =>
    DecodeEvent.onBeginObject key :: decodedEvents whole reread rest
  | JSONCall.addIntegerElement (some key) value :: rest =>
    DecodeEvent.onIntegerElement key value :: decodedEvents whole reread rest
  | JSONCall.addBooleanElement (some key) value :: rest =>
    DecodeEvent.onBooleanElement key value :: decodedEvents whole reread rest
  | JSONCall.addFloatingPointElement (some key) value :: rest =>
    (match whole value with
      | some number => DecodeEvent.onIntegerElement key number
      | none => DecodeEvent.onFloatingPointElement key (reread value)) ::
      decodedEvents whole reread rest
  | _ :: rest => decodedEvents whole reread rest

/-- The record of `saveStateCalls` with another number written under "version". -/
def saveStateCallsWithVersion (version : Int) (g_state : CrasheeCrash_AppState) :
    List JSONCall :=
  (saveStateCalls g_state).map (fun call =>
    if call.key == some kKeyFormatVersion then
      JSONCall.addIntegerElement (some kKeyFormatVersion) version
    else call)

end CrasheeCrashMonitor_AppState

namespace Example

/-- A platform on which every file can be opened for writing when it has a path,
no codec call fails, no state file exists yet, times are whole seconds (the n-th
reading is `100 + n`), and the invalid-data result code is 5. -/
def appStatePlatform : CrasheeCrashMonitor_AppState.Platform :=
  { CrasheeJSON_ERROR_INVALID_DATA := 5
    add := fun x y => x + y
    sub := fun x y => x - y
    ofInt64 := fun x => x.toNat
    gettimeofday := fun n => 100 + n
    openForWriting := fun path => path.isSome
    encode := fun _ => CrasheeJSON.CrasheeJSON_OK
    crasheejson_endEncode := CrasheeJSON.CrasheeJSON_OK
    readEntireFile := fun _ => none }

/-- The app state of a process launched three times and in its fifth session since
the last crash, with the monitor enabled. -/
def appState : CrasheeCrashMonitor_AppState.State :=
  { g_stateFilePath := some "state.json"
    g_state :=
      { launchesSinceLastCrash := 3
        sessionsSinceLastCrash := 5
        sessionsSinceLaunch := 2
        applicationIsActive := true
        applicationIsInForeground := true
        appStateTransitionTime := 90 }
    g_isEnabled := true }

/-- The same app state with `launchesSinceLastCrash` at `INT_MAX`. -/
def appStateAtIntMax : CrasheeCrashMonitor_AppState.State :=
  { appState with g_state := { appState.g_state with launchesSinceLastCrash := 2147483647 } }

/-- The same app state with the monitor disabled. -/
def appStateDisabled : CrasheeCrashMonitor_AppState.State :=
  { appState with g_isEnabled := false }

end Example

namespace CrasheeCrashMonitor_Signal

/-! ## Properties of the signal monitor -/

theorem sigaction_ignoringResult_handlers (sig : Int) (act : sigaction_t) (s : State) :
    (sigaction_ignoringResult sig act s).handlers =
      if s.sigactionFails sig then s.handlers else Function.update s.handlers sig act := by
  by_cases h : s.sigactionFails sig = true <;>
    simp [sigaction_ignoringResult, sigaction, setHandler, h]

theorem sigaction_ignoringResult_frame (sig : Int) (act : sigaction_t) (s : State) :
    sigaction_ignoringResult sig act s =
      { s with handlers := (sigaction_ignoringResult sig act s).handlers } := by
  by_cases h : s.sigactionFails sig = true <;>
    simp [sigaction_ignoringResult, sigaction, setHandler, h]

theorem installLoop_cons_accepted (p : Platform) (sig : Int) (rest : List Int) (i : Nat)
    (s : State) (hs : s.sigactionFails sig = false) :
    installLoop p (sig :: rest) i s =
      installLoop p rest (i + 1)
        (storePrevious i (s.handlers sig) (setHandler sig (action p) s)) := by
  simp [installLoop, sigaction, hs]

theorem installLoop_cons_rejected (p : Platform) (sig : Int) (rest : List Int) (i : Nat)
    (s : State) (hs : s.sigactionFails sig = true) :
    installLoop p (sig :: rest) i s = (false, rollbackLoop p i s) := by
  simp [installLoop, sigaction, hs]

theorem previousHandler_storePrevious (i : Nat) (old : sigaction_t) (s : State) (j : Nat) :
    previousHandler (storePrevious i old s) j = if j = i then old else previousHandler s j := by
  simp [previousHandler, storePrevious, Function.update_apply]

theorem previousHandler_setHandler (sig : Int) (act : sigaction_t) (s : State) (j : Nat) :
    previousHandler (setHandler sig act s) j = previousHandler s j := rfl

theorem uninstallLoop_g_isEnabled (sigs : List Int) (i : Nat) (s : State) :
    (uninstallLoop sigs i s).g_isEnabled = s.g_isEnabled := by
  induction sigs generalizing i s with
  | nil => rfl
  | cons sig rest ih =>
    simp only [uninstallLoop]
    rw [ih, sigaction_ignoringResult_frame]

theorem uninstallSignalHandler_g_isEnabled (p : Platform) (s : State) :
    (uninstallSignalHandler p s).g_isEnabled = s.g_isEnabled := by
  unfold uninstallSignalHandler
  split <;> simp [uninstallLoop_g_isEnabled]

theorem setEnabled_false_g_isEnabled (p : Platform) (s : State) :
    (setEnabled p false s).g_isEnabled = false := by
  unfold setEnabled
  cases h : s.g_isEnabled
  · simp [h]
  · simp [h, uninstallSignalHandler_g_isEnabled]

end CrasheeCrashMonitor_Signal

namespace CrasheeCrashMonitor

/-! ## Properties of the monitor registry -/

theorem mem_g_monitors_type {W : Type} (b : Build W) (m : Monitor W) (hm : m ∈ g_monitors b) :
    m.monitorType = 0x01 ∨ m.monitorType = 0x02 ∨ m.monitorType = 0x08 ∨ m.monitorType = 0x04 ∨
      m.monitorType = 0x20 ∨ m.monitorType = 0x40 ∨ m.monitorType = 0x80 := by
  unfold g_monitors at hm
  simp only [List.mem_append, List.mem_cons, List.mem_singleton, List.not_mem_nil, or_false] at hm
  rcases hm with ((h | h) | h) | h
  · split at h
    · simp only [List.mem_singleton] at h; subst h; exact Or.inl rfl
    · simp at h
  · split at h
    · simp only [List.mem_singleton] at h; subst h; exact Or.inr (Or.inl rfl)
    · simp at h
  · split at h
    · simp only [List.mem_singleton] at h; subst h; exact Or.inr (Or.inr (Or.inl rfl))
    · simp at h
  · rcases h with h | h | h | h <;> subst h
    · exact Or.inr (Or.inr (Or.inr (Or.inl rfl)))
    · exact Or.inr (Or.inr (Or.inr (Or.inr (Or.inl rfl))))
    · exact Or.inr (Or.inr (Or.inr (Or.inr (Or.inr (Or.inl rfl)))))
    · exact Or.inr (Or.inr (Or.inr (Or.inr (Or.inr (Or.inr rfl)))))

/-- Bits outside the accumulator stay outside: if every monitor that carries a bit
of `U` is asked to disable and honours it, the loop result has no bit of `U`. -/
theorem setActiveMonitorsLoop_and_eq_zero {W : Type} (U mt : Nat) (ms : List (Monitor W))
    (h : ∀ m ∈ ms, m.monitorType &&& U ≠ 0 → m.monitorType &&& mt = 0 ∧ HonoursDisable m)
    (active : Nat) (w : W) (hacc : active &&& U = 0) :
    (setActiveMonitorsLoop mt ms active w).1 &&& U = 0 := by
  induction ms generalizing active w with
  | nil => simpa [setActiveMonitorsLoop] using hacc
  | cons m rest ih =>
    have hrest : ∀ m' ∈ rest, m'.monitorType &&& U ≠ 0 →
        m'.monitorType &&& mt = 0 ∧ HonoursDisable m' :=
      fun m' hm' => h m' (List.mem_cons_of_mem _ hm')
    simp only [setActiveMonitorsLoop]
    split
    · rename_i hen
      apply ih hrest
      have ht : m.monitorType &&& U = 0 := by
        by_contra hne
        obtain ⟨h0, hd⟩ := h m (List.mem_cons_self _ _) hne
        rw [h0] at hen
        simp only [bne_self_eq_false] at hen
        rw [hd w] at hen
        exact Bool.noConfusion hen
      rw [Nat.and_comm, Nat.and_or_distrib_left, Nat.and_comm U active, hacc,
        Nat.and_comm U, ht]
      rfl
    · apply ih hrest
      rw [Nat.and_assoc, Nat.and_comm (bitNot32 _) U, ← Nat.and_assoc, hacc, Nat.zero_and]

theorem and_eq_zero_of_covered (t U mt : Nat) (hsub : t &&& U = t) (hmt : mt &&& U = 0) :
    t &&& mt = 0 := by
  rw [← hsub, Nat.and_assoc, Nat.and_comm U mt, hmt, Nat.and_zero]

/-- Bits of the accumulator stay inside `A`: if every monitor whose type is not
inside `A` is asked to disable and honours it, the loop result lies inside `A`. -/
theorem setActiveMonitorsLoop_and_eq_self {W : Type} (A mt : Nat) (ms : List (Monitor W))
    (h : ∀ m ∈ ms, m.monitorType &&& A ≠ m.monitorType →
      m.monitorType &&& mt = 0 ∧ HonoursDisable m)
    (active : Nat) (w : W) (hacc : active &&& A = active) :
    (setActiveMonitorsLoop mt ms active w).1 &&& A = (setActiveMonitorsLoop mt ms active w).1 := by
  induction ms generalizing active w with
  | nil => simpa [setActiveMonitorsLoop] using hacc
  | cons m rest ih =>
    have hrest : ∀ m' ∈ rest, m'.monitorType &&& A ≠ m'.monitorType →
        m'.monitorType &&& mt = 0 ∧ HonoursDisable m' :=
      fun m' hm' => h m' (List.mem_cons_of_mem _ hm')
    simp only [setActiveMonitorsLoop]
    split
    · rename_i hen
      apply ih hrest
      have ht : m.monitorType &&& A = m.monitorType := by
        by_contra hne
        obtain ⟨h0, hd⟩ := h m (List.mem_cons_self _ _) hne
        rw [h0] at hen
        simp only [bne_self_eq_false] at hen
        rw [hd w] at hen
        exact Bool.noConfusion hen
      rw [Nat.and_comm, Nat.and_or_distrib_left, Nat.and_comm A active, hacc,
        Nat.and_comm A, ht]
    · apply ih hrest
      rw [Nat.and_assoc, Nat.and_comm (bitNot32 _) A, ← Nat.and_assoc, hacc]

/-- With the empty mask every monitor that honours a disable request is left out,
so the loop result is the empty mask. -/
theorem setActiveMonitorsLoop_none {W : Type} (ms : List (Monitor W))
    (h : ∀ m ∈ ms, HonoursDisable m) (w : W) :
    (setActiveMonitorsLoop CrasheeCrashMonitorTypeNone ms CrasheeCrashMonitorTypeNone w).1
      = CrasheeCrashMonitorTypeNone := by
  have key := setActiveMonitorsLoop_and_eq_self 0 CrasheeCrashMonitorTypeNone ms
    (fun m hm _ => ⟨by simp [CrasheeCrashMonitorTypeNone], h m hm⟩)
    CrasheeCrashMonitorTypeNone w (by decide)
  rw [Nat.and_zero] at key
  exact key.symm.trans rfl

theorem maskDebuggerUnsafe_traced (mt : Nat) :
    maskDebuggerUnsafe true mt &&& CrasheeCrashMonitorTypeDebuggerUnsafe = 0 := by
  have hds : CrasheeCrashMonitorTypeDebuggerSafe &&& CrasheeCrashMonitorTypeDebuggerUnsafe = 0 := by
    decide
  unfold maskDebuggerUnsafe
  split
  · rw [Nat.and_assoc, hds, Nat.and_zero]
  · rename_i hn
    simpa using hn

theorem maskAsyncUnsafe_and (a : Bool) (mt U : Nat) (h : mt &&& U = 0) :
    maskAsyncUnsafe a mt &&& U = 0 := by
  unfold maskAsyncUnsafe
  split
  · rw [Nat.and_assoc, Nat.and_comm CrasheeCrashMonitorTypeAsyncSafe, ← Nat.and_assoc, h,
      Nat.zero_and]
  · exact h

theorem maskAsyncUnsafe_required (mt : Nat) :
    maskAsyncUnsafe true mt &&& CrasheeCrashMonitorTypeAsyncUnsafe = 0 := by
  have hds : CrasheeCrashMonitorTypeAsyncSafe &&& CrasheeCrashMonitorTypeAsyncUnsafe = 0 := by
    decide
  unfold maskAsyncUnsafe
  split
  · rw [Nat.and_assoc, hds, Nat.and_zero]
  · rename_i hn
    simpa using hn

theorem effectiveMonitorTypes_none (traced a : Bool) :
    effectiveMonitorTypes traced a CrasheeCrashMonitorTypeNone = CrasheeCrashMonitorTypeNone := by
  simp [effectiveMonitorTypes, maskAsyncUnsafe, maskDebuggerUnsafe, CrasheeCrashMonitorTypeNone]

theorem setActiveMonitors_active {W : Type} (b : Build W) (mt : Nat) (r : Registry W) :
    (crasheecm_setActiveMonitors b mt r).g_activeMonitors =
      (setActiveMonitorsLoop
        (effectiveMonitorTypes (b.crasheedebug_isBeingTraced r.world) r.g_requiresAsyncSafety mt)
        (g_monitors b) CrasheeCrashMonitorTypeNone r.world).1 := rfl

theorem setActiveMonitors_none_active {W : Type} (b : Build W) (r : Registry W)
    (h : ∀ m ∈ g_monitors b, HonoursDisable m) :
    (crasheecm_setActiveMonitors b CrasheeCrashMonitorTypeNone r).g_activeMonitors
      = CrasheeCrashMonitorTypeNone := by
  rw [setActiveMonitors_active, effectiveMonitorTypes_none]
  exact setActiveMonitorsLoop_none _ h _

end CrasheeCrashMonitor

namespace Example

open CrasheeCrashMonitor

theorem flagAPI_honoursDisable (t : CrasheeCrashMonitorType) (c : Bool) :
    HonoursDisable { monitorType := t, getAPI := some (flagAPI t c) } := by
  intro w
  cases h : w.g_isEnabled t <;>
    simp [isMonitorEnabled, setMonitorEnabled, getAPI, flagAPI, h]

/-- The signal monitor of the sources honours a disable request, wherever its state
sits in the process state. -/
theorem crasheecm_signal_getAPI_honoursDisable {W : Type}
    (get : W → CrasheeCrashMonitor_Signal.State)
    (put : CrasheeCrashMonitor_Signal.State → W → W) (hget : ∀ s w, get (put s w) = s)
    (hasSignal : Bool) (p : CrasheeCrashMonitor_Signal.Platform) (t : CrasheeCrashMonitorType) :
    HonoursDisable { monitorType := t,
                     getAPI := some ((CrasheeCrashMonitor_Signal.crasheecm_signal_getAPI
                       hasSignal p).lift get put) } := by
  intro w
  cases hasSignal <;>
    simp [isMonitorEnabled, setMonitorEnabled, getAPI,
      CrasheeCrashMonitor_Signal.crasheecm_signal_getAPI, CrasheeCrashMonitorAPI.lift,
      CrasheeCrashMonitor_Signal.isEnabled, hget,
      CrasheeCrashMonitor_Signal.setEnabled_false_g_isEnabled]

theorem signal_honoursDisable :
    HonoursDisable { monitorType := CrasheeCrashMonitorTypeSignal,
                     getAPI := build.crasheecm_signal_getAPI } :=
  crasheecm_signal_getAPI_honoursDisable _ _ (fun _ _ => rfl) true platform _

theorem build_honoursDisable : ∀ m ∈ g_monitors build, HonoursDisable m := by
  intro m hm
  simp only [g_monitors, build, if_true, List.mem_append, List.mem_cons, List.mem_singleton,
    List.not_mem_nil, or_false] at hm
  rcases hm with ((h | h) | h) | h | h | h | h <;> subst h
  · exact flagAPI_honoursDisable _ _
  · exact signal_honoursDisable
  · exact flagAPI_honoursDisable _ _
  · exact flagAPI_honoursDisable _ _
  · exact flagAPI_honoursDisable _ _
  · exact flagAPI_honoursDisable _ _
  · exact flagAPI_honoursDisable _ _

theorem flagAPI_staysDisabled_flagAPI (t t1 : CrasheeCrashMonitorType) (c c1 : Bool) :
    StaysDisabled { monitorType := t, getAPI := some (flagAPI t c) }
      { monitorType := t1, getAPI := some (flagAPI t1 c1) } := by
  intro w h
  simp only [isMonitorEnabled, getAPI, flagAPI] at h
  by_cases ht : t = t1
  · subst ht
    exact flagAPI_honoursDisable _ _ w
  · cases h1 : w.g_isEnabled t1 <;>
      simp [isMonitorEnabled, setMonitorEnabled, getAPI, flagAPI, h, h1, Function.update, ht]

theorem flagAPI_staysDisabled_signal (t : CrasheeCrashMonitorType) (c : Bool) :
    StaysDisabled { monitorType := t, getAPI := some (flagAPI t c) }
      { monitorType := CrasheeCrashMonitorTypeSignal,
        getAPI := build.crasheecm_signal_getAPI } := by
  intro w h
  simp only [isMonitorEnabled, getAPI, flagAPI] at h
  simp [isMonitorEnabled, setMonitorEnabled, getAPI, flagAPI, build,
    CrasheeCrashMonitor_Signal.crasheecm_signal_getAPI, CrasheeCrashMonitorAPI.lift, h]

theorem signal_staysDisabled_flagAPI (t : CrasheeCrashMonitorType) (c : Bool) :
    StaysDisabled { monitorType := CrasheeCrashMonitorTypeSignal,
                    getAPI := build.crasheecm_signal_getAPI }
      { monitorType := t, getAPI := some (flagAPI t c) } := by
  intro w h
  simp only [isMonitorEnabled, getAPI, build,
    CrasheeCrashMonitor_Signal.crasheecm_signal_getAPI, CrasheeCrashMonitorAPI.lift,
    if_true, Option.map_some'] at h
  cases h1 : w.g_isEnabled t <;>
    simp [isMonitorEnabled, setMonitorEnabled, getAPI, flagAPI, build,
      CrasheeCrashMonitor_Signal.crasheecm_signal_getAPI, CrasheeCrashMonitorAPI.lift, h, h1]

theorem signal_staysDisabled_signal :
    StaysDisabled { monitorType := CrasheeCrashMonitorTypeSignal,
                    getAPI := build.crasheecm_signal_getAPI }
      { monitorType := CrasheeCrashMonitorTypeSignal,
        getAPI := build.crasheecm_signal_getAPI } :=
  fun w _ => signal_honoursDisable w

theorem build_staysDisabled :
    ∀ m ∈ g_monitors build, ∀ m1 ∈ g_monitors build, StaysDisabled m m1 := by
  intro m hm m1 hm1
  simp only [g_monitors, build, if_true, List.mem_append, List.mem_cons, List.mem_singleton,
    List.not_mem_nil, or_false] at hm hm1
  rcases hm with ((h | h) | h) | h | h | h | h <;>
    rcases hm1 with ((h1 | h1) | h1) | h1 | h1 | h1 | h1 <;> subst h <;> subst h1 <;>
    first
      | exact flagAPI_staysDisabled_flagAPI _ _ _ _
      | exact flagAPI_staysDisabled_signal _ _
      | exact signal_staysDisabled_flagAPI _ _
      | exact signal_staysDisabled_signal

end Example

namespace CrasheeCrashMonitor

/-! ## The monitor registry: masks, episodes, dispatch -/

/-- C1. While the process is traced by a debugger, the mask reported by
`crasheecm_getActiveMonitors` after `crasheecm_setActiveMonitors(mask)` has none of
the debugger-unsafe bits (MachException, Signal, CPPException, NSException), for
every requested mask, provided the monitors carrying those bits honour a disable
request. -/
theorem setActiveMonitors_traced_excludes_debuggerUnsafe {W : Type} (b : Build W)
    (monitorTypes : CrasheeCrashMonitorType) (r : Registry W)
    (hTraced : b.crasheedebug_isBeingTraced r.world = true)
    (hDisable : ∀ m ∈ g_monitors b,
      m.monitorType &&& CrasheeCrashMonitorTypeDebuggerUnsafe ≠ 0 → HonoursDisable m) :
    crasheecm_getActiveMonitors (crasheecm_setActiveMonitors b monitorTypes r) &&&
      CrasheeCrashMonitorTypeDebuggerUnsafe = 0 := by
  unfold crasheecm_getActiveMonitors
  rw [setActiveMonitors_active, hTraced]
  have hmask : effectiveMonitorTypes true r.g_requiresAsyncSafety monitorTypes &&&
      CrasheeCrashMonitorTypeDebuggerUnsafe = 0 :=
    maskAsyncUnsafe_and _ _ _ (maskDebuggerUnsafe_traced monitorTypes)
  apply setActiveMonitorsLoop_and_eq_zero
  · intro m hm hne
    refine ⟨?_, hDisable m hm hne⟩
    rcases mem_g_monitors_type b m hm with h | h | h | h | h | h | h <;> rw [h] at hne ⊢ <;>
      first
        | exact absurd (by decide) hne
        | exact and_eq_zero_of_covered _ _ _ (by decide) hmask
  · decide

theorem setActiveMonitors_traced_excludes_debuggerUnsafe_witness :
    Example.build.crasheedebug_isBeingTraced (Registry.fresh (Example.world true [])).world = true ∧
    crasheecm_getActiveMonitors
      (crasheecm_setActiveMonitors Example.build CrasheeCrashMonitorTypeAll
        (Registry.fresh (Example.world true []))) &&&
      CrasheeCrashMonitorTypeDebuggerUnsafe = 0 :=
  ⟨rfl, setActiveMonitors_traced_excludes_debuggerUnsafe Example.build CrasheeCrashMonitorTypeAll
    (Registry.fresh (Example.world true [])) rfl
    (fun m hm _ => Example.build_honoursDisable m hm)⟩

theorem setActiveMonitors_requiresAsyncSafety {W : Type} (b : Build W) (mt : Nat)
    (r : Registry W) :
    (crasheecm_setActiveMonitors b mt r).g_requiresAsyncSafety = r.g_requiresAsyncSafety := rfl

theorem notifyFatalExceptionCaptured_requiresAsyncSafety {W : Type} (b : Build W) (a : Bool)
    (r : Registry W) :
    (crasheecm_notifyFatalExceptionCaptured b a r).2.g_requiresAsyncSafety =
      (r.g_requiresAsyncSafety || a) := by
  unfold crasheecm_notifyFatalExceptionCaptured
  simp only []
  split <;> split <;> rfl

theorem finishException_requiresAsyncSafety {W : Type} (b : Build W)
    (c : CrasheeCrash_MonitorContext) (r : Registry W) :
    (finishException b c r).g_requiresAsyncSafety = r.g_requiresAsyncSafety := by
  unfold finishException
  split
  · rfl
  · split <;> rfl

theorem handleException_eq {W : Type} (b : Build W) (context : CrasheeCrash_MonitorContext)
    (r : Registry W) (onEvent : EventCallback W) (hcb : r.g_onExceptionEvent = some onEvent) :
    crasheecm_handleException b context r =
      some ((onEvent
          (contextualInfoLoop (g_monitors b) (stampContext r context) r.world r.calls).1
          (contextualInfoLoop (g_monitors b) (stampContext r context) r.world r.calls).2.1).1,
        finishException b
          (onEvent
            (contextualInfoLoop (g_monitors b) (stampContext r context) r.world r.calls).1
            (contextualInfoLoop (g_monitors b) (stampContext r context) r.world r.calls).2.1).1
          { r with
            world := (onEvent
              (contextualInfoLoop (g_monitors b) (stampContext r context) r.world r.calls).1
              (contextualInfoLoop (g_monitors b) (stampContext r context) r.world r.calls).2.1).2,
            calls :=
              (contextualInfoLoop (g_monitors b) (stampContext r context) r.world r.calls).2.2 ++
                [Call.onExceptionEvent
                  (contextualInfoLoop (g_monitors b) (stampContext r context)
                    r.world r.calls).1] }) := by
  unfold crasheecm_handleException
  simp only [hcb]

theorem handleException_requiresAsyncSafety {W : Type} (b : Build W)
    (context : CrasheeCrash_MonitorContext) (r : Registry W)
    (c : CrasheeCrash_MonitorContext) (r1 : Registry W)
    (h : crasheecm_handleException b context r = some (c, r1)) :
    r1.g_requiresAsyncSafety = r.g_requiresAsyncSafety := by
  cases hcb : r.g_onExceptionEvent with
  | none =>
    unfold crasheecm_handleException at h
    simp only [hcb] at h
    exact Option.noConfusion h
  | some onEvent =>
    rw [handleException_eq b context r onEvent hcb] at h
    simp only [Option.some.injEq, Prod.mk.injEq] at h
    rw [← h.2, finishException_requiresAsyncSafety]

/-- The async-safety flag is sticky: no call into the registry clears it. -/
theorem Op.run_requiresAsyncSafety {W : Type} (b : Build W) (op : Op W) (r r1 : Registry W)
    (hrun : op.run b r = some r1) (h : r.g_requiresAsyncSafety = true) :
    r1.g_requiresAsyncSafety = true := by
  cases op with
  | setEventCallback onEvent =>
    simp only [Op.run, Option.some.injEq] at hrun
    rw [← hrun]; exact h
  | setActiveMonitors mt =>
    simp only [Op.run, Option.some.injEq] at hrun
    rw [← hrun, setActiveMonitors_requiresAsyncSafety]; exact h
  | getActiveMonitors =>
    simp only [Op.run, Option.some.injEq] at hrun
    rw [← hrun]; exact h
  | notifyFatalExceptionCaptured a =>
    simp only [Op.run, Option.some.injEq] at hrun
    rw [← hrun, notifyFatalExceptionCaptured_requiresAsyncSafety, h]; rfl
  | handleException context =>
    simp only [Op.run, Option.map_eq_some'] at hrun
    obtain ⟨⟨c, r2⟩, h1, h2⟩ := hrun
    simp only at h2
    subst h2
    rw [handleException_requiresAsyncSafety b context r c _ h1]; exact h

theorem runOps_requiresAsyncSafety {W : Type} (b : Build W) (ops : List (Op W))
    (r r1 : Registry W) (hrun : runOps b ops r = some r1) (h : r.g_requiresAsyncSafety = true) :
    r1.g_requiresAsyncSafety = true := by
  induction ops generalizing r with
  | nil =>
    simp only [runOps, Option.some.injEq] at hrun
    rw [← hrun]; exact h
  | cons op ops ih =>
    simp only [runOps] at hrun
    split at hrun
    · rename_i r2 h2
      exact ih r2 hrun (Op.run_requiresAsyncSafety b op r r2 h2 h)
    · exact Option.noConfusion hrun

/-- C2. After `crasheecm_notifyFatalExceptionCaptured(true)`, whatever calls into the
registry follow, the async-safety flag is still set, and `crasheecm_setActiveMonitors`
leaves, for every requested mask, an active mask with no async-unsafe bit: it lies
inside MachException | Signal. The monitors carrying an async-unsafe bit are taken
to honour a disable request. -/
theorem setActiveMonitors_after_asyncSafe_notification {W : Type} (b : Build W)
    (r0 r : Registry W) (ops : List (Op W)) (monitorTypes : CrasheeCrashMonitorType)
    (hrun : runOps b ops (crasheecm_notifyFatalExceptionCaptured b true r0).2 = some r)
    (hDisable : ∀ m ∈ g_monitors b,
      m.monitorType &&& CrasheeCrashMonitorTypeAsyncUnsafe ≠ 0 → HonoursDisable m) :
    r.g_requiresAsyncSafety = true ∧
    (crasheecm_setActiveMonitors b monitorTypes r).g_requiresAsyncSafety = true ∧
    crasheecm_getActiveMonitors (crasheecm_setActiveMonitors b monitorTypes r) &&&
      CrasheeCrashMonitorTypeAsyncUnsafe = 0 ∧
    crasheecm_getActiveMonitors (crasheecm_setActiveMonitors b monitorTypes r) &&&
      (CrasheeCrashMonitorTypeMachException ||| CrasheeCrashMonitorTypeSignal) =
      crasheecm_getActiveMonitors (crasheecm_setActiveMonitors b monitorTypes r) := by
  have hflag : r.g_requiresAsyncSafety = true := by
    apply runOps_requiresAsyncSafety b ops _ r hrun
    rw [notifyFatalExceptionCaptured_requiresAsyncSafety]
    simp
  have hmask : effectiveMonitorTypes (b.crasheedebug_isBeingTraced r.world) true monitorTypes &&&
      CrasheeCrashMonitorTypeAsyncUnsafe = 0 := maskAsyncUnsafe_required _
  have hin : crasheecm_getActiveMonitors (crasheecm_setActiveMonitors b monitorTypes r) &&&
      (CrasheeCrashMonitorTypeMachException ||| CrasheeCrashMonitorTypeSignal) =
      crasheecm_getActiveMonitors (crasheecm_setActiveMonitors b monitorTypes r) := by
    unfold crasheecm_getActiveMonitors
    rw [setActiveMonitors_active, hflag]
    apply setActiveMonitorsLoop_and_eq_self
    · intro m hm hne
      have hU : m.monitorType &&& CrasheeCrashMonitorTypeAsyncUnsafe ≠ 0 := by
        rcases mem_g_monitors_type b m hm with h | h | h | h | h | h | h <;> rw [h] at hne ⊢ <;>
          first
            | exact absurd (by decide) hne
            | decide
      refine ⟨?_, hDisable m hm hU⟩
      rcases mem_g_monitors_type b m hm with h | h | h | h | h | h | h <;> rw [h] at hne ⊢ <;>
        first
          | exact absurd (by decide) hne
          | exact and_eq_zero_of_covered _ _ _ (by decide) hmask
    · decide
  refine ⟨hflag, hflag, ?_, hin⟩
  rw [← hin, Nat.and_assoc]
  have : (CrasheeCrashMonitorTypeMachException ||| CrasheeCrashMonitorTypeSignal) &&&
      CrasheeCrashMonitorTypeAsyncUnsafe = 0 := by decide
  rw [this, Nat.and_zero]

theorem setActiveMonitorsLoop_none_staysDisabled {W : Type} (ms : List (Monitor W))
    (m0 : Monitor W) (hF : ∀ m ∈ ms, StaysDisabled m0 m) (active : Nat) (w : W)
    (h0 : isMonitorEnabled m0 w = false) :
    isMonitorEnabled m0
      (setActiveMonitorsLoop CrasheeCrashMonitorTypeNone ms active w).2 = false := by
  induction ms generalizing active w with
  | nil => simpa [setActiveMonitorsLoop] using h0
  | cons m rest ih =>
    have hrest : ∀ m' ∈ rest, StaysDisabled m0 m' := fun m' hm' => hF m' (List.mem_cons_of_mem _ hm')
    have hflag : (m.monitorType &&& CrasheeCrashMonitorTypeNone != 0) = false := by
      simp [CrasheeCrashMonitorTypeNone]
    have h1 : isMonitorEnabled m0 (setMonitorEnabled m false w) = false :=
      hF m (List.mem_cons_self _ _) w h0
    simp only [setActiveMonitorsLoop, hflag]
    split
    · exact ih hrest _ _ h1
    · exact ih hrest _ _ h1

theorem setActiveMonitorsLoop_none_world {W : Type} (ms : List (Monitor W))
    (hD : ∀ m ∈ ms, HonoursDisable m) (hF : ∀ m ∈ ms, ∀ m' ∈ ms, StaysDisabled m m')
    (active : Nat) (w : W) :
    ∀ m ∈ ms, isMonitorEnabled m
      (setActiveMonitorsLoop CrasheeCrashMonitorTypeNone ms active w).2 = false := by
  induction ms generalizing active w with
  | nil => intro m hm; exact absurd hm (List.not_mem_nil m)
  | cons m rest ih =>
    have hflag : (m.monitorType &&& CrasheeCrashMonitorTypeNone != 0) = false := by
      simp [CrasheeCrashMonitorTypeNone]
    have hDrest : ∀ m' ∈ rest, HonoursDisable m' := fun m' hm' => hD m' (List.mem_cons_of_mem _ hm')
    have hFrest : ∀ m1 ∈ rest, ∀ m2 ∈ rest, StaysDisabled m1 m2 :=
      fun m1 h1 m2 h2 => hF m1 (List.mem_cons_of_mem _ h1) m2 (List.mem_cons_of_mem _ h2)
    intro m0 hm0
    simp only [setActiveMonitorsLoop, hflag]
    rcases List.mem_cons.mp hm0 with h | h
    · subst h
      have hhead : ∀ m' ∈ rest, StaysDisabled m0 m' :=
        fun m' hm' => hF m0 (List.mem_cons_self _ _) m' (List.mem_cons_of_mem _ hm')
      split
      · exact setActiveMonitorsLoop_none_staysDisabled rest m0 hhead _ _ (hD m0 hm0 w)
      · exact setActiveMonitorsLoop_none_staysDisabled rest m0 hhead _ _ (hD m0 hm0 w)
    · split
      · exact ih hDrest hFrest _ _ m0 h
      · exact ih hDrest hFrest _ _ m0 h

theorem setActiveMonitors_none_world {W : Type} (b : Build W) (r : Registry W)
    (hD : ∀ m ∈ g_monitors b, HonoursDisable m)
    (hF : ∀ m ∈ g_monitors b, ∀ m' ∈ g_monitors b, StaysDisabled m m') :
    ∀ m ∈ g_monitors b, isMonitorEnabled m
      (crasheecm_setActiveMonitors b CrasheeCrashMonitorTypeNone r).world = false := by
  have hw : (crasheecm_setActiveMonitors b CrasheeCrashMonitorTypeNone r).world =
      (setActiveMonitorsLoop
        (effectiveMonitorTypes (b.crasheedebug_isBeingTraced r.world) r.g_requiresAsyncSafety
          CrasheeCrashMonitorTypeNone)
        (g_monitors b) CrasheeCrashMonitorTypeNone r.world).2 := rfl
  rw [hw, effectiveMonitorTypes_none]
  exact setActiveMonitorsLoop_none_world _ hD hF _ _

theorem setActiveMonitors_handling {W : Type} (b : Build W) (mt : Nat) (r : Registry W) :
    (crasheecm_setActiveMonitors b mt r).g_handlingFatalException = r.g_handlingFatalException :=
  rfl

theorem setActiveMonitors_crashed {W : Type} (b : Build W) (mt : Nat) (r : Registry W) :
    (crasheecm_setActiveMonitors b mt r).g_crashedDuringExceptionHandling =
      r.g_crashedDuringExceptionHandling := rfl

/-- A call that keeps the episode open always returns and leaves
`g_handlingFatalException` as it was. -/
theorem runOps_keepsEpisodeOpen {W : Type} (b : Build W) (ops : List (Op W)) (r : Registry W)
    (hops : ∀ op ∈ ops, op.keepsEpisodeOpen = true) :
    ∃ r1, runOps b ops r = some r1 ∧
      r1.g_handlingFatalException = r.g_handlingFatalException := by
  induction ops generalizing r with
  | nil => exact ⟨r, rfl, rfl⟩
  | cons op ops ih =>
    have hrest : ∀ op' ∈ ops, op'.keepsEpisodeOpen = true :=
      fun op' h => hops op' (List.mem_cons_of_mem _ h)
    have hop := hops op (List.mem_cons_self _ _)
    cases op with
    | setEventCallback onEvent =>
      obtain ⟨r1, h1, h2⟩ := ih (crasheecm_setEventCallback onEvent r) hrest
      exact ⟨r1, by simpa [runOps, Op.run] using h1, h2⟩
    | setActiveMonitors mt =>
      obtain ⟨r1, h1, h2⟩ := ih (crasheecm_setActiveMonitors b mt r) hrest
      exact ⟨r1, by simpa [runOps, Op.run] using h1, h2⟩
    | getActiveMonitors =>
      obtain ⟨r1, h1, h2⟩ := ih r hrest
      exact ⟨r1, by simpa [runOps, Op.run] using h1, h2⟩
    | notifyFatalExceptionCaptured a => exact Bool.noConfusion hop
    | handleException context => exact Bool.noConfusion hop

theorem notifyFatalExceptionCaptured_handling {W : Type} (b : Build W) (a : Bool)
    (r : Registry W) (h : r.g_handlingFatalException = true) :
    crasheecm_notifyFatalExceptionCaptured b a r =
      (true, crasheecm_setActiveMonitors b CrasheeCrashMonitorTypeNone
        { r with g_requiresAsyncSafety := r.g_requiresAsyncSafety || a,
                 g_crashedDuringExceptionHandling := true,
                 g_handlingFatalException := true }) := by
  unfold crasheecm_notifyFatalExceptionCaptured
  simp [h, setActiveMonitors_crashed]

/-- C3. From a fresh registry the first `crasheecm_notifyFatalExceptionCaptured`
returns false; a second one made while that episode is still open (only
`crasheecm_setEventCallback`, `crasheecm_setActiveMonitors` and
`crasheecm_getActiveMonitors` calls in between) returns true, leaves
`crasheecm_getActiveMonitors()` at `CrasheeCrashMonitorTypeNone` and every registered
monitor reporting disabled. The monitors are taken to honour a disable request and
not to be switched on by the disabling of another monitor. -/
theorem second_notifyFatalExceptionCaptured_is_recrash {W : Type} (b : Build W) (w : W)
    (a1 a2 : Bool) (mid : List (Op W))
    (hmid : ∀ op ∈ mid, op.keepsEpisodeOpen = true)
    (hDisable : ∀ m ∈ g_monitors b, HonoursDisable m)
    (hFrame : ∀ m ∈ g_monitors b, ∀ m' ∈ g_monitors b, StaysDisabled m m') :
    (crasheecm_notifyFatalExceptionCaptured b a1 (Registry.fresh w)).1 = false ∧
    ∃ r, runOps b mid (crasheecm_notifyFatalExceptionCaptured b a1 (Registry.fresh w)).2 = some r ∧
      (crasheecm_notifyFatalExceptionCaptured b a2 r).1 = true ∧
      crasheecm_getActiveMonitors (crasheecm_notifyFatalExceptionCaptured b a2 r).2 =
        CrasheeCrashMonitorTypeNone ∧
      ∀ m ∈ g_monitors b,
        isMonitorEnabled m (crasheecm_notifyFatalExceptionCaptured b a2 r).2.world = false := by
  have hfirst : crasheecm_notifyFatalExceptionCaptured b a1 (Registry.fresh w) =
      (false, { Registry.fresh w with g_requiresAsyncSafety := false || a1,
                                      g_handlingFatalException := true }) := by
    simp [crasheecm_notifyFatalExceptionCaptured, Registry.fresh]
  refine ⟨by rw [hfirst], ?_⟩
  obtain ⟨r, hr, hh⟩ := runOps_keepsEpisodeOpen b mid
    (crasheecm_notifyFatalExceptionCaptured b a1 (Registry.fresh w)).2 hmid
  have hhand : r.g_handlingFatalException = true := by rw [hh, hfirst]
  refine ⟨r, hr, ?_⟩
  rw [notifyFatalExceptionCaptured_handling b a2 r hhand]
  exact ⟨rfl, setActiveMonitors_none_active b _ hDisable,
    setActiveMonitors_none_world b _ hDisable hFrame⟩

theorem setActiveMonitors_after_asyncSafe_notification_witness :
    runOps Example.build Example.sampleOps
        (crasheecm_notifyFatalExceptionCaptured Example.build true
          (Example.registry false [])).2 = some Example.sampleRun ∧
    crasheecm_getActiveMonitors
      (crasheecm_setActiveMonitors Example.build CrasheeCrashMonitorTypeAll Example.sampleRun)
      &&& CrasheeCrashMonitorTypeAsyncUnsafe = 0 :=
  ⟨rfl, (setActiveMonitors_after_asyncSafe_notification Example.build
    (Example.registry false []) Example.sampleRun Example.sampleOps
    CrasheeCrashMonitorTypeAll rfl
    (fun m hm _ => Example.build_honoursDisable m hm)).2.2.1⟩

theorem second_notifyFatalExceptionCaptured_is_recrash_witness :
    (crasheecm_notifyFatalExceptionCaptured Example.build false
      (Registry.fresh (Example.world false []))).1 = false ∧
    ∃ r, runOps Example.build
        [Op.setEventCallback (some Example.onEvent),
          Op.setActiveMonitors CrasheeCrashMonitorTypeAll, Op.getActiveMonitors]
        (crasheecm_notifyFatalExceptionCaptured Example.build false
          (Registry.fresh (Example.world false []))).2 = some r ∧
      (crasheecm_notifyFatalExceptionCaptured Example.build false r).1 = true ∧
      crasheecm_getActiveMonitors (crasheecm_notifyFatalExceptionCaptured Example.build false r).2 =
        CrasheeCrashMonitorTypeNone ∧
      ∀ m ∈ g_monitors Example.build,
        isMonitorEnabled m
          (crasheecm_notifyFatalExceptionCaptured Example.build false r).2.world = false :=
  second_notifyFatalExceptionCaptured_is_recrash Example.build (Example.world false [])
    false false
    [Op.setEventCallback (some Example.onEvent),
      Op.setActiveMonitors CrasheeCrashMonitorTypeAll, Op.getActiveMonitors]
    (by decide) Example.build_honoursDisable Example.build_staysDisabled

theorem finishException_active_userReported {W : Type} (b : Build W)
    (c : CrasheeCrash_MonitorContext) (r : Registry W)
    (h : c.currentSnapshotUserReported = true) :
    (finishException b c r).g_activeMonitors = r.g_activeMonitors := by
  simp [finishException, h]

theorem finishException_active_fatal {W : Type} (b : Build W)
    (c : CrasheeCrash_MonitorContext) (r : Registry W)
    (hD : ∀ m ∈ g_monitors b, HonoursDisable m)
    (h : c.currentSnapshotUserReported = false) (hh : r.g_handlingFatalException = true)
    (hc : r.g_crashedDuringExceptionHandling = false) :
    (finishException b c r).g_activeMonitors = CrasheeCrashMonitorTypeNone := by
  simp only [finishException, h, hh, hc]
  exact setActiveMonitors_none_active b r hD

theorem finishException_world_userReported {W : Type} (b : Build W)
    (c : CrasheeCrash_MonitorContext) (r : Registry W)
    (h : c.currentSnapshotUserReported = true) :
    (finishException b c r).world = r.world := by
  simp [finishException, h]

theorem finishException_world_fatal {W : Type} (b : Build W)
    (c : CrasheeCrash_MonitorContext) (r : Registry W)
    (hD : ∀ m ∈ g_monitors b, HonoursDisable m)
    (hF : ∀ m ∈ g_monitors b, ∀ m' ∈ g_monitors b, StaysDisabled m m')
    (h : c.currentSnapshotUserReported = false) (hh : r.g_handlingFatalException = true)
    (hc : r.g_crashedDuringExceptionHandling = false) :
    ∀ m ∈ g_monitors b, isMonitorEnabled m (finishException b c r).world = false := by
  simp only [finishException, h, hh, hc]
  exact setActiveMonitors_none_world b r hD hF

/-- C4. When `crasheecm_handleException` returns for an event that is not a
user-reported snapshot (its flag `currentSnapshotUserReported`, as the function
reads it after the event callback, is clear), a fatal episode being in progress and
no recrash detected, all monitors have been disabled: the active mask is
`CrasheeCrashMonitorTypeNone` and every registered monitor reports disabled. For a
user-reported snapshot the active mask is the one on entry and the process state
is as the event callback left it: no monitor is disabled. An event callback is
registered; the monitors are taken to honour a disable request and not to be
switched on by the disabling of another monitor. -/
theorem handleException_disables_monitors_after_fatal {W : Type} (b : Build W)
    (context : CrasheeCrash_MonitorContext) (r : Registry W) (onEvent : EventCallback W)
    (hcb : r.g_onExceptionEvent = some onEvent)
    (hDisable : ∀ m ∈ g_monitors b, HonoursDisable m)
    (hFrame : ∀ m ∈ g_monitors b, ∀ m' ∈ g_monitors b, StaysDisabled m m') :
    ∃ c r1, crasheecm_handleException b context r = some (c, r1) ∧
      (c.currentSnapshotUserReported = false → r.g_handlingFatalException = true →
        r.g_crashedDuringExceptionHandling = false →
        crasheecm_getActiveMonitors r1 = CrasheeCrashMonitorTypeNone ∧
        ∀ m ∈ g_monitors b, isMonitorEnabled m r1.world = false) ∧
      (c.currentSnapshotUserReported = true →
        crasheecm_getActiveMonitors r1 = crasheecm_getActiveMonitors r ∧
        r1.world =
          (onEvent
            (contextualInfoLoop (g_monitors b) (stampContext r context) r.world r.calls).1
            (contextualInfoLoop (g_monitors b) (stampContext r context) r.world
              r.calls).2.1).2) := by
  refine ⟨_, _, handleException_eq b context r onEvent hcb, ?_, ?_⟩
  · intro h hh hc
    exact ⟨finishException_active_fatal b _ _ hDisable h hh hc,
      finishException_world_fatal b _ _ hDisable hFrame h hh hc⟩
  · intro h
    exact ⟨finishException_active_userReported b _ _ h,
      finishException_world_userReported b _ _ h⟩

/-- C4, at a concrete input: in the example build, with monitors active, a fatal
episode in progress and no recrash, an event that is not a user-reported snapshot
is handled; afterwards the active mask is `CrasheeCrashMonitorTypeNone` and every
registered monitor reports disabled. -/
theorem handleException_disables_monitors_after_fatal_witness :
    crasheecm_getActiveMonitors Example.armedRegistry ≠ CrasheeCrashMonitorTypeNone ∧
    Example.armedRegistry.g_handlingFatalException = true ∧
    Example.armedRegistry.g_crashedDuringExceptionHandling = false ∧
    ∃ c r1, crasheecm_handleException Example.build {} Example.armedRegistry = some (c, r1) ∧
      c.currentSnapshotUserReported = false ∧
      crasheecm_getActiveMonitors r1 = CrasheeCrashMonitorTypeNone ∧
      ∀ m ∈ g_monitors Example.build, isMonitorEnabled m r1.world = false := by
  obtain ⟨c, r1, h, hfatal, _⟩ := handleException_disables_monitors_after_fatal Example.build {}
    Example.armedRegistry Example.onEvent rfl Example.build_honoursDisable
    Example.build_staysDisabled
  have hc : c.currentSnapshotUserReported = false := by
    have h1 := congrArg (Option.map (fun out => out.1.currentSnapshotUserReported)) h
    have h2 : (crasheecm_handleException Example.build {} Example.armedRegistry).map
        (fun out => out.1.currentSnapshotUserReported) = some false := by decide
    rw [h2] at h1
    simpa using h1.symm
  exact ⟨by decide, rfl, rfl, c, r1, h, hc, hfatal hc rfl rfl⟩

end CrasheeCrashMonitor

namespace CrasheeCrashMonitor_Signal

/-! ## The signal monitor: enabling, failing, disabling -/

theorem sigaction_ignoringResult_sigactionFails (sig : Int) (act : sigaction_t) (s : State) :
    (sigaction_ignoringResult sig act s).sigactionFails = s.sigactionFails := by
  rw [sigaction_ignoringResult_frame]

theorem sigaction_ignoringResult_previousHandler (sig : Int) (act : sigaction_t) (s : State)
    (j : Nat) : previousHandler (sigaction_ignoringResult sig act s) j = previousHandler s j := by
  rw [sigaction_ignoringResult_frame]
  rfl

theorem rollbackLoop_sigactionFails (p : Platform) (i : Nat) (s : State) :
    (rollbackLoop p i s).sigactionFails = s.sigactionFails := by
  induction i generalizing s with
  | zero => rfl
  | succ i ih => simp only [rollbackLoop]; rw [ih, sigaction_ignoringResult_sigactionFails]

/-- The roll-back loop entered at `i` reads the saved handlers below `i` only. -/
theorem rollbackLoop_handlers_congr (p : Platform) (i : Nat) (s1 s2 : State)
    (hh : s1.handlers = s2.handlers) (hf : s1.sigactionFails = s2.sigactionFails)
    (hp : ∀ j, j < i → previousHandler s1 j = previousHandler s2 j) :
    (rollbackLoop p i s1).handlers = (rollbackLoop p i s2).handlers := by
  induction i generalizing s1 s2 with
  | zero => exact hh
  | succ i ih =>
    simp only [rollbackLoop]
    apply ih
    · rw [sigaction_ignoringResult_handlers, sigaction_ignoringResult_handlers, hh, hf,
        hp i (Nat.lt_succ_self i)]
    · rw [sigaction_ignoringResult_sigactionFails, sigaction_ignoringResult_sigactionFails, hf]
    · intro j hj
      rw [sigaction_ignoringResult_previousHandler, sigaction_ignoringResult_previousHandler]
      exact hp j (Nat.lt_succ_of_lt hj)

/-- Invariant of the install loop: rolling back from the current index gives the
handler table `h0` the call started with. When a later `sigaction` is rejected the
loop reports failure with exactly that table. -/
theorem installLoop_failure (p : Platform) (h0 : Int → sigaction_t) (rest : List Int) (i : Nat)
    (s : State) (hdrop : p.fatalSignals.drop i = rest)
    (hinv : (rollbackLoop p i s).handlers = h0)
    (hfail : ∃ sig ∈ rest, s.sigactionFails sig = true) :
    (installLoop p rest i s).1 = false ∧ (installLoop p rest i s).2.handlers = h0 := by
  induction rest generalizing i s with
  | nil =>
    obtain ⟨sig, hsig, _⟩ := hfail
    exact absurd hsig (List.not_mem_nil sig)
  | cons sig rest ih =>
    cases hs : s.sigactionFails sig with
    | true =>
      rw [installLoop_cons_rejected p sig rest i s hs]
      exact ⟨rfl, hinv⟩
    | false =>
      have hget : p.fatalSignals.getD i 0 = sig := by
        have h1 : (p.fatalSignals.drop i)[0]? = some sig := by rw [hdrop]; simp
        rw [List.getElem?_drop] at h1
        simp only [Nat.add_zero] at h1
        simp [List.getD, h1]
      have hdrop1 : p.fatalSignals.drop (i + 1) = rest := by
        have h1 := congrArg List.tail hdrop
        simpa [List.tail_drop] using h1
      have hfail1 : ∃ sig1 ∈ rest, s.sigactionFails sig1 = true := by
        obtain ⟨sig1, hmem, hf1⟩ := hfail
        rcases List.mem_cons.mp hmem with h | h
        · rw [h, hs] at hf1
          exact Bool.noConfusion hf1
        · exact ⟨sig1, h, hf1⟩
      rw [installLoop_cons_accepted p sig rest i s hs]
      apply ih
      · exact hdrop1
      · simp only [rollbackLoop, hget]
        rw [← hinv]
        apply rollbackLoop_handlers_congr
        · rw [sigaction_ignoringResult_handlers, previousHandler_storePrevious]
          simp only [storePrevious, setHandler, hs, Bool.false_eq_true, if_false, if_true,
            Function.update_idem, Function.update_eq_self]
        · rw [sigaction_ignoringResult_sigactionFails]
          rfl
        · intro j hj
          rw [sigaction_ignoringResult_previousHandler, previousHandler_storePrevious,
            if_neg (Nat.ne_of_lt hj)]
          rfl
      · exact hfail1

theorem allocateSignalStack_frame (p : Platform) (s : State) :
    (allocateSignalStack p s).handlers = s.handlers ∧
      (allocateSignalStack p s).sigactionFails = s.sigactionFails ∧
      (allocateSignalStack p s).g_isEnabled = s.g_isEnabled ∧
      (allocateSignalStack p s).sigaltstackFails = s.sigaltstackFails := by
  unfold allocateSignalStack
  split <;> exact ⟨rfl, rfl, rfl, rfl⟩

theorem allocatePreviousSignalHandlers_frame (s : State) :
    (allocatePreviousSignalHandlers s).handlers = s.handlers ∧
      (allocatePreviousSignalHandlers s).sigactionFails = s.sigactionFails ∧
      (allocatePreviousSignalHandlers s).g_isEnabled = s.g_isEnabled := by
  unfold allocatePreviousSignalHandlers
  split <;> exact ⟨rfl, rfl, rfl⟩

theorem sigaltstack_frame (ss : stack_t) (s s2 : State) (h : sigaltstack ss s = some s2) :
    s2.handlers = s.handlers ∧ s2.sigactionFails = s.sigactionFails ∧
      s2.g_isEnabled = s.g_isEnabled := by
  unfold sigaltstack at h
  split at h
  · exact Option.noConfusion h
  · simp only [Option.some.injEq] at h
    rw [← h]
    exact ⟨rfl, rfl, rfl⟩

/-- Either `installSignalHandler` stops at a rejected `sigaltstack`, with the handler
table untouched, or it is the install loop run from a state with the same handler
table; the second is the case whenever `sigaltstack` is accepted. -/
theorem installSignalHandler_cases (p : Platform) (s : State) :
    ((installSignalHandler p s).1 = false ∧ (installSignalHandler p s).2.handlers = s.handlers ∧
        s.sigaltstackFails = true) ∨
    ∃ s3, installSignalHandler p s = installLoop p p.fatalSignals 0 s3 ∧
      s3.handlers = s.handlers ∧ s3.sigactionFails = s.sigactionFails ∧
      s3.g_isEnabled = s.g_isEnabled := by
  obtain ⟨a1, a2, a3, a4⟩ := allocateSignalStack_frame p s
  unfold installSignalHandler
  split
  · simp only []
    cases hst : sigaltstack (allocateSignalStack p s).g_signalStack (allocateSignalStack p s) with
    | none =>
      refine Or.inl ⟨rfl, a1, ?_⟩
      rw [← a4]
      unfold sigaltstack at hst
      split at hst
      · assumption
      · exact Option.noConfusion hst
    | some s2 =>
      obtain ⟨c1, c2, c3⟩ := sigaltstack_frame _ _ _ hst
      obtain ⟨b1, b2, b3⟩ := allocatePreviousSignalHandlers_frame s2
      exact Or.inr ⟨_, rfl, b1.trans (c1.trans a1), b2.trans (c2.trans a2),
        b3.trans (c3.trans a3)⟩
  · obtain ⟨b1, b2, b3⟩ := allocatePreviousSignalHandlers_frame s
    exact Or.inr ⟨_, rfl, b1, b2, b3⟩

theorem rollbackLoop_g_isEnabled (p : Platform) (i : Nat) (s : State) :
    (rollbackLoop p i s).g_isEnabled = s.g_isEnabled := by
  induction i generalizing s with
  | zero => rfl
  | succ i ih =>
    simp only [rollbackLoop]
    rw [ih, sigaction_ignoringResult_frame]

theorem installLoop_g_isEnabled (p : Platform) (rest : List Int) (i : Nat) (s : State) :
    (installLoop p rest i s).2.g_isEnabled = s.g_isEnabled := by
  induction rest generalizing i s with
  | nil => rfl
  | cons sig rest ih =>
    cases hs : s.sigactionFails sig with
    | true =>
      rw [installLoop_cons_rejected p sig rest i s hs]
      exact rollbackLoop_g_isEnabled p i s
    | false =>
      rw [installLoop_cons_accepted p sig rest i s hs, ih]
      rfl

theorem installSignalHandler_g_isEnabled (p : Platform) (s : State) :
    (installSignalHandler p s).2.g_isEnabled = s.g_isEnabled := by
  unfold installSignalHandler
  split
  · simp only []
    cases hst : sigaltstack (allocateSignalStack p s).g_signalStack (allocateSignalStack p s) with
    | none => exact (allocateSignalStack_frame p s).2.2.1
    | some s2 =>
      simp only []
      rw [installLoop_g_isEnabled, (allocatePreviousSignalHandlers_frame s2).2.2,
        (sigaltstack_frame _ _ _ hst).2.2]
      exact (allocateSignalStack_frame p s).2.2.1
  · rw [installLoop_g_isEnabled]
    exact (allocatePreviousSignalHandlers_frame s).2.2

/-- The defect behind C7 and C9 in general form: enabling the signal monitor from
the disabled state ends with the monitor reporting enabled whatever
`installSignalHandler` returned. -/
theorem setEnabled_true_reports_enabled (p : Platform) (s : State)
    (hoff : s.g_isEnabled = false) :
    isEnabled (setEnabled p true s) = true := by
  have hen : setEnabled p true s =
      (installSignalHandler p (crasheeid_generate { s with g_isEnabled := true })).2 := by
    simp [setEnabled, hoff]
  rw [isEnabled, hen, installSignalHandler_g_isEnabled]
  rfl

/-- C7 fails on the code. `SIGSEGV` (11) is rejected by `sigaction`, so
`installSignalHandler` fails while the monitor is enabled from the disabled state;
`setEnabled` has already stored `g_isEnabled = true` and returns without undoing it.
The monitor then reports enabled, `crasheecm_setActiveMonitors` sets the Signal bit
of the active mask, and no fatal signal has `handleSignal` installed. -/
theorem setEnabled_reports_enabled_after_failed_install :
    (installSignalHandler Example.platform
      (crasheeid_generate { Example.signalState [11] with g_isEnabled := true })).1 = false ∧
    isEnabled (setEnabled Example.platform true (Example.signalState [11])) = true ∧
    CrasheeCrashMonitor.crasheecm_getActiveMonitors (Example.registry false [11]) =
      CrasheeCrashMonitorTypeNone ∧
    CrasheeCrashMonitor.crasheecm_getActiveMonitors
      (CrasheeCrashMonitor.crasheecm_setActiveMonitors Example.build
        CrasheeCrashMonitorTypeSignal (Example.registry false [11])) =
      CrasheeCrashMonitorTypeSignal ∧
    Example.platform.fatalSignals.all (fun sig =>
      ((CrasheeCrashMonitor.crasheecm_setActiveMonitors Example.build
        CrasheeCrashMonitorTypeSignal (Example.registry false [11])).world.signal.handlers
          sig).sa_sigaction != SigHandler.handleSignal) = true := by
  decide

/-- C8. If the kernel rejects `sigaction` for the `k`-th fatal signal,
`installSignalHandler` returns false and every signal has the handler it had
before the call, whatever the initial handler table. -/
theorem installSignalHandler_failure_restores (p : Platform) (s : State) (k : Nat)
    (hk : k < p.fatalSignals.length)
    (hfail : s.sigactionFails (p.fatalSignals.get ⟨k, hk⟩) = true) :
    (installSignalHandler p s).1 = false ∧
      ∀ sig, (installSignalHandler p s).2.handlers sig = s.handlers sig := by
  have hmem : ∃ sig ∈ p.fatalSignals, s.sigactionFails sig = true :=
    ⟨_, List.get_mem _ _ _, hfail⟩
  have key : (installSignalHandler p s).1 = false ∧
      (installSignalHandler p s).2.handlers = s.handlers := by
    rcases installSignalHandler_cases p s with ⟨h1, h2, _⟩ | ⟨s3, h3, hh, hf, _⟩
    · exact ⟨h1, h2⟩
    · rw [h3, ← hh]
      apply installLoop_failure
      · rfl
      · rfl
      · rw [hf]
        exact hmem
  exact ⟨key.1, fun sig => congrFun key.2 sig⟩

theorem installSignalHandler_failure_restores_witness :
    (installSignalHandler Example.platform (Example.signalState [11])).1 = false ∧
      ∀ sig, (installSignalHandler Example.platform (Example.signalState [11])).2.handlers sig =
        (Example.signalState [11]).handlers sig :=
  installSignalHandler_failure_restores Example.platform (Example.signalState [11]) 5
    (by decide) (by decide)

/-- A later step of the install loop does not touch the saved handlers below its
index. -/
theorem installLoop_previousHandler_below (p : Platform) (rest : List Int) (j : Nat) (t : State)
    (i : Nat) (hij : i < j) (hok : ∀ sig ∈ rest, t.sigactionFails sig = false) :
    previousHandler (installLoop p rest j t).2 i = previousHandler t i := by
  induction rest generalizing j t with
  | nil => rfl
  | cons sig rest ih =>
    have ht : t.sigactionFails sig = false := hok sig (List.mem_cons_self _ _)
    rw [installLoop_cons_accepted p sig rest j t ht,
      ih (j + 1) (storePrevious j (t.handlers sig) (setHandler sig (action p) t))
        (Nat.lt_succ_of_lt hij) (fun sig1 h => hok sig1 (List.mem_cons_of_mem _ h)),
      previousHandler_storePrevious, if_neg (Nat.ne_of_lt hij)]
    rfl

/-- When every `sigaction` is accepted the install loop succeeds, installs `action`
for the signals it visits, and saves for each the handler found at loop entry. -/
theorem installLoop_success (p : Platform) (rest : List Int) (i : Nat) (s : State)
    (hnd : rest.Nodup) (hok : ∀ sig ∈ rest, s.sigactionFails sig = false) :
    (installLoop p rest i s).1 = true ∧
    (installLoop p rest i s).2.g_isEnabled = s.g_isEnabled ∧
    (installLoop p rest i s).2.sigactionFails = s.sigactionFails ∧
    (∀ x, (installLoop p rest i s).2.handlers x =
      if x ∈ rest then action p else s.handlers x) ∧
    (∀ k, k < rest.length →
      previousHandler (installLoop p rest i s).2 (i + k) = s.handlers (rest.getD k 0)) := by
  induction rest generalizing i s with
  | nil =>
    refine ⟨rfl, rfl, rfl, fun x => by simp [installLoop], fun k hk => ?_⟩
    exact absurd hk (Nat.not_lt_zero k)
  | cons sig rest ih =>
    have hs : s.sigactionFails sig = false := hok sig (List.mem_cons_self _ _)
    have hnd1 : rest.Nodup := (List.nodup_cons.mp hnd).2
    have hnotin : sig ∉ rest := (List.nodup_cons.mp hnd).1
    have hok1 : ∀ sig1 ∈ rest,
        (storePrevious i (s.handlers sig) (setHandler sig (action p) s)).sigactionFails sig1
          = false := fun sig1 h => hok sig1 (List.mem_cons_of_mem _ h)
    rw [installLoop_cons_accepted p sig rest i s hs]
    obtain ⟨h1, h2, h3, h4, h5⟩ := ih (i + 1)
      (storePrevious i (s.handlers sig) (setHandler sig (action p) s)) hnd1 hok1
    refine ⟨h1, h2, h3, ?_, ?_⟩
    · intro x
      rw [h4 x]
      by_cases hx : x ∈ rest
      · simp [hx]
      · by_cases hxs : x = sig
        · subst hxs
          simp [hx, storePrevious, setHandler]
        · simp [hx, hxs, storePrevious, setHandler, Function.update_noteq hxs]
    · intro k hk
      cases k with
      | zero =>
        show previousHandler (installLoop p rest (i + 1)
          (storePrevious i (s.handlers sig) (setHandler sig (action p) s))).2 i = s.handlers sig
        rw [installLoop_previousHandler_below p rest (i + 1) _ i
          (Nat.lt_succ_self i) hok1, previousHandler_storePrevious, if_pos rfl]
      | succ k =>
        have hk1 : k < rest.length := Nat.lt_of_succ_lt_succ hk
        have hidx : i + (k + 1) = i + 1 + k := by omega
        have hmem : rest.getD k 0 ∈ rest := by
          rw [List.getD_eq_getElem _ _ hk1]
          exact List.getElem_mem _
        have hne : rest.getD k 0 ≠ sig := fun h => hnotin (h ▸ hmem)
        have hget : (sig :: rest).getD (k + 1) 0 = rest.getD k 0 := rfl
        rw [hidx, h5 k hk1, hget]
        simp only [storePrevious, setHandler, Function.update_noteq hne]

/-- When every `sigaction` is accepted the uninstall loop gives the `k`-th signal
it visits the saved handler `i + k` and leaves the other signals alone. -/
theorem uninstallLoop_handlers (rest : List Int) (i : Nat) (s : State)
    (hnd : rest.Nodup) (hok : ∀ sig ∈ rest, s.sigactionFails sig = false) :
    (∀ k, k < rest.length →
      (uninstallLoop rest i s).handlers (rest.getD k 0) = previousHandler s (i + k)) ∧
    (∀ x, x ∉ rest → (uninstallLoop rest i s).handlers x = s.handlers x) := by
  induction rest generalizing i s with
  | nil =>
    exact ⟨fun k hk => absurd hk (Nat.not_lt_zero k), fun x _ => rfl⟩
  | cons sig rest ih =>
    have hs : s.sigactionFails sig = false := hok sig (List.mem_cons_self _ _)
    have hnd1 : rest.Nodup := (List.nodup_cons.mp hnd).2
    have hnotin : sig ∉ rest := (List.nodup_cons.mp hnd).1
    have hok1 : ∀ sig1 ∈ rest,
        (sigaction_ignoringResult sig (previousHandler s i) s).sigactionFails sig1 = false := by
      intro sig1 h
      rw [sigaction_ignoringResult_sigactionFails]
      exact hok sig1 (List.mem_cons_of_mem _ h)
    obtain ⟨h1, h2⟩ := ih (i + 1) (sigaction_ignoringResult sig (previousHandler s i) s)
      hnd1 hok1
    have hstep : (sigaction_ignoringResult sig (previousHandler s i) s).handlers =
        Function.update s.handlers sig (previousHandler s i) := by
      rw [sigaction_ignoringResult_handlers]
      simp [hs]
    simp only [uninstallLoop]
    refine ⟨?_, ?_⟩
    · intro k hk
      cases k with
      | zero =>
        show (uninstallLoop rest (i + 1)
          (sigaction_ignoringResult sig (previousHandler s i) s)).handlers sig = previousHandler s i
        rw [h2 sig hnotin, hstep, Function.update_same]
      | succ k =>
        have hk1 : k < rest.length := Nat.lt_of_succ_lt_succ hk
        have hget : (sig :: rest).getD (k + 1) 0 = rest.getD k 0 := rfl
        have hidx : i + (k + 1) = i + 1 + k := by omega
        rw [hget, h1 k hk1, hidx]
        exact sigaction_ignoringResult_previousHandler _ _ _ _
    · intro x hx
      have hx1 : x ∉ rest := fun h => hx (List.mem_cons_of_mem _ h)
      have hxs : x ≠ sig := fun h => hx (h ▸ List.mem_cons_self _ _)
      rw [h2 x hx1, hstep, Function.update_noteq hxs]

theorem uninstallSignalHandler_handlers (p : Platform) (s : State) :
    (uninstallSignalHandler p s).handlers = (uninstallLoop p.fatalSignals 0 s).handlers := by
  unfold uninstallSignalHandler
  split <;> rfl

/-- The part of C9 the code does satisfy: when the fatal signals are pairwise
distinct and the enable succeeds (no `sigaction` and no `sigaltstack` is rejected),
enabling the signal monitor and then disabling it leaves every signal with the
handler it had before the enable. -/
theorem setEnabled_roundtrip_of_accepted (p : Platform) (s : State)
    (hnd : p.fatalSignals.Nodup) (hoff : s.g_isEnabled = false)
    (hok : ∀ sig ∈ p.fatalSignals, s.sigactionFails sig = false)
    (hstack : s.sigaltstackFails = false) :
    ∀ sig, (setEnabled p false (setEnabled p true s)).handlers sig = s.handlers sig := by
  have hen : setEnabled p true s =
      (installSignalHandler p (crasheeid_generate { s with g_isEnabled := true })).2 := by
    simp [setEnabled, hoff]
  have hcases := installSignalHandler_cases p (crasheeid_generate { s with g_isEnabled := true })
  have hnostop : ¬ (crasheeid_generate { s with g_isEnabled := true }).sigaltstackFails = true := by
    show ¬ s.sigaltstackFails = true
    rw [hstack]
    exact Bool.false_ne_true
  rcases hcases with ⟨_, _, hstop⟩ | ⟨s3, h3, hh, hf, he⟩
  · exact absurd hstop hnostop
  have hok3 : ∀ sig ∈ p.fatalSignals, s3.sigactionFails sig = false := by
    intro sig hsig
    rw [hf]
    exact hok sig hsig
  obtain ⟨_, i2, i3, i4, i5⟩ := installLoop_success p p.fatalSignals 0 s3 hnd hok3
  rw [hen, h3]
  have hon : (installLoop p p.fatalSignals 0 s3).2.g_isEnabled = true := by
    rw [i2, he]
    rfl
  have hdis : setEnabled p false (installLoop p p.fatalSignals 0 s3).2 =
      uninstallSignalHandler p
        { (installLoop p p.fatalSignals 0 s3).2 with g_isEnabled := false } := by
    simp [setEnabled, hon]
  have hokU : ∀ sig ∈ p.fatalSignals,
      ({ (installLoop p p.fatalSignals 0 s3).2 with g_isEnabled := false } : State).sigactionFails
        sig = false := by
    intro sig hsig
    show (installLoop p p.fatalSignals 0 s3).2.sigactionFails sig = false
    rw [i3]
    exact hok3 sig hsig
  obtain ⟨u1, u2⟩ := uninstallLoop_handlers p.fatalSignals 0
    { (installLoop p p.fatalSignals 0 s3).2 with g_isEnabled := false } hnd hokU
  intro sig
  rw [hdis, uninstallSignalHandler_handlers]
  by_cases hmem : sig ∈ p.fatalSignals
  · obtain ⟨k, hk, hget⟩ := List.getElem_of_mem hmem
    have hgetD : p.fatalSignals.getD k 0 = sig := by
      rw [List.getD_eq_getElem _ _ hk]
      exact hget
    have h1 := u1 k hk
    rw [hgetD, Nat.zero_add] at h1
    rw [h1]
    have h2 := i5 k hk
    rw [hgetD, Nat.zero_add] at h2
    have hs3 : s3.handlers sig = s.handlers sig := by rw [hh]; rfl
    rw [← hs3, ← h2]
    rfl
  · rw [u2 sig hmem]
    show (installLoop p p.fatalSignals 0 s3).2.handlers sig = s.handlers sig
    rw [i4 sig, if_neg hmem, hh]
    rfl

/-- C9 fails on the code when the enable fails part-way. `SIGBUS` (10), the second
fatal signal, is rejected by `sigaction`: the enable saves and rolls back `SIGABRT`
only, yet leaves `g_isEnabled` set, so the disable runs `uninstallSignalHandler`
over the whole array and installs for `SIGFPE` (8) the never-written element 2 of
`g_previousSignalHandlers` instead of the handler present before the enable. -/
theorem disable_after_failed_enable_installs_unsaved_handler :
    ((Example.signalState [10]).handlers 8).sa_sigaction = SigHandler.other 8 ∧
    ((setEnabled Example.platform true (Example.signalState [10])).handlers 8).sa_sigaction =
      SigHandler.other 8 ∧
    ((setEnabled Example.platform false
      (setEnabled Example.platform true (Example.signalState [10]))).handlers 8).sa_sigaction =
      SigHandler.other 1002 := by
  decide

/-- C10 fails on the code. `uninstallSignalHandler` zeroes `g_signalStack`, so the
guard `g_signalStack.ss_size == 0` holds again at the next enable: enable, disable,
enable calls `malloc` for the signal stack twice and the second enable runs on a new
block. -/
theorem reenable_allocates_signal_stack_again :
    ((setEnabled Example.platform true (Example.signalState [])).mallocLog.filter
      (fun e => e.1 == MallocSite.signalStack)).length = 1 ∧
    ((setEnabled Example.platform true (setEnabled Example.platform false
      (setEnabled Example.platform true (Example.signalState [])))).mallocLog.filter
      (fun e => e.1 == MallocSite.signalStack)).length = 2 ∧
    (setEnabled Example.platform true (Example.signalState [])).g_signalStack.ss_sp = 1 ∧
    (setEnabled Example.platform true (setEnabled Example.platform false
      (setEnabled Example.platform true (Example.signalState [])))).g_signalStack.ss_sp = 3 := by
  decide

/-! ## The signal monitor: the contextual-info contributor -/

/-- C18, as stated, fails for a Mach exception: its crash type is not the signal
monitor's own, yet the contributor leaves `signal.signum` (here 0) as it is
instead of setting it to `SIGABRT`. -/
theorem addContextualInfoToEvent_keeps_signum_of_mach_event :
    CrasheeCrashMonitorTypeMachException ≠ CrasheeCrashMonitorTypeSignal ∧
    (addContextualInfoToEvent
      { crashType := CrasheeCrashMonitorTypeMachException, signal_signum := 0 }).signal_signum
      = 0 ∧
    (0 : Int) ≠ SIGABRT := by
  decide

/-- C18 (amended): the contributor sets `signal.signum` to `SIGABRT` exactly when
the crash type has neither the Signal bit nor the MachException bit, leaves it
unchanged otherwise (in particular for an event the signal monitor itself
triggered), and never touches another field of the context. -/
theorem addContextualInfoToEvent_signum (eventContext : CrasheeCrash_MonitorContext) :
    addContextualInfoToEvent eventContext =
      { eventContext with
        signal_signum :=
          if eventContext.crashType &&&
              (CrasheeCrashMonitorTypeSignal ||| CrasheeCrashMonitorTypeMachException) = 0
          then SIGABRT else eventContext.signal_signum } := by
  unfold addContextualInfoToEvent
  by_cases h : eventContext.crashType &&&
      (CrasheeCrashMonitorTypeSignal ||| CrasheeCrashMonitorTypeMachException) = 0
  · simp [h]
  · simp [h]

end CrasheeCrashMonitor_Signal

namespace MachineContext

/-! ## The reserved-thread list and suspending the environment -/

theorem initial_inBounds : Reserved.initial.InBounds := by
  refine ⟨by simp [Reserved.initial], by simp [Reserved.initial], by simp [Reserved.initial]⟩

/-- On a full list `crasheemc_addReservedThread` returns without writing. -/
theorem addReservedThread_full (thread : CrasheeThread) (g : Reserved)
    (h : g.g_reservedThreadsCount = 10) : crasheemc_addReservedThread thread g = some g := by
  simp [crasheemc_addReservedThread, g_reservedThreadsMaxIndex, h]

/-- Below capacity `crasheemc_addReservedThread` writes at the index `count`, which
lies inside the array, and increments the count. -/
theorem addReservedThread_room (thread : CrasheeThread) (g : Reserved) (hg : g.InBounds)
    (h : g.g_reservedThreadsCount ≠ 10) :
    crasheemc_addReservedThread thread g =
      some { g_reservedThreads := g.g_reservedThreads.set g.g_reservedThreadsCount.toNat thread
             g_reservedThreadsCount := g.g_reservedThreadsCount + 1 } := by
  obtain ⟨hlen, h0, h10⟩ := hg
  have hlt : g.g_reservedThreadsCount < 10 := lt_of_le_of_ne h10 h
  have h1 : ¬ g.g_reservedThreadsCount > g_reservedThreadsMaxIndex := by
    simp only [g_reservedThreadsMaxIndex]; omega
  have h2 : 0 ≤ g.g_reservedThreadsCount ∧
      g.g_reservedThreadsCount.toNat < g.g_reservedThreads.length := by
    refine ⟨h0, ?_⟩
    rw [hlen]; omega
  simp only [crasheemc_addReservedThread, h1, h2, if_false, if_true, and_self]

theorem addReservedThread_inBounds (thread : CrasheeThread) (g : Reserved) (hg : g.InBounds) :
    ∃ g', crasheemc_addReservedThread thread g = some g' ∧ g'.InBounds := by
  by_cases h : g.g_reservedThreadsCount = 10
  · exact ⟨g, addReservedThread_full thread g h, hg⟩
  · refine ⟨_, addReservedThread_room thread g hg h, ?_⟩
    obtain ⟨hlen, h0, h10⟩ := hg
    refine ⟨by simp [hlen], ?_, ?_⟩
    · show 0 ≤ g.g_reservedThreadsCount + 1
      omega
    · show g.g_reservedThreadsCount + 1 ≤ 10
      omega

theorem addReservedThreads_inBounds (threads : List CrasheeThread) :
    ∀ g : Reserved, g.InBounds → ∃ g', addReservedThreads threads g = some g' ∧ g'.InBounds := by
  induction threads with
  | nil => intro g hg; exact ⟨g, rfl, hg⟩
  | cons thread rest ih =>
    intro g hg
    obtain ⟨g1, h1, hg1⟩ := addReservedThread_inBounds thread g hg
    obtain ⟨g2, h2, hg2⟩ := ih g1 hg1
    exact ⟨g2, by simp [addReservedThreads, h1, h2], hg2⟩

/-- C20: after any number of `crasheemc_addReservedThread` calls, starting from
the statics as initialised, no call has written outside the array (the result is
not `none`), the array still has its 10 elements and the count lies between 0 and
10; one more call either finds the list full (count 10) and returns the statics
unchanged, or writes at index `count`, inside the array, and increments the
count. -/
theorem addReservedThread_never_exceeds_capacity (threads : List CrasheeThread)
    (thread : CrasheeThread) :
    ∃ g, addReservedThreads threads Reserved.initial = some g ∧
      g.g_reservedThreads.length = 10 ∧
      0 ≤ g.g_reservedThreadsCount ∧ g.g_reservedThreadsCount ≤ 10 ∧
      crasheemc_addReservedThread thread g =
        (if g.g_reservedThreadsCount = 10 then some g
         else some
          { g_reservedThreads := g.g_reservedThreads.set g.g_reservedThreadsCount.toNat thread
            g_reservedThreadsCount := g.g_reservedThreadsCount + 1 }) := by
  obtain ⟨g, h, hg⟩ := addReservedThreads_inBounds threads _ initial_inBounds
  refine ⟨g, h, hg.1, hg.2.1, hg.2.2, ?_⟩
  by_cases hfull : g.g_reservedThreadsCount = 10
  · rw [if_pos hfull]; exact addReservedThread_full thread g hfull
  · rw [if_neg hfull]; exact addReservedThread_room thread g hg hfull

theorem suspended_map_thread_suspend (l : List CrasheeThread) :
    suspended (l.map MachCall.thread_suspend) = l := by
  induction l with
  | nil => rfl
  | cons t rest ih => simpa [suspended] using ih

theorem resumed_map_thread_resume (l : List CrasheeThread) :
    resumed (l.map MachCall.thread_resume) = l := by
  induction l with
  | nil => rfl
  | cons t rest ih => simpa [resumed] using ih

theorem resumed_map_mach_port_deallocate (l : List CrasheeThread) :
    resumed (l.map MachCall.mach_port_deallocate) = [] := by
  induction l with
  | nil => rfl
  | cons t rest ih => simp [resumed]

theorem resumed_append (a b : List MachCall) : resumed (a ++ b) = resumed a ++ resumed b := by
  simp [resumed]

/-- C17: with the caller's list pointer and count initialised to `NULL` and 0,
and the same reserved-thread statics and calling thread for both calls,
`crasheemc_resumeEnvironment` applied to what `crasheemc_suspendEnvironment`
produced calls `thread_resume` on exactly the threads `thread_suspend` was called
on, in the same order: the threads `task_threads` listed, without the calling
thread and the reserved threads, each as often as it was listed (once, the list
having no repetition). -/
theorem resumeEnvironment_resumes_the_suspended (p : Process) (g : Reserved) :
    resumed (crasheemc_resumeEnvironment p g (crasheemc_suspendEnvironment p g none).1) =
      suspended (crasheemc_suspendEnvironment p g none).2 ∧
    suspended (crasheemc_suspendEnvironment p g none).2 =
      ((if p.CrasheeCRASH_HAS_THREADS_API then p.task_threads.getD [] else []).filter
        (fun thread => thread != p.crasheethread_self &&
          !isThreadInList thread g.g_reservedThreads g.g_reservedThreadsCount)) ∧
    (∀ thread : CrasheeThread,
      (resumed (crasheemc_resumeEnvironment p g
          (crasheemc_suspendEnvironment p g none).1)).count thread =
        if (thread != p.crasheethread_self &&
            !isThreadInList thread g.g_reservedThreads g.g_reservedThreadsCount) = true then
          (if p.CrasheeCRASH_HAS_THREADS_API then p.task_threads.getD [] else []).count thread
        else 0) := by
  cases hflag : p.CrasheeCRASH_HAS_THREADS_API with
  | false =>
    simp [crasheemc_suspendEnvironment, crasheemc_resumeEnvironment, hflag, suspended, resumed]
  | true =>
    cases hthreads : p.task_threads with
    | none =>
      simp [crasheemc_suspendEnvironment, crasheemc_resumeEnvironment, hflag, hthreads,
        suspended, resumed]
    | some threads =>
      have hs : suspended (crasheemc_suspendEnvironment p g none).2 =
          threads.filter (fun thread => thread != p.crasheethread_self &&
            !isThreadInList thread g.g_reservedThreads g.g_reservedThreadsCount) := by
        simp only [crasheemc_suspendEnvironment, hflag, hthreads, if_true]
        show suspended (MachCall.task_threads :: _) = _
        exact suspended_map_thread_suspend _
      have hr : resumed (crasheemc_resumeEnvironment p g
            (crasheemc_suspendEnvironment p g none).1) =
          threads.filter (fun thread => thread != p.crasheethread_self &&
            !isThreadInList thread g.g_reservedThreads g.g_reservedThreadsCount) := by
        simp only [crasheemc_suspendEnvironment, crasheemc_resumeEnvironment, hflag, hthreads,
          if_true]
        cases threads with
        | nil => simp [resumed]
        | cons t rest =>
          simp only [List.length_cons, beq_iff_eq, Nat.add_one_ne_zero, if_false]
          rw [resumed_append, resumed_append, resumed_map_thread_resume,
            resumed_map_mach_port_deallocate]
          simp [resumed]
      refine ⟨hr.trans hs.symm, ?_, ?_⟩
      · rw [hs]; simp
      · intro thread
        rw [hr]
        by_cases hc : (thread != p.crasheethread_self &&
            !isThreadInList thread g.g_reservedThreads g.g_reservedThreadsCount) = true
        · rw [if_pos hc]
          have hf := List.count_filter
            (p := fun thread => thread != p.crasheethread_self &&
              !isThreadInList thread g.g_reservedThreads g.g_reservedThreadsCount)
            (a := thread) (l := threads) hc
          rw [hf]; simp
        · rw [if_neg hc]
          apply List.count_eq_zero_of_not_mem
          intro hmem
          exact hc (List.mem_filter.mp hmem).2

end MachineContext

namespace CrasheeCrashC

open CrasheeCrashMonitor

/-! ## Installing: the mask `crasheecrash_install` returns -/

theorem onWorld_frame {W : Type} (f : W → W) (s : State W) :
    (onWorld f s).g_installed = s.g_installed ∧
    (onWorld f s).g_monitoring = s.g_monitoring ∧
    (onWorld f s).g_shouldPrintPreviousLog = s.g_shouldPrintPreviousLog ∧
    (onWorld f s).registry.g_requiresAsyncSafety = s.registry.g_requiresAsyncSafety ∧
    (onWorld f s).registry.g_activeMonitors = s.registry.g_activeMonitors :=
  ⟨rfl, rfl, rfl, rfl, rfl⟩

theorem prepareInstallation_frame {W : Type} (c : Collaborators W) (appName installPath : String)
    (s : State W) :
    (prepareInstallation c appName installPath s).g_installed = s.g_installed ∧
    (prepareInstallation c appName installPath s).g_monitoring = s.g_monitoring ∧
    (prepareInstallation c appName installPath s).registry.g_requiresAsyncSafety =
      s.registry.g_requiresAsyncSafety := by
  unfold prepareInstallation
  by_cases h : s.g_shouldPrintPreviousLog = true <;> simp [onWorld, h]

theorem notifyOfBeforeInstallationState_active {W : Type} (c : Collaborators W) (s : State W) :
    (notifyOfBeforeInstallationState c s).registry.g_activeMonitors =
      s.registry.g_activeMonitors := by
  unfold notifyOfBeforeInstallationState
  cases s.g_lastApplicationState <;>
    simp only [crasheecrash_notifyAppActive, crasheecrash_notifyAppInForeground,
      crasheecrash_notifyAppTerminate] <;>
    by_cases h : s.g_installed = true <;> simp [onWorld, h]

/-- The first `crasheecrash_install` runs `crasheecm_setActiveMonitors` with the
stored mask on the registry as the preparation left it, and returns the active
mask. -/
theorem install_first_eq {W : Type} (c : Collaborators W) (b : Build W)
    (appName installPath : String) (s : State W) (hinst : s.g_installed = false) :
    (crasheecrash_install c b appName installPath s).1 =
      (crasheecm_setActiveMonitors b s.g_monitoring
        (crasheecm_setEventCallback (some c.onCrash)
          (prepareInstallation c appName installPath
            { s with g_installed := true }).registry)).g_activeMonitors ∧
    (crasheecrash_install c b appName installPath s).2.registry.g_activeMonitors =
      (crasheecrash_install c b appName installPath s).1 := by
  have hp := prepareInstallation_frame c appName installPath { s with g_installed := true }
  obtain ⟨hp1, hp2, _⟩ := hp
  have hp1 : (prepareInstallation c appName installPath { s with g_installed := true }).g_installed
      = true := hp1
  have hp2 : (prepareInstallation c appName installPath { s with g_installed := true }).g_monitoring
      = s.g_monitoring := hp2
  unfold crasheecrash_install
  simp only [hinst, Bool.false_eq_true, if_false]
  rw [notifyOfBeforeInstallationState_active]
  simp only [crasheecrash_setMonitoring, hp1, hp2, if_true, crasheecm_getActiveMonitors,
    and_self]

/-- With every monitor asked to enable and reporting itself enabled, the loop
result collects every monitor type. -/
theorem setActiveMonitorsLoop_all_enabled {W : Type} (mt : Nat) (ms : List (Monitor W))
    (h : ∀ m ∈ ms, m.monitorType &&& mt ≠ 0 ∧ HonoursEnable m) (active : Nat) (w : W) :
    (setActiveMonitorsLoop mt ms active w).1 =
      ms.foldl (fun a m => a ||| m.monitorType) active := by
  induction ms generalizing active w with
  | nil => rfl
  | cons m rest ih =>
    obtain ⟨hne, hen⟩ := h m (List.mem_cons_self _ _)
    have hb : (m.monitorType &&& mt != 0) = true := by simpa using hne
    simp only [setActiveMonitorsLoop, hb, hen w, if_true, List.foldl_cons]
    exact ih (fun m' hm' => h m' (List.mem_cons_of_mem _ hm')) _ _

/-- Asked for the production-safe-minimal mask in a process that is not traced
and does not require async safety, a registry whose monitors are all built in and
all report themselves enabled ends with exactly that mask active. -/
theorem setActiveMonitors_productionSafeMinimal {W : Type} (b : Build W) (r : Registry W)
    (mt : Nat) (hmt : mt = CrasheeCrashMonitorTypeProductionSafeMinimal)
    (htr : b.crasheedebug_isBeingTraced r.world = false)
    (hasync : r.g_requiresAsyncSafety = false)
    (hmach : b.CrasheeCRASH_HAS_MACH = true) (hsig : b.CrasheeCRASH_HAS_SIGNAL = true)
    (hobjc : b.CrasheeCRASH_HAS_OBJC = true)
    (hen : ∀ m ∈ g_monitors b, HonoursEnable m) :
    (crasheecm_setActiveMonitors b mt r).g_activeMonitors =
      CrasheeCrashMonitorTypeProductionSafeMinimal := by
  subst hmt
  rw [setActiveMonitors_active, htr, hasync]
  have hmt : effectiveMonitorTypes false false CrasheeCrashMonitorTypeProductionSafeMinimal =
      CrasheeCrashMonitorTypeProductionSafeMinimal := by
    simp [effectiveMonitorTypes, maskAsyncUnsafe, maskDebuggerUnsafe]
  rw [hmt, setActiveMonitorsLoop_all_enabled _ _
    (fun m hm => ⟨by rcases mem_g_monitors_type b m hm with h | h | h | h | h | h | h <;>
                       rw [h] <;> decide, hen m hm⟩)]
  simp only [g_monitors, hmach, hsig, hobjc, if_true, List.append_assoc, List.singleton_append,
    List.cons_append, List.nil_append, List.foldl_cons, List.foldl_nil]
  decide

/-- C19, as stated, fails in a process that is being traced: the first install,
with no earlier `crasheecrash_setMonitoring`, returns 0xE0 (UserReported, System,
ApplicationState), not the production-safe-minimal mask 0xEF. -/
theorem install_traced_returns_less_than_productionSafeMinimal :
    (crasheecrash_install Example.collaborators Example.build "MyApp" "/tmp/x"
      (State.initial (Example.world true []))).1 = 0xE0 ∧
    CrasheeCrashMonitorTypeProductionSafeMinimal = 0xEF := by
  decide

/-- C19 (amended): the first `crasheecrash_install`, made with the stored mask
still the production-safe-minimal one, returns the active mask of the registry,
which lies inside the production-safe-minimal mask; it is that mask when, at the
time the monitors are set, the process is not being traced, async safety is not
required, the build has the Mach, signal and Objective-C capabilities and every
monitor reports itself enabled once asked to enable. -/
theorem install_first_call_returns_active_mask {W : Type} (c : Collaborators W) (b : Build W)
    (appName installPath : String) (s : State W) (hinst : s.g_installed = false)
    (hmon : s.g_monitoring = CrasheeCrashMonitorTypeProductionSafeMinimal) :
    (crasheecrash_install c b appName installPath s).1 =
      crasheecm_getActiveMonitors (crasheecrash_install c b appName installPath s).2.registry ∧
    (crasheecrash_install c b appName installPath s).1 &&&
        CrasheeCrashMonitorTypeProductionSafeMinimal =
      (crasheecrash_install c b appName installPath s).1 ∧
    (b.crasheedebug_isBeingTraced
        (prepareInstallation c appName installPath { s with g_installed := true }).registry.world
        = false →
      s.registry.g_requiresAsyncSafety = false →
      b.CrasheeCRASH_HAS_MACH = true → b.CrasheeCRASH_HAS_SIGNAL = true →
      b.CrasheeCRASH_HAS_OBJC = true →
      (∀ m ∈ g_monitors b, HonoursEnable m) →
      (crasheecrash_install c b appName installPath s).1 =
        CrasheeCrashMonitorTypeProductionSafeMinimal) := by
  obtain ⟨h1, h2⟩ := install_first_eq c b appName installPath s hinst
  have hsub : ∀ m ∈ g_monitors b, m.monitorType &&&
      CrasheeCrashMonitorTypeProductionSafeMinimal = m.monitorType := by
    intro m hm
    rcases mem_g_monitors_type b m hm with h | h | h | h | h | h | h <;> rw [h] <;> decide
  refine ⟨h2.symm, ?_, ?_⟩
  · rw [h1, setActiveMonitors_active]
    exact setActiveMonitorsLoop_and_eq_self _ _ _
      (fun m hm hne => absurd (hsub m hm) hne) _ _ (by decide)
  · intro htr hasync hmach hsig hobjc hen
    have hasync1 : (prepareInstallation c appName installPath
        { s with g_installed := true }).registry.g_requiresAsyncSafety = false :=
      (prepareInstallation_frame c appName installPath { s with g_installed := true }).2.2.trans
        hasync
    rw [h1]
    exact setActiveMonitors_productionSafeMinimal b _ _ hmon htr hasync1 hmach hsig hobjc hen

theorem flagAPI_honoursEnable (t : CrasheeCrashMonitorType) (c : Bool) :
    HonoursEnable { monitorType := t, getAPI := some (Example.flagAPI t c) } := by
  intro w
  cases h : w.g_isEnabled t <;>
    simp [isMonitorEnabled, setMonitorEnabled, getAPI, Example.flagAPI, h]

theorem signal_honoursEnable :
    HonoursEnable { monitorType := CrasheeCrashMonitorTypeSignal,
                    getAPI := Example.build.crasheecm_signal_getAPI } := by
  intro w
  have key : ∀ s : CrasheeCrashMonitor_Signal.State,
      CrasheeCrashMonitor_Signal.isEnabled
        (CrasheeCrashMonitor_Signal.setEnabled Example.platform true s) = true := by
    intro s
    cases hs : s.g_isEnabled with
    | false => exact CrasheeCrashMonitor_Signal.setEnabled_true_reports_enabled _ _ hs
    | true => simp [CrasheeCrashMonitor_Signal.setEnabled, CrasheeCrashMonitor_Signal.isEnabled, hs]
  simpa [isMonitorEnabled, setMonitorEnabled, getAPI, Example.build,
    CrasheeCrashMonitor_Signal.crasheecm_signal_getAPI, CrasheeCrashMonitorAPI.lift] using
    key w.signal

theorem build_honoursEnable : ∀ m ∈ g_monitors Example.build, HonoursEnable m := by
  intro m hm
  simp only [g_monitors, Example.build, if_true, List.mem_append, List.mem_cons,
    List.mem_singleton, List.not_mem_nil, or_false] at hm
  rcases hm with ((h | h) | h) | h | h | h | h <;> subst h
  · exact flagAPI_honoursEnable _ _
  · exact signal_honoursEnable
  · exact flagAPI_honoursEnable _ _
  · exact flagAPI_honoursEnable _ _
  · exact flagAPI_honoursEnable _ _
  · exact flagAPI_honoursEnable _ _
  · exact flagAPI_honoursEnable _ _

/-- C19 (amended), at a concrete input: in the example process, not traced, the
first install returns the production-safe-minimal mask. -/
theorem install_first_call_returns_active_mask_witness :
    (crasheecrash_install Example.collaborators Example.build "MyApp" "/tmp/x"
      (State.initial (Example.world false []))).1 =
        CrasheeCrashMonitorTypeProductionSafeMinimal :=
  (install_first_call_returns_active_mask Example.collaborators Example.build "MyApp" "/tmp/x"
    (State.initial (Example.world false [])) rfl rfl).2.2 rfl rfl rfl rfl rfl build_honoursEnable

end CrasheeCrashC

namespace CrasheeJSON

/-! ## Sequences of codec calls: depth, balance, entries -/

theorem depthAfter_append (a b : List JSONCall) (depth : Nat) :
    depthAfter depth (a ++ b) = (depthAfter depth a).bind (fun m => depthAfter m b) := by
  induction a generalizing depth with
  | nil => rfl
  | cons call rest ih =>
    simp only [List.cons_append, depthAfter]
    split
    · exact ih _
    · split
      · cases depth with
        | zero => rfl
        | succ d => exact ih _
      · exact ih _

/-- A sequence that runs from depth 0 runs from any depth, shifted. -/
theorem depthAfter_shift (calls : List JSONCall) (start result depth : Nat)
    (h : depthAfter start calls = some result) :
    depthAfter (start + depth) calls = some (result + depth) := by
  induction calls generalizing start with
  | nil =>
    simp only [depthAfter, Option.some.injEq] at h ⊢
    omega
  | cons call rest ih =>
    simp only [depthAfter] at h ⊢
    split
    · rename_i hb
      rw [if_pos hb] at h
      have := ih _ h
      rw [show start + depth + 1 = start + 1 + depth by omega]
      exact this
    · rename_i hb
      rw [if_neg hb] at h
      split
      · rename_i he
        rw [if_pos he] at h
        cases start with
        | zero => simp at h
        | succ d =>
          simp only at h
          have := ih _ h
          rw [show d + 1 + depth = (d + depth) + 1 by omega]
          exact this
      · rename_i he
        rw [if_neg he] at h
        exact ih _ h

theorem balanced_iff (calls : List JSONCall) : Balanced calls ↔ depthAfter 0 calls = some 0 := by
  constructor
  · intro h; exact h 0
  · intro h depth
    have := depthAfter_shift calls 0 0 depth h
    simpa using this

theorem balanced_nil : Balanced [] := fun _ => rfl

theorem balanced_append {a b : List JSONCall} (ha : Balanced a) (hb : Balanced b) :
    Balanced (a ++ b) := by
  intro depth
  rw [depthAfter_append, ha depth]
  exact hb depth

/-- A call that neither opens nor closes a container keeps a sequence balanced. -/
theorem balanced_cons_element (call : JSONCall) (rest : List JSONCall)
    (hb : call.isBegin = false) (he : call.isEnd = false) (h : Balanced rest) :
    Balanced (call :: rest) := by
  intro depth
  simp only [depthAfter, hb, he, Bool.false_eq_true, if_false]
  exact h depth

/-- A container around a balanced body is balanced. -/
theorem balanced_container (call : JSONCall) (inner : List JSONCall)
    (hb : call.isBegin = true) (h : Balanced inner) :
    Balanced (call :: (inner ++ [JSONCall.endContainer])) := by
  intro depth
  simp only [depthAfter, hb, if_true]
  rw [depthAfter_append, h (depth + 1)]
  rfl

theorem balanced_flatMap {α : Type} (l : List α) (f : α → List JSONCall)
    (h : ∀ x ∈ l, Balanced (f x)) : Balanced (l.flatMap f) := by
  induction l with
  | nil => exact balanced_nil
  | cons x rest ih =>
    rw [List.flatMap_cons]
    exact balanced_append (h x (List.mem_cons_self _ _))
      (ih (fun y hy => h y (List.mem_cons_of_mem _ hy)))

theorem maxDepth_ge (calls : List JSONCall) (depth : Nat) : depth ≤ maxDepth depth calls := by
  cases calls with
  | nil => exact Nat.le_refl _
  | cons call rest =>
    simp only [maxDepth]
    split
    · exact Nat.le_max_left _ _
    · split <;> exact Nat.le_max_left _ _

/-- The deepest point of two sequences run one after the other, the first from
`depth` to `middle`. -/
theorem maxDepth_append (a b : List JSONCall) (depth middle : Nat)
    (h : depthAfter depth a = some middle) :
    maxDepth depth (a ++ b) = max (maxDepth depth a) (maxDepth middle b) := by
  induction a generalizing depth with
  | nil =>
    simp only [depthAfter, Option.some.injEq] at h
    subst h
    simp only [List.nil_append, maxDepth]
    exact (Nat.max_eq_right (maxDepth_ge b depth)).symm
  | cons call rest ih =>
    simp only [depthAfter] at h
    rw [List.cons_append]
    simp only [maxDepth]
    by_cases hb : call.isBegin = true
    · rw [if_pos hb] at h
      rw [if_pos hb, if_pos hb, ih _ h, Nat.max_assoc]
    · rw [if_neg hb] at h
      rw [if_neg hb, if_neg hb]
      by_cases he : call.isEnd = true
      · rw [if_pos he] at h
        rw [if_pos he, if_pos he]
        cases depth with
        | zero => simp at h
        | succ d =>
          simp only at h
          rw [show d + 1 - 1 = d by omega, ih _ h, Nat.max_assoc]
      · rw [if_neg he] at h
        rw [if_neg he, if_neg he, ih _ h, Nat.max_assoc]

/-- Run from a greater depth, a sequence that does not underflow reaches a point
deeper by the same amount. -/
theorem maxDepth_shift (calls : List JSONCall) (start result depth : Nat)
    (h : depthAfter start calls = some result) :
    maxDepth (start + depth) calls = maxDepth start calls + depth := by
  induction calls generalizing start with
  | nil => rfl
  | cons call rest ih =>
    simp only [depthAfter] at h
    simp only [maxDepth]
    by_cases hb : call.isBegin = true
    · rw [if_pos hb] at h
      rw [if_pos hb, if_pos hb, show start + depth + 1 = start + 1 + depth by omega, ih _ h]
      omega
    · rw [if_neg hb] at h
      rw [if_neg hb, if_neg hb]
      by_cases he : call.isEnd = true
      · rw [if_pos he] at h
        rw [if_pos he, if_pos he]
        cases start with
        | zero => simp at h
        | succ d =>
          simp only at h
          rw [show d + 1 + depth - 1 = d + depth by omega, show d + 1 - 1 = d by omega, ih _ h]
          omega
      · rw [if_neg he] at h
        rw [if_neg he, if_neg he, ih _ h]
        omega

/-- A sequence of element calls is balanced and opens nothing. -/
theorem allElements_written (calls : List JSONCall) (h : allElements calls = true) :
    Balanced calls ∧ maxDepth 0 calls = 0 := by
  induction calls with
  | nil => exact ⟨balanced_nil, rfl⟩
  | cons call rest ih =>
    simp only [allElements, List.all_cons, Bool.and_eq_true, Bool.not_eq_true'] at h
    obtain ⟨⟨hb, he⟩, hrest⟩ := h
    have ih := ih (by simpa [allElements] using hrest)
    refine ⟨balanced_cons_element call rest hb he ih.1, ?_⟩
    simp only [maxDepth, hb, he, Bool.false_eq_true, if_false, ih.2]
    rfl

theorem allElements_append (a b : List JSONCall) :
    allElements (a ++ b) = (allElements a && allElements b) := by
  simp [allElements]

theorem maxDepth_append_balanced {a : List JSONCall} (b : List JSONCall) (ha : Balanced a) :
    maxDepth 0 (a ++ b) = max (maxDepth 0 a) (maxDepth 0 b) :=
  maxDepth_append a b 0 0 (ha 0)

theorem maxDepth_cons_element (call : JSONCall) (rest : List JSONCall)
    (hb : call.isBegin = false) (he : call.isEnd = false) :
    maxDepth 0 (call :: rest) = maxDepth 0 rest := by
  simp only [maxDepth, hb, he, Bool.false_eq_true, if_false]
  exact Nat.max_eq_right (Nat.zero_le _)

/-- A container is one level deeper than its body. -/
theorem maxDepth_container (call : JSONCall) (inner : List JSONCall)
    (hb : call.isBegin = true) (h : Balanced inner) :
    maxDepth 0 (call :: (inner ++ [JSONCall.endContainer])) = maxDepth 0 inner + 1 := by
  simp only [maxDepth, hb, if_true]
  rw [maxDepth_append inner _ 1 1 (h 1)]
  have h1 := maxDepth_shift inner 0 0 1 (h 0)
  simp only [Nat.zero_add] at h1
  rw [h1]
  simp [maxDepth, JSONCall.isBegin, JSONCall.isEnd]

/-- Splitting a sequence that runs from `depth` to `after` yields some entries
first and then goes on with the rest, whatever the rest is. -/
theorem entriesAux_append (a : List JSONCall) :
    ∀ (depth : Nat) (current : List JSONCall), (depth = 0 → current = []) →
      ∀ after, depthAfter depth a = some after →
        ∃ (pre : List (List JSONCall)) (current1 : List JSONCall),
          (after = 0 → current1 = []) ∧
          ∀ b, entriesAux depth current (a ++ b) = pre ++ entriesAux after current1 b := by
  induction a with
  | nil =>
    intro depth current hinv after h
    simp only [depthAfter, Option.some.injEq] at h
    subst h
    exact ⟨[], current, hinv, fun b => rfl⟩
  | cons call rest ih =>
    intro depth current hinv after h
    simp only [depthAfter] at h
    by_cases hb : call.isBegin = true
    · rw [if_pos hb] at h
      obtain ⟨pre, current1, hinv1, hsplit⟩ :=
        ih (depth + 1) (current ++ [call]) (fun h0 => absurd h0 (Nat.succ_ne_zero _)) after h
      refine ⟨pre, current1, hinv1, fun b => ?_⟩
      rw [List.cons_append]
      simp only [entriesAux, hb, if_true]
      exact hsplit b
    · rw [if_neg hb] at h
      by_cases he : call.isEnd = true
      · rw [if_pos he] at h
        cases depth with
        | zero => simp at h
        | succ d =>
          simp only at h
          by_cases hd : d = 0
          · subst hd
            obtain ⟨pre, current1, hinv1, hsplit⟩ := ih 0 [] (fun _ => rfl) after h
            refine ⟨(current ++ [call]) :: pre, current1, hinv1, fun b => ?_⟩
            rw [List.cons_append]
            simp only [entriesAux, hb, he, Bool.false_eq_true, if_false, if_true,
              Nat.zero_add, Nat.le_refl, List.cons_append]
            rw [hsplit b]
          · obtain ⟨pre, current1, hinv1, hsplit⟩ :=
              ih d (current ++ [call]) (fun h0 => absurd h0 hd) after h
            refine ⟨pre, current1, hinv1, fun b => ?_⟩
            rw [List.cons_append]
            have hle : ¬ d + 1 ≤ 1 := by omega
            simp only [entriesAux, hb, he, Bool.false_eq_true, if_false, if_true, hle,
              Nat.add_sub_cancel]
            exact hsplit b
      · rw [if_neg he] at h
        by_cases hd : depth = 0
        · subst hd
          obtain ⟨pre, current1, hinv1, hsplit⟩ := ih 0 [] (fun _ => rfl) after h
          refine ⟨[call] :: pre, current1, hinv1, fun b => ?_⟩
          rw [List.cons_append]
          simp only [entriesAux, hb, he, Bool.false_eq_true, if_false, if_true,
            List.cons_append]
          rw [hsplit b]
        · obtain ⟨pre, current1, hinv1, hsplit⟩ :=
            ih depth (current ++ [call]) (fun h0 => absurd h0 hd) after h
          refine ⟨pre, current1, hinv1, fun b => ?_⟩
          rw [List.cons_append]
          simp only [entriesAux, hb, he, Bool.false_eq_true, if_false, hd]
          exact hsplit b

/-- The entries of a balanced sequence followed by another are the entries of
the one followed by the entries of the other. -/
theorem entries_append {a : List JSONCall} (b : List JSONCall) (ha : Balanced a) :
    entries (a ++ b) = entries a ++ entries b := by
  obtain ⟨pre, current1, hinv1, hsplit⟩ := entriesAux_append a 0 [] (fun _ => rfl) 0 (ha 0)
  have hc := hinv1 rfl
  subst hc
  have h1 := hsplit []
  have h2 := hsplit b
  simp only [List.append_nil] at h1
  have h3 : entriesAux 0 [] ([] : List JSONCall) = [] := rfl
  rw [h3, List.append_nil] at h1
  unfold entries
  rw [h2, h1]

/-- An element call is an entry of its own. -/
theorem entries_cons_element (call : JSONCall) (rest : List JSONCall)
    (hb : call.isBegin = false) (he : call.isEnd = false) :
    entries (call :: rest) = [call] :: entries rest := by
  simp only [entries, entriesAux, hb, he, Bool.false_eq_true, if_false, if_true]

/-- Inside a nested container the calls of a sequence that does not close it are
added to the entry under way. -/
theorem entriesAux_inside (a : List JSONCall) :
    ∀ (outer start after : Nat) (current b : List JSONCall),
      depthAfter start a = some after →
      entriesAux (outer + 1 + start) current (a ++ b) =
        entriesAux (outer + 1 + after) (current ++ a) b := by
  induction a with
  | nil =>
    intro outer start after current b h
    simp only [depthAfter, Option.some.injEq] at h
    subst h
    simp
  | cons call rest ih =>
    intro outer start after current b h
    simp only [depthAfter] at h
    rw [List.cons_append]
    by_cases hb : call.isBegin = true
    · rw [if_pos hb] at h
      simp only [entriesAux, hb, if_true]
      have := ih outer (start + 1) after (current ++ [call]) b h
      rw [show outer + 1 + start + 1 = outer + 1 + (start + 1) by omega, this]
      simp
    · rw [if_neg hb] at h
      by_cases he : call.isEnd = true
      · rw [if_pos he] at h
        cases start with
        | zero => simp at h
        | succ d =>
          simp only at h
          have hle : ¬ outer + 1 + (d + 1) ≤ 1 := by omega
          simp only [entriesAux, hb, he, Bool.false_eq_true, if_false, if_true, hle]
          have := ih outer d after (current ++ [call]) b h
          rw [show outer + 1 + (d + 1) - 1 = outer + 1 + d by omega, this]
          simp
      · rw [if_neg he] at h
        have hne : ¬ outer + 1 + start = 0 := by omega
        simp only [entriesAux, hb, he, Bool.false_eq_true, if_false, hne]
        have := ih outer start after (current ++ [call]) b h
        rw [this]
        simp

/-- A container with a balanced body is one entry. -/
theorem entries_container (call : JSONCall) (inner rest : List JSONCall)
    (hb : call.isBegin = true) (h : Balanced inner) :
    entries (call :: (inner ++ JSONCall.endContainer :: rest)) =
      (call :: (inner ++ [JSONCall.endContainer])) :: entries rest := by
  have h1 := entriesAux_inside inner 0 0 0 [call] (JSONCall.endContainer :: rest) (h 0)
  simp only [Nat.zero_add, Nat.add_zero] at h1
  show entriesAux 0 [] (call :: (inner ++ JSONCall.endContainer :: rest)) = _
  simp only [entriesAux, hb, if_true, List.nil_append, Nat.zero_add]
  rw [h1]
  simp only [entriesAux, JSONCall.isBegin, JSONCall.isEnd, Bool.false_eq_true,
    if_false, if_true, Nat.le_refl, List.singleton_append, List.cons_append, entries,
    List.append_assoc, List.nil_append]

/-- A sequence of element calls has one entry per call. -/
theorem entries_allElements (calls : List JSONCall) (h : allElements calls = true) :
    entries calls = calls.map (fun call => [call]) := by
  induction calls with
  | nil => rfl
  | cons call rest ih =>
    simp only [allElements, List.all_cons, Bool.and_eq_true, Bool.not_eq_true'] at h
    obtain ⟨⟨hb, he⟩, hrest⟩ := h
    rw [entries_cons_element call rest hb he, ih (by simpa [allElements] using hrest)]
    rfl

theorem body_container (call last : JSONCall) (inner : List JSONCall) :
    body (call :: (inner ++ [last])) = inner := by
  simp [body]

/-- The fields of a record whose body makes element calls only are those calls. -/
theorem fields_allElements (call last : JSONCall) (inner : List JSONCall)
    (h : allElements inner = true) : fields (call :: (inner ++ [last])) = inner := by
  rw [fields, heads, body_container, entries_allElements inner h]
  induction inner with
  | nil => rfl
  | cons c rest ih =>
    simp only [allElements, List.all_cons, Bool.and_eq_true] at h
    simp only [List.map_cons, List.filterMap_cons, List.head?_cons]
    rw [ih (by simpa [allElements] using h.2)]

theorem heads_nil : heads [] = [] := rfl

theorem heads_append {a : List JSONCall} (b : List JSONCall) (ha : Balanced a) :
    heads (a ++ b) = heads a ++ heads b := by
  simp only [heads, entries_append b ha, List.filterMap_append]

theorem heads_cons_element (call : JSONCall) (rest : List JSONCall)
    (hb : call.isBegin = false) (he : call.isEnd = false) :
    heads (call :: rest) = call :: heads rest := by
  simp only [heads, entries_cons_element call rest hb he, List.filterMap_cons, List.head?_cons]

theorem heads_allElements (calls : List JSONCall) (h : allElements calls = true) :
    heads calls = calls := by
  have := fields_allElements JSONCall.endContainer JSONCall.endContainer calls h
  rw [fields, body_container] at this
  exact this

theorem isRecord_balanced {first : JSONCall} {calls : List JSONCall} (h : IsRecord first calls) :
    Balanced calls := by
  obtain ⟨hb, inner, hin, rfl⟩ := h
  exact balanced_container first inner hb hin

/-- A record is one entry of whatever it is written into. -/
theorem isRecord_entries_append {first : JSONCall} {calls : List JSONCall}
    (h : IsRecord first calls) (rest : List JSONCall) :
    entries (calls ++ rest) = calls :: entries rest := by
  obtain ⟨hb, inner, hin, rfl⟩ := h
  have := entries_container first inner rest hb hin
  simpa using this

theorem isRecord_heads_append {first : JSONCall} {calls : List JSONCall}
    (h : IsRecord first calls) (rest : List JSONCall) :
    heads (calls ++ rest) = first :: heads rest := by
  have hcalls : calls.head? = some first := by
    obtain ⟨_, inner, _, rfl⟩ := h
    rfl
  simp only [heads, isRecord_entries_append h rest, List.filterMap_cons, hcalls]

theorem isRecord_heads {first : JSONCall} {calls : List JSONCall} (h : IsRecord first calls) :
    heads calls = [first] := by
  have := isRecord_heads_append h []
  simpa [heads_nil] using this

/-- The fields of a record are the first calls of the entries of its body. -/
theorem fields_record (first last : JSONCall) (inner : List JSONCall) :
    fields (first :: (inner ++ [last])) = heads inner := by
  rw [fields, body_container]

/-- A container opened around a balanced sequence is a record. -/
theorem isRecord_mk (first : JSONCall) (inner : List JSONCall) (hb : first.isBegin = true)
    (h : Balanced inner) : IsRecord first (first :: (inner ++ [JSONCall.endContainer])) :=
  ⟨hb, inner, h, rfl⟩

/-- A sequence that is its first call, its body and an `endContainer` is a record
when the first call opens a container and the body is balanced. -/
theorem isRecord_of_shape (first : JSONCall) (calls : List JSONCall)
    (hb : first.isBegin = true)
    (hshape : calls = first :: (body calls ++ [JSONCall.endContainer]))
    (hin : Balanced (body calls)) : IsRecord first calls :=
  ⟨hb, body calls, hin, hshape⟩

/-- The entries of a sequence of records, one per element of a list, are the
records. -/
theorem entries_flatMap_records {α : Type} (l : List α) (f : α → List JSONCall)
    (first : α → JSONCall) (h : ∀ x ∈ l, IsRecord (first x) (f x)) :
    entries (l.flatMap f) = l.map f := by
  induction l with
  | nil => rfl
  | cons x rest ih =>
    rw [List.flatMap_cons, isRecord_entries_append (h x (List.mem_cons_self _ _)),
      ih (fun y hy => h y (List.mem_cons_of_mem _ hy))]
    rfl

theorem silent_nil (key : String) : Silent key [] := ⟨balanced_nil, rfl⟩

theorem silent_append {key : String} {a b : List JSONCall} (ha : Silent key a)
    (hb : Silent key b) : Silent key (a ++ b) := by
  refine ⟨balanced_append ha.1 hb.1, ?_⟩
  rw [heads_append b ha.1, List.filter_append, ha.2, hb.2]
  rfl

theorem silent_of_record {key : String} {first : JSONCall} {calls : List JSONCall}
    (h : IsRecord first calls) (hk : (first.key == some key) = false) : Silent key calls := by
  refine ⟨isRecord_balanced h, ?_⟩
  rw [isRecord_heads h]
  simp [hk]

theorem silent_of_elements {key : String} (calls : List JSONCall)
    (h : allElements calls = true) (hk : ∀ call ∈ calls, (call.key == some key) = false) :
    Silent key calls := by
  refine ⟨(allElements_written calls h).1, ?_⟩
  rw [heads_allElements calls h, List.filter_eq_nil_iff]
  intro call hc
  simp [hk call hc]

/-- A record whose body is an element call under `key` between two sequences with
no entry under `key` has exactly that one field under `key`. -/
theorem fieldsWithKey_single (key : String) (first last call : JSONCall)
    (pre post : List JSONCall) (hpre : Silent key pre) (hpost : Silent key post)
    (hb : call.isBegin = false) (he : call.isEnd = false) (hk : (call.key == some key) = true) :
    fieldsWithKey key (first :: ((pre ++ (call :: post)) ++ [last])) = [call] := by
  rw [fieldsWithKey, fields_record, heads_append _ hpre.1, heads_cons_element call post hb he,
    List.filter_append, hpre.2, List.filter_cons, hk, if_pos rfl, hpost.2]
  rfl

end CrasheeJSON

namespace CrasheeCrashReport

open CrasheeJSON

/-! ## Memory introspection: termination, balance and depth -/

theorem depthBound_mono {a b : Int} (h : a ≤ b) : depthBound a ≤ depthBound b := by
  unfold depthBound
  split <;> split <;> omega

theorem depthBound_pos (a : Int) : 1 ≤ depthBound a := by
  unfold depthBound
  split <;> omega

theorem writesWell_mono {f : Option String → Nat → Int → Option Written} {n m : Int}
    (h : WritesWell f n) (hmn : m ≤ n) : WritesWell f m :=
  fun key address limit hl => h key address limit (le_trans hl hmn)

/-- A single element call is balanced and opens nothing. -/
theorem element_written (call : JSONCall) (hb : call.isBegin = false) (he : call.isEnd = false) :
    Balanced [call] ∧ maxDepth 0 [call] = 0 :=
  ⟨balanced_cons_element call [] hb he balanced_nil, by
    rw [maxDepth_cons_element call [] hb he]; rfl⟩

theorem writeIvar_good (env : Environment)
    (f : Option String → Nat → Int → Option Written) (n : Int) (hf : WritesWell f n)
    (object : Nat) (ivar : CrasheeObjCIvar) (limit : Int) (hl : limit ≤ n) :
    ∃ w, writeIvar env f object ivar limit = some w ∧ w.2 ≤ limit ∧
      Balanced w.1 ∧ maxDepth 0 w.1 ≤ depthBound limit := by
  have hrec : ∀ address, ∃ w, f ivar.name address limit = some w ∧ w.2 ≤ limit ∧
      Balanced w.1 ∧ maxDepth 0 w.1 ≤ depthBound limit := by
    intro address
    obtain ⟨w, h1, h2, h3, h4⟩ := hf ivar.name address limit hl
    exact ⟨w, h1, by omega, h3, h4⟩
  have hel : ∀ call : JSONCall, call.isBegin = false → call.isEnd = false →
      ∃ w : Written, some ([call], limit) = some w ∧ w.2 ≤ limit ∧
        Balanced w.1 ∧ maxDepth 0 w.1 ≤ depthBound limit := by
    intro call hb he
    refine ⟨([call], limit), rfl, le_refl _, (element_written call hb he).1, ?_⟩
    rw [(element_written call hb he).2]
    exact Nat.zero_le _
  unfold writeIvar
  cases ivarKind ivar.type
  all_goals first
    | exact hel _ rfl rfl
    | exact hrec _
    | exact ⟨([], limit), rfl, le_refl _, balanced_nil, Nat.zero_le _⟩

theorem writeIvars_good (env : Environment)
    (f : Option String → Nat → Int → Option Written) (n : Int) (hf : WritesWell f n)
    (object : Nat) (ivars : List CrasheeObjCIvar) :
    ∀ limit : Int, limit ≤ n →
      ∃ w, writeIvars env f object ivars limit = some w ∧ w.2 ≤ limit ∧
        Balanced w.1 ∧ maxDepth 0 w.1 ≤ depthBound limit := by
  induction ivars with
  | nil =>
    intro limit _
    exact ⟨([], limit), rfl, le_refl _, balanced_nil, Nat.zero_le _⟩
  | cons ivar rest ih =>
    intro limit hl
    obtain ⟨w1, h1, hle1, hb1, hd1⟩ := writeIvar_good env f n hf object ivar limit hl
    obtain ⟨w2, h2, hle2, hb2, hd2⟩ := ih w1.2 (le_trans hle1 hl)
    refine ⟨(w1.1 ++ w2.1, w2.2), ?_, le_trans hle2 hle1, balanced_append hb1 hb2, ?_⟩
    · simp only [writeIvars, h1, h2]
    · show maxDepth 0 (w1.1 ++ w2.1) ≤ depthBound limit
      rw [maxDepth_append_balanced _ hb1]
      exact max_le hd1 (le_trans hd2 (depthBound_mono hle1))

theorem writeUnknownObjectContents_good (env : Environment)
    (f : Option String → Nat → Int → Option Written) (n : Int) (hf : WritesWell f n)
    (key : Option String) (objectAddress : Nat) (limit : Int) (hl : limit - 1 ≤ n) :
    ∃ w, writeUnknownObjectContents env f key objectAddress limit = some w ∧
      w.2 ≤ limit - 1 ∧ Balanced w.1 ∧ maxDepth 0 w.1 ≤ depthBound (limit - 1) + 1 := by
  unfold writeUnknownObjectContents
  by_cases ht : env.objc.crasheeobjc_isTaggedPointer objectAddress = true
  · simp only [ht, if_true]
    have hp := element_written (JSONCall.addIntegerElement (some "tagged_payload")
      (toSigned 64 (env.objc.crasheeobjc_taggedPointerPayload objectAddress))) rfl rfl
    refine ⟨_, rfl, le_refl _, ?_, ?_⟩
    · exact balanced_container (JSONCall.beginObject key) [_] rfl hp.1
    · show maxDepth 0 (JSONCall.beginObject key :: ([_] ++ [JSONCall.endContainer])) ≤ _
      rw [maxDepth_container (JSONCall.beginObject key) [_] rfl hp.1, hp.2]
      exact Nat.succ_le_succ (Nat.zero_le _)
  · simp only [ht, Bool.false_eq_true, if_false]
    have hlim : limit - 1 -
        ((env.objc.crasheeobjc_ivarList (env.objc.crasheeobjc_isaPointer objectAddress) 10).length
          : Int) ≤ limit - 1 := by
      have := Int.natCast_nonneg
        (env.objc.crasheeobjc_ivarList (env.objc.crasheeobjc_isaPointer objectAddress) 10).length
      omega
    obtain ⟨w, h1, hle, hb, hd⟩ := writeIvars_good env f n hf objectAddress
      (env.objc.crasheeobjc_ivarList (env.objc.crasheeobjc_isaPointer objectAddress) 10)
      _ (le_trans hlim hl)
    rw [h1]
    refine ⟨_, rfl, le_trans hle hlim, ?_, ?_⟩
    · show Balanced ([JSONCall.beginObject key] ++ w.1 ++ [JSONCall.endContainer])
      exact balanced_container (JSONCall.beginObject key) w.1 rfl hb
    · show maxDepth 0 (JSONCall.beginObject key :: (w.1 ++ [JSONCall.endContainer])) ≤ _
      rw [maxDepth_container (JSONCall.beginObject key) w.1 rfl hb]
      exact Nat.succ_le_succ (le_trans hd (depthBound_mono hlim))

theorem writeArrayContents_good (env : Environment)
    (f : Option String → Nat → Int → Option Written) (n : Int) (hf : WritesWell f n)
    (key : Option String) (objectAddress : Nat) (limit : Int) (hl : limit ≤ n) :
    ∃ w, writeArrayContents env f key objectAddress limit = some w ∧
      w.2 ≤ limit ∧ Balanced w.1 ∧ maxDepth 0 w.1 ≤ depthBound limit := by
  unfold writeArrayContents
  by_cases h : ((env.objc.crasheeobjc_arrayContents objectAddress 1).length == 1) = true
  · simp only [h, if_true]
    obtain ⟨w, h1, h2, h3, h4⟩ := hf key
      ((env.objc.crasheeobjc_arrayContents objectAddress 1).headD 0) limit hl
    exact ⟨w, h1, by omega, h3, h4⟩
  · simp only [h, Bool.false_eq_true, if_false]
    exact ⟨([], limit), rfl, le_refl _, balanced_nil, Nat.zero_le _⟩

theorem writeNSStringContents_allElements (env : Environment) (key : Option String)
    (objectAddress : Nat) : allElements (writeNSStringContents env key objectAddress) = true := by
  unfold writeNSStringContents
  split <;> rfl

theorem writeURLContents_allElements (env : Environment) (key : Option String)
    (objectAddress : Nat) : allElements (writeURLContents env key objectAddress) = true := by
  unfold writeURLContents
  split <;> rfl

theorem writeNonObject_allElements (env : Environment) (address : Nat) :
    allElements (writeNonObject env address) = true := by
  unfold writeNonObject
  split
  · rfl
  · split <;> rfl

/-- What `writeObjCObject` hands back when it makes element calls only. -/
theorem elements_good (calls : List JSONCall) (h : allElements calls = true) (limit : Int) :
    Balanced calls ∧ maxDepth 0 calls + 1 ≤ depthBound (limit + 1) := by
  obtain ⟨hb, hd⟩ := allElements_written calls h
  exact ⟨hb, by rw [hd]; exact depthBound_pos _⟩

/-- What `writeObjCObject` hands back when it descends after its two element
calls. -/
theorem descent_good (head inner : List JSONCall) (h : allElements head = true)
    (hb : Balanced inner) (bound : Nat) (hd : maxDepth 0 inner ≤ bound) :
    Balanced (head ++ inner) ∧ maxDepth 0 (head ++ inner) ≤ bound := by
  obtain ⟨hbh, hdh⟩ := allElements_written head h
  refine ⟨balanced_append hbh hb, ?_⟩
  rw [maxDepth_append_balanced _ hbh, hdh]
  exact max_le (Nat.zero_le _) hd

theorem writeObjCObject_good (env : Environment)
    (f : Option String → Nat → Int → Option Written) (address : Nat) (limit : Int)
    (hf : 0 < limit → WritesWell f limit) :
    ∃ r, writeObjCObject env f address limit = some r ∧ r.2.2 ≤ limit ∧
      Balanced r.2.1 ∧ maxDepth 0 r.2.1 + 1 ≤ depthBound (limit + 1) := by
  have hel : ∀ (b : Bool) (calls : List JSONCall), allElements calls = true →
      ∃ r : Bool × Written, some (b, calls, limit) = some r ∧ r.2.2 ≤ limit ∧
        Balanced r.2.1 ∧ maxDepth 0 r.2.1 + 1 ≤ depthBound (limit + 1) :=
    fun b calls h => ⟨_, rfl, le_refl _, (elements_good calls h limit).1,
      (elements_good calls h limit).2⟩
  have hbound1 : 0 < limit → depthBound limit + 1 ≤ depthBound (limit + 1) := by
    intro h; unfold depthBound; split <;> split <;> omega
  have hbound2 : 0 < limit → depthBound (limit - 1) + 1 + 1 ≤ depthBound (limit + 1) := by
    intro h; unfold depthBound; split <;> split <;> omega
  have harr : ∀ head : List JSONCall, allElements head = true → 0 < limit →
      ∃ r : Bool × Written,
        (match writeArrayContents env f (some CrasheeCrashField_FirstObject) address limit with
          | none => none
          | some written => some (true, head ++ written.1, written.2)) = some r ∧
        r.2.2 ≤ limit ∧ Balanced r.2.1 ∧ maxDepth 0 r.2.1 + 1 ≤ depthBound (limit + 1) := by
    intro head hh hpos
    obtain ⟨w, h1, h2, h3, h4⟩ := writeArrayContents_good env f limit (hf hpos)
      (some CrasheeCrashField_FirstObject) address limit (le_refl _)
    rw [h1]
    obtain ⟨hb, hd⟩ := descent_good head w.1 hh h3 _ h4
    exact ⟨_, rfl, h2, hb, le_trans (Nat.succ_le_succ hd) (hbound1 hpos)⟩
  have hunk : ∀ head : List JSONCall, allElements head = true → 0 < limit →
      ∃ r : Bool × Written,
        (match writeUnknownObjectContents env f (some CrasheeCrashField_Ivars) address limit with
          | none => none
          | some written => some (true, head ++ written.1, written.2)) = some r ∧
        r.2.2 ≤ limit ∧ Balanced r.2.1 ∧ maxDepth 0 r.2.1 + 1 ≤ depthBound (limit + 1) := by
    intro head hh hpos
    obtain ⟨w, h1, h2, h3, h4⟩ := writeUnknownObjectContents_good env f limit (hf hpos)
      (some CrasheeCrashField_Ivars) address limit (by omega)
    rw [h1]
    obtain ⟨hb, hd⟩ := descent_good head w.1 hh h3 _ h4
    exact ⟨_, rfl, (by show w.2 ≤ limit; omega), hb,
      le_trans (Nat.succ_le_succ hd) (hbound2 hpos)⟩
  unfold writeObjCObject
  by_cases hobjc : env.CrasheeCRASH_HAS_OBJC = true
  · simp only [hobjc, if_true]
    cases env.objc.crasheeobjc_objectType address with
    | CrasheeObjCTypeUnknown => exact hel _ _ rfl
    | CrasheeObjCTypeClass => exact hel _ _ rfl
    | CrasheeObjCTypeBlock => exact hel _ _ rfl
    | CrasheeObjCTypeObject =>
      simp only []
      by_cases hr : isRestrictedClass env (env.objc.crasheeobjc_objectClassName address) = true
      · simp only [hr, Bool.not_true, Bool.false_eq_true, if_false]
        exact hel _ _ rfl
      · simp only [hr, Bool.not_false, Bool.not_eq_true, if_true]
        cases env.objc.crasheeobjc_objectClassType address with
        | CrasheeObjCClassTypeString =>
          exact hel _ _ (by rw [allElements_append, writeNSStringContents_allElements]; rfl)
        | CrasheeObjCClassTypeURL =>
          exact hel _ _ (by rw [allElements_append, writeURLContents_allElements]; rfl)
        | CrasheeObjCClassTypeDate => exact hel _ _ rfl
        | CrasheeObjCClassTypeNumber => exact hel _ _ rfl
        | CrasheeObjCClassTypeArray =>
          simp only []
          by_cases hpos : limit > 0
          · rw [if_pos hpos]; exact harr _ rfl hpos
          · rw [if_neg hpos]; exact hel _ _ rfl
        | CrasheeObjCClassTypeDictionary =>
          simp only []
          by_cases hpos : limit > 0
          · rw [if_pos hpos]; exact hunk _ rfl hpos
          · rw [if_neg hpos]; exact hel _ _ rfl
        | CrasheeObjCClassTypeException =>
          simp only []
          by_cases hpos : limit > 0
          · rw [if_pos hpos]; exact hunk _ rfl hpos
          · rw [if_neg hpos]; exact hel _ _ rfl
        | CrasheeObjCClassTypeUnknown =>
          simp only []
          by_cases hpos : limit > 0
          · rw [if_pos hpos]; exact hunk _ rfl hpos
          · rw [if_neg hpos]; exact hel _ _ rfl
  · simp only [hobjc, Bool.false_eq_true, if_false]
    exact hel _ _ rfl

theorem writeMemoryContentsBody_good (env : Environment)
    (f : Option String → Nat → Int → Option Written) (key : Option String) (address : Nat)
    (limit : Int) (hf : 1 < limit → WritesWell f (limit - 1)) :
    ∃ w, writeMemoryContentsBody env f key address limit = some w ∧ w.2 ≤ limit - 1 ∧
      Balanced w.1 ∧ maxDepth 0 w.1 ≤ depthBound limit := by
  obtain ⟨⟨b, w⟩, h1, h2, h3, h4⟩ := writeObjCObject_good env f address (limit - 1)
    (fun h => hf (by omega))
  have h2 : w.2 ≤ limit - 1 := h2
  have h3 : Balanced w.1 := h3
  have h4 : maxDepth 0 w.1 + 1 ≤ depthBound limit := by
    have : limit - 1 + 1 = limit := by omega
    rw [this] at h4
    exact h4
  obtain ⟨hnb, hnd⟩ := allElements_written (if !b then writeNonObject env address else [])
    (by split
        · exact writeNonObject_allElements env address
        · rfl)
  have hinner : Balanced (JSONCall.addUIntegerElement (some CrasheeCrashField_Address) address ::
      (w.1 ++ (if !b then writeNonObject env address else []))) :=
    balanced_cons_element _ _ rfl rfl (balanced_append h3 hnb)
  have hdepth : maxDepth 0 (JSONCall.addUIntegerElement (some CrasheeCrashField_Address) address ::
      (w.1 ++ (if !b then writeNonObject env address else []))) = maxDepth 0 w.1 := by
    rw [maxDepth_cons_element
      (JSONCall.addUIntegerElement (some CrasheeCrashField_Address) address) _ rfl rfl,
      maxDepth_append_balanced _ h3, hnd]
    exact Nat.max_eq_left (Nat.zero_le _)
  refine ⟨(JSONCall.beginObject key ::
      ((JSONCall.addUIntegerElement (some CrasheeCrashField_Address) address ::
        (w.1 ++ (if !b then writeNonObject env address else []))) ++ [JSONCall.endContainer]),
      w.2), ?_, h2, balanced_container _ _ rfl hinner, ?_⟩
  · simp only [writeMemoryContentsBody, h1, List.cons_append, List.nil_append,
      List.append_assoc]
  · show maxDepth 0 (JSONCall.beginObject key :: (_ ++ [JSONCall.endContainer])) ≤ _
    rw [maxDepth_container (JSONCall.beginObject key) _ rfl hinner, hdepth]
    exact h4

/-- With fuel above the budget the recursion finishes; what it writes is
balanced, nests no deeper than `depthBound` and uses up at least one unit. -/
theorem writeMemoryContentsFuel_good (env : Environment) (k : Nat) :
    WritesWell (writeMemoryContentsFuel env (k + 1)) k := by
  induction k with
  | zero =>
    intro key address limit hl
    exact writeMemoryContentsBody_good env _ key address limit
      (fun h => absurd hl (by simp only [Nat.cast_zero] at *; omega))
  | succ k ih =>
    intro key address limit hl
    exact writeMemoryContentsBody_good env _ key address limit
      (fun _ => writesWell_mono ih (by push_cast at hl ⊢; omega))

theorem writeIvar_mono (env : Environment)
    (f g : Option String → Nat → Int → Option Written) (h : Extends f g)
    (object : Nat) (ivar : CrasheeObjCIvar) (limit : Int) (w : Written)
    (hw : writeIvar env f object ivar limit = some w) :
    writeIvar env g object ivar limit = some w := by
  unfold writeIvar at hw ⊢
  generalize ivarKind ivar.type = kind at hw ⊢
  cases kind
  all_goals first
    | exact hw
    | exact h _ _ _ _ hw

theorem writeIvars_mono (env : Environment)
    (f g : Option String → Nat → Int → Option Written) (h : Extends f g)
    (object : Nat) (ivars : List CrasheeObjCIvar) :
    ∀ (limit : Int) (w : Written), writeIvars env f object ivars limit = some w →
      writeIvars env g object ivars limit = some w := by
  induction ivars with
  | nil => intro limit w hw; exact hw
  | cons ivar rest ih =>
    intro limit w hw
    simp only [writeIvars] at hw ⊢
    cases h1 : writeIvar env f object ivar limit with
    | none => rw [h1] at hw; exact Option.noConfusion hw
    | some first =>
      rw [h1] at hw
      rw [writeIvar_mono env f g h object ivar limit first h1]
      simp only at hw ⊢
      cases h2 : writeIvars env f object rest first.2 with
      | none => rw [h2] at hw; exact Option.noConfusion hw
      | some others =>
        rw [h2] at hw
        rw [ih first.2 others h2]
        exact hw

theorem writeUnknownObjectContents_mono (env : Environment)
    (f g : Option String → Nat → Int → Option Written) (h : Extends f g)
    (key : Option String) (objectAddress : Nat) (limit : Int) (w : Written)
    (hw : writeUnknownObjectContents env f key objectAddress limit = some w) :
    writeUnknownObjectContents env g key objectAddress limit = some w := by
  unfold writeUnknownObjectContents at hw ⊢
  by_cases ht : env.objc.crasheeobjc_isTaggedPointer objectAddress = true
  · simp only [ht, if_true] at hw ⊢
    exact hw
  · simp only [ht, Bool.false_eq_true, if_false] at hw ⊢
    cases h1 : writeIvars env f objectAddress
        (env.objc.crasheeobjc_ivarList (env.objc.crasheeobjc_isaPointer objectAddress) 10)
        (limit - 1 - ((env.objc.crasheeobjc_ivarList
          (env.objc.crasheeobjc_isaPointer objectAddress) 10).length : Int)) with
    | none => rw [h1] at hw; exact Option.noConfusion hw
    | some written =>
      rw [h1] at hw
      rw [writeIvars_mono env f g h objectAddress _ _ written h1]
      exact hw

theorem writeArrayContents_mono (env : Environment)
    (f g : Option String → Nat → Int → Option Written) (h : Extends f g)
    (key : Option String) (objectAddress : Nat) (limit : Int) (w : Written)
    (hw : writeArrayContents env f key objectAddress limit = some w) :
    writeArrayContents env g key objectAddress limit = some w := by
  unfold writeArrayContents at hw ⊢
  by_cases hc : ((env.objc.crasheeobjc_arrayContents objectAddress 1).length == 1) = true
  · simp only [hc, if_true] at hw ⊢
    exact h _ _ _ _ hw
  · simp only [hc, Bool.false_eq_true, if_false] at hw ⊢
    exact hw

theorem writeObjCObject_mono (env : Environment)
    (f g : Option String → Nat → Int → Option Written) (h : Extends f g)
    (address : Nat) (limit : Int) (r : Bool × Written)
    (hr : writeObjCObject env f address limit = some r) :
    writeObjCObject env g address limit = some r := by
  have harr : ∀ head : List JSONCall,
      (match writeArrayContents env f (some CrasheeCrashField_FirstObject) address limit with
        | none => none
        | some written => some (true, head ++ written.1, written.2)) = some r →
      (match writeArrayContents env g (some CrasheeCrashField_FirstObject) address limit with
        | none => none
        | some written => some (true, head ++ written.1, written.2)) = some r := by
    intro head hh
    cases h1 : writeArrayContents env f (some CrasheeCrashField_FirstObject) address limit with
    | none => rw [h1] at hh; exact Option.noConfusion hh
    | some written =>
      rw [h1] at hh
      rw [writeArrayContents_mono env f g h _ _ _ written h1]
      exact hh
  have hunk : ∀ head : List JSONCall,
      (match writeUnknownObjectContents env f (some CrasheeCrashField_Ivars) address limit with
        | none => none
        | some written => some (true, head ++ written.1, written.2)) = some r →
      (match writeUnknownObjectContents env g (some CrasheeCrashField_Ivars) address limit with
        | none => none
        | some written => some (true, head ++ written.1, written.2)) = some r := by
    intro head hh
    cases h1 : writeUnknownObjectContents env f (some CrasheeCrashField_Ivars) address limit with
    | none => rw [h1] at hh; exact Option.noConfusion hh
    | some written =>
      rw [h1] at hh
      rw [writeUnknownObjectContents_mono env f g h _ _ _ written h1]
      exact hh
  unfold writeObjCObject at hr ⊢
  by_cases hobjc : env.CrasheeCRASH_HAS_OBJC = true
  · simp only [hobjc, if_true] at hr ⊢
    cases hty : env.objc.crasheeobjc_objectType address with
    | CrasheeObjCTypeUnknown => rw [hty] at hr; exact hr
    | CrasheeObjCTypeClass => rw [hty] at hr; exact hr
    | CrasheeObjCTypeBlock => rw [hty] at hr; exact hr
    | CrasheeObjCTypeObject =>
      rw [hty] at hr
      simp only [] at hr ⊢
      by_cases hres : isRestrictedClass env (env.objc.crasheeobjc_objectClassName address) = true
      · simp only [hres, Bool.not_true, Bool.false_eq_true, if_false] at hr ⊢
        exact hr
      · simp only [hres, Bool.not_false, Bool.not_eq_true, if_true] at hr ⊢
        cases hct : env.objc.crasheeobjc_objectClassType address with
        | CrasheeObjCClassTypeString => rw [hct] at hr; exact hr
        | CrasheeObjCClassTypeURL => rw [hct] at hr; exact hr
        | CrasheeObjCClassTypeDate => rw [hct] at hr; exact hr
        | CrasheeObjCClassTypeNumber => rw [hct] at hr; exact hr
        | CrasheeObjCClassTypeArray =>
          rw [hct] at hr
          simp only [] at hr ⊢
          by_cases hpos : limit > 0
          · rw [if_pos hpos] at hr ⊢; exact harr _ hr
          · rw [if_neg hpos] at hr ⊢; exact hr
        | CrasheeObjCClassTypeDictionary =>
          rw [hct] at hr
          simp only [] at hr ⊢
          by_cases hpos : limit > 0
          · rw [if_pos hpos] at hr ⊢; exact hunk _ hr
          · rw [if_neg hpos] at hr ⊢; exact hr
        | CrasheeObjCClassTypeException =>
          rw [hct] at hr
          simp only [] at hr ⊢
          by_cases hpos : limit > 0
          · rw [if_pos hpos] at hr ⊢; exact hunk _ hr
          · rw [if_neg hpos] at hr ⊢; exact hr
        | CrasheeObjCClassTypeUnknown =>
          rw [hct] at hr
          simp only [] at hr ⊢
          by_cases hpos : limit > 0
          · rw [if_pos hpos] at hr ⊢; exact hunk _ hr
          · rw [if_neg hpos] at hr ⊢; exact hr
  · simp only [hobjc, Bool.false_eq_true, if_false] at hr ⊢
    exact hr

theorem writeMemoryContentsBody_mono (env : Environment)
    (f g : Option String → Nat → Int → Option Written) (h : Extends f g) :
    Extends (writeMemoryContentsBody env f) (writeMemoryContentsBody env g) := by
  intro key address limit w hw
  unfold writeMemoryContentsBody at hw ⊢
  cases h1 : writeObjCObject env f address (limit - 1) with
  | none => simp only [h1] at hw; exact Option.noConfusion hw
  | some r =>
    simp only [h1] at hw
    simp only [writeObjCObject_mono env f g h address (limit - 1) r h1]
    exact hw

/-- More fuel does not change what `writeMemoryContents` returns. -/
theorem writeMemoryContentsFuel_succ (env : Environment) (fuel : Nat) :
    Extends (writeMemoryContentsFuel env fuel) (writeMemoryContentsFuel env (fuel + 1)) := by
  induction fuel with
  | zero => intro key address limit w hw; exact Option.noConfusion hw
  | succ k ih => exact writeMemoryContentsBody_mono env _ _ ih

theorem writeMemoryContentsFuel_le (env : Environment) (fuel more : Nat) (hle : fuel ≤ more) :
    Extends (writeMemoryContentsFuel env fuel) (writeMemoryContentsFuel env more) := by
  induction more with
  | zero =>
    have : fuel = 0 := by omega
    subst this
    exact fun _ _ _ _ hw => hw
  | succ m ih =>
    by_cases hm : fuel ≤ m
    · exact fun key address limit w hw =>
        writeMemoryContentsFuel_succ env m key address limit w (ih hm key address limit w hw)
    · have : fuel = m + 1 := by omega
      subst this
      exact fun _ _ _ _ hw => hw

/-- The fuel `writeMemoryContents` gives itself is enough. -/
theorem writeMemoryContents_eq (env : Environment) (key : Option String) (address : Nat)
    (limit : Int) :
    writeMemoryContentsFuel env (limit.toNat + 1) key address limit =
        some (writeMemoryContents env key address limit) ∧
      (writeMemoryContents env key address limit).2 ≤ limit - 1 ∧
      Balanced (writeMemoryContents env key address limit).1 ∧
      maxDepth 0 (writeMemoryContents env key address limit).1 ≤ depthBound limit := by
  obtain ⟨w, h1, h2, h3, h4⟩ := writeMemoryContentsFuel_good env limit.toNat key address limit
    (Int.self_le_toNat limit)
  have hw : writeMemoryContents env key address limit = w := by
    simp only [writeMemoryContents, h1, Option.getD_some]
  rw [hw]
  exact ⟨h1, h2, h3, h4⟩

open CrasheeJSON

/-! ## Memory introspection: the budget and the excluded classes -/

set_option maxRecDepth 100000 in
/-- C11, as stated, fails on a chain of objects: 13 arrays, each the first object
of the one before, end in an object of an unknown class with one pointer ivar.
Started with the default budget of 15 on the first array, with fuel 16,
`writeMemoryContents` returns, and the containers it opens nest 16 deep, not 15:
the budget is used up by 14 objects and one ivar, the "ivars" container adds a
level of its own, and the ivar is written although the budget is spent. -/
theorem writeMemoryContents_chain_nests_sixteen_deep :
    writeMemoryContentsFuel Example.chainEnv 16 (some "r0") 1 kDefaultMemorySearchDepth =
      some (writeMemoryContents Example.chainEnv (some "r0") 1 kDefaultMemorySearchDepth) ∧
    maxDepth 0
      (writeMemoryContents Example.chainEnv (some "r0") 1 kDefaultMemorySearchDepth).1 = 16 ∧
    ¬ (16 ≤ 15) := by
  decide

/-- C11 (amended): for every environment whose introspection capability returns
at most 10 ivars per object, every key and every address, `writeMemoryContents`
started with the default budget of 15 terminates: every fuel of at least 16 gives
the same result. The calls it makes are balanced, and the containers it opens
nest at most 16 deep. -/
theorem writeMemoryContents_terminates_within_depth_sixteen (env : Environment)
    (key : Option String) (address : Nat)
    (_hivars : ∀ isa, (env.objc.crasheeobjc_ivarList isa 10).length ≤ 10) :
    (∀ fuel, 16 ≤ fuel →
      writeMemoryContentsFuel env fuel key address kDefaultMemorySearchDepth =
        some (writeMemoryContents env key address kDefaultMemorySearchDepth)) ∧
    Balanced (writeMemoryContents env key address kDefaultMemorySearchDepth).1 ∧
    maxDepth 0 (writeMemoryContents env key address kDefaultMemorySearchDepth).1 ≤ 16 := by
  obtain ⟨h1, _, h3, h4⟩ := writeMemoryContents_eq env key address kDefaultMemorySearchDepth
  refine ⟨fun fuel hfuel => ?_, h3, h4⟩
  exact writeMemoryContentsFuel_le env 16 fuel hfuel key address _ _ h1

/-- C11 (amended), at a concrete input: on the chain of objects, whose objects
have one ivar, the bound of 16 holds (and is reached). -/
theorem writeMemoryContents_terminates_within_depth_sixteen_witness :
    (∀ isa, (Example.chainEnv.objc.crasheeobjc_ivarList isa 10).length ≤ 10) ∧
    maxDepth 0
      (writeMemoryContents Example.chainEnv (some "r0") 1 kDefaultMemorySearchDepth).1 ≤ 16 :=
  ⟨fun _ => Nat.le_of_ble_eq_true rfl,
    (writeMemoryContents_terminates_within_depth_sixteen Example.chainEnv (some "r0") 1
      (fun _ => Nat.le_of_ble_eq_true rfl)).2.2⟩

/-- What `writeMemoryContents` writes for an object of a restricted class: the
address, the type "objc_object", the class name, and then, `writeObjCObject`
having returned false, what it writes for memory that holds no object. -/
theorem writeMemoryContents_restricted (env : Environment) (key : Option String)
    (address : Nat) (limit : Int) (hobjc : env.CrasheeCRASH_HAS_OBJC = true)
    (hobj : env.objc.crasheeobjc_objectType address = CrasheeObjCType.CrasheeObjCTypeObject)
    (hres : isRestrictedClass env (env.objc.crasheeobjc_objectClassName address) = true) :
    (writeMemoryContents env key address limit).1 =
      JSONCall.beginObject key ::
        (([JSONCall.addUIntegerElement (some CrasheeCrashField_Address) address,
           JSONCall.addStringElement (some CrasheeCrashField_Type) (some CrasheeCrashMemType_Object),
           JSONCall.addStringElement (some CrasheeCrashField_Class)
            (some (env.objc.crasheeobjc_objectClassName address))] ++
          writeNonObject env address) ++ [JSONCall.endContainer]) := by
  simp [writeMemoryContents, writeMemoryContentsFuel, writeMemoryContentsBody, writeObjCObject,
    hobjc, hobj, hres]

/-- No call of `writeNonObject` carries the key "ivars" or "first_object". -/
theorem writeNonObject_keys (env : Environment) (address : Nat) :
    ∀ call ∈ writeNonObject env address,
      call.key ≠ some CrasheeCrashField_Ivars ∧
      call.key ≠ some CrasheeCrashField_FirstObject := by
  intro call hc
  unfold writeNonObject at hc
  split at hc
  · simp only [List.mem_singleton] at hc; subst hc
    exact ⟨by simp only [JSONCall.key]; decide, by simp only [JSONCall.key]; decide⟩
  · split at hc
    · simp only [List.mem_cons, List.mem_singleton, List.not_mem_nil, or_false] at hc
      rcases hc with hc | hc <;> subst hc <;>
        exact ⟨by simp only [JSONCall.key]; decide, by simp only [JSONCall.key]; decide⟩
    · simp only [List.mem_singleton] at hc; subst hc
      exact ⟨by simp only [JSONCall.key]; decide, by simp only [JSONCall.key]; decide⟩

/-- Where the address holds no Objective-C object, or one of a restricted class,
`writeObjCObject` calls neither `writeArrayContents` nor
`writeUnknownObjectContents`: it makes element calls only, none under "ivars" or
"first_object", and leaves the budget as it is. -/
theorem writeObjCObject_shallow (env : Environment)
    (f : Option String → Nat → Int → Option Written) (address : Nat) (limit : Int)
    (hres : env.objc.crasheeobjc_objectType address = CrasheeObjCType.CrasheeObjCTypeObject →
      isRestrictedClass env (env.objc.crasheeobjc_objectClassName address) = true) :
    ∃ (isObject : Bool) (calls : List JSONCall),
      writeObjCObject env f address limit = some (isObject, calls, limit) ∧
      allElements calls = true ∧
      ∀ call ∈ calls, call.key ≠ some CrasheeCrashField_Ivars ∧
        call.key ≠ some CrasheeCrashField_FirstObject := by
  have hkeys : ∀ (kind name : String) (call : JSONCall),
      call ∈ [JSONCall.addStringElement (some CrasheeCrashField_Type) (some kind),
        JSONCall.addStringElement (some CrasheeCrashField_Class) (some name)] →
      call.key ≠ some CrasheeCrashField_Ivars ∧
        call.key ≠ some CrasheeCrashField_FirstObject := by
    intro kind name call hc
    simp only [List.mem_cons, List.mem_singleton, List.not_mem_nil, or_false] at hc
    rcases hc with hc | hc <;> subst hc <;>
      exact ⟨by simp only [JSONCall.key]; decide, by simp only [JSONCall.key]; decide⟩
  unfold writeObjCObject
  by_cases hobjc : env.CrasheeCRASH_HAS_OBJC = true
  · simp only [hobjc, if_true]
    cases hty : env.objc.crasheeobjc_objectType address with
    | CrasheeObjCTypeUnknown =>
      exact ⟨false, [], rfl, rfl, fun _ hc => absurd hc (List.not_mem_nil _)⟩
    | CrasheeObjCTypeClass => exact ⟨true, _, rfl, rfl, hkeys _ _⟩
    | CrasheeObjCTypeBlock => exact ⟨true, _, rfl, rfl, hkeys _ _⟩
    | CrasheeObjCTypeObject =>
      simp only [hres hty, Bool.not_true, Bool.false_eq_true, if_false]
      exact ⟨false, _, rfl, rfl, hkeys _ _⟩
  · simp only [hobjc, Bool.false_eq_true, if_false]
    exact ⟨false, [], rfl, rfl, fun _ hc => absurd hc (List.not_mem_nil _)⟩

/-- The record `writeMemoryContents` writes for such an address: its body makes
element calls only, none under "ivars" or "first_object". -/
theorem writeMemoryContents_shallow (env : Environment) (key : Option String)
    (address : Nat) (limit : Int)
    (hres : env.objc.crasheeobjc_objectType address = CrasheeObjCType.CrasheeObjCTypeObject →
      isRestrictedClass env (env.objc.crasheeobjc_objectClassName address) = true) :
    ∃ inner : List JSONCall,
      (writeMemoryContents env key address limit).1 =
        JSONCall.beginObject key :: (inner ++ [JSONCall.endContainer]) ∧
      allElements inner = true ∧
      ∀ call ∈ inner, call.key ≠ some CrasheeCrashField_Ivars ∧
        call.key ≠ some CrasheeCrashField_FirstObject := by
  obtain ⟨isObject, calls, heq, hel, hk⟩ := writeObjCObject_shallow env
    (writeMemoryContentsFuel env (limit.toNat)) address (limit - 1) hres
  refine ⟨JSONCall.addUIntegerElement (some CrasheeCrashField_Address) address ::
    (calls ++ (if !isObject then writeNonObject env address else [])), ?_, ?_, ?_⟩
  · simp [writeMemoryContents, writeMemoryContentsFuel, writeMemoryContentsBody, heq]
  · have hn : allElements (if !isObject then writeNonObject env address else []) = true := by
      split
      · exact writeNonObject_allElements env address
      · rfl
    have hcons : allElements (JSONCall.addUIntegerElement (some CrasheeCrashField_Address)
        address :: (calls ++ (if !isObject then writeNonObject env address else []))) =
        allElements (calls ++ (if !isObject then writeNonObject env address else [])) := by
      simp [allElements, JSONCall.isBegin, JSONCall.isEnd]
    rw [hcons, allElements_append, hel, hn]
    rfl
  · intro call hc
    simp only [List.mem_cons, List.mem_append] at hc
    rcases hc with hc | hc | hc
    · subst hc
      exact ⟨by simp only [JSONCall.key]; decide, by simp only [JSONCall.key]; decide⟩
    · exact hk call hc
    · split at hc
      · exact writeNonObject_keys env address call hc
      · exact absurd hc (List.not_mem_nil _)

/-- C12: for every address that holds an object of a restricted class (or no
Objective-C object of the kind `writeObjCObject` introspects), every key and
every budget, the record `writeMemoryContents` writes has no field "ivars" and
no field "first_object"; no call it makes inside the record carries either
key. -/
theorem writeMemoryContents_restricted_has_no_ivars (env : Environment) (key : Option String)
    (address : Nat) (limit : Int)
    (hres : env.objc.crasheeobjc_objectType address = CrasheeObjCType.CrasheeObjCTypeObject →
      isRestrictedClass env (env.objc.crasheeobjc_objectClassName address) = true) :
    fieldsWithKey CrasheeCrashField_Ivars (writeMemoryContents env key address limit).1 = [] ∧
    fieldsWithKey CrasheeCrashField_FirstObject
      (writeMemoryContents env key address limit).1 = [] ∧
    ∀ call ∈ body (writeMemoryContents env key address limit).1,
      call.key ≠ some CrasheeCrashField_Ivars ∧
      call.key ≠ some CrasheeCrashField_FirstObject := by
  obtain ⟨inner, hshape, hel, hk⟩ := writeMemoryContents_shallow env key address limit hres
  rw [hshape, body_container]
  refine ⟨?_, ?_, hk⟩
  · rw [fieldsWithKey, fields_allElements _ _ inner hel, List.filter_eq_nil_iff]
    intro call hc
    simpa using (hk call hc).1
  · rw [fieldsWithKey, fields_allElements _ _ inner hel, List.filter_eq_nil_iff]
    intro call hc
    simpa using (hk call hc).2

set_option maxRecDepth 100000 in
/-- C12, at a concrete input: the record written for the object of the restricted
class `Secret` has neither field. -/
theorem writeMemoryContents_restricted_has_no_ivars_witness :
    isRestrictedClass Example.secretEnv
      (Example.secretEnv.objc.crasheeobjc_objectClassName 4096) = true ∧
    fieldsWithKey CrasheeCrashField_Ivars
      (writeMemoryContents Example.secretEnv (some "r0") 4096 kDefaultMemorySearchDepth).1 = [] ∧
    fieldsWithKey CrasheeCrashField_FirstObject
      (writeMemoryContents Example.secretEnv (some "r0") 4096 kDefaultMemorySearchDepth).1 = [] :=
  ⟨by decide,
   (writeMemoryContents_restricted_has_no_ivars Example.secretEnv (some "r0") 4096
      kDefaultMemorySearchDepth (fun _ => by decide)).1,
   (writeMemoryContents_restricted_has_no_ivars Example.secretEnv (some "r0") 4096
      kDefaultMemorySearchDepth (fun _ => by decide)).2.1⟩

set_option maxRecDepth 100000 in
/-- C13 fails on the code. For the object at address 4096, of the restricted
class `Secret`, `writeObjCObject` writes the type "objc_object" and the class
name, leaves its `switch` by `break` and returns false; `writeMemoryContents`
then treats the address as memory that holds no object and writes a second
"type" field, "unknown". The record has two "type" fields. -/
theorem writeMemoryContents_restricted_writes_second_type :
    isRestrictedClass Example.secretEnv
      (Example.secretEnv.objc.crasheeobjc_objectClassName 4096) = true ∧
    (writeMemoryContents Example.secretEnv (some "r0") 4096 kDefaultMemorySearchDepth).1 =
      [JSONCall.beginObject (some "r0"),
       JSONCall.addUIntegerElement (some "address") 4096,
       JSONCall.addStringElement (some "type") (some "objc_object"),
       JSONCall.addStringElement (some "class") (some "Secret"),
       JSONCall.addStringElement (some "type") (some "unknown"),
       JSONCall.endContainer] ∧
    fieldsWithKey "type"
      (writeMemoryContents Example.secretEnv (some "r0") 4096 kDefaultMemorySearchDepth).1 =
      [JSONCall.addStringElement (some "type") (some "objc_object"),
       JSONCall.addStringElement (some "type") (some "unknown")] := by
  decide

open CrasheeJSON

/-! ## The report sections: every section is balanced -/

theorem writeMemoryContentsIfNotable_balanced (env : Environment) (key : Option String)
    (address : Nat) : Balanced (writeMemoryContentsIfNotable env key address) := by
  unfold writeMemoryContentsIfNotable
  split
  · exact (writeMemoryContents_eq env key address kDefaultMemorySearchDepth).2.2.1
  · exact balanced_nil

theorem writeAddressReferencedByString_balanced (env : Environment) (key : Option String)
    (string : Option String) : Balanced (writeAddressReferencedByString env key string) := by
  unfold writeAddressReferencedByString
  split
  · exact balanced_nil
  · split
    · exact balanced_nil
    · exact (writeMemoryContents_eq env key _ kDefaultMemorySearchDepth).2.2.1

theorem balanced_of_allElements (calls : List JSONCall) (h : allElements calls = true) :
    Balanced calls :=
  (allElements_written calls h).1

theorem allElements_option {α : Type} (o : Option α) (f : α → List JSONCall)
    (h : ∀ x, allElements (f x) = true) :
    allElements (match o with | some x => f x | none => []) = true := by
  cases o with
  | none => rfl
  | some x => exact h x

theorem writeBacktraceFrame_record (env : Environment) (frame : CrasheeStackCursor_Frame) :
    IsRecord (JSONCall.beginObject none) (writeBacktraceFrame env frame) := by
  refine ⟨rfl, (if frame.symbolicated then
      (match frame.imageName with
        | some imageName =>
          [JSONCall.addStringElement (some CrasheeCrashField_ObjectName)
            (env.services.crasheefu_lastPathEntry imageName)]
        | none => []) ++
      [JSONCall.addUIntegerElement (some CrasheeCrashField_ObjectAddr) frame.imageAddress] ++
      (match frame.symbolName with
        | some symbolName =>
          [JSONCall.addStringElement (some CrasheeCrashField_SymbolName) (some symbolName)]
        | none => []) ++
      [JSONCall.addUIntegerElement (some CrasheeCrashField_SymbolAddr) frame.symbolAddress]
    else []) ++
    [JSONCall.addUIntegerElement (some CrasheeCrashField_InstructionAddr) frame.address],
    ?_, by simp [writeBacktraceFrame]⟩
  apply balanced_of_allElements
  rw [allElements_append]
  cases frame.symbolicated with
  | false => rfl
  | true =>
    simp only [if_true, allElements_append, Bool.and_eq_true]
    refine ⟨⟨⟨⟨?_, rfl⟩, ?_⟩, rfl⟩, rfl⟩
    · cases frame.imageName <;> rfl
    · cases frame.symbolName <;> rfl

theorem writeBacktrace_record (env : Environment) (key : Option String)
    (stackCursor : CrasheeStackCursor) :
    IsRecord (JSONCall.beginObject key) (writeBacktrace env key stackCursor) := by
  have hframes : Balanced (stackCursor.frames.flatMap (writeBacktraceFrame env)) :=
    balanced_flatMap _ _ (fun frame _ => isRecord_balanced (writeBacktraceFrame_record env frame))
  have harray : Balanced (JSONCall.beginArray (some CrasheeCrashField_Contents) ::
      (stackCursor.frames.flatMap (writeBacktraceFrame env) ++ [JSONCall.endContainer])) :=
    balanced_container _ _ rfl hframes
  refine ⟨rfl, (JSONCall.beginArray (some CrasheeCrashField_Contents) ::
      (stackCursor.frames.flatMap (writeBacktraceFrame env) ++ [JSONCall.endContainer])) ++
      [JSONCall.addIntegerElement (some CrasheeCrashField_Skipped) 0], ?_,
    by simp [writeBacktrace]⟩
  exact balanced_append harray (balanced_of_allElements _ rfl)

/-- `writeStackContents` writes nothing or one record. -/
theorem writeStackContents_cases (env : Environment) (key : Option String)
    (machineContext : CrasheeMachineContext) (isStackOverflow : Bool) :
    writeStackContents env key machineContext isStackOverflow = [] ∨
    IsRecord (JSONCall.beginObject key)
      (writeStackContents env key machineContext isStackOverflow) := by
  unfold writeStackContents
  by_cases hsp : (env.cpu.crasheecpu_stackPointer machineContext == 0) = true
  · left; simp only [hsp, if_true]
  · right
    simp only [hsp, Bool.false_eq_true, if_false]
    split <;> split <;> exact isRecord_of_shape _ _ rfl rfl (balanced_of_allElements _ rfl)

theorem writeNotableStackContents_balanced (env : Environment)
    (machineContext : CrasheeMachineContext) (backDistance forwardDistance : Int) :
    Balanced (writeNotableStackContents env machineContext backDistance forwardDistance) := by
  unfold writeNotableStackContents
  by_cases hsp : (env.cpu.crasheecpu_stackPointer machineContext == 0) = true
  · simp only [hsp, if_true]
    exact balanced_nil
  · simp only [hsp, Bool.false_eq_true, if_false]
    apply balanced_flatMap
    intro i _
    split
    · exact writeMemoryContentsIfNotable_balanced env _ _
    · exact balanced_nil

theorem allElements_map {α : Type} (l : List α) (f : α → JSONCall)
    (h : ∀ x, (f x).isBegin = false ∧ (f x).isEnd = false) :
    allElements (l.map f) = true := by
  induction l with
  | nil => rfl
  | cons x rest ih =>
    simp only [List.map_cons, allElements, List.all_cons, (h x).1, (h x).2, Bool.not_false,
      Bool.and_self, Bool.true_and]
    exact ih

theorem writeBasicRegisters_record (env : Environment) (key : Option String)
    (machineContext : CrasheeMachineContext) :
    IsRecord (JSONCall.beginObject key) (writeBasicRegisters env key machineContext) :=
  ⟨rfl,
    (List.range env.cpu.crasheecpu_numRegisters.toNat).map (fun (reg : Nat) =>
      JSONCall.addUIntegerElement (registerKey (env.cpu.crasheecpu_registerName reg) reg)
        (env.cpu.crasheecpu_registerValue machineContext reg)),
    balanced_of_allElements _ (allElements_map _ _ (fun _ => ⟨rfl, rfl⟩)),
    by simp [writeBasicRegisters]⟩

theorem writeExceptionRegisters_record (env : Environment) (key : Option String)
    (machineContext : CrasheeMachineContext) :
    IsRecord (JSONCall.beginObject key) (writeExceptionRegisters env key machineContext) :=
  ⟨rfl,
    (List.range env.cpu.crasheecpu_numExceptionRegisters.toNat).map (fun (reg : Nat) =>
      JSONCall.addUIntegerElement
        (registerKey (env.cpu.crasheecpu_exceptionRegisterName reg) reg)
        (env.cpu.crasheecpu_exceptionRegisterValue machineContext reg)),
    balanced_of_allElements _ (allElements_map _ _ (fun _ => ⟨rfl, rfl⟩)),
    by simp [writeExceptionRegisters]⟩

theorem writeRegisters_record (env : Environment) (key : Option String)
    (machineContext : CrasheeMachineContext) :
    IsRecord (JSONCall.beginObject key) (writeRegisters env key machineContext) := by
  refine ⟨rfl, writeBasicRegisters env (some CrasheeCrashField_Basic) machineContext ++
    (if MachineContext.crasheemc_hasValidExceptionRegisters machineContext then
      writeExceptionRegisters env (some CrasheeCrashField_Exception) machineContext
    else []), ?_, by simp [writeRegisters]⟩
  apply balanced_append (isRecord_balanced (writeBasicRegisters_record env _ machineContext))
  split
  · exact isRecord_balanced (writeExceptionRegisters_record env _ machineContext)
  · exact balanced_nil

theorem writeNotableRegisters_balanced (env : Environment)
    (machineContext : CrasheeMachineContext) :
    Balanced (writeNotableRegisters env machineContext) := by
  unfold writeNotableRegisters
  apply balanced_flatMap
  intro reg _
  exact writeMemoryContentsIfNotable_balanced env _ _

theorem writeNotableAddresses_record (env : Environment) (key : Option String)
    (machineContext : CrasheeMachineContext) :
    IsRecord (JSONCall.beginObject key) (writeNotableAddresses env key machineContext) :=
  ⟨rfl, writeNotableRegisters env machineContext ++
      writeNotableStackContents env machineContext kStackNotableSearchBackDistance
        kStackNotableSearchForwardDistance,
    balanced_append (writeNotableRegisters_balanced env machineContext)
      (writeNotableStackContents_balanced env machineContext _ _),
    by simp [writeNotableAddresses]⟩

/-- The calls of `writeThreadBody` before the "index" element. -/
theorem writeThreadBody_before_index (env : Environment) (crash : CrasheeCrash_MonitorContext)
    (machineContext : CrasheeMachineContext) :
    Silent CrasheeCrashField_Index
      (writeBacktrace env (some CrasheeCrashField_Backtrace)
          (getStackCursor env crash machineContext) ++
        (if MachineContext.crasheemc_canHaveCPUState machineContext then
          writeRegisters env (some CrasheeCrashField_Registers) machineContext
        else [])) := by
  apply silent_append (silent_of_record (writeBacktrace_record env _ _) (by decide))
  split
  · exact silent_of_record (writeRegisters_record env _ _) (by decide)
  · exact silent_nil _

/-- The calls of `writeThreadBody` after the "index" element. -/
theorem writeThreadBody_after_index (env : Environment)
    (machineContext : CrasheeMachineContext) (isStackOverflow shouldWriteNotableAddresses : Bool) :
    Silent CrasheeCrashField_Index
      ((match env.services.crasheeccd_getThreadName
            (MachineContext.crasheemc_getThreadFromContext machineContext) with
          | some name => [JSONCall.addStringElement (some CrasheeCrashField_Name) (some name)]
          | none => []) ++
        ((match env.services.crasheeccd_getQueueName
            (MachineContext.crasheemc_getThreadFromContext machineContext) with
          | some name =>
            [JSONCall.addStringElement (some CrasheeCrashField_DispatchQueue) (some name)]
          | none => []) ++
        ([JSONCall.addBooleanElement (some CrasheeCrashField_Crashed)
            (MachineContext.crasheemc_isCrashedContext machineContext),
          JSONCall.addBooleanElement (some CrasheeCrashField_CurrentThread)
            (MachineContext.crasheemc_getThreadFromContext machineContext ==
              env.process.crasheethread_self)] ++
        (if MachineContext.crasheemc_isCrashedContext machineContext then
          writeStackContents env (some CrasheeCrashField_Stack) machineContext isStackOverflow ++
            (if shouldWriteNotableAddresses then
              writeNotableAddresses env (some CrasheeCrashField_NotableAddresses) machineContext
            else [])
        else [])))) := by
  have hname : ∀ o : Option String, Silent CrasheeCrashField_Index
      (match o with
        | some name => [JSONCall.addStringElement (some CrasheeCrashField_Name) (some name)]
        | none => []) := by
    intro o
    cases o with
    | none => exact silent_nil _
    | some name =>
      refine silent_of_elements _ rfl ?_
      intro call hc
      simp only [List.mem_singleton] at hc
      subst hc
      simp only [JSONCall.key]; decide
  have hqueue : ∀ o : Option String, Silent CrasheeCrashField_Index
      (match o with
        | some name =>
          [JSONCall.addStringElement (some CrasheeCrashField_DispatchQueue) (some name)]
        | none => []) := by
    intro o
    cases o with
    | none => exact silent_nil _
    | some name =>
      refine silent_of_elements _ rfl ?_
      intro call hc
      simp only [List.mem_singleton] at hc
      subst hc
      simp only [JSONCall.key]; decide
  refine silent_append (hname _) (silent_append (hqueue _) (silent_append ?_ ?_))
  · refine silent_of_elements _ rfl ?_
    intro call hc
    simp only [List.mem_cons, List.mem_singleton, List.not_mem_nil, or_false] at hc
    rcases hc with hc | hc <;> subst hc <;> (simp only [JSONCall.key]; decide)
  · split
    · refine silent_append ?_ ?_
      · rcases writeStackContents_cases env (some CrasheeCrashField_Stack) machineContext
          isStackOverflow with h | h
        · rw [h]; exact silent_nil _
        · exact silent_of_record h (by decide)
      · split
        · exact silent_of_record (writeNotableAddresses_record env _ _) (by decide)
        · exact silent_nil _
    · exact silent_nil _

/-- The record `writeThread` writes is balanced and has exactly one "index"
field, with the thread index it was given. -/
theorem writeThread_record (env : Environment) (key : Option String)
    (crash : CrasheeCrash_MonitorContext) (machineContext : CrasheeMachineContext)
    (threadIndex : Int) (shouldWriteNotableAddresses : Bool) :
    IsRecord (JSONCall.beginObject key)
      (writeThread env key crash machineContext threadIndex shouldWriteNotableAddresses) ∧
    fieldsWithKey CrasheeCrashField_Index
      (writeThread env key crash machineContext threadIndex shouldWriteNotableAddresses) =
      [JSONCall.addIntegerElement (some CrasheeCrashField_Index) threadIndex] := by
  have hpre := writeThreadBody_before_index env crash machineContext
  have hpost := writeThreadBody_after_index env machineContext
    (getStackCursor env crash machineContext).hasGivenUp shouldWriteNotableAddresses
  have hbody : writeThreadBody env crash machineContext threadIndex
      shouldWriteNotableAddresses = _ ++ (_ :: _) :=
    (List.append_assoc _ _ _).symm
  constructor
  · refine ⟨rfl, _, ?_, rfl⟩
    rw [hbody]
    exact balanced_append hpre.1 (balanced_cons_element _ _ rfl rfl hpost.1)
  · unfold writeThread
    rw [hbody]
    exact fieldsWithKey_single _ _ _ _ _ _ hpre hpost rfl rfl
      (by simp only [JSONCall.key]; decide)

open CrasheeJSON

/-! ## The threads array -/

theorem writeThreadAtIndex_record (env : Environment) (crash : CrasheeCrash_MonitorContext)
    (writeNotableAddresses : Bool) (i : Nat) :
    IsRecord (JSONCall.beginObject none)
      (writeThreadAtIndex env crash writeNotableAddresses i) ∧
    fieldsWithKey CrasheeCrashField_Index
      (writeThreadAtIndex env crash writeNotableAddresses i) =
      [JSONCall.addIntegerElement (some CrasheeCrashField_Index) i] := by
  unfold writeThreadAtIndex
  by_cases h : (MachineContext.crasheemc_getThreadAtIndex crash.offendingMachineContext i ==
      MachineContext.crasheemc_getThreadFromContext crash.offendingMachineContext) = true
  · simp only [h, if_true]
    exact writeThread_record env none crash _ i writeNotableAddresses
  · simp only [h, Bool.false_eq_true, if_false]
    exact writeThread_record env none crash _ i writeNotableAddresses

/-- C15: for every crash context whose offending machine context stores a thread
count that is not negative, the entries of the array `writeAllThreads` writes are
the records of the threads at the indices 0, 1, ... in this order, as many as the
thread count; the record written for index `i` is an object with exactly one
"index" field, and its value is `i`. -/
theorem writeAllThreads_entries (env : Environment) (key : Option String)
    (crash : CrasheeCrash_MonitorContext) (writeNotableAddresses : Bool)
    (hcount : 0 ≤ crash.offendingMachineContext.threadCount) :
    IsRecord (JSONCall.beginArray key) (writeAllThreads env key crash writeNotableAddresses) ∧
    entries (body (writeAllThreads env key crash writeNotableAddresses)) =
      (List.range crash.offendingMachineContext.threadCount.toNat).map
        (writeThreadAtIndex env crash writeNotableAddresses) ∧
    ((entries (body (writeAllThreads env key crash writeNotableAddresses))).length : Int) =
      crash.offendingMachineContext.threadCount ∧
    ∀ i : Nat,
      IsRecord (JSONCall.beginObject none)
        (writeThreadAtIndex env crash writeNotableAddresses i) ∧
      fieldsWithKey CrasheeCrashField_Index
        (writeThreadAtIndex env crash writeNotableAddresses i) =
        [JSONCall.addIntegerElement (some CrasheeCrashField_Index) i] := by
  have hrec : ∀ i ∈ List.range crash.offendingMachineContext.threadCount.toNat,
      IsRecord ((fun _ => JSONCall.beginObject none) i)
        (writeThreadAtIndex env crash writeNotableAddresses i) :=
    fun i _ => (writeThreadAtIndex_record env crash writeNotableAddresses i).1
  have hentries := entries_flatMap_records _ _ _ hrec
  have harray : writeAllThreads env key crash writeNotableAddresses =
      JSONCall.beginArray key ::
        ((List.range crash.offendingMachineContext.threadCount.toNat).flatMap
          (writeThreadAtIndex env crash writeNotableAddresses) ++ [JSONCall.endContainer]) := by
    simp [writeAllThreads, MachineContext.crasheemc_getThreadCount]
  have hbody : body (writeAllThreads env key crash writeNotableAddresses) =
      (List.range crash.offendingMachineContext.threadCount.toNat).flatMap
        (writeThreadAtIndex env crash writeNotableAddresses) := by
    rw [harray, body_container]
  refine ⟨?_, ?_, ?_, fun i => writeThreadAtIndex_record env crash writeNotableAddresses i⟩
  · rw [harray]
    exact isRecord_mk _ _ rfl
      (balanced_flatMap _ _ (fun i hi => isRecord_balanced (hrec i hi)))
  · rw [hbody, hentries]
  · rw [hbody, hentries, List.length_map, List.length_range]
    exact Int.toNat_of_nonneg hcount

set_option maxRecDepth 100000 in
/-- C15, at a concrete input: for the crash on thread 2 of three threads the
array has three entries. -/
theorem writeAllThreads_entries_witness :
    ((entries (body (writeAllThreads Example.env (some CrasheeCrashField_Threads)
      Example.crash true))).length : Int) = 3 :=
  (writeAllThreads_entries Example.env (some CrasheeCrashField_Threads) Example.crash true
    (by decide)).2.2.1

open CrasheeJSON

/-! ## The error section -/

theorem writeErrorMach_record (env : Environment) (crash : CrasheeCrash_MonitorContext) :
    IsRecord (JSONCall.beginObject (some CrasheeCrashField_Mach)) (writeErrorMach env crash) := by
  unfold writeErrorMach
  simp only []
  cases env.services.crasheemach_exceptionName crash.mach_type <;>
    cases (if (crash.mach_code == 0) = true then none
      else env.services.crasheemach_kernelReturnCodeName crash.mach_code) <;>
    exact isRecord_of_shape _ _ rfl rfl (balanced_of_allElements _ rfl)

theorem writeErrorSignal_record (env : Environment) (crash : CrasheeCrash_MonitorContext) :
    IsRecord (JSONCall.beginObject (some CrasheeCrashField_Signal))
      (writeErrorSignal env crash) := by
  unfold writeErrorSignal
  simp only []
  cases env.services.crasheesignal_signalName crash.signal_signum <;>
    cases env.services.crasheesignal_signalCodeName crash.signal_signum crash.signal_sigcode <;>
    exact isRecord_of_shape _ _ rfl rfl (balanced_of_allElements _ rfl)

/-- Nothing `writeError` writes before its `switch` is a field "type" or
"user_reported". -/
theorem writeErrorCommon_silent (env : Environment) (crash : CrasheeCrash_MonitorContext)
    (key : String) (hm : (some CrasheeCrashField_Mach == some key) = false)
    (hs : (some CrasheeCrashField_Signal == some key) = false)
    (ha : (some CrasheeCrashField_Address == some key) = false)
    (hr : (some CrasheeCrashField_Reason == some key) = false) :
    Silent key (writeErrorCommon env crash) := by
  unfold writeErrorCommon
  refine silent_append (silent_append (silent_append ?_ ?_) ?_) ?_
  · split
    · exact silent_of_record (writeErrorMach_record env crash) hm
    · exact silent_nil _
  · exact silent_of_record (writeErrorSignal_record env crash) hs
  · refine silent_of_elements _ rfl ?_
    intro call hc
    simp only [List.mem_singleton] at hc
    subst hc
    exact ha
  · cases crash.crashReason with
    | none => exact silent_nil _
    | some reason =>
      refine silent_of_elements _ rfl ?_
      intro call hc
      simp only [List.mem_singleton] at hc
      subst hc
      exact hr

theorem addJSONElement_balanced (env : Environment) (key : Option String) (jsonElement : String)
    (closeLastContainer : Bool)
    (h : Balanced (env.codec.crasheejson_addJSONElement key jsonElement
      jsonElement.utf8ByteSize closeLastContainer).2) :
    Balanced (addJSONElement env key jsonElement closeLastContainer) := by
  unfold addJSONElement
  simp only []
  split
  · exact balanced_append h
      (balanced_container (JSONCall.beginObject key)
        [JSONCall.addStringElement (some CrasheeCrashField_Error)
          (some (("Invalid JSON data: " ++ env.codec.crasheejson_stringForError
            (env.codec.crasheejson_addJSONElement key jsonElement jsonElement.utf8ByteSize
              closeLastContainer).1).take 99)),
         JSONCall.addStringElement (some CrasheeCrashField_JSONData) (some jsonElement)]
        rfl (balanced_of_allElements _ rfl))
  · exact h

/-- The calls of `writeErrorUserReported` after the "name" element. -/
theorem writeErrorUserReported_rest_balanced (env : Environment)
    (crash : CrasheeCrash_MonitorContext)
    (hcodec : ∀ json, crash.userException_customStackTrace = some json →
      Balanced (env.codec.crasheejson_addJSONElement (some CrasheeCrashField_Backtrace) json
        json.utf8ByteSize true).2) :
    Balanced
      ((match crash.userException_language with
        | some language =>
          [JSONCall.addStringElement (some CrasheeCrashField_Language) (some language)]
        | none => []) ++
      ((match crash.userException_lineOfCode with
        | some lineOfCode =>
          [JSONCall.addStringElement (some CrasheeCrashField_LineOfCode) (some lineOfCode)]
        | none => []) ++
      (match crash.userException_customStackTrace with
        | some customStackTrace =>
          addJSONElement env (some CrasheeCrashField_Backtrace) customStackTrace true
        | none => []))) := by
  refine balanced_append ?_ (balanced_append ?_ ?_)
  · cases crash.userException_language with
    | none => exact balanced_nil
    | some language => exact balanced_of_allElements _ rfl
  · cases crash.userException_lineOfCode with
    | none => exact balanced_nil
    | some lineOfCode => exact balanced_of_allElements _ rfl
  · cases hst : crash.userException_customStackTrace with
    | none => exact balanced_nil
    | some customStackTrace =>
      exact addJSONElement_balanced env _ customStackTrace true (hcodec customStackTrace hst)

/-- The "user_reported" object is a record whose first field is the "name"
element with the reported exception name. -/
theorem writeErrorUserReported_record (env : Environment) (crash : CrasheeCrash_MonitorContext)
    (hcodec : ∀ json, crash.userException_customStackTrace = some json →
      Balanced (env.codec.crasheejson_addJSONElement (some CrasheeCrashField_Backtrace) json
        json.utf8ByteSize true).2) :
    IsRecord (JSONCall.beginObject (some CrasheeCrashField_UserReported))
      (writeErrorUserReported env crash) ∧
    (fields (writeErrorUserReported env crash)).head? =
      some (JSONCall.addStringElement (some CrasheeCrashField_Name) crash.userException_name) := by
  have hrest := writeErrorUserReported_rest_balanced env crash hcodec
  have hshape : writeErrorUserReported env crash =
      JSONCall.beginObject (some CrasheeCrashField_UserReported) ::
        ((JSONCall.addStringElement (some CrasheeCrashField_Name) crash.userException_name ::
          ((match crash.userException_language with
            | some language =>
              [JSONCall.addStringElement (some CrasheeCrashField_Language) (some language)]
            | none => []) ++
          ((match crash.userException_lineOfCode with
            | some lineOfCode =>
              [JSONCall.addStringElement (some CrasheeCrashField_LineOfCode) (some lineOfCode)]
            | none => []) ++
          (match crash.userException_customStackTrace with
            | some customStackTrace =>
              addJSONElement env (some CrasheeCrashField_Backtrace) customStackTrace true
            | none => [])))) ++ [JSONCall.endContainer]) := by
    simp [writeErrorUserReported]
  rw [hshape]
  refine ⟨isRecord_mk _ _ rfl (balanced_cons_element _ _ rfl rfl hrest), ?_⟩
  rw [fields_record, heads_cons_element
    (JSONCall.addStringElement (some CrasheeCrashField_Name) crash.userException_name) _ rfl rfl]
  rfl

/-- The fields "type" of the error object, given what the `switch` of `writeError`
writes: a "type" element followed by calls with no entry under "type". -/
theorem writeError_type_of_specific (env : Environment) (key : Option String)
    (crash : CrasheeCrash_MonitorContext) (value : Option String) (post : List JSONCall)
    (hspec : writeErrorSpecific env crash =
      JSONCall.addStringElement (some CrasheeCrashField_Type) value :: post)
    (hpost : Silent CrasheeCrashField_Type post) :
    fieldsWithKey CrasheeCrashField_Type (writeError env key crash) =
      [JSONCall.addStringElement (some CrasheeCrashField_Type) value] := by
  have hshape : writeError env key crash = JSONCall.beginObject key ::
      ((writeErrorCommon env crash ++
        (JSONCall.addStringElement (some CrasheeCrashField_Type) value :: post)) ++
        [JSONCall.endContainer]) := by
    simp [writeError, hspec]
  rw [hshape]
  exact fieldsWithKey_single _ _ _ _ _ _
    (writeErrorCommon_silent env crash _ (by decide) (by decide) (by decide) (by decide))
    hpost rfl rfl (by simp only [JSONCall.key]; decide)

/-- C16: for every crash context (for a user-reported one with a custom stack
trace: provided the codec, given that trace, leaves the container stack as it
found it), the error object `writeError` writes has exactly one "type" field, with the value "mach", "signal",
"cpp_exception", "nsexception", "deadlock" or "user" when the crash type is
MachException, Signal, CPPException, NSException, MainThreadDeadlock or
UserReported; for UserReported one of the entries of the error object is the
"user_reported" object, a record whose first field is "name" with the reported
exception name. -/
theorem writeError_type (env : Environment) (key : Option String)
    (crash : CrasheeCrash_MonitorContext)
    (hcodec : crash.crashType = CrasheeCrashMonitorTypeUserReported →
      ∀ json, crash.userException_customStackTrace = some json →
        Balanced (env.codec.crasheejson_addJSONElement (some CrasheeCrashField_Backtrace) json
          json.utf8ByteSize true).2) :
    (crash.crashType = CrasheeCrashMonitorTypeMachException →
      fieldsWithKey CrasheeCrashField_Type (writeError env key crash) =
        [JSONCall.addStringElement (some CrasheeCrashField_Type)
          (some CrasheeCrashExcType_Mach)]) ∧
    (crash.crashType = CrasheeCrashMonitorTypeSignal →
      fieldsWithKey CrasheeCrashField_Type (writeError env key crash) =
        [JSONCall.addStringElement (some CrasheeCrashField_Type)
          (some CrasheeCrashExcType_Signal)]) ∧
    (crash.crashType = CrasheeCrashMonitorTypeCPPException →
      fieldsWithKey CrasheeCrashField_Type (writeError env key crash) =
        [JSONCall.addStringElement (some CrasheeCrashField_Type)
          (some CrasheeCrashExcType_CPPException)]) ∧
    (crash.crashType = CrasheeCrashMonitorTypeNSException →
      fieldsWithKey CrasheeCrashField_Type (writeError env key crash) =
        [JSONCall.addStringElement (some CrasheeCrashField_Type)
          (some CrasheeCrashExcType_NSException)]) ∧
    (crash.crashType = CrasheeCrashMonitorTypeMainThreadDeadlock →
      fieldsWithKey CrasheeCrashField_Type (writeError env key crash) =
        [JSONCall.addStringElement (some CrasheeCrashField_Type)
          (some CrasheeCrashExcType_Deadlock)]) ∧
    (crash.crashType = CrasheeCrashMonitorTypeUserReported →
      fieldsWithKey CrasheeCrashField_Type (writeError env key crash) =
        [JSONCall.addStringElement (some CrasheeCrashField_Type)
          (some CrasheeCrashExcType_User)] ∧
      writeErrorUserReported env crash ∈ entries (body (writeError env key crash)) ∧
      IsRecord (JSONCall.beginObject (some CrasheeCrashField_UserReported))
        (writeErrorUserReported env crash) ∧
      (fields (writeErrorUserReported env crash)).head? =
        some (JSONCall.addStringElement (some CrasheeCrashField_Name)
          crash.userException_name)) := by
  refine ⟨fun h => ?_, fun h => ?_, fun h => ?_, fun h => ?_, fun h => ?_, fun h => ?_⟩
  · exact writeError_type_of_specific env key crash _ []
      (by simp [writeErrorSpecific, h, CrasheeCrashMonitorTypeMachException,
        CrasheeCrashMonitorTypeMainThreadDeadlock]) (silent_nil _)
  · exact writeError_type_of_specific env key crash _ []
      (by simp [writeErrorSpecific, h, CrasheeCrashMonitorTypeMachException,
        CrasheeCrashMonitorTypeMainThreadDeadlock, CrasheeCrashMonitorTypeSignal,
        CrasheeCrashMonitorTypeCPPException, CrasheeCrashMonitorTypeNSException])
      (silent_nil _)
  · exact writeError_type_of_specific env key crash _
      [JSONCall.beginObject (some CrasheeCrashField_CPPException),
       JSONCall.addStringElement (some CrasheeCrashField_Name) crash.CPPException_name,
       JSONCall.endContainer]
      (by simp [writeErrorSpecific, h, CrasheeCrashMonitorTypeMachException,
        CrasheeCrashMonitorTypeMainThreadDeadlock, CrasheeCrashMonitorTypeCPPException])
      (silent_of_record
        (isRecord_of_shape (JSONCall.beginObject (some CrasheeCrashField_CPPException)) _ rfl rfl
          (balanced_of_allElements _ rfl)) (by decide))
  · refine writeError_type_of_specific env key crash _
      (JSONCall.beginObject (some CrasheeCrashField_NSException) ::
        (([JSONCall.addStringElement (some CrasheeCrashField_Name) crash.NSException_name,
          JSONCall.addStringElement (some CrasheeCrashField_UserInfo)
            crash.NSException_userInfo] ++
          writeAddressReferencedByString env (some CrasheeCrashField_ReferencedObject)
            crash.crashReason) ++ [JSONCall.endContainer]))
      (by simp [writeErrorSpecific, h, CrasheeCrashMonitorTypeMachException,
        CrasheeCrashMonitorTypeMainThreadDeadlock, CrasheeCrashMonitorTypeCPPException,
        CrasheeCrashMonitorTypeNSException])
      (silent_of_record (isRecord_mk _ _ rfl ?_) (by decide))
    exact balanced_append (balanced_of_allElements _ rfl)
      (writeAddressReferencedByString_balanced env _ _)
  · exact writeError_type_of_specific env key crash _ []
      (by simp [writeErrorSpecific, h]) (silent_nil _)
  · have huser := writeErrorUserReported_record env crash (hcodec h)
    have hspec : writeErrorSpecific env crash =
        JSONCall.addStringElement (some CrasheeCrashField_Type) (some CrasheeCrashExcType_User) ::
          writeErrorUserReported env crash := by
      simp [writeErrorSpecific, h, CrasheeCrashMonitorTypeMachException,
        CrasheeCrashMonitorTypeMainThreadDeadlock, CrasheeCrashMonitorTypeCPPException,
        CrasheeCrashMonitorTypeNSException, CrasheeCrashMonitorTypeSignal,
        CrasheeCrashMonitorTypeUserReported]
    refine ⟨writeError_type_of_specific env key crash _ _ hspec
      (silent_of_record huser.1 (by decide)), ?_, huser.1, huser.2⟩
    have hshape : writeError env key crash = JSONCall.beginObject key ::
        ((writeErrorCommon env crash ++
          (JSONCall.addStringElement (some CrasheeCrashField_Type)
            (some CrasheeCrashExcType_User) :: writeErrorUserReported env crash)) ++
          [JSONCall.endContainer]) := by
      simp [writeError, hspec]
    have hcommon := writeErrorCommon_silent env crash CrasheeCrashField_Type
      (by decide) (by decide) (by decide) (by decide)
    rw [hshape, body_container, entries_append _ hcommon.1,
      entries_cons_element (JSONCall.addStringElement (some CrasheeCrashField_Type)
        (some CrasheeCrashExcType_User)) _ rfl rfl]
    have := isRecord_entries_append huser.1 []
    rw [List.append_nil] at this
    rw [this]
    simp

set_option maxRecDepth 100000 in
/-- C16, at a concrete input: for the user-reported exception `Boom`, whose
custom stack trace the example codec accepts, the error object has the one
"type" field "user" and the "user_reported" object starts with the name
`Boom`. -/
theorem writeError_type_witness :
    fieldsWithKey CrasheeCrashField_Type
        (writeError Example.env (some CrasheeCrashField_Error) Example.userCrash) =
      [JSONCall.addStringElement (some CrasheeCrashField_Type)
        (some CrasheeCrashExcType_User)] ∧
    (fields (writeErrorUserReported Example.env Example.userCrash)).head? =
      some (JSONCall.addStringElement (some CrasheeCrashField_Name) (some "Boom")) :=
  have h := (writeError_type Example.env (some CrasheeCrashField_Error) Example.userCrash
    (fun _ json hjson => by
      have hj : json = "\x7b\x7d" := (Option.some.inj hjson).symm
      subst hj
      exact (balanced_iff _).2 (by decide))).2.2.2.2.2 rfl
  ⟨h.1, h.2.2.2⟩

open CrasheeJSON

/-! ## The standard report -/

set_option maxRecDepth 1000000 in
/-- C14 fails on the code. The configured user-info string `oops` is rejected by
the codec, which writes nothing for it; `addJSONElement` then writes an error
object under "user" and closes it, although it was called with
`closeLastContainer` false; the `endContainer` with which
`crasheecrashreport_writeStandardReport` means to close the "user" object closes
the "report" object instead, after 131 of the 134 calls. The "debug" object is
written with no container open, and the last `endContainer` finds nothing to
close: the report makes 30 begin calls and 31 end calls. -/
theorem writeStandardReport_malformed_user_info_closes_report_early :
    (Example.malformedEnv.codec.crasheejson_addJSONElement (some CrasheeCrashField_User)
      "oops" 4 false).1 ≠ CrasheeJSON_OK ∧
    (crasheecrashreport_writeStandardReport Example.malformedEnv Example.crash
      "/tmp/report.json").length = 134 ∧
    closesFirstContainerAfter (crasheecrashreport_writeStandardReport Example.malformedEnv
      Example.crash "/tmp/report.json") = some 131 ∧
    depthAfter 0 (crasheecrashreport_writeStandardReport Example.malformedEnv Example.crash
      "/tmp/report.json") = none ∧
    countBegin (crasheecrashreport_writeStandardReport Example.malformedEnv Example.crash
      "/tmp/report.json") = 30 ∧
    countEnd (crasheecrashreport_writeStandardReport Example.malformedEnv Example.crash
      "/tmp/report.json") = 31 := by
  decide

end CrasheeCrashReport

namespace MachineContext

/-! ## The thread list of a crashed context -/

/-- When `task_threads` reports fewer than 2^31 threads, `getThreadList` stores
the smaller of the reported count and the capacity as the thread count. -/
theorem getThreadList_threadCount (p : Process) (context : CrasheeMachineContext)
    (threads : List CrasheeThread) (h : p.task_threads = some threads)
    (hlen : threads.length < 2 ^ 31) :
    (getThreadList p context).result = true ∧
    (getThreadList p context).context.threadCount =
      ((min threads.length p.maxThreadCount : Nat) : Int) := by
  have hcast : castInt threads.length = (threads.length : Int) := by
    have hmod : threads.length % 2 ^ 32 = threads.length := Nat.mod_eq_of_lt (by omega)
    simp only [castInt, hmod]
    rw [if_pos hlen]
  simp only [getThreadList, h, hcast]
  refine ⟨trivial, ?_⟩
  by_cases hgt : (threads.length : Int) > (p.maxThreadCount : Int)
  · rw [if_pos hgt]
    have : min threads.length p.maxThreadCount = p.maxThreadCount := by omega
    rw [this]
  · rw [if_neg hgt]
    have : min threads.length p.maxThreadCount = threads.length := by omega
    rw [this]

/-- When `task_threads` reports more threads than `allThreads` has elements, the
deallocation loop of `getThreadList` uses the index `maxThreadCount`, the first
one past the end of the array. -/
theorem getThreadList_index_past_capacity (p : Process) (context : CrasheeMachineContext)
    (threads : List CrasheeThread) (h : p.task_threads = some threads)
    (hmore : p.maxThreadCount < threads.length) :
    p.maxThreadCount ∈ (getThreadList p context).allThreadsIndices := by
  simp only [getThreadList, h, List.mem_append, List.mem_range]
  exact Or.inr hmore

set_option maxRecDepth 100000 in
/-- C21 fails on the code. In a process of 101 threads with an `allThreads` array
of 100 elements `getThreadList` returns true and stores the thread count 100, the
smaller of the two, but its deallocation loop runs over the 101 threads reported
and reads `allThreads[100]`: an index it uses is not below the capacity. -/
theorem getThreadList_reads_allThreads_past_capacity :
    Example.crowdedProcess.maxThreadCount = 100 ∧
    (getThreadList Example.crowdedProcess Example.zeroedContext).result = true ∧
    (getThreadList Example.crowdedProcess Example.zeroedContext).context.threadCount = 100 ∧
    (getThreadList Example.crowdedProcess Example.zeroedContext).context.allThreads.length
      = 100 ∧
    100 ∈ (getThreadList Example.crowdedProcess Example.zeroedContext).allThreadsIndices ∧
    ¬ ∀ i ∈ (getThreadList Example.crowdedProcess Example.zeroedContext).allThreadsIndices,
      i < Example.crowdedProcess.maxThreadCount := by
  decide

end MachineContext

namespace CrasheeCrashReport

open CrasheeJSON

/-! ## Registers -/

/-- C22: for every machine context the object `writeRegisters` writes has the
"basic" register object as its first entry, always; the "exception" register
object is its second entry when the context is a crashed context and can have
CPU state (it is not the context of the current thread, or it is a signal
context), and otherwise the object has no other entry, so it has an "exception"
field if and only if that condition holds. -/
theorem writeRegisters_exception_iff (env : Environment) (key : Option String)
    (machineContext : CrasheeMachineContext) :
    IsRecord (JSONCall.beginObject key) (writeRegisters env key machineContext) ∧
    entries (body (writeRegisters env key machineContext)) =
      writeBasicRegisters env (some CrasheeCrashField_Basic) machineContext ::
        (if machineContext.isCrashedContext = true ∧
            (machineContext.isCurrentThread = false ∨ machineContext.isSignalContext = true)
          then [writeExceptionRegisters env (some CrasheeCrashField_Exception) machineContext]
          else []) ∧
    fieldsWithKey CrasheeCrashField_Basic (writeRegisters env key machineContext) =
      [JSONCall.beginObject (some CrasheeCrashField_Basic)] ∧
    (fieldsWithKey CrasheeCrashField_Exception (writeRegisters env key machineContext) =
        [JSONCall.beginObject (some CrasheeCrashField_Exception)] ↔
      (machineContext.isCrashedContext = true ∧
        (machineContext.isCurrentThread = false ∨ machineContext.isSignalContext = true))) ∧
    (fieldsWithKey CrasheeCrashField_Exception (writeRegisters env key machineContext) = [] ↔
      ¬ (machineContext.isCrashedContext = true ∧
        (machineContext.isCurrentThread = false ∨ machineContext.isSignalContext = true))) := by
  have hbasic := writeBasicRegisters_record env (some CrasheeCrashField_Basic) machineContext
  have hexc := writeExceptionRegisters_record env (some CrasheeCrashField_Exception)
    machineContext
  have hcond : MachineContext.crasheemc_hasValidExceptionRegisters machineContext = true ↔
      (machineContext.isCrashedContext = true ∧
        (machineContext.isCurrentThread = false ∨ machineContext.isSignalContext = true)) := by
    simp only [MachineContext.crasheemc_hasValidExceptionRegisters,
      MachineContext.crasheemc_canHaveCPUState, MachineContext.crasheemc_isCrashedContext,
      Bool.and_eq_true, Bool.or_eq_true, Bool.not_eq_true']
    exact and_comm
  refine ⟨writeRegisters_record env key machineContext, ?_⟩
  by_cases h : MachineContext.crasheemc_hasValidExceptionRegisters machineContext = true
  · have hc := hcond.1 h
    have hshape : writeRegisters env key machineContext =
        JSONCall.beginObject key ::
          ((writeBasicRegisters env (some CrasheeCrashField_Basic) machineContext ++
            writeExceptionRegisters env (some CrasheeCrashField_Exception) machineContext) ++
            [JSONCall.endContainer]) := by
      simp [writeRegisters, h]
    have hentries : entries
        (writeBasicRegisters env (some CrasheeCrashField_Basic) machineContext ++
          writeExceptionRegisters env (some CrasheeCrashField_Exception) machineContext) =
        [writeBasicRegisters env (some CrasheeCrashField_Basic) machineContext,
          writeExceptionRegisters env (some CrasheeCrashField_Exception) machineContext] := by
      rw [isRecord_entries_append hbasic]
      have := isRecord_entries_append hexc []
      rw [List.append_nil] at this
      rw [this]
      rfl
    have hheads : heads
        (writeBasicRegisters env (some CrasheeCrashField_Basic) machineContext ++
          writeExceptionRegisters env (some CrasheeCrashField_Exception) machineContext) =
        [JSONCall.beginObject (some CrasheeCrashField_Basic),
          JSONCall.beginObject (some CrasheeCrashField_Exception)] := by
      rw [isRecord_heads_append hbasic, isRecord_heads hexc]
    rw [hshape, body_container, hentries, if_pos hc]
    refine ⟨rfl, ?_, ?_, ?_⟩
    · rw [fieldsWithKey, fields_record, hheads]; decide
    · rw [fieldsWithKey, fields_record, hheads]
      exact ⟨fun _ => hc, fun _ => by decide⟩
    · rw [fieldsWithKey, fields_record, hheads]
      exact ⟨fun hnil => absurd hnil (by decide), fun hn => absurd hc hn⟩
  · have hc : ¬ (machineContext.isCrashedContext = true ∧
        (machineContext.isCurrentThread = false ∨ machineContext.isSignalContext = true)) :=
      fun hc => h (hcond.2 hc)
    have hshape : writeRegisters env key machineContext =
        JSONCall.beginObject key ::
          (writeBasicRegisters env (some CrasheeCrashField_Basic) machineContext ++
            [JSONCall.endContainer]) := by
      simp [writeRegisters, h]
    have hentries : entries
        (writeBasicRegisters env (some CrasheeCrashField_Basic) machineContext) =
        [writeBasicRegisters env (some CrasheeCrashField_Basic) machineContext] := by
      have := isRecord_entries_append hbasic []
      rw [List.append_nil] at this
      rw [this]
      rfl
    rw [hshape, body_container, hentries, if_neg hc]
    refine ⟨rfl, ?_, ?_, ?_⟩
    · rw [fieldsWithKey, fields_record, isRecord_heads hbasic]; decide
    · rw [fieldsWithKey, fields_record, isRecord_heads hbasic]
      exact ⟨fun hex => absurd hex (by decide), fun hyes => absurd hyes hc⟩
    · rw [fieldsWithKey, fields_record, isRecord_heads hbasic]
      exact ⟨fun _ => hc, fun _ => by decide⟩

/-! ## The stack dump -/

/-- What `writeStackContents` writes for a stack pointer that is not null: the
length it hands to `crasheemem_copySafely` and to `addDataElement` is
`copyLength`. -/
theorem writeStackContents_copyLength (env : Environment) (key : Option String)
    (machineContext : CrasheeMachineContext) (isStackOverflow : Bool)
    (hsp : env.cpu.crasheecpu_stackPointer machineContext ≠ 0) :
    writeStackContents env key machineContext isStackOverflow =
      [JSONCall.beginObject key,
       JSONCall.addStringElement (some CrasheeCrashField_GrowDirection)
        (some (if env.cpu.crasheecpu_stackGrowDirection > 0 then "+" else "-")),
       JSONCall.addUIntegerElement (some CrasheeCrashField_DumpStart)
        (stackBounds env (env.cpu.crasheecpu_stackPointer machineContext)
          kStackContentsPushedDistance kStackContentsPoppedDistance).1,
       JSONCall.addUIntegerElement (some CrasheeCrashField_DumpEnd)
        (stackBounds env (env.cpu.crasheecpu_stackPointer machineContext)
          kStackContentsPushedDistance kStackContentsPoppedDistance).2,
       JSONCall.addUIntegerElement (some CrasheeCrashField_StackPtr)
        (env.cpu.crasheecpu_stackPointer machineContext),
       JSONCall.addBooleanElement (some CrasheeCrashField_Overflow) isStackOverflow,
       (match env.memory.crasheemem_copySafely
          (stackBounds env (env.cpu.crasheecpu_stackPointer machineContext)
            kStackContentsPushedDistance kStackContentsPoppedDistance).1
          (copyLength env (env.cpu.crasheecpu_stackPointer machineContext)) with
        | some stackBuffer =>
          JSONCall.addDataElement (some CrasheeCrashField_Contents) stackBuffer
            (copyLength env (env.cpu.crasheecpu_stackPointer machineContext))
        | none =>
          JSONCall.addStringElement (some CrasheeCrashField_Error)
            (some "Stack contents not accessible")),
       JSONCall.endContainer] := by
  simp only [writeStackContents, beq_iff_eq, hsp, if_false, copyLength]

/-- On a stack growing down, `copyLength` is the size of `stackBuffer`, 240, when
neither `sp - 80` nor `sp + 160` wraps around the 64-bit address space, and -240
when one of them does. -/
theorem copyLength_growing_down (env : Environment) (sp : Nat) (hsp : sp < 2 ^ 64)
    (hdir : env.cpu.crasheecpu_stackGrowDirection = -1) :
    (80 ≤ sp ∧ sp + 160 < 2 ^ 64 → copyLength env sp = 240) ∧
    (sp < 80 ∨ 2 ^ 64 ≤ sp + 160 → copyLength env sp = -240) := by
  have hlow : toUInt64 (kStackContentsPushedDistance * (sizeofPointer : Int) * -1 * -1) = 160 := by
    decide
  have hhigh : toUInt64 (kStackContentsPoppedDistance * (sizeofPointer : Int) * -1) =
      2 ^ 64 - 80 := by decide
  simp only [copyLength, stackBounds, hdir, hlow, hhigh]
  constructor
  · rintro ⟨h1, h2⟩
    have e1 : (sp + 160) % 2 ^ 64 = sp + 160 := Nat.mod_eq_of_lt h2
    have e2 : (sp + (2 ^ 64 - 80)) % 2 ^ 64 = sp - 80 := by omega
    rw [e1, e2]
    have hlt : sp - 80 < sp + 160 := by omega
    rw [if_pos hlt]
    have e3 : sp + 160 - (sp - 80) = 240 := by omega
    simp only [e3]
    decide
  · intro h
    rcases h with h | h
    · have e1 : (sp + 160) % 2 ^ 64 = sp + 160 := Nat.mod_eq_of_lt (by omega)
      have e2 : (sp + (2 ^ 64 - 80)) % 2 ^ 64 = sp + (2 ^ 64 - 80) :=
        Nat.mod_eq_of_lt (by omega)
      rw [e1, e2]
      have hlt : ¬ sp + (2 ^ 64 - 80) < sp + 160 := by omega
      rw [if_neg hlt]
      have e3 : sp + (2 ^ 64 - 80) - (sp + 160) = 2 ^ 64 - 240 := by omega
      simp only [e3]
      decide
    · have e1 : (sp + 160) % 2 ^ 64 = sp + 160 - 2 ^ 64 := by omega
      have e2 : (sp + (2 ^ 64 - 80)) % 2 ^ 64 = sp - 80 := by omega
      rw [e1, e2]
      have hlt : ¬ sp - 80 < sp + 160 - 2 ^ 64 := by omega
      rw [if_neg hlt]
      have e3 : sp - 80 - (sp + 160 - 2 ^ 64) = 2 ^ 64 - 240 := by omega
      simp only [e3]
      decide

/-- On a stack growing up, `copyLength` is the size of `stackBuffer`, 240, when
neither `sp - 160` nor `sp + 80` wraps around the 64-bit address space, and -240
when one of them does. -/
theorem copyLength_growing_up (env : Environment) (sp : Nat) (hsp : sp < 2 ^ 64)
    (hdir : env.cpu.crasheecpu_stackGrowDirection = 1) :
    (160 ≤ sp ∧ sp + 80 < 2 ^ 64 → copyLength env sp = 240) ∧
    (sp < 160 ∨ 2 ^ 64 ≤ sp + 80 → copyLength env sp = -240) := by
  have hlow : toUInt64 (kStackContentsPushedDistance * (sizeofPointer : Int) * 1 * -1) =
      2 ^ 64 - 160 := by decide
  have hhigh : toUInt64 (kStackContentsPoppedDistance * (sizeofPointer : Int) * 1) = 80 := by
    decide
  simp only [copyLength, stackBounds, hdir, hlow, hhigh]
  constructor
  · rintro ⟨h1, h2⟩
    have e1 : (sp + (2 ^ 64 - 160)) % 2 ^ 64 = sp - 160 := by omega
    have e2 : (sp + 80) % 2 ^ 64 = sp + 80 := Nat.mod_eq_of_lt h2
    rw [e1, e2]
    have hlt : ¬ sp + 80 < sp - 160 := by omega
    rw [if_neg hlt]
    have e3 : sp + 80 - (sp - 160) = 240 := by omega
    simp only [e3]
    decide
  · intro h
    rcases h with h | h
    · have e1 : (sp + (2 ^ 64 - 160)) % 2 ^ 64 = sp + (2 ^ 64 - 160) :=
        Nat.mod_eq_of_lt (by omega)
      have e2 : (sp + 80) % 2 ^ 64 = sp + 80 := Nat.mod_eq_of_lt (by omega)
      rw [e1, e2]
      have hlt : sp + 80 < sp + (2 ^ 64 - 160) := by omega
      rw [if_pos hlt]
      have e3 : sp + (2 ^ 64 - 160) - (sp + 80) = 2 ^ 64 - 240 := by omega
      simp only [e3]
      decide
    · have e1 : (sp + (2 ^ 64 - 160)) % 2 ^ 64 = sp - 160 := by omega
      have e2 : (sp + 80) % 2 ^ 64 = sp + 80 - 2 ^ 64 := by omega
      rw [e1, e2]
      have hlt : sp + 80 - 2 ^ 64 < sp - 160 := by omega
      rw [if_pos hlt]
      have e3 : sp - 160 - (sp + 80 - 2 ^ 64) = 2 ^ 64 - 240 := by omega
      simp only [e3]
      decide

/-- C23 fails on the code. For the stack pointer 8 on a stack growing down,
`sp - 80` wraps around to `2^64 - 72`, no swap takes place, and `copyLength`, the
low 32 bits of `2^64 - 240` read as an `int`, is -240: it is negative. Whatever
the memory capability, `writeStackContents` asks it to copy -240 bytes from the
address 168 into the 240-byte `stackBuffer`. -/
theorem writeStackContents_copyLength_negative (memory : Memory) (key : Option String)
    (isStackOverflow : Bool) :
    Example.env.cpu.crasheecpu_stackGrowDirection = -1 ∧
    sizeofStackBuffer = 240 ∧
    copyLength Example.env 8 = -240 ∧
    ¬ (0 ≤ copyLength Example.env 8) ∧
    writeStackContents { Example.env with memory := memory } key { machineContext := [8] }
        isStackOverflow =
      [JSONCall.beginObject key,
       JSONCall.addStringElement (some CrasheeCrashField_GrowDirection) (some "-"),
       JSONCall.addUIntegerElement (some CrasheeCrashField_DumpStart) 168,
       JSONCall.addUIntegerElement (some CrasheeCrashField_DumpEnd) (2 ^ 64 - 72),
       JSONCall.addUIntegerElement (some CrasheeCrashField_StackPtr) 8,
       JSONCall.addBooleanElement (some CrasheeCrashField_Overflow) isStackOverflow,
       (match memory.crasheemem_copySafely 168 (-240) with
        | some stackBuffer =>
          JSONCall.addDataElement (some CrasheeCrashField_Contents) stackBuffer (-240)
        | none =>
          JSONCall.addStringElement (some CrasheeCrashField_Error)
            (some "Stack contents not accessible")),
       JSONCall.endContainer] := by
  have hexample : stackBounds Example.env 8 kStackContentsPushedDistance
      kStackContentsPoppedDistance = (168, 2 ^ 64 - 72) := by decide
  have hbounds : stackBounds { Example.env with memory := memory } 8
      kStackContentsPushedDistance kStackContentsPoppedDistance = (168, 2 ^ 64 - 72) :=
    hexample
  have hlen : copyLength { Example.env with memory := memory } 8 = -240 := by
    simp only [copyLength, hbounds]
    decide
  refine ⟨rfl, by decide, by decide, by decide, ?_⟩
  rw [writeStackContents_copyLength _ key _ isStackOverflow (show (8 : Nat) ≠ 0 by decide)]
  have hsp : ({ Example.env with memory := memory } : Environment).cpu.crasheecpu_stackPointer
      { machineContext := [8] } = 8 := rfl
  rw [hsp, hbounds, hlen]
  rfl

/-! ## UUIDs -/

/-- A list of 16 elements, element by element. -/
theorem length_sixteen (l : List Nat) (h : l.length = 16) :
    ∃ b0 b1 b2 b3 b4 b5 b6 b7 b8 b9 b10 b11 b12 b13 b14 b15 : Nat,
      l = [b0, b1, b2, b3, b4, b5, b6, b7, b8, b9, b10, b11, b12, b13, b14, b15] := by
  rcases l with _ | ⟨b0, _ | ⟨b1, _ | ⟨b2, _ | ⟨b3, _ | ⟨b4, _ | ⟨b5, _ | ⟨b6, _ | ⟨b7, _ | ⟨b8, _ | ⟨b9, _ | ⟨b10, _ | ⟨b11, _ | ⟨b12, _ | ⟨b13, _ | ⟨b14, _ | ⟨b15, _ | ⟨b16, tl⟩⟩⟩⟩⟩⟩⟩⟩⟩⟩⟩⟩⟩⟩⟩⟩⟩
  all_goals first
    | exact ⟨_, _, _, _, _, _, _, _, _, _, _, _, _, _, _, _, rfl⟩
    | (exfalso; simp only [List.length_cons, List.length_nil] at h; omega)

/-- The high and the low nybble of a byte, as `addUUIDElement` extracts them. -/
theorem nybbles_of_byte (byte : Nat) (h : byte < 256) :
    (byte >>> 4) &&& 15 = byte / 16 ∧ byte &&& 15 = byte % 16 := by
  have hlow : byte &&& 15 = byte % 16 := Nat.and_pow_two_sub_one_eq_mod byte 4
  have hhigh : (byte >>> 4) &&& 15 = (byte >>> 4) % 16 :=
    Nat.and_pow_two_sub_one_eq_mod (byte >>> 4) 4
  rw [Nat.shiftRight_eq_div_pow] at hhigh
  rw [Nat.shiftRight_eq_div_pow]
  refine ⟨?_, hlow⟩
  rw [hhigh]
  exact Nat.mod_eq_of_lt (by omega)

/-- The two characters of a byte, by its nybbles. -/
theorem hexByte_eq (byte : Nat) (h : byte < 256) :
    hexByte byte = [g_hexNybbles.getD (byte / 16) '0', g_hexNybbles.getD (byte % 16) '0'] := by
  simp only [hexByte, (nybbles_of_byte byte h).1, (nybbles_of_byte byte h).2]

set_option maxRecDepth 100000 in
/-- The table `g_hexNybbles` holds 16 different characters. -/
theorem g_hexNybbles_injective :
    ∀ i, i < 16 → ∀ j, j < 16 → g_hexNybbles.getD i '0' = g_hexNybbles.getD j '0' → i = j := by
  decide

/-- Every character of the table is a decimal digit or an upper-case letter from
`A` to `F`. -/
theorem g_hexNybbles_upper (i : Nat) :
    g_hexNybbles.getD i '0' ∈ ['0', '1', '2', '3', '4', '5', '6', '7', '8', '9',
      'A', 'B', 'C', 'D', 'E', 'F'] := by
  by_cases h : i < 16
  · have hall : ∀ k, k < 16 → g_hexNybbles.getD k '0' ∈ ['0', '1', '2', '3', '4', '5', '6',
        '7', '8', '9', 'A', 'B', 'C', 'D', 'E', 'F'] := by decide
    exact hall i h
  · have hd : g_hexNybbles.getD i '0' = '0' := by
      apply List.getD_eq_default
      simp only [g_hexNybbles, List.length_cons, List.length_nil]
      omega
    rw [hd]
    decide

/-- Different bytes give different pairs of characters. -/
theorem hexByte_injective (a b : Nat) (ha : a < 256) (hb : b < 256)
    (h : hexByte a = hexByte b) : a = b := by
  rw [hexByte_eq a ha, hexByte_eq b hb] at h
  simp only [List.cons.injEq, and_true] at h
  have h1 := g_hexNybbles_injective (a / 16) (by omega) (b / 16) (by omega) h.1
  have h2 := g_hexNybbles_injective (a % 16) (Nat.mod_lt _ (by decide)) (b % 16)
    (Nat.mod_lt _ (by decide)) h.2
  omega

/-- The text `addUUIDElement` writes for a UUID of 16 bytes, character by
character. -/
theorem uuidText_eq (b0 b1 b2 b3 b4 b5 b6 b7 b8 b9 b10 b11 b12 b13 b14 b15 : Nat) :
    hexBytes [b0, b1, b2, b3, b4, b5, b6, b7, b8, b9, b10, b11, b12, b13, b14, b15] 0 4 ++
        ['-'] ++
      hexBytes [b0, b1, b2, b3, b4, b5, b6, b7, b8, b9, b10, b11, b12, b13, b14, b15] 4 2 ++
        ['-'] ++
      hexBytes [b0, b1, b2, b3, b4, b5, b6, b7, b8, b9, b10, b11, b12, b13, b14, b15] 6 2 ++
        ['-'] ++
      hexBytes [b0, b1, b2, b3, b4, b5, b6, b7, b8, b9, b10, b11, b12, b13, b14, b15] 8 2 ++
        ['-'] ++
      hexBytes [b0, b1, b2, b3, b4, b5, b6, b7, b8, b9, b10, b11, b12, b13, b14, b15] 10 6 =
    hexByte b0 ++ hexByte b1 ++ hexByte b2 ++ hexByte b3 ++ ['-'] ++
      hexByte b4 ++ hexByte b5 ++ ['-'] ++ hexByte b6 ++ hexByte b7 ++ ['-'] ++
      hexByte b8 ++ hexByte b9 ++ ['-'] ++
      hexByte b10 ++ hexByte b11 ++ hexByte b12 ++ hexByte b13 ++ hexByte b14 ++ hexByte b15 := by
  have r2 : List.range 2 = [0, 1] := rfl
  have r4 : List.range 4 = [0, 1, 2, 3] := rfl
  have r6 : List.range 6 = [0, 1, 2, 3, 4, 5] := rfl
  simp only [hexBytes, r2, r4, r6, List.flatMap_cons, List.flatMap_nil, List.append_nil,
    Nat.zero_add, Nat.reduceAdd, List.getD_cons_zero, List.getD_cons_succ, List.append_assoc]

/-- The text written for 16 bytes below 256, by nybbles. -/
theorem uuidText_nybbles (b0 b1 b2 b3 b4 b5 b6 b7 b8 b9 b10 b11 b12 b13 b14 b15 : Nat)
    (hv : ∀ byte ∈ [b0, b1, b2, b3, b4, b5, b6, b7, b8, b9, b10, b11, b12, b13, b14, b15],
      byte < 256) :
    hexByte b0 ++ hexByte b1 ++ hexByte b2 ++ hexByte b3 ++ ['-'] ++
      hexByte b4 ++ hexByte b5 ++ ['-'] ++ hexByte b6 ++ hexByte b7 ++ ['-'] ++
      hexByte b8 ++ hexByte b9 ++ ['-'] ++
      hexByte b10 ++ hexByte b11 ++ hexByte b12 ++ hexByte b13 ++ hexByte b14 ++ hexByte b15 =
    [g_hexNybbles.getD (b0 / 16) '0', g_hexNybbles.getD (b0 % 16) '0',
     g_hexNybbles.getD (b1 / 16) '0', g_hexNybbles.getD (b1 % 16) '0',
     g_hexNybbles.getD (b2 / 16) '0', g_hexNybbles.getD (b2 % 16) '0',
     g_hexNybbles.getD (b3 / 16) '0', g_hexNybbles.getD (b3 % 16) '0', '-',
     g_hexNybbles.getD (b4 / 16) '0', g_hexNybbles.getD (b4 % 16) '0',
     g_hexNybbles.getD (b5 / 16) '0', g_hexNybbles.getD (b5 % 16) '0', '-',
     g_hexNybbles.getD (b6 / 16) '0', g_hexNybbles.getD (b6 % 16) '0',
     g_hexNybbles.getD (b7 / 16) '0', g_hexNybbles.getD (b7 % 16) '0', '-',
     g_hexNybbles.getD (b8 / 16) '0', g_hexNybbles.getD (b8 % 16) '0',
     g_hexNybbles.getD (b9 / 16) '0', g_hexNybbles.getD (b9 % 16) '0', '-',
     g_hexNybbles.getD (b10 / 16) '0', g_hexNybbles.getD (b10 % 16) '0',
     g_hexNybbles.getD (b11 / 16) '0', g_hexNybbles.getD (b11 % 16) '0',
     g_hexNybbles.getD (b12 / 16) '0', g_hexNybbles.getD (b12 % 16) '0',
     g_hexNybbles.getD (b13 / 16) '0', g_hexNybbles.getD (b13 % 16) '0',
     g_hexNybbles.getD (b14 / 16) '0', g_hexNybbles.getD (b14 % 16) '0',
     g_hexNybbles.getD (b15 / 16) '0', g_hexNybbles.getD (b15 % 16) '0'] := by
  rw [hexByte_eq b0 (hv b0 (by simp)), hexByte_eq b1 (hv b1 (by simp)),
    hexByte_eq b2 (hv b2 (by simp)), hexByte_eq b3 (hv b3 (by simp)),
    hexByte_eq b4 (hv b4 (by simp)), hexByte_eq b5 (hv b5 (by simp)),
    hexByte_eq b6 (hv b6 (by simp)), hexByte_eq b7 (hv b7 (by simp)),
    hexByte_eq b8 (hv b8 (by simp)), hexByte_eq b9 (hv b9 (by simp)),
    hexByte_eq b10 (hv b10 (by simp)), hexByte_eq b11 (hv b11 (by simp)),
    hexByte_eq b12 (hv b12 (by simp)), hexByte_eq b13 (hv b13 (by simp)),
    hexByte_eq b14 (hv b14 (by simp)), hexByte_eq b15 (hv b15 (by simp))]
  simp only [List.cons_append, List.nil_append, List.append_assoc]

/-- Two UUIDs of 16 bytes below 256 for which `addUUIDElement` writes the same
text are the same. -/
theorem uuidText_injective (key : Option String) (a0 a1 a2 a3 a4 a5 a6 a7 a8 a9 a10 a11 a12 a13 a14 a15 : Nat)
    (b0 b1 b2 b3 b4 b5 b6 b7 b8 b9 b10 b11 b12 b13 b14 b15 : Nat)
    (ho : ∀ byte ∈ [a0, a1, a2, a3, a4, a5, a6, a7, a8, a9, a10, a11, a12, a13, a14, a15],
      byte < 256)
    (hv : ∀ byte ∈ [b0, b1, b2, b3, b4, b5, b6, b7, b8, b9, b10, b11, b12, b13, b14, b15],
      byte < 256)
    (h : addUUIDElement key
        (some [a0, a1, a2, a3, a4, a5, a6, a7, a8, a9, a10, a11, a12, a13, a14, a15]) =
      addUUIDElement key
        (some [b0, b1, b2, b3, b4, b5, b6, b7, b8, b9, b10, b11, b12, b13, b14, b15])) :
    [a0, a1, a2, a3, a4, a5, a6, a7, a8, a9, a10, a11, a12, a13, a14, a15] =
      [b0, b1, b2, b3, b4, b5, b6, b7, b8, b9, b10, b11, b12, b13, b14, b15] := by
  simp only [addUUIDElement, List.cons.injEq, JSONCall.addStringElement.injEq, Option.some.injEq,
    String.ext_iff, and_true, true_and] at h
  rw [uuidText_eq, uuidText_eq, uuidText_nybbles _ _ _ _ _ _ _ _ _ _ _ _ _ _ _ _ ho,
    uuidText_nybbles _ _ _ _ _ _ _ _ _ _ _ _ _ _ _ _ hv] at h
  simp only [List.cons.injEq, and_true, true_and] at h
  obtain ⟨e0, e1, e2, e3, e4, e5, e6, e7, e8, e9, e10, e11, e12, e13, e14, e15, e16, e17, e18, e19, e20, e21, e22, e23, e24, e25, e26, e27, e28, e29, e30, e31⟩ := h
  have q0 : a0 = b0 := hexByte_injective a0 b0 (ho a0 (by simp)) (hv b0 (by simp))
    (by rw [hexByte_eq a0 (ho a0 (by simp)), hexByte_eq b0 (hv b0 (by simp)), e0, e1])
  have q1 : a1 = b1 := hexByte_injective a1 b1 (ho a1 (by simp)) (hv b1 (by simp))
    (by rw [hexByte_eq a1 (ho a1 (by simp)), hexByte_eq b1 (hv b1 (by simp)), e2, e3])
  have q2 : a2 = b2 := hexByte_injective a2 b2 (ho a2 (by simp)) (hv b2 (by simp))
    (by rw [hexByte_eq a2 (ho a2 (by simp)), hexByte_eq b2 (hv b2 (by simp)), e4, e5])
  have q3 : a3 = b3 := hexByte_injective a3 b3 (ho a3 (by simp)) (hv b3 (by simp))
    (by rw [hexByte_eq a3 (ho a3 (by simp)), hexByte_eq b3 (hv b3 (by simp)), e6, e7])
  have q4 : a4 = b4 := hexByte_injective a4 b4 (ho a4 (by simp)) (hv b4 (by simp))
    (by rw [hexByte_eq a4 (ho a4 (by simp)), hexByte_eq b4 (hv b4 (by simp)), e8, e9])
  have q5 : a5 = b5 := hexByte_injective a5 b5 (ho a5 (by simp)) (hv b5 (by simp))
    (by rw [hexByte_eq a5 (ho a5 (by simp)), hexByte_eq b5 (hv b5 (by simp)), e10, e11])
  have q6 : a6 = b6 := hexByte_injective a6 b6 (ho a6 (by simp)) (hv b6 (by simp))
    (by rw [hexByte_eq a6 (ho a6 (by simp)), hexByte_eq b6 (hv b6 (by simp)), e12, e13])
  have q7 : a7 = b7 := hexByte_injective a7 b7 (ho a7 (by simp)) (hv b7 (by simp))
    (by rw [hexByte_eq a7 (ho a7 (by simp)), hexByte_eq b7 (hv b7 (by simp)), e14, e15])
  have q8 : a8 = b8 := hexByte_injective a8 b8 (ho a8 (by simp)) (hv b8 (by simp))
    (by rw [hexByte_eq a8 (ho a8 (by simp)), hexByte_eq b8 (hv b8 (by simp)), e16, e17])
  have q9 : a9 = b9 := hexByte_injective a9 b9 (ho a9 (by simp)) (hv b9 (by simp))
    (by rw [hexByte_eq a9 (ho a9 (by simp)), hexByte_eq b9 (hv b9 (by simp)), e18, e19])
  have q10 : a10 = b10 := hexByte_injective a10 b10 (ho a10 (by simp)) (hv b10 (by simp))
    (by rw [hexByte_eq a10 (ho a10 (by simp)), hexByte_eq b10 (hv b10 (by simp)), e20, e21])
  have q11 : a11 = b11 := hexByte_injective a11 b11 (ho a11 (by simp)) (hv b11 (by simp))
    (by rw [hexByte_eq a11 (ho a11 (by simp)), hexByte_eq b11 (hv b11 (by simp)), e22, e23])
  have q12 : a12 = b12 := hexByte_injective a12 b12 (ho a12 (by simp)) (hv b12 (by simp))
    (by rw [hexByte_eq a12 (ho a12 (by simp)), hexByte_eq b12 (hv b12 (by simp)), e24, e25])
  have q13 : a13 = b13 := hexByte_injective a13 b13 (ho a13 (by simp)) (hv b13 (by simp))
    (by rw [hexByte_eq a13 (ho a13 (by simp)), hexByte_eq b13 (hv b13 (by simp)), e26, e27])
  have q14 : a14 = b14 := hexByte_injective a14 b14 (ho a14 (by simp)) (hv b14 (by simp))
    (by rw [hexByte_eq a14 (ho a14 (by simp)), hexByte_eq b14 (hv b14 (by simp)), e28, e29])
  have q15 : a15 = b15 := hexByte_injective a15 b15 (ho a15 (by simp)) (hv b15 (by simp))
    (by rw [hexByte_eq a15 (ho a15 (by simp)), hexByte_eq b15 (hv b15 (by simp)), e30, e31])
  rw [q0, q1, q2, q3, q4, q5, q6, q7, q8, q9, q10, q11, q12, q13, q14, q15]

/-- C30: for every UUID of 16 bytes (values below 256) `addUUIDElement` makes one
`addStringElement` call whose string has exactly 36 characters: a dash at each of
the positions 8, 13, 18 and 23, and for the byte of index `i` two characters, at
the position `2 * i` plus the number of dashes before it and at the next, which
are the entries of `g_hexNybbles` (decimal digits and the upper-case letters `A`
to `F`) for its high and then its low nybble; another such UUID that gives the
same call is the same UUID. A null UUID gives one `addNullElement` call. -/
theorem addUUIDElement_layout (key : Option String) (value : List Nat)
    (hlen : value.length = 16) (hbytes : ∀ byte ∈ value, byte < 256) :
    addUUIDElement key none = [JSONCall.addNullElement key] ∧
    ∃ text : List Char,
      addUUIDElement key (some value) =
        [JSONCall.addStringElement key (some (String.mk text))] ∧
      text.length = 36 ∧
      (String.mk text).length = 36 ∧
      text[8]? = some '-' ∧ text[13]? = some '-' ∧ text[18]? = some '-' ∧
      text[23]? = some '-' ∧
      (∀ i, i < 16 →
        text[2 * i + (if i < 4 then 0 else if i < 6 then 1 else if i < 8 then 2
            else if i < 10 then 3 else 4)]? =
          some (g_hexNybbles.getD (value.getD i 0 / 16) '0') ∧
        text[2 * i + (if i < 4 then 0 else if i < 6 then 1 else if i < 8 then 2
            else if i < 10 then 3 else 4) + 1]? =
          some (g_hexNybbles.getD (value.getD i 0 % 16) '0')) ∧
      (∀ nybble, g_hexNybbles.getD nybble '0' ∈ ['0', '1', '2', '3', '4', '5', '6', '7', '8',
        '9', 'A', 'B', 'C', 'D', 'E', 'F']) ∧
      (∀ other : List Nat, other.length = 16 → (∀ byte ∈ other, byte < 256) →
        addUUIDElement key (some other) = addUUIDElement key (some value) → other = value) := by
  refine ⟨rfl, ?_⟩
  obtain ⟨b0, b1, b2, b3, b4, b5, b6, b7, b8, b9, b10, b11, b12, b13, b14, b15, rfl⟩ :=
    length_sixteen value hlen
  refine ⟨
    [g_hexNybbles.getD (b0 / 16) '0', g_hexNybbles.getD (b0 % 16) '0',
     g_hexNybbles.getD (b1 / 16) '0', g_hexNybbles.getD (b1 % 16) '0',
     g_hexNybbles.getD (b2 / 16) '0', g_hexNybbles.getD (b2 % 16) '0',
     g_hexNybbles.getD (b3 / 16) '0', g_hexNybbles.getD (b3 % 16) '0', '-',
     g_hexNybbles.getD (b4 / 16) '0', g_hexNybbles.getD (b4 % 16) '0',
     g_hexNybbles.getD (b5 / 16) '0', g_hexNybbles.getD (b5 % 16) '0', '-',
     g_hexNybbles.getD (b6 / 16) '0', g_hexNybbles.getD (b6 % 16) '0',
     g_hexNybbles.getD (b7 / 16) '0', g_hexNybbles.getD (b7 % 16) '0', '-',
     g_hexNybbles.getD (b8 / 16) '0', g_hexNybbles.getD (b8 % 16) '0',
     g_hexNybbles.getD (b9 / 16) '0', g_hexNybbles.getD (b9 % 16) '0', '-',
     g_hexNybbles.getD (b10 / 16) '0', g_hexNybbles.getD (b10 % 16) '0',
     g_hexNybbles.getD (b11 / 16) '0', g_hexNybbles.getD (b11 % 16) '0',
     g_hexNybbles.getD (b12 / 16) '0', g_hexNybbles.getD (b12 % 16) '0',
     g_hexNybbles.getD (b13 / 16) '0', g_hexNybbles.getD (b13 % 16) '0',
     g_hexNybbles.getD (b14 / 16) '0', g_hexNybbles.getD (b14 % 16) '0',
     g_hexNybbles.getD (b15 / 16) '0', g_hexNybbles.getD (b15 % 16) '0'],
    by rw [addUUIDElement, uuidText_eq, uuidText_nybbles _ _ _ _ _ _ _ _ _ _ _ _ _ _ _ _ hbytes],
    rfl, rfl, rfl, rfl, rfl, rfl, ?_, g_hexNybbles_upper, ?_⟩
  · intro i hi
    interval_cases i <;> exact ⟨rfl, rfl⟩
  · intro other holen hobytes h
    obtain ⟨a0, a1, a2, a3, a4, a5, a6, a7, a8, a9, a10, a11, a12, a13, a14, a15, rfl⟩ :=
      length_sixteen other holen
    exact uuidText_injective key _ _ _ _ _ _ _ _ _ _ _ _ _ _ _ _ _ _ _ _ _ _ _ _ _ _ _ _ _ _ _ _
      hobytes hbytes h

set_option maxRecDepth 100000 in
/-- C30, at a concrete input: the text written for the bytes 0, 17, 34, ..., 255
has 36 characters. -/
theorem addUUIDElement_layout_witness :
    [0, 17, 34, 51, 68, 85, 102, 119, 136, 153, 170, 187, 204, 221, 238, 255].length = 16 ∧
    addUUIDElement (some "uuid")
        (some [0, 17, 34, 51, 68, 85, 102, 119, 136, 153, 170, 187, 204, 221, 238, 255]) =
      [JSONCall.addStringElement (some "uuid") (some "00112233-4455-6677-8899-AABBCCDDEEFF")] ∧
    ∃ text : List Char,
      addUUIDElement (some "uuid")
          (some [0, 17, 34, 51, 68, 85, 102, 119, 136, 153, 170, 187, 204, 221, 238, 255]) =
        [JSONCall.addStringElement (some "uuid") (some (String.mk text))] ∧
      text.length = 36 :=
  ⟨rfl, by decide,
    (addUUIDElement_layout (some "uuid")
      [0, 17, 34, 51, 68, 85, 102, 119, 136, 153, 170, 187, 204, 221, 238, 255] rfl
      (by decide)).2.imp (fun _ h => ⟨h.1, h.2.1⟩)⟩

open CrasheeJSON

/-! ## The temporary path of the recrash report -/

theorem takeWhile_append_stop {α : Type} (p : α → Bool) (a : List α) (x : α) (rest : List α)
    (ha : ∀ c ∈ a, p c = true) (hx : p x = false) :
    (a ++ x :: rest).takeWhile p = a := by
  induction a with
  | nil => simp [List.takeWhile, hx]
  | cons c a ih =>
    simp only [List.cons_append, List.takeWhile_cons, ha c (List.mem_cons_self _ _), if_true,
      ih (fun d hd => ha d (List.mem_cons_of_mem _ hd))]

theorem cString_no_NUL (s : String) : ∀ c ∈ cString s, (c != NUL) = true :=
  fun _ hc => List.mem_takeWhile_imp (p := fun c => c != NUL) hc

/-- `strlen` of a buffer that holds a C string and its NUL. -/
theorem strlen_append_NUL (a rest : List Char) (ha : ∀ c ∈ a, (c != NUL) = true) :
    strlen (a ++ NUL :: rest) = some a.length := by
  have hx : (NUL != NUL) = false := by decide
  simp only [strlen, takeWhile_append_stop _ a NUL rest ha hx, List.contains_eq_any_beq,
    List.any_append, List.any_cons, beq_self_eq_true, Bool.true_or, Bool.or_true, if_true]

/-- The static buffer after the two `strncpy` calls of
`crasheecrashreport_writeRecrashReport`, for a path of at least 5 characters that
fits the first `size - 10` of the buffer: the path without its last five
characters, then `.old` and a NUL. -/
theorem tempPath_after_strncpy (size : Nat) (tempPath : List Char) (path : String)
    (hsize : 10 ≤ size ∧ size < 2 ^ 64) (hbuffer : tempPath.length = size)
    (hzero : tempPath.getD (size - 10) NUL = NUL)
    (hlow : 5 ≤ (cString path).length) (hhigh : (cString path).length ≤ size - 10) :
    ∃ rest : List Char,
      strncpy tempPath 0 (cString path) (toUInt64 ((size : Int) - 10)) =
        some (cString path ++ NUL :: rest) ∧
      strlen (cString path ++ NUL :: rest) = some (cString path).length ∧
      strncpy (cString path ++ NUL :: rest) (((cString path).length : Int) - 5)
          (cString ".old") 5 =
        some ((cString path).take ((cString path).length - 5) ++
          ['.', 'o', 'l', 'd', NUL] ++ NUL :: rest) ∧
      ((cString path).take ((cString path).length - 5) ++
        ['.', 'o', 'l', 'd', NUL] ++ NUL :: rest).length = size ∧
      ((cString path).take ((cString path).length - 5) ++
        ['.', 'o', 'l', 'd', NUL] ++ NUL :: rest).getD (size - 10) NUL = NUL := by
  have hn : toUInt64 ((size : Int) - 10) = size - 10 := by
    simp only [toUInt64]
    omega
  obtain ⟨rest, hrest⟩ : ∃ rest, List.replicate (size - 10 - (cString path).length) NUL ++
      tempPath.drop (size - 10) = NUL :: rest := by
    by_cases hlt : (cString path).length < size - 10
    · obtain ⟨k, hk⟩ : ∃ k, size - 10 - (cString path).length = k + 1 :=
        ⟨size - 10 - (cString path).length - 1, by omega⟩
      exact ⟨_, by rw [hk, List.replicate_succ, List.cons_append]⟩
    · have heq : size - 10 - (cString path).length = 0 := by omega
      have hidx : size - 10 < tempPath.length := by omega
      refine ⟨tempPath.drop (size - 10 + 1), ?_⟩
      rw [heq, List.replicate_zero, List.nil_append, List.drop_eq_getElem_cons hidx]
      have hget : tempPath[size - 10] = NUL := by
        rw [List.getD_eq_getElem _ _ hidx] at hzero
        exact hzero
      rw [hget]
  have hlen : (cString path ++ NUL :: rest).length = size := by
    have := congrArg List.length hrest
    simp only [List.length_append, List.length_replicate, List.length_drop, List.length_cons]
      at this ⊢
    omega
  refine ⟨rest, ?_, strlen_append_NUL _ _ (cString_no_NUL path), ?_, ?_, ?_⟩
  · have hc : (0 : Int) ≤ 0 ∧ (0 : Int).toNat + (size - 10) ≤ tempPath.length := by
      refine ⟨le_refl _, ?_⟩
      simp only [Int.toNat_zero]
      omega
    unfold strncpy
    rw [hn, if_pos hc]
    simp only [Int.toNat_zero, List.take_zero, List.nil_append, Nat.zero_add,
      List.take_of_length_le hhigh, List.append_assoc, hrest]
  · have hoff : (((cString path).length : Int) - 5).toNat = (cString path).length - 5 := by
      omega
    have hc : (0 : Int) ≤ ((cString path).length : Int) - 5 ∧
        (((cString path).length : Int) - 5).toNat + 5 ≤
          (cString path ++ NUL :: rest).length := by
      refine ⟨by omega, ?_⟩
      rw [hoff, hlen]
      omega
    have hold : cString ".old" = ['.', 'o', 'l', 'd'] := by decide
    have htake : (cString path ++ NUL :: rest).take ((cString path).length - 5) =
        (cString path).take ((cString path).length - 5) :=
      List.take_append_of_le_length (by omega)
    have hdrop : (cString path ++ NUL :: rest).drop ((cString path).length - 5 + 5) =
        NUL :: rest := by
      have h5 : (cString path).length - 5 + 5 = (cString path).length := by omega
      rw [h5, List.drop_left]
    unfold strncpy
    rw [if_pos hc, hoff, hold, htake, hdrop]
    rfl
  · have := hlen
    simp only [List.length_append, List.length_cons, List.length_take, List.length_nil]
      at this ⊢
    omega
  · have hidx : size - 10 = ((cString path).take ((cString path).length - 5) ++
        ['.', 'o', 'l', 'd', NUL]).length + (size - 10 - (cString path).length) := by
      simp only [List.length_append, List.length_cons, List.length_take, List.length_nil]
      omega
    rw [hidx, List.getD_append_right _ _ _ _ (by omega)]
    simp only [Nat.add_sub_cancel_left]
    by_cases hlt : (cString path).length < size - 10
    · obtain ⟨k, hk⟩ : ∃ k, size - 10 - (cString path).length = k + 1 :=
        ⟨size - 10 - (cString path).length - 1, by omega⟩
      rw [hk, List.getD_cons_succ]
      have hr : rest = List.replicate k NUL ++ tempPath.drop (size - 10) := by
        rw [hk, List.replicate_succ, List.cons_append] at hrest
        exact (List.cons.inj hrest).2.symm
      rw [hr]
      have hkk : k = (List.replicate k NUL).length + 0 := by simp
      rw [hkk, List.getD_append_right _ _ _ _ (by simp)]
      simp only [List.length_replicate, Nat.add_zero, Nat.sub_self]
      have hidx2 : size - 10 < tempPath.length := by omega
      rw [List.drop_eq_getElem_cons hidx2, List.getD_cons_zero]
      rw [List.getD_eq_getElem _ _ hidx2] at hzero
      exact hzero
    · have heq : size - 10 - (cString path).length = 0 := by omega
      rw [heq, List.getD_cons_zero]

/-- The file-system calls of `crasheecrashreport_writeRecrashReport` start with
the `rename` to the C string its buffer holds after the two `strncpy` calls. -/
theorem writeRecrashReport_rename (env : Environment) (size : Nat) (tempPath : List Char)
    (monitorContext : CrasheeCrash_MonitorContext) (path : String)
    (copied final : List Char) (length : Nat)
    (h1 : strncpy tempPath 0 (cString path) (toUInt64 ((size : Int) - 10)) = some copied)
    (h2 : strlen copied = some length)
    (h3 : strncpy copied ((length : Int) - 5) (cString ".old") 5 = some final) :
    ∃ r, crasheecrashreport_writeRecrashReport env size tempPath monitorContext path = some r ∧
      r.tempPath = final ∧
      r.fileCalls.head? =
        some (FileCall.rename path (String.mk (final.takeWhile (fun c => c != NUL)))) := by
  unfold crasheecrashreport_writeRecrashReport
  simp only [h1, h2, h3]
  by_cases hopen : env.services.crasheefu_openBufferedWriter path = true
  · simp only [hopen, Bool.not_true, Bool.false_eq_true, if_false]
    exact ⟨_, rfl, rfl, rfl⟩
  · simp only [hopen, Bool.not_false, if_true]
    exact ⟨_, rfl, rfl, rfl⟩

/-- C24, as the code has it: for a buffer `tempPath` of
`CrasheeFU_MAX_PATH_LENGTH` characters (at least 10) whose character at index
`CrasheeFU_MAX_PATH_LENGTH - 10` is NUL, as in the zeroed static, and every report
path of at least 5 and at most `CrasheeFU_MAX_PATH_LENGTH - 10` characters,
`crasheecrashreport_writeRecrashReport` returns and first renames the path to the
path with its last five characters replaced by `.old`; for a path ending in
`.json` that is the path with `.json` replaced by `.old`. The buffer is left with
its size and with a NUL at the same index. -/
theorem writeRecrashReport_renames_to_old (env : Environment) (size : Nat)
    (tempPath : List Char) (monitorContext : CrasheeCrash_MonitorContext) (path : String)
    (hsize : 10 ≤ size ∧ size < 2 ^ 64) (hbuffer : tempPath.length = size)
    (hzero : tempPath.getD (size - 10) NUL = NUL)
    (hlow : 5 ≤ (cString path).length) (hhigh : (cString path).length ≤ size - 10) :
    ∃ r, crasheecrashreport_writeRecrashReport env size tempPath monitorContext path = some r ∧
      r.fileCalls.head? = some (FileCall.rename path
        (String.mk ((cString path).take ((cString path).length - 5) ++ ".old".data))) ∧
      (∀ stem : List Char, cString path = stem ++ ".json".data →
        r.fileCalls.head? = some (FileCall.rename path (String.mk (stem ++ ".old".data)))) ∧
      r.tempPath.length = size ∧ r.tempPath.getD (size - 10) NUL = NUL := by
  obtain ⟨rest, h1, h2, h3, hlen, hnul⟩ :=
    tempPath_after_strncpy size tempPath path hsize hbuffer hzero hlow hhigh
  obtain ⟨r, hr, hbuf, hcall⟩ :=
    writeRecrashReport_rename env size tempPath monitorContext path _ _ _ h1 h2 h3
  have hstop : ((cString path).take ((cString path).length - 5) ++
      ['.', 'o', 'l', 'd', NUL] ++ NUL :: rest).takeWhile (fun c => c != NUL) =
      (cString path).take ((cString path).length - 5) ++ ".old".data := by
    have hshape : (cString path).take ((cString path).length - 5) ++
        ['.', 'o', 'l', 'd', NUL] ++ NUL :: rest =
        ((cString path).take ((cString path).length - 5) ++ ".old".data) ++
          NUL :: (NUL :: rest) := by
      simp only [List.append_assoc, List.cons_append, List.nil_append]
    rw [hshape]
    apply takeWhile_append_stop
    · intro c hc
      rcases List.mem_append.mp hc with hc | hc
      · exact cString_no_NUL path c (List.mem_of_mem_take hc)
      · have hold : ∀ d ∈ ".old".data, (d != NUL) = true := by decide
        exact hold c hc
    · decide
  rw [hstop] at hcall
  refine ⟨r, hr, hcall, ?_, by rw [hbuf]; exact hlen, by rw [hbuf]; exact hnul⟩
  intro stem hstem
  rw [hcall, hstem]
  have hl : (stem ++ ".json".data).length - 5 = stem.length := by
    have h5 : ".json".data.length = 5 := by decide
    rw [List.length_append, h5, Nat.add_sub_cancel]
  rw [hl, List.take_left]

set_option maxRecDepth 100000 in
/-- C24, at a concrete input: with a zeroed buffer of 500 characters the report
`reports/crash.json` is renamed to `reports/crash.old`. -/
theorem writeRecrashReport_renames_to_old_witness :
    ∃ r, crasheecrashreport_writeRecrashReport Example.env 500 (List.replicate 500 NUL)
        Example.crash "reports/crash.json" = some r ∧
      r.fileCalls.head? = some (FileCall.rename "reports/crash.json" "reports/crash.old") := by
  obtain ⟨r, hr, _, hjson, _⟩ := writeRecrashReport_renames_to_old Example.env 500
    (List.replicate 500 NUL) Example.crash "reports/crash.json" (by decide) (by decide)
    (by decide) (by decide) (by decide)
  exact ⟨r, hr, hjson "reports/crash".data (by decide)⟩

set_option maxRecDepth 100000 in
/-- C24 fails on the code as stated. With a zeroed buffer of 500 characters the
report `report.txt` is renamed to `repor.old`, not to `report.old`: the last five
characters are replaced, whatever the suffix is. For the path `a.b`, of fewer
than five characters, the second `strncpy` writes before the start of the buffer.
For a path of 495 characters ending in `.json` only the first 490 are copied, so
the name it is renamed to does not keep the whole stem. -/
theorem writeRecrashReport_replaces_last_five_characters :
    (crasheecrashreport_writeRecrashReport Example.env 500 (List.replicate 500 NUL)
        Example.crash "report.txt").map (fun r => r.fileCalls.head?) =
      some (some (FileCall.rename "report.txt" "repor.old")) ∧
    (crasheecrashreport_writeRecrashReport Example.env 500 (List.replicate 500 NUL)
        Example.crash "report.txt").map (fun r => r.fileCalls.head?) ≠
      some (some (FileCall.rename "report.txt" "report.old")) ∧
    crasheecrashreport_writeRecrashReport Example.env 500 (List.replicate 500 NUL)
        Example.crash "a.b" = none ∧
    (crasheecrashreport_writeRecrashReport Example.env 500 (List.replicate 500 NUL)
        Example.crash (String.mk (List.replicate 490 'a' ++ ".json".data))).map
        (fun r => r.fileCalls.head?) =
      some (some (FileCall.rename (String.mk (List.replicate 490 'a' ++ ".json".data))
        (String.mk (List.replicate 485 'a' ++ ".old".data)))) := by
  decide

end CrasheeCrashReport

namespace CrasheeCrashMonitor

/-! ## The recrash flag and the episode flag -/

theorem finishException_crashed {W : Type} (b : Build W) (c : CrasheeCrash_MonitorContext)
    (r : Registry W) :
    (finishException b c r).g_crashedDuringExceptionHandling =
      r.g_crashedDuringExceptionHandling := by
  unfold finishException
  split
  · rfl
  · split <;> rfl

theorem handleException_crashed {W : Type} (b : Build W)
    (context : CrasheeCrash_MonitorContext) (r : Registry W)
    (c : CrasheeCrash_MonitorContext) (r1 : Registry W)
    (h : crasheecm_handleException b context r = some (c, r1)) :
    r1.g_crashedDuringExceptionHandling = r.g_crashedDuringExceptionHandling := by
  cases hcb : r.g_onExceptionEvent with
  | none =>
    unfold crasheecm_handleException at h
    simp only [hcb] at h
    exact Option.noConfusion h
  | some onEvent =>
    rw [handleException_eq b context r onEvent hcb] at h
    simp only [Option.some.injEq, Prod.mk.injEq] at h
    rw [← h.2, finishException_crashed]

/-- With the recrash flag set, `crasheecm_notifyFatalExceptionCaptured` calls
`crasheecm_setActiveMonitors(CrasheeCrashMonitorTypeNone)` and returns true. -/
theorem notifyFatalExceptionCaptured_crashed {W : Type} (b : Build W) (a : Bool)
    (r : Registry W) (h : r.g_crashedDuringExceptionHandling = true) :
    crasheecm_notifyFatalExceptionCaptured b a r =
      (true, crasheecm_setActiveMonitors b CrasheeCrashMonitorTypeNone
        { r with g_requiresAsyncSafety := r.g_requiresAsyncSafety || a,
                 g_crashedDuringExceptionHandling := true,
                 g_handlingFatalException := true }) := by
  unfold crasheecm_notifyFatalExceptionCaptured
  cases hh : r.g_handlingFatalException <;> simp [h, hh, setActiveMonitors_crashed]

/-- No call into the registry clears the recrash flag. -/
theorem run_crashed {W : Type} (b : Build W) (op : Op W) (r r1 : Registry W)
    (hrun : op.run b r = some r1) (h : r.g_crashedDuringExceptionHandling = true) :
    r1.g_crashedDuringExceptionHandling = true := by
  cases op with
  | setEventCallback onEvent =>
    simp only [Op.run, Option.some.injEq] at hrun
    rw [← hrun]; exact h
  | setActiveMonitors mt =>
    simp only [Op.run, Option.some.injEq] at hrun
    rw [← hrun, setActiveMonitors_crashed]; exact h
  | getActiveMonitors =>
    simp only [Op.run, Option.some.injEq] at hrun
    rw [← hrun]; exact h
  | notifyFatalExceptionCaptured a =>
    simp only [Op.run, Option.some.injEq] at hrun
    rw [← hrun, notifyFatalExceptionCaptured_crashed b a r h, setActiveMonitors_crashed]
  | handleException context =>
    simp only [Op.run, Option.map_eq_some'] at hrun
    obtain ⟨⟨c, r2⟩, h1, h2⟩ := hrun
    simp only at h2
    subst h2
    rw [handleException_crashed b context r c _ h1]; exact h

theorem runOps_crashed {W : Type} (b : Build W) (ops : List (Op W))
    (r r1 : Registry W) (hrun : runOps b ops r = some r1)
    (h : r.g_crashedDuringExceptionHandling = true) :
    r1.g_crashedDuringExceptionHandling = true := by
  induction ops generalizing r with
  | nil =>
    simp only [runOps, Option.some.injEq] at hrun
    rw [← hrun]; exact h
  | cons op ops ih =>
    simp only [runOps] at hrun
    split at hrun
    · rename_i r2 h2
      exact ih r2 hrun (run_crashed b op r r2 h2 h)
    · exact Option.noConfusion hrun

theorem finishException_callback {W : Type} (b : Build W) (c : CrasheeCrash_MonitorContext)
    (r : Registry W) :
    (finishException b c r).g_onExceptionEvent = r.g_onExceptionEvent := by
  unfold finishException
  split
  · rfl
  · split <;> rfl

theorem notifyFatalExceptionCaptured_callback {W : Type} (b : Build W) (a : Bool)
    (r : Registry W) :
    (crasheecm_notifyFatalExceptionCaptured b a r).2.g_onExceptionEvent =
      r.g_onExceptionEvent := by
  unfold crasheecm_notifyFatalExceptionCaptured
  simp only []
  split <;> split <;> rfl

/-- With an event callback registered, a sequence of calls none of which is
`crasheecm_setEventCallback(NULL)` runs to its end: no `crasheecm_handleException`
calls through a null pointer. -/
theorem runOps_returns {W : Type} (b : Build W) (ops : List (Op W)) (r : Registry W)
    (hcb : r.g_onExceptionEvent.isSome = true)
    (hops : ∀ op ∈ ops, op.keepsEventCallback = true) :
    ∃ r1, runOps b ops r = some r1 := by
  induction ops generalizing r with
  | nil => exact ⟨r, rfl⟩
  | cons op ops ih =>
    have hrest : ∀ op' ∈ ops, op'.keepsEventCallback = true :=
      fun op' h => hops op' (List.mem_cons_of_mem _ h)
    have hop := hops op (List.mem_cons_self _ _)
    cases op with
    | setEventCallback onEvent =>
      cases onEvent with
      | none => exact Bool.noConfusion hop
      | some f =>
        obtain ⟨r1, h1⟩ := ih (crasheecm_setEventCallback (some f) r) rfl hrest
        exact ⟨r1, by simpa [runOps, Op.run] using h1⟩
    | setActiveMonitors mt =>
      obtain ⟨r1, h1⟩ := ih (crasheecm_setActiveMonitors b mt r) hcb hrest
      exact ⟨r1, by simpa [runOps, Op.run] using h1⟩
    | getActiveMonitors =>
      obtain ⟨r1, h1⟩ := ih r hcb hrest
      exact ⟨r1, by simpa [runOps, Op.run] using h1⟩
    | notifyFatalExceptionCaptured a =>
      obtain ⟨r1, h1⟩ := ih (crasheecm_notifyFatalExceptionCaptured b a r).2
        (by rw [notifyFatalExceptionCaptured_callback]; exact hcb) hrest
      exact ⟨r1, by simpa [runOps, Op.run] using h1⟩
    | handleException context =>
      obtain ⟨onEvent, hon⟩ := Option.isSome_iff_exists.mp hcb
      have heq := handleException_eq b context r onEvent hon
      obtain ⟨r2, hr2, hcb2⟩ : ∃ r2, (Op.handleException context).run b r = some r2 ∧
          r2.g_onExceptionEvent.isSome = true := by
        have hrun : (Op.handleException context).run b r =
            (crasheecm_handleException b context r).map Prod.snd := rfl
        rw [hrun, heq, Option.map_some']
        exact ⟨_, rfl, by rw [finishException_callback]; exact hcb⟩
      obtain ⟨r1, h1⟩ := ih r2 hcb2 hrest
      exact ⟨r1, by simp only [runOps, hr2]; exact h1⟩

/-- C25: once `crasheecm_notifyFatalExceptionCaptured` has returned true, after
any sequence of calls into the registry that runs to its end
(`crasheecm_setEventCallback`, `crasheecm_setActiveMonitors`,
`crasheecm_getActiveMonitors`, `crasheecm_notifyFatalExceptionCaptured` and
`crasheecm_handleException`, user-reported or not) the recrash flag is still set,
and a call of `crasheecm_notifyFatalExceptionCaptured` returns true and leaves the
flag set, `crasheecm_getActiveMonitors()` at `CrasheeCrashMonitorTypeNone` and
every registered monitor reporting disabled. The monitors are taken to honour a
disable request and not to be switched on by the disabling of another monitor. -/
theorem notifyFatalExceptionCaptured_recrash_is_sticky {W : Type} (b : Build W)
    (r0 r1 : Registry W) (a0 a : Bool) (ops : List (Op W))
    (hdetected : (crasheecm_notifyFatalExceptionCaptured b a0 r0).1 = true)
    (hrun : runOps b ops (crasheecm_notifyFatalExceptionCaptured b a0 r0).2 = some r1)
    (hDisable : ∀ m ∈ g_monitors b, HonoursDisable m)
    (hFrame : ∀ m ∈ g_monitors b, ∀ m' ∈ g_monitors b, StaysDisabled m m') :
    (crasheecm_notifyFatalExceptionCaptured b a0 r0).2.g_crashedDuringExceptionHandling = true ∧
    r1.g_crashedDuringExceptionHandling = true ∧
    (crasheecm_notifyFatalExceptionCaptured b a r1).1 = true ∧
    (crasheecm_notifyFatalExceptionCaptured b a r1).2.g_crashedDuringExceptionHandling = true ∧
    crasheecm_getActiveMonitors (crasheecm_notifyFatalExceptionCaptured b a r1).2 =
      CrasheeCrashMonitorTypeNone ∧
    ∀ m ∈ g_monitors b,
      isMonitorEnabled m (crasheecm_notifyFatalExceptionCaptured b a r1).2.world = false := by
  have hflag : (crasheecm_notifyFatalExceptionCaptured b a0 r0).2.g_crashedDuringExceptionHandling
      = true := hdetected
  have h1 := runOps_crashed b ops _ r1 hrun hflag
  refine ⟨hflag, h1, ?_⟩
  rw [notifyFatalExceptionCaptured_crashed b a r1 h1]
  exact ⟨rfl, by rw [setActiveMonitors_crashed],
    setActiveMonitors_none_active b _ hDisable, setActiveMonitors_none_world b _ hDisable hFrame⟩

/-- C25, at a concrete input: in the example build a recrash is detected, calls
of every kind follow, and the next `crasheecm_notifyFatalExceptionCaptured` call
returns true and leaves no monitor active. -/
theorem notifyFatalExceptionCaptured_recrash_is_sticky_witness :
    (crasheecm_notifyFatalExceptionCaptured Example.build false Example.armedRegistry).1 = true ∧
    runOps Example.build Example.laterOps
      (crasheecm_notifyFatalExceptionCaptured Example.build false Example.armedRegistry).2 =
      some Example.laterRun ∧
    (crasheecm_notifyFatalExceptionCaptured Example.build false Example.laterRun).1 = true ∧
    crasheecm_getActiveMonitors
      (crasheecm_notifyFatalExceptionCaptured Example.build false Example.laterRun).2 =
      CrasheeCrashMonitorTypeNone :=
  ⟨rfl, rfl,
    (notifyFatalExceptionCaptured_recrash_is_sticky Example.build Example.armedRegistry
      Example.laterRun false false Example.laterOps rfl rfl Example.build_honoursDisable
      Example.build_staysDisabled).2.2.1,
    (notifyFatalExceptionCaptured_recrash_is_sticky Example.build Example.armedRegistry
      Example.laterRun false false Example.laterOps rfl rfl Example.build_honoursDisable
      Example.build_staysDisabled).2.2.2.2.1⟩

/-- What `crasheecm_notifyFatalExceptionCaptured` does when neither flag is set:
it sets the episode flag and the async-safety flag, calls nothing and returns
false. -/
theorem notifyFatalExceptionCaptured_first {W : Type} (b : Build W) (a : Bool)
    (r : Registry W) (hh : r.g_handlingFatalException = false)
    (hc : r.g_crashedDuringExceptionHandling = false) :
    crasheecm_notifyFatalExceptionCaptured b a r =
      (false, { r with g_requiresAsyncSafety := r.g_requiresAsyncSafety || a,
                       g_handlingFatalException := true }) := by
  unfold crasheecm_notifyFatalExceptionCaptured
  simp [hh, hc]

/-- For a context that is a user-reported snapshot the last statement of
`crasheecm_handleException` clears the episode flag and nothing else. -/
theorem finishException_userReported {W : Type} (b : Build W)
    (c : CrasheeCrash_MonitorContext) (r : Registry W)
    (h : c.currentSnapshotUserReported = true) :
    (finishException b c r).g_handlingFatalException = false ∧
    (finishException b c r).g_crashedDuringExceptionHandling =
      r.g_crashedDuringExceptionHandling ∧
    (finishException b c r).g_activeMonitors = r.g_activeMonitors := by
  simp only [finishException, h, if_true, and_self]

/-- C26: with an event callback registered and no recrash detected,
`crasheecm_handleException` returns, and when the context it leaves is a
user-reported snapshot the episode flag is cleared, whatever it was before, the
recrash flag is still clear and the active monitors are as before; the next
`crasheecm_notifyFatalExceptionCaptured` call then returns false, detects no
recrash, and leaves the active mask and the state of every monitor as they
were. -/
theorem handleException_userReported_ends_episode {W : Type} (b : Build W)
    (context : CrasheeCrash_MonitorContext) (r : Registry W) (onEvent : EventCallback W)
    (a : Bool) (hcb : r.g_onExceptionEvent = some onEvent)
    (hclear : r.g_crashedDuringExceptionHandling = false) :
    ∃ c r1, crasheecm_handleException b context r = some (c, r1) ∧
      (c.currentSnapshotUserReported = true →
        r1.g_handlingFatalException = false ∧
        r1.g_crashedDuringExceptionHandling = false ∧
        r1.g_activeMonitors = r.g_activeMonitors ∧
        (crasheecm_notifyFatalExceptionCaptured b a r1).1 = false ∧
        (crasheecm_notifyFatalExceptionCaptured b a r1).2.g_crashedDuringExceptionHandling =
          false ∧
        (crasheecm_notifyFatalExceptionCaptured b a r1).2.g_activeMonitors =
          r1.g_activeMonitors ∧
        (crasheecm_notifyFatalExceptionCaptured b a r1).2.world = r1.world) := by
  refine ⟨_, _, handleException_eq b context r onEvent hcb, ?_⟩
  intro huser
  have hfacts := finishException_userReported b _
    { r with
      world := (onEvent
        (contextualInfoLoop (g_monitors b) (stampContext r context) r.world r.calls).1
        (contextualInfoLoop (g_monitors b) (stampContext r context) r.world r.calls).2.1).2,
      calls :=
        (contextualInfoLoop (g_monitors b) (stampContext r context) r.world r.calls).2.2 ++
          [Call.onExceptionEvent
            (contextualInfoLoop (g_monitors b) (stampContext r context) r.world r.calls).1] }
    huser
  obtain ⟨h1, h2, h3⟩ := hfacts
  have h2' := h2.trans hclear
  refine ⟨h1, h2', h3, ?_⟩
  rw [notifyFatalExceptionCaptured_first b a _ h1 h2']
  exact ⟨rfl, h2', rfl, rfl⟩

/-- C26, at a concrete input: in the example build, with a fatal episode in
progress, a user-reported snapshot is handled and the next
`crasheecm_notifyFatalExceptionCaptured` call returns false. -/
theorem handleException_userReported_ends_episode_witness :
    Example.armedRegistry.g_handlingFatalException = true ∧
    ∃ c r1, crasheecm_handleException Example.build { currentSnapshotUserReported := true }
        Example.armedRegistry = some (c, r1) ∧
      c.currentSnapshotUserReported = true ∧
      (crasheecm_notifyFatalExceptionCaptured Example.build false r1).1 = false := by
  obtain ⟨c, r1, h, himp⟩ := handleException_userReported_ends_episode Example.build
    { currentSnapshotUserReported := true } Example.armedRegistry Example.onEvent false rfl rfl
  have hc : c.currentSnapshotUserReported = true := by
    have h1 := congrArg (Option.map (fun out => out.1.currentSnapshotUserReported)) h
    have h2 : (crasheecm_handleException Example.build { currentSnapshotUserReported := true }
        Example.armedRegistry).map (fun out => out.1.currentSnapshotUserReported) =
        some true := by decide
    rw [h2] at h1
    simpa using h1.symm
  exact ⟨rfl, c, r1, h, hc, (himp hc).2.2.2.1⟩

end CrasheeCrashMonitor

namespace CrasheeCrashMonitor_AppState

open CrasheeJSON

/-! ## The app-state monitor -/

/-- An `int` converted to `int` is itself. -/
theorem toInt_of_isInt (x : Int) (h : IsInt x) : toInt x = x := by
  obtain ⟨h1, h2⟩ := h
  simp only [toInt]
  omega

/-- `++` on an `int` below `INT_MAX` adds one. -/
theorem toInt_succ (x : Int) (h1 : -2 ^ 31 ≤ x) (h2 : x < 2 ^ 31 - 1) :
    toInt (x + 1) = x + 1 :=
  toInt_of_isInt (x + 1) ⟨by omega, by omega⟩

/-- `saveState` leaves `g_state`, `g_isEnabled` and `g_stateFilePath` alone. -/
theorem saveState_g_state (p : Platform) (path : Option String) (s : State) :
    (saveState p path s).2.g_state = s.g_state ∧
    (saveState p path s).2.g_isEnabled = s.g_isEnabled ∧
    (saveState p path s).2.g_stateFilePath = s.g_stateFilePath := by
  unfold saveState
  split
  · exact ⟨rfl, rfl, rfl⟩
  · simp only []
    split <;> exact ⟨rfl, rfl, rfl⟩

/-- When no codec call fails, the codec calls made are all those of the list. -/
theorem encodeUntilError_ok (p : Platform) (hok : ∀ call, p.encode call = CrasheeJSON_OK)
    (calls : List JSONCall) : encodeUntilError p calls = (calls, CrasheeJSON_OK) := by
  induction calls with
  | nil => rfl
  | cons call rest ih => simp [encodeUntilError, hok call, ih]

/-- What `crasheecrashstate_reset` leaves in `g_state` when the monitor is
enabled. -/
theorem reset_g_state (p : Platform) (s : State) (h : s.g_isEnabled = true) :
    (crasheecrashstate_reset p s).2.g_state =
      (if s.g_state.crashedLastLaunch then
        { s.g_state with
          sessionsSinceLaunch := 1
          activeDurationSinceLaunch := 0
          backgroundDurationSinceLaunch := 0
          activeDurationSinceLastCrash := 0
          backgroundDurationSinceLastCrash := 0
          launchesSinceLastCrash := toInt (0 + 1)
          sessionsSinceLastCrash := toInt (0 + 1)
          crashedThisLaunch := false
          applicationIsInForeground := true }
      else
        { s.g_state with
          sessionsSinceLaunch := 1
          activeDurationSinceLaunch := 0
          backgroundDurationSinceLaunch := 0
          launchesSinceLastCrash := toInt (s.g_state.launchesSinceLastCrash + 1)
          sessionsSinceLastCrash := toInt (s.g_state.sessionsSinceLastCrash + 1)
          crashedThisLaunch := false
          applicationIsInForeground := true }) := by
  unfold crasheecrashstate_reset
  simp only [h, if_true]
  rw [(saveState_g_state p _ _).1]
  cases hc : s.g_state.crashedLastLaunch <;> simp [hc]

/-- C27, as the code has it: when the monitor is disabled
`crasheecrashstate_reset` returns false and changes nothing; when it is enabled
it sets `sessionsSinceLaunch` to 1 and leaves `launchesSinceLastCrash` and
`sessionsSinceLastCrash` both at 1 if the previous launch crashed, and otherwise
each at its previous value plus 1, provided that value is below `INT_MAX`. -/
theorem reset_counters (p : Platform) (s : State) :
    (s.g_isEnabled = false → crasheecrashstate_reset p s = (false, s)) ∧
    (s.g_isEnabled = true →
      (crasheecrashstate_reset p s).2.g_state.sessionsSinceLaunch = 1 ∧
      (s.g_state.crashedLastLaunch = true →
        (crasheecrashstate_reset p s).2.g_state.launchesSinceLastCrash = 1 ∧
        (crasheecrashstate_reset p s).2.g_state.sessionsSinceLastCrash = 1) ∧
      (s.g_state.crashedLastLaunch = false →
        (-2 ^ 31 ≤ s.g_state.launchesSinceLastCrash ∧
            s.g_state.launchesSinceLastCrash < 2 ^ 31 - 1 →
          (crasheecrashstate_reset p s).2.g_state.launchesSinceLastCrash =
            s.g_state.launchesSinceLastCrash + 1) ∧
        (-2 ^ 31 ≤ s.g_state.sessionsSinceLastCrash ∧
            s.g_state.sessionsSinceLastCrash < 2 ^ 31 - 1 →
          (crasheecrashstate_reset p s).2.g_state.sessionsSinceLastCrash =
            s.g_state.sessionsSinceLastCrash + 1))) := by
  constructor
  · intro h
    simp [crasheecrashstate_reset, h]
  · intro h
    rw [reset_g_state p s h]
    refine ⟨?_, ?_, ?_⟩
    · split <;> rfl
    · intro hc
      rw [if_pos hc]
      have hone : toInt (0 + 1) = 1 := by decide
      exact ⟨hone, hone⟩
    · intro hc
      rw [if_neg (by rw [hc]; decide)]
      exact ⟨fun hl => toInt_succ _ hl.1 hl.2, fun hs => toInt_succ _ hs.1 hs.2⟩

/-- C27, at a concrete input: three launches and five sessions since the last
crash become four and six, and `sessionsSinceLaunch` becomes 1. -/
theorem reset_counters_witness :
    Example.appState.g_isEnabled = true ∧
    Example.appState.g_state.crashedLastLaunch = false ∧
    (crasheecrashstate_reset Example.appStatePlatform
      Example.appState).2.g_state.sessionsSinceLaunch = 1 ∧
    (crasheecrashstate_reset Example.appStatePlatform
      Example.appState).2.g_state.launchesSinceLastCrash = 3 + 1 ∧
    (crasheecrashstate_reset Example.appStatePlatform
      Example.appState).2.g_state.sessionsSinceLastCrash = 5 + 1 :=
  ⟨rfl, rfl,
    ((reset_counters Example.appStatePlatform Example.appState).2 rfl).1,
    (((reset_counters Example.appStatePlatform Example.appState).2 rfl).2.2 rfl).1
      ⟨by decide, by decide⟩,
    (((reset_counters Example.appStatePlatform Example.appState).2 rfl).2.2 rfl).2
      ⟨by decide, by decide⟩⟩

/-- C27 fails on the code as stated. With the monitor enabled, the previous
launch not crashed and `launchesSinceLastCrash` at `INT_MAX`, 2147483647,
`crasheecrashstate_reset` leaves -2147483648 there, not the previous value plus
1. -/
theorem reset_wraps_at_int_max :
    Example.appStateAtIntMax.g_isEnabled = true ∧
    Example.appStateAtIntMax.g_state.crashedLastLaunch = false ∧
    IsInt Example.appStateAtIntMax.g_state.launchesSinceLastCrash ∧
    (crasheecrashstate_reset Example.appStatePlatform
      Example.appStateAtIntMax).2.g_state.launchesSinceLastCrash = -2147483648 ∧
    (crasheecrashstate_reset Example.appStatePlatform
      Example.appStateAtIntMax).2.g_state.launchesSinceLastCrash ≠
      Example.appStateAtIntMax.g_state.launchesSinceLastCrash + 1 := by
  refine ⟨rfl, rfl, ⟨by decide, by decide⟩, by decide, by decide⟩

/-! ### The state file -/

/-- With a file that can be opened and a codec none of whose calls fails,
`saveState` writes one state file: the calls of `saveStateCalls` for the current
`g_state`, ended by `crasheejson_endEncode`. -/
theorem saveState_files (p : Platform) (path : Option String) (s : State)
    (hopen : p.openForWriting path = true) (hok : ∀ call, p.encode call = CrasheeJSON_OK) :
    (saveState p path s).2.files =
      s.files ++ [{ path := path, calls := saveStateCalls s.g_state, ended := true }] := by
  simp [saveState, hopen, encodeUntilError_ok p hok]

/-- The decode callbacks on the record of `saveStateCalls` with the number
`version` under "version", from the integer element for "version" on: when
`version` is 1 every callback returns `CrasheeJSON_OK` and the state is left with
the record's boolean and counters. -/
theorem decode_record (p : Platform) (whole : CDouble → Option Int)
    (reread : CDouble → CDouble) (g_state start : CrasheeCrash_AppState) (result : Int)
    (hl : IsInt g_state.launchesSinceLastCrash) (hs : IsInt g_state.sessionsSinceLastCrash) :
    (crasheejson_decode p (decodedEvents whole reread (saveStateCalls g_state)) result
      start).1 = result ∧
    (crasheejson_decode p (decodedEvents whole reread (saveStateCalls g_state)) result
      start).2.crashedLastLaunch = g_state.crashedThisLaunch ∧
    (crasheejson_decode p (decodedEvents whole reread (saveStateCalls g_state)) result
      start).2.launchesSinceLastCrash = g_state.launchesSinceLastCrash ∧
    (crasheejson_decode p (decodedEvents whole reread (saveStateCalls g_state)) result
      start).2.sessionsSinceLastCrash = g_state.sessionsSinceLastCrash := by
  have h1 := toInt_of_isInt _ hl
  have h2 := toInt_of_isInt _ hs
  cases ha : whole g_state.activeDurationSinceLastCrash <;>
    cases hb : whole g_state.backgroundDurationSinceLastCrash <;>
    simp [saveStateCalls, decodedEvents, crasheejson_decode, DecodeEvent.call, onIntegerElement,
      onBooleanElement, onFloatingPointElement, kKeyFormatVersion, kKeyCrashedLastLaunch,
      kKeyActiveDurationSinceLastCrash, kKeyBackgroundDurationSinceLastCrash,
      kKeyLaunchesSinceLastCrash, kKeySessionsSinceLastCrash, kFormatVersion, CrasheeJSON_OK,
      ha, hb, h1, h2]

/-- The decode callbacks on a record whose "version" is not 1: the integer
callback returns `CrasheeJSON_ERROR_INVALID_DATA` and the decoder stops there. -/
theorem decode_record_version (p : Platform) (whole : CDouble → Option Int)
    (reread : CDouble → CDouble) (g_state start : CrasheeCrash_AppState) (result version : Int)
    (hne : p.CrasheeJSON_ERROR_INVALID_DATA ≠ CrasheeJSON_OK) (hv : version ≠ 1) :
    crasheejson_decode p
        (decodedEvents whole reread (saveStateCallsWithVersion version g_state)) result start =
      (p.CrasheeJSON_ERROR_INVALID_DATA, start) := by
  have hne0 : ¬ p.CrasheeJSON_ERROR_INVALID_DATA = 0 := hne
  simp [saveStateCallsWithVersion, saveStateCalls, decodedEvents, crasheejson_decode,
    DecodeEvent.call, onIntegerElement, JSONCall.key, kKeyFormatVersion, kKeyCrashedLastLaunch,
    kKeyActiveDurationSinceLastCrash, kKeyBackgroundDurationSinceLastCrash,
    kKeyLaunchesSinceLastCrash, kKeySessionsSinceLastCrash, kFormatVersion, CrasheeJSON_OK,
    hv, hne0]

/-- C28: for every app state whose counters are values of the type `int`: the
record `saveState` writes when the file opens and no codec call fails is that of
`saveStateCalls`; the decode callbacks `loadState` sets up, called for that record
(whatever state they start from and whichever way the decoder hands over the two
durations), all return `CrasheeJSON_OK`, so that the record is accepted, and leave
a state whose `crashedLastLaunch` is the saved `crashedThisLaunch` and whose
`launchesSinceLastCrash` and `sessionsSinceLastCrash` are the saved values; for
the same record with a version other than 1 decoding stops with
`CrasheeJSON_ERROR_INVALID_DATA`, a result other than `CrasheeJSON_OK`. -/
theorem saveState_record_is_accepted (p : Platform) (path : Option String) (s : State)
    (start : CrasheeCrash_AppState) (whole : CDouble → Option Int)
    (reread : CDouble → CDouble)
    (hne : p.CrasheeJSON_ERROR_INVALID_DATA ≠ CrasheeJSON_OK)
    (hl : IsInt s.g_state.launchesSinceLastCrash)
    (hs : IsInt s.g_state.sessionsSinceLastCrash) :
    (p.openForWriting path = true → (∀ call, p.encode call = CrasheeJSON_OK) →
      (saveState p path s).2.files =
        s.files ++ [{ path := path, calls := saveStateCalls s.g_state, ended := true }]) ∧
    (crasheejson_decode p (decodedEvents whole reread (saveStateCalls s.g_state))
      CrasheeJSON_OK start).1 = CrasheeJSON_OK ∧
    (crasheejson_decode p (decodedEvents whole reread (saveStateCalls s.g_state))
      CrasheeJSON_OK start).2.crashedLastLaunch = s.g_state.crashedThisLaunch ∧
    (crasheejson_decode p (decodedEvents whole reread (saveStateCalls s.g_state))
      CrasheeJSON_OK start).2.launchesSinceLastCrash = s.g_state.launchesSinceLastCrash ∧
    (crasheejson_decode p (decodedEvents whole reread (saveStateCalls s.g_state))
      CrasheeJSON_OK start).2.sessionsSinceLastCrash = s.g_state.sessionsSinceLastCrash ∧
    (∀ version : Int, version ≠ 1 → ∀ result : Int,
      (crasheejson_decode p
        (decodedEvents whole reread (saveStateCallsWithVersion version s.g_state))
        result start).1 = p.CrasheeJSON_ERROR_INVALID_DATA ∧
      (crasheejson_decode p
        (decodedEvents whole reread (saveStateCallsWithVersion version s.g_state))
        result start).1 ≠ CrasheeJSON_OK) := by
  refine ⟨fun hopen hok => saveState_files p path s hopen hok,
    (decode_record p whole reread s.g_state start _ hl hs).1,
    (decode_record p whole reread s.g_state start _ hl hs).2.1,
    (decode_record p whole reread s.g_state start _ hl hs).2.2.1,
    (decode_record p whole reread s.g_state start _ hl hs).2.2.2, ?_⟩
  intro version hv result
  rw [decode_record_version p whole reread s.g_state start result version hne hv]
  exact ⟨rfl, hne⟩

/-- C28, at a concrete input: the record written for the example app state after
a crash is accepted and read back with `crashedLastLaunch` set and the counters 3
and 5. -/
theorem saveState_record_is_accepted_witness :
    IsInt Example.appState.g_state.launchesSinceLastCrash ∧
    (saveState Example.appStatePlatform (some "state.json")
      (crasheecrashstate_notifyAppCrash Example.appStatePlatform Example.appState)).1 = true ∧
    (crasheejson_decode Example.appStatePlatform
      (decodedEvents (fun _ => none) (fun value => value)
        (saveStateCalls
          (crasheecrashstate_notifyAppCrash Example.appStatePlatform Example.appState).g_state))
      CrasheeJSON_OK {}).1 = CrasheeJSON_OK ∧
    (crasheejson_decode Example.appStatePlatform
      (decodedEvents (fun _ => none) (fun value => value)
        (saveStateCalls
          (crasheecrashstate_notifyAppCrash Example.appStatePlatform Example.appState).g_state))
      CrasheeJSON_OK {}).2.crashedLastLaunch = true ∧
    (crasheejson_decode Example.appStatePlatform
      (decodedEvents (fun _ => none) (fun value => value)
        (saveStateCalls
          (crasheecrashstate_notifyAppCrash Example.appStatePlatform Example.appState).g_state))
      CrasheeJSON_OK {}).2.launchesSinceLastCrash = 3 :=
  ⟨⟨by decide, by decide⟩, by decide,
    (saveState_record_is_accepted Example.appStatePlatform (some "state.json")
      (crasheecrashstate_notifyAppCrash Example.appStatePlatform Example.appState) {}
      (fun _ => none) (fun value => value) (by decide) ⟨by decide, by decide⟩
      ⟨by decide, by decide⟩).2.1,
    (saveState_record_is_accepted Example.appStatePlatform (some "state.json")
      (crasheecrashstate_notifyAppCrash Example.appStatePlatform Example.appState) {}
      (fun _ => none) (fun value => value) (by decide) ⟨by decide, by decide⟩
      ⟨by decide, by decide⟩).2.2.1,
    (saveState_record_is_accepted Example.appStatePlatform (some "state.json")
      (crasheecrashstate_notifyAppCrash Example.appStatePlatform Example.appState) {}
      (fun _ => none) (fun value => value) (by decide) ⟨by decide, by decide⟩
      ⟨by decide, by decide⟩).2.2.2.1⟩

/-! ### The disabled monitor -/

/-- C29: while `g_isEnabled` is false, `crasheecrashstate_notifyAppActive`,
`crasheecrashstate_notifyAppInForeground`, `crasheecrashstate_notifyAppTerminate`
and `crasheecrashstate_notifyAppCrash` leave the whole state of the monitor as it
is, so that every field of `g_state` is unchanged, no state file is written and
the clock is not read; the contributor `addContextualInfoToEvent`, which is the
one in the table of `crasheecm_appstate_getAPI`, returns the event context and
the state unchanged. -/
theorem disabled_monitor_is_inert (p : Platform) (s : State) (isActive isInForeground : Bool)
    (eventContext : CrasheeCrash_MonitorContext) (hoff : s.g_isEnabled = false) :
    crasheecrashstate_notifyAppActive p isActive s = s ∧
    crasheecrashstate_notifyAppInForeground p isInForeground s = s ∧
    crasheecrashstate_notifyAppTerminate p s = s ∧
    crasheecrashstate_notifyAppCrash p s = s ∧
    (crasheecrashstate_notifyAppCrash p s).g_state = s.g_state ∧
    (crasheecrashstate_notifyAppCrash p s).files = s.files ∧
    addContextualInfoToEvent p eventContext s = (eventContext, s) ∧
    (crasheecm_appstate_getAPI p).addContextualInfoToEvent =
      some (addContextualInfoToEvent p) := by
  have h4 : crasheecrashstate_notifyAppCrash p s = s := by
    simp [crasheecrashstate_notifyAppCrash, hoff]
  refine ⟨?_, ?_, ?_, h4, by rw [h4], by rw [h4], ?_, rfl⟩
  · simp [crasheecrashstate_notifyAppActive, hoff]
  · simp [crasheecrashstate_notifyAppInForeground, hoff]
  · simp [crasheecrashstate_notifyAppTerminate, hoff]
  · simp [addContextualInfoToEvent, hoff]

/-- C29, at a concrete input: the disabled example monitor ignores a crash
notification, while the enabled one writes a state file. -/
theorem disabled_monitor_is_inert_witness :
    Example.appStateDisabled.g_isEnabled = false ∧
    crasheecrashstate_notifyAppCrash Example.appStatePlatform Example.appStateDisabled =
      Example.appStateDisabled ∧
    (crasheecrashstate_notifyAppCrash Example.appStatePlatform Example.appState).files.length
      = 1 :=
  ⟨rfl,
    (disabled_monitor_is_inert Example.appStatePlatform Example.appStateDisabled true true {}
      rfl).2.2.2.1,
    by decide⟩

end CrasheeCrashMonitor_AppState
end Crashee
